import Mathlib

/-!
# Prusa CW firmware: a shallow embedding of `main.cpp`

The firmware keeps its whole state in file-scope globals.  They are collected
here in one record `Sys`; every procedure of `main.cpp` becomes a function
`Sys → Sys` (with the pins and the clock it reads passed as an argument).

Conventions

* `uint8_t` / `byte` values are `Nat`; where the source can wrap, the wrap is
  written out with `% 256`.  `unsigned long` is `Nat` with `% 2 ^ 32`.
* `int` counters (`fan_tacho_count`, `ams_fan_counter`) are `Int`; the source
  resets them long before the 16-bit range is left.
* `float` / `double` values are exact rationals (`ℚ`): rounding of the AVR
  32-bit float format is not modelled.
* Text written to the LCD is not part of the state; calls of the beeper and a
  few procedure entries are recorded in `Sys.log`, which no function reads.
* Classes whose sources are not part of `main.cpp` (`Countimer`, `CSelftest`,
  `CSpeedControl`, the scrolling menu list) keep their data in records and get
  their methods from the parameter record `Ext`; macro constants of `config.h`
  come from the parameter record `Consts`.
-/

namespace CW

/-! ## Data model -/

/-- Screens of the user interface, `enum menu_state`. -/
inductive menu_state where
  | HOME | SPEED_STATE | SPEED_CURING | SPEED_WASHING
  | TIME | TIME_CURING | TIME_DRYING | TIME_WASHING | TIME_RESIN_PREHEAT
  | SETTINGS | PREHEAT | TARGET_TEMP | RESIN_TARGET_TEMP | RUN_MODE
  | SOUND_SETTINGS | FANS | LED_INTENSITY
  | FAN1_CURING | FAN1_DRYING | FAN2_CURING | FAN2_DRYING
  | RUNNING | RUN_MENU | BEEP | INFO | CONFIRM | ERROR | SELFTEST
  deriving DecidableEq, Repr

/-- Duty pair of the two fans, in percent (`fans_duty_t`). -/
structure fans_duty_t where
  fan1 : Nat
  fan2 : Nat
  deriving DecidableEq, Repr

/-- Configuration record `eeprom_v2_t`, field for field. -/
structure eeprom_v2_t where
  washing_speed : Nat
  curing_speed : Nat
  washing_run_time : Nat
  curing_run_time : Nat
  finish_beep_mode : Nat
  drying_run_time : Nat
  sound_response : Nat
  curing_machine_mode : Nat
  heat_to_target_temp : Nat
  target_temp : Nat
  resin_target_temp : Nat
  SI_unit_system : Nat
  heater_failure : Bool
  resin_preheat_run_time : Nat
  led_pwm_value : Nat
  fans_curing_speed : fans_duty_t
  fans_drying_speed : fans_duty_t
  fans_preheat_speed : fans_duty_t
  deriving DecidableEq, Repr

/-- Compiled-in defaults of `config`. -/
def config_default : eeprom_v2_t :=
  { washing_speed := 10, curing_speed := 1, washing_run_time := 4,
    curing_run_time := 3, finish_beep_mode := 1, drying_run_time := 3,
    sound_response := 1, curing_machine_mode := 0, heat_to_target_temp := 0,
    target_temp := 35, resin_target_temp := 30, SI_unit_system := 1,
    heater_failure := false, resin_preheat_run_time := 3, led_pwm_value := 100,
    fans_curing_speed := ⟨60, 70⟩, fans_drying_speed := ⟨60, 70⟩,
    fans_preheat_speed := ⟨40, 40⟩ }

/-- Idle fan duty, `fans_menu_speed = {30, 30}` (never assigned in `main.cpp`). -/
def fans_menu_speed : fans_duty_t := ⟨30, 30⟩

/-- Washing fan duty, `fans_washing_speed = {60, 70}` (never assigned). -/
def fans_washing_speed : fans_duty_t := ⟨60, 70⟩

/-- Model of `max_preheat_run_time`. -/
def max_preheat_run_time : Nat := 30

/-- Modelled from the spec: the process timer class `Countimer` (its source is
not part of `main.cpp`).  The record holds what section 3 of the specification
lists for a process timer: direction, target duration, elapsed or remaining
time, and the running / paused / completed status. -/
structure Countimer where
  count_up : Bool
  count_time : Nat
  current : Nat
  stopped : Bool
  completed : Bool
  previous_millis : Nat
  deriving DecidableEq, Repr

/-- Data members of `CSpeedControl` that `main.cpp` reads or writes; `hidden`
stands for whatever else the class keeps. -/
structure CSpeedControl where
  motor_running : Bool
  acceleration_flag : Bool
  microstep_control : Nat
  washing_speed : Nat
  curing_speed : Nat
  hidden : Nat
  deriving DecidableEq, Repr

/-- Data members of `CSelftest` that `main.cpp` reads or writes; `hidden`
stands for whatever else the class keeps (for instance its first-loop flag). -/
structure CSelftest where
  phase : Nat
  fans_speed : fans_duty_t
  fan_tacho0 : Int
  fan_tacho1 : Int
  measured_state : Bool
  cover_down : Bool
  isCounterRunning : Bool
  fail_flag : Bool
  cover_test : Bool
  tank_test : Bool
  vent_test : Bool
  led_test : Bool
  heater_test : Bool
  rotation_test : Bool
  tCountDown : Countimer
  hidden : Nat
  deriving DecidableEq, Repr

/-- Output latches and driver registers written by `main.cpp`: `chip` is the
output latch of the port expander `outputchip`, indexed by pin number. -/
structure Outputs where
  chip : Nat → Bool
  led_pwm : Nat
  portc7 : Bool
  portb7 : Bool
  wdt_enabled : Bool
  ihold_irun : Nat × Nat × Nat
  mres : Nat

/-- Entries of the call log. -/
inductive Event where
  | echo | beep | button_press | read_encoder | write_config | wdt_reset | lcd_reinit
  deriving DecidableEq, Repr

/-- All file-scope state of `main.cpp`. -/
structure Sys where
  config : eeprom_v2_t
  tDown : Countimer
  tUp : Countimer
  selftest : CSelftest
  speed_control : CSpeedControl
  out : Outputs
  eeprom : List Nat
  scroll : Nat
  fan_duty : fans_duty_t
  rotary_diff : Nat
  lcd_encoder_bits : Nat
  summErr : ℚ
  chamber_temp : ℚ
  redraw_menu : Bool
  redraw_ms : Bool
  mode_flag : Bool
  state : menu_state
  fan_tacho_count : Nat → Int
  fan_tacho_last_count : Nat → Int
  ams_fan_counter : Int
  menu_position : Nat
  last_menu_position : Nat
  max_menu_position : Nat
  last_seconds : Nat
  running_count : Nat
  time_now : Nat
  therm_read_time_now : Nat
  ms_last_count : Option Nat
  fan1_previous_millis : Nat
  fan2_previous_millis : Nat
  us_last : Nat
  led_time_now : Nat
  button_timer : Nat
  remain : Int
  fan1_pwm_high : Bool
  fan2_pwm_high : Bool
  fan1_on : Bool
  fan2_on : Bool
  heater_error : Bool
  fan_error : Nat → Bool
  heater_running : Bool
  curing_mode : Bool
  drying_mode : Bool
  last_curing_mode : Bool
  paused : Bool
  cover_open : Bool
  gastro_pan : Bool
  paused_time : Bool
  led_start : Bool
  button_active : Bool
  long_press_active : Bool
  long_press : Bool
  preheat_complete : Bool
  pid_mode : Bool
  log : List Event

/-- Array store `a[j] = v`. -/
def setAt {α : Type} (a : Nat → α) (j : Nat) (v : α) : Nat → α :=
  fun k => if k = j then v else a k

/-- Macro constants of `config.h` and the behaviour the C standard leaves to
the target, taken as parameters. -/
structure Consts where
  /-- proportional gain `P` -/
  P : ℚ
  /-- integral gain `I` -/
  I : ℚ
  /-- value of `FAN_FREQUENCY` in Hz -/
  FAN_FREQUENCY : ℚ
  LONG_PRESS_TIME : Nat
  LED_DELAY : Nat
  MIN_TARGET_TEMP_C : Nat
  MAX_TARGET_TEMP_C : Nat
  MIN_TARGET_TEMP_F : Nat
  MAX_TARGET_TEMP_F : Nat
  /-- pin numbers on the port expander -/
  EN_PIN : Nat
  FAN_HEAT_PIN : Nat
  LED_RELE_PIN : Nat
  FAN1_PIN : Nat
  FAN2_PIN : Nat
  /-- value of `sizeof(pgmstr_progress)` -/
  progress_size : Nat
  /-- the four quadrature states in rotation order -/
  encrot0 : Nat
  encrot1 : Nat
  encrot2 : Nat
  encrot3 : Nat
  /-- byte produced when a `double` outside `[0, 256)` is converted to `uint8_t` -/
  out_of_range_byte : ℚ → Nat

/-- Pins and clock read by the 1 ms tick handler. -/
structure TickIn where
  millis : Nat
  btn_en1 : Bool
  btn_en2 : Bool

/-! ## Rotary encoder -/

/-- Body of `read_encoder` after the two pins were sampled into `enc`:
the pair is (`lcd_encoder_bits`, `rotary_diff`). -/
def read_encoder_step (c : Consts) (lcd_encoder_bits rotary_diff enc : Nat) : Nat × Nat :=
  if enc ≠ lcd_encoder_bits then
    let rd :=
      if enc = c.encrot0 then
        if lcd_encoder_bits = c.encrot3 ∧ rotary_diff < 255 then rotary_diff + 1
        else if lcd_encoder_bits = c.encrot1 ∧ rotary_diff ≠ 0 then rotary_diff - 1
        else rotary_diff
      else if enc = c.encrot1 then
        if lcd_encoder_bits = c.encrot0 ∧ rotary_diff < 255 then rotary_diff + 1
        else if lcd_encoder_bits = c.encrot2 ∧ rotary_diff ≠ 0 then rotary_diff - 1
        else rotary_diff
      else if enc = c.encrot2 then
        if lcd_encoder_bits = c.encrot1 ∧ rotary_diff < 255 then rotary_diff + 1
        else if lcd_encoder_bits = c.encrot3 ∧ rotary_diff ≠ 0 then rotary_diff - 1
        else rotary_diff
      else if enc = c.encrot3 then
        if lcd_encoder_bits = c.encrot2 ∧ rotary_diff < 255 then rotary_diff + 1
        else if lcd_encoder_bits = c.encrot0 ∧ rotary_diff ≠ 0 then rotary_diff - 1
        else rotary_diff
      else rotary_diff
    (enc, rd)
  else (lcd_encoder_bits, rotary_diff)

/-- Value of `enc` built from the two encoder pins. -/
def encoder_sample (i : TickIn) : Nat :=
  (if i.btn_en1 then 1 else 0) + (if i.btn_en2 then 2 else 0)

/-- Model of `read_encoder()`. -/
def read_encoder (c : Consts) (i : TickIn) (s : Sys) : Sys :=
  let r := read_encoder_step c s.lcd_encoder_bits s.rotary_diff (encoder_sample i)
  { s with lcd_encoder_bits := r.1, rotary_diff := r.2, log := Event.read_encoder :: s.log }

/-! ## PI regulator -/

/-- New value of the static `summErr` of `PI_regulator` (lines 492 to 497). -/
def PI_summErr (summErr actualTemp : ℚ) (targetTemp : Nat) : ℚ :=
  let errValue := actualTemp - (targetTemp : ℚ)
  let summErr := summErr + errValue
  if summErr > 10000 ∨ summErr < -10000 then 10000 else summErr

/-- Value of `newSpeed` at the `return` of `PI_regulator` (lines 499 to 502). -/
def PI_newSpeed (c : Consts) (summErr actualTemp : ℚ) (targetTemp : Nat) : ℚ :=
  let errValue := actualTemp - (targetTemp : ℚ)
  let newSpeed := c.P * errValue + c.I * PI_summErr summErr actualTemp targetTemp
  if newSpeed > 100 then 100 else newSpeed

/-- Conversion `double → uint8_t` of the `return`: truncation toward zero when
the truncated value is a byte, the target's choice otherwise. -/
def double_to_uint8 (c : Consts) (x : ℚ) : Nat :=
  if -1 < x ∧ x < 256 then (Int.toNat ⌊x⌋) else c.out_of_range_byte x % 256

/-- Model of `PI_regulator(actualTemp, targetTemp)`: the new `summErr` and the byte returned. -/
def PI_regulator (c : Consts) (summErr actualTemp : ℚ) (targetTemp : Nat) : ℚ × Nat :=
  (PI_summErr summErr actualTemp targetTemp,
   double_to_uint8 c (PI_newSpeed c summErr actualTemp targetTemp))

/-! ## Configuration store -/

/-- Bytes of `config_magic`, the string "CW1v2" with its terminator. -/
def config_magic : List Nat := [67, 87, 49, 118, 50, 0]

/-- Bytes of the legacy magic "CURWA" with its terminator. -/
def legacy_magic : List Nat := [67, 85, 82, 87, 65, 0]

/-- Model of `MAGIC_SIZE`. -/
def MAGIC_SIZE : Nat := 6

/-- Memory image of an `eeprom_v2_t`, one byte per member in declaration order. -/
def config_bytes (c : eeprom_v2_t) : List Nat :=
  [c.washing_speed, c.curing_speed, c.washing_run_time, c.curing_run_time,
   c.finish_beep_mode, c.drying_run_time, c.sound_response, c.curing_machine_mode,
   c.heat_to_target_temp, c.target_temp, c.resin_target_temp, c.SI_unit_system,
   (if c.heater_failure then 1 else 0), c.resin_preheat_run_time, c.led_pwm_value,
   c.fans_curing_speed.fan1, c.fans_curing_speed.fan2,
   c.fans_drying_speed.fan1, c.fans_drying_speed.fan2,
   c.fans_preheat_speed.fan1, c.fans_preheat_speed.fan2]

/-- Model of `EEPROM.put(EEPROM_BASE + off, bytes, n)` on the reserved area, kept as the
list of its bytes from `EEPROM_BASE` on. -/
def eeprom_put (mem : List Nat) (off : Nat) (bytes : List Nat) : List Nat :=
  mem.take off ++ List.replicate (off - mem.length) 255 ++ bytes
    ++ mem.drop (off + bytes.length)

/-- Model of `write_config()`. -/
def write_config (s : Sys) : Sys :=
  let cfg := { s.config with washing_speed := s.speed_control.washing_speed,
                             curing_speed := s.speed_control.curing_speed }
  { s with config := cfg,
           eeprom := eeprom_put (eeprom_put s.eeprom 0 config_magic) MAGIC_SIZE (config_bytes cfg),
           log := Event.write_config :: s.log }

/-- Model of `is_error()`. -/
def is_error (s : Sys) : Bool :=
  s.fan_error 0 || s.fan_error 1 || s.config.heater_failure

/-! ## Motor and heater switches -/

/-- Model of `outputchip.digitalWrite(pin, level)`. -/
def chip_write (pin : Nat) (level : Bool) (s : Sys) : Sys :=
  { s with out := { s.out with chip := setAt s.out.chip pin level } }

/-- Model of `run_motor()`. -/
def run_motor (c : Consts) (s : Sys) : Sys :=
  let s := chip_write c.EN_PIN false s
  { s with speed_control := { s.speed_control with motor_running := true } }

/-- Model of `stop_motor()`. -/
def stop_motor (c : Consts) (s : Sys) : Sys :=
  let s := chip_write c.EN_PIN true s
  { s with speed_control := { s.speed_control with motor_running := false } }

/-- Model of `run_heater()`. -/
def run_heater (c : Consts) (s : Sys) : Sys :=
  let s := chip_write c.FAN_HEAT_PIN true s
  { s with heater_running := true, out := { s.out with wdt_enabled := true } }

/-- Model of `stop_heater()`. -/
def stop_heater (c : Consts) (s : Sys) : Sys :=
  let s := chip_write c.FAN_HEAT_PIN false s
  { s with heater_running := false, out := { s.out with wdt_enabled := false } }

/-- Model of `motor_configuration()`. -/
def motor_configuration (s : Sys) : Sys :=
  if s.curing_mode = true then
    { s with out := { s.out with ihold_irun := (10, 10, 0), mres := 256 } }
  else
    { s with out := { s.out with ihold_irun := (31, 31, 5), mres := 16 } }

/-! ## Fans: software PWM and tachometer supervision -/

/-- The constant `period = (1 / FAN_FREQUENCY) * 1000`. -/
def period (c : Consts) : ℚ := (1 / c.FAN_FREQUENCY) * 1000

/-- Difference of two `unsigned long` values. -/
def ulong_sub (a b : Nat) : Nat := (a + 2 ^ 32 - b % 2 ^ 32) % 2 ^ 32

/-- Part of `fan_pwm_control()`, the part for fan 1. -/
def fan1_pwm_control (c : Consts) (currentMillis : Nat) (s : Sys) : Sys :=
  if s.fan_duty.fan1 > 0 then
    let s := if ¬ s.fan1_on then
        chip_write c.FAN1_PIN true { s with fan1_on := true } else s
    let s := if s.fan1_pwm_high = false then
        (if (ulong_sub currentMillis s.fan1_previous_millis : ℚ)
              ≥ period c * (1 - (s.fan_duty.fan1 : ℚ) / 100) then
          { s with fan1_previous_millis := currentMillis,
                   out := { s.out with portc7 := false }, fan1_pwm_high := true }
         else s)
      else s
    if s.fan1_pwm_high = true then
      (if (ulong_sub currentMillis s.fan1_previous_millis : ℚ)
            ≥ period c * ((s.fan_duty.fan1 : ℚ) / 100) then
        { s with fan1_previous_millis := currentMillis,
                 out := { s.out with portc7 := true }, fan1_pwm_high := false }
       else s)
    else s
  else if s.fan1_on then
    let s := chip_write c.FAN1_PIN false { s with fan1_on := false }
    { s with out := { s.out with portc7 := false } }
  else s

/-- Part of `fan_pwm_control()`, the part for fan 2. -/
def fan2_pwm_control (c : Consts) (currentMillis : Nat) (s : Sys) : Sys :=
  if s.fan_duty.fan2 > 0 then
    let s := if ¬ s.fan2_on then
        chip_write c.FAN2_PIN true { s with fan2_on := true } else s
    let s := if s.fan2_pwm_high = false then
        (if (ulong_sub currentMillis s.fan2_previous_millis : ℚ)
              ≥ period c * (1 - (s.fan_duty.fan2 : ℚ) / 100) then
          { s with fan2_previous_millis := currentMillis,
                   out := { s.out with portb7 := false }, fan2_pwm_high := true }
         else s)
      else s
    if s.fan2_pwm_high = true then
      (if (ulong_sub currentMillis s.fan2_previous_millis : ℚ)
            ≥ period c * ((s.fan_duty.fan2 : ℚ) / 100) then
        { s with fan2_previous_millis := currentMillis,
                 out := { s.out with portb7 := true }, fan2_pwm_high := false }
       else s)
    else s
  else if s.fan2_on then
    let s := chip_write c.FAN2_PIN false { s with fan2_on := false }
    { s with out := { s.out with portb7 := false } }
  else s

/-- Model of `fan_pwm_control()`. -/
def fan_pwm_control (c : Consts) (i : TickIn) (s : Sys) : Sys :=
  fan2_pwm_control c i.millis (fan1_pwm_control c i.millis s)

/-- The condition `j ? fan_duty.fan2 : fan_duty.fan1 > 0` of `fan_rpm`, which C
reads as `j ? fan_duty.fan2 : (fan_duty.fan1 > 0)`. -/
def fan_duty_test (j : Nat) (d : fans_duty_t) : Bool :=
  if j ≠ 0 then decide (d.fan2 ≠ 0) else decide (d.fan1 > 0)

/-- Store into `selftest.fan_tacho[j]`. -/
def set_selftest_fan_tacho (t : CSelftest) (j : Nat) (v : Int) : CSelftest :=
  if j = 0 then { t with fan_tacho0 := v } else { t with fan_tacho1 := v }

/-- Body of the `for` loop of `fan_rpm` for fan `j`. -/
def fan_rpm_check (j : Nat) (s : Sys) : Sys :=
  let s :=
    if s.fan_tacho_count j ≤ s.fan_tacho_last_count j then
      (if fan_duty_test j s.fan_duty then { s with fan_error := setAt s.fan_error j true } else s)
    else { s with fan_error := setAt s.fan_error j false }
  let s := { s with selftest :=
    set_selftest_fan_tacho s.selftest j (s.fan_tacho_count j - s.fan_tacho_last_count j) }
  let s := { s with fan_tacho_last_count := setAt s.fan_tacho_last_count j (s.fan_tacho_count j) }
  if s.fan_tacho_count j ≥ 10000 then
    { s with fan_tacho_count := setAt s.fan_tacho_count j 0,
             fan_tacho_last_count := setAt s.fan_tacho_last_count j 0 }
  else s

/-- The heater supervision of `fan_rpm` (lines 2460 to 2475). -/
def fan_rpm_heater (s : Sys) : Sys :=
  if s.ams_fan_counter ≥ 1000 then
    let s :=
      if s.heater_running then
        let s := { s with heater_error := decide (s.fan_tacho_count 2 ≤ s.fan_tacho_last_count 2) }
        let s := if s.config.heater_failure ≠ s.heater_error then
            write_config { s with config := { s.config with heater_failure := s.heater_error } }
          else s
        let s := { s with fan_tacho_last_count := setAt s.fan_tacho_last_count 2 (s.fan_tacho_count 2) }
        if s.fan_tacho_count 2 ≥ 10000 then
          { s with fan_tacho_count := setAt s.fan_tacho_count 2 0,
                   fan_tacho_last_count := setAt s.fan_tacho_last_count 2 0 }
        else s
      else s
    { s with ams_fan_counter := 0 }
  else s

/-- Model of `fan_rpm()`. -/
def fan_rpm (s : Sys) : Sys :=
  let s := { s with ams_fan_counter := s.ams_fan_counter + 1 }
  if Int.tmod s.ams_fan_counter 100 = 0 then
    fan_rpm_heater (fan_rpm_check 1 (fan_rpm_check 0 s))
  else s

/-- Interrupt handlers `fan_tacho1`, `fan_tacho2`, `fan_tacho3`: one pulse of
tachometer `j`. -/
def fan_tacho (j : Nat) (s : Sys) : Sys :=
  { s with fan_tacho_count := setAt s.fan_tacho_count j (s.fan_tacho_count j + 1) }

/-! ## The 1 ms tick -/

/-- The regulation block of `SIGNAL(TIMER0_COMPA_vect)` (lines 2069 to 2079). -/
def tick_pid (c : Consts) (s : Sys) : Sys :=
  if s.pid_mode then
    if s.config.curing_machine_mode = 0 ∨ s.config.curing_machine_mode = 2
        ∨ s.config.curing_machine_mode = 3
        ∨ (s.selftest.phase = 5 ∧ s.state = menu_state.SELFTEST) then
      let tmpTargetTemp :=
        if s.config.curing_machine_mode = 3 then s.config.resin_target_temp
        else s.config.target_temp
      if s.chamber_temp ≥ (tmpTargetTemp : ℚ) then
        let r := PI_regulator c s.summErr s.chamber_temp tmpTargetTemp
        { s with summErr := r.1, fan_duty := ⟨r.2, r.2⟩ }
      else { s with fan_duty := fans_menu_speed }
    else s
  else s

/-- Model of `SIGNAL(TIMER0_COMPA_vect)`, the 1 ms timer interrupt. -/
def TIMER0_COMPA_vect (c : Consts) (i : TickIn) (s : Sys) : Sys :=
  let s := if ¬ s.heater_error then read_encoder c i s else s
  let s := tick_pid c s
  let s := fan_pwm_control c i s
  fan_rpm s

/-! ## Reference values used to evaluate the model -/

/-- Sample values for the `config.h` constants: gains `P = 10`, `I = 0.001`,
a 70 Hz fan PWM, one second for a long press and for the LED delay, pin
numbers, the encoder states in Gray-code order, and a wrap-around byte
conversion. -/
def sample_consts : Consts :=
  { P := 10, I := 1 / 1000, FAN_FREQUENCY := 70, LONG_PRESS_TIME := 1000,
    LED_DELAY := 1000, MIN_TARGET_TEMP_C := 20, MAX_TARGET_TEMP_C := 40,
    MIN_TARGET_TEMP_F := 68, MAX_TARGET_TEMP_F := 104,
    EN_PIN := 1, FAN_HEAT_PIN := 11, LED_RELE_PIN := 12, FAN1_PIN := 9, FAN2_PIN := 10,
    progress_size := 4,
    encrot0 := 0, encrot1 := 2, encrot2 := 3, encrot3 := 1,
    out_of_range_byte := fun x => Int.toNat (⌊x⌋ % 256) }

/-- A timer object before any `setCounter`. -/
def timer_zero : Countimer :=
  { count_up := false, count_time := 0, current := 0, stopped := true,
    completed := false, previous_millis := 0 }

/-- The globals as their initialisers in `main.cpp` leave them (objects of the
classes without source start zeroed, the EEPROM area erased). -/
def power_up : Sys :=
  { config := config_default, tDown := timer_zero, tUp := timer_zero,
    selftest := { phase := 0, fans_speed := ⟨0, 0⟩, fan_tacho0 := 0, fan_tacho1 := 0,
                  measured_state := false, cover_down := false, isCounterRunning := false,
                  fail_flag := false, cover_test := false, tank_test := false,
                  vent_test := false, led_test := false, heater_test := false,
                  rotation_test := false, tCountDown := timer_zero, hidden := 0 },
    speed_control := { motor_running := false, acceleration_flag := false,
                       microstep_control := 0, washing_speed := 10, curing_speed := 1,
                       hidden := 0 },
    out := { chip := (fun _ => false), led_pwm := 0, portc7 := false, portb7 := false,
             wdt_enabled := false, ihold_irun := (0, 0, 0), mres := 0 },
    eeprom := [], scroll := 0, fan_duty := fans_menu_speed, rotary_diff := 128,
    lcd_encoder_bits := 0, summErr := 0, chamber_temp := 0,
    redraw_menu := true, redraw_ms := true, mode_flag := true, state := menu_state.HOME,
    fan_tacho_count := fun _ => 0, fan_tacho_last_count := fun _ => 0,
    ams_fan_counter := 0, menu_position := 0, last_menu_position := 0,
    max_menu_position := 0, last_seconds := 0, running_count := 0, time_now := 0,
    therm_read_time_now := 0, ms_last_count := none, fan1_previous_millis := 0,
    fan2_previous_millis := 0, us_last := 0, led_time_now := 0, button_timer := 0,
    remain := 0, fan1_pwm_high := false, fan2_pwm_high := false, fan1_on := false,
    fan2_on := false, heater_error := false, fan_error := fun _ => false,
    heater_running := false, curing_mode := false, drying_mode := false,
    last_curing_mode := false, paused := false, cover_open := false, gastro_pan := false,
    paused_time := false, led_start := false, button_active := false,
    long_press_active := false, long_press := false, preheat_complete := false,
    pid_mode := false, log := [] }

/-! ## Vocabulary of the statements -/

/-- The four encoder states are pairwise different. -/
def encrot_distinct (c : Consts) : Prop :=
  c.encrot0 ≠ c.encrot1 ∧ c.encrot0 ≠ c.encrot2 ∧ c.encrot0 ≠ c.encrot3
    ∧ c.encrot1 ≠ c.encrot2 ∧ c.encrot1 ≠ c.encrot3 ∧ c.encrot2 ≠ c.encrot3

instance (c : Consts) : Decidable (encrot_distinct c) := by
  unfold encrot_distinct; infer_instance

/-- The sampled state is the successor of the previous one in the rotation cycle. -/
def forward_transition (c : Consts) (prev enc : Nat) : Prop :=
  (prev = c.encrot3 ∧ enc = c.encrot0) ∨ (prev = c.encrot0 ∧ enc = c.encrot1)
    ∨ (prev = c.encrot1 ∧ enc = c.encrot2) ∨ (prev = c.encrot2 ∧ enc = c.encrot3)

/-- The sampled state is the predecessor of the previous one in the rotation cycle. -/
def backward_transition (c : Consts) (prev enc : Nat) : Prop :=
  (prev = c.encrot1 ∧ enc = c.encrot0) ∨ (prev = c.encrot2 ∧ enc = c.encrot1)
    ∨ (prev = c.encrot3 ∧ enc = c.encrot2) ∨ (prev = c.encrot0 ∧ enc = c.encrot3)

/-- The sampled state is two steps away from the previous one (an invalid jump). -/
def invalid_jump (c : Consts) (prev enc : Nat) : Prop :=
  (prev = c.encrot0 ∧ enc = c.encrot2) ∨ (prev = c.encrot2 ∧ enc = c.encrot0)
    ∨ (prev = c.encrot1 ∧ enc = c.encrot3) ∨ (prev = c.encrot3 ∧ enc = c.encrot1)

/-- Duty of fan `j` in a duty pair. -/
def duty_of (d : fans_duty_t) (j : Nat) : Nat := if j = 0 then d.fan1 else d.fan2

/-- The call of `fan_rpm` about to be made from `s` performs the stall check. -/
def stall_check_due (s : Sys) : Prop := Int.tmod (s.ams_fan_counter + 1) 100 = 0

instance (s : Sys) : Decidable (stall_check_due s) := by
  unfold stall_check_due; infer_instance

/-- Effect of `n` consecutive calls of `fan_rpm` with no tachometer pulse in between. -/
def fan_rpm_iter : Nat → Sys → Sys
  | 0, s => s
  | n + 1, s => fan_rpm_iter n (fan_rpm s)

/-- Fan 1 stalled at non-zero duty, the 100th tick since the last check is due. -/
def stalled_fan_state : Sys := { power_up with ams_fan_counter := 99 }

/-- Both fan latches set, both duties 0, five new tachometer pulses on every
fan, and the 100th tick since the last check is due. -/
def latched_turning_state : Sys :=
  { power_up with ams_fan_counter := 99, fan_error := (fun _ => true),
                  fan_duty := ⟨0, 0⟩, fan_tacho_count := (fun _ => 5) }

/-- Both fan latches set, both duties 0, no tachometer pulse. -/
def latched_idle_state : Sys :=
  { power_up with fan_error := (fun _ => true), fan_duty := ⟨0, 0⟩ }

instance (c : Consts) (prev enc : Nat) : Decidable (forward_transition c prev enc) := by
  unfold forward_transition; infer_instance

instance (c : Consts) (prev enc : Nat) : Decidable (backward_transition c prev enc) := by
  unfold backward_transition; infer_instance

instance (c : Consts) (prev enc : Nat) : Decidable (invalid_jump c prev enc) := by
  unfold invalid_jump; infer_instance

/-- Encoder counter at its upper end, previous quadrature state `encrot3` of
`sample_consts`. -/
def encoder_top_state : Sys := { power_up with rotary_diff := 255, lcd_encoder_bits := 1 }

/-- Encoder counter at its lower end, previous quadrature state `encrot1` of
`sample_consts`. -/
def encoder_bottom_state : Sys := { power_up with rotary_diff := 0, lcd_encoder_bits := 2 }

/-- Both encoder pins low at time 0. -/
def pins_low : TickIn := { millis := 0, btn_en1 := false, btn_en2 := false }

/-- Both encoder pins high at time 0. -/
def pins_high : TickIn := { millis := 0, btn_en1 := true, btn_en2 := true }

/-- Methods of the classes whose sources are not part of `main.cpp`, taken as
parameters.  Each method maps the data of its own object (and the arguments
and clock value it is given) to the new data of that object.  For the timers
the completion callbacks `tDownComplete` and `tUpComplete`, which stop the
timer they belong to, are part of `timer_run`. -/
structure Ext where
  timer_run : Nat → Countimer → Countimer
  timer_start : Countimer → Countimer
  timer_stop : Countimer → Countimer
  timer_pause : Countimer → Countimer
  /-- Model of `setCounter(hours, minutes, seconds, countType, callback)`; the flag is
  true for `COUNT_UP` -/
  timer_setCounter : Nat → Nat → Nat → Bool → Countimer → Countimer
  timer_isCounterCompleted : Countimer → Bool
  timer_getCurrentMinutes : Countimer → Nat
  timer_getCurrentSeconds : Countimer → Nat
  /-- Model of `selftest.tCountDown.run()`, whose callback belongs to `CSelftest` -/
  selftest_timer_run : Nat → CSelftest → CSelftest
  universal_pin_test : Nat → CSelftest → CSelftest × Bool
  ventilation_test : Nat → Bool → Bool → CSelftest → CSelftest
  is_first_loop : CSelftest → Bool
  set_first_loop : Bool → CSelftest → CSelftest
  LED_test : Nat → CSelftest → CSelftest
  heat_test : Nat → Bool → CSelftest → CSelftest
  motor_rotation_timer : Nat → CSelftest → CSelftest × Bool
  clean_up : CSelftest → CSelftest
  speed_configuration : Bool → CSpeedControl → CSpeedControl
  acceleration50ms : CSpeedControl → CSpeedControl
  /-- Model of `scrolling_list_P(items)`: from the visibility flags of the items,
  `rotary_diff`, `menu_position` and the list's own state to the new state of
  the list and the cursor returned -/
  scrolling_list_P : List Bool → Nat → Nat → Nat → Nat × Nat
  /-- Model of `scrolling_list_set(menu_position)` on the list's own state -/
  scrolling_list_set : Nat → Nat → Nat

/-- What one pass of `loop()` reads from outside: the clock, the sensor and
button pins (true for `HIGH`), the boot key test and the thermistor. -/
structure LoopIn where
  millis : Nat
  cover_open_pin : Bool
  wash_detect_pin : Bool
  btn_enc : Bool
  boot_key_is_magic : Bool
  analog2temp : ℚ

/-- Conversion of an `int` or `long` value to `uint8_t`. -/
def to_uint8 (x : Int) : Nat := Int.toNat (x % 256)

/-- Sum of two `unsigned long` values. -/
def ulong_add (a b : Nat) : Nat := (a + b) % 2 ^ 32

/-- Model of `echo()`: the click of the beeper. -/
def echo (s : Sys) : Sys := { s with log := Event.echo :: s.log }

/-- Model of `beep()`: the double tone of the beeper. -/
def beep (s : Sys) : Sys := { s with log := Event.beep :: s.log }

/-- Model of `celsius2fahrenheit`. -/
def celsius2fahrenheit (celsius : ℚ) : ℚ := 18 / 10 * celsius + 32

/-- Model of `fahrenheit2celsius`. -/
def fahrenheit2celsius (fahrenheit : ℚ) : ℚ := (fahrenheit - 32) / (18 / 10)

/-- Truncation toward zero of a rational, the cast `(long)x`. -/
def trunc_long (x : ℚ) : Int := if 0 ≤ x then ⌊x⌋ else ⌈x⌉

/-- Model of `round(x)` stored into a byte: nearest integer, halves away from zero,
reduced to eight bits. -/
def round_to_byte (x : ℚ) : Nat :=
  to_uint8 (if x ≥ 0 then trunc_long (x + 1 / 2) else trunc_long (x - 1 / 2))

/-- Read of byte `k` of the reserved EEPROM area (erased cells read 255). -/
def eeprom_byte (mem : List Nat) (k : Nat) : Nat := mem.getD k 255

/-- Model of `EEPROM.get(EEPROM_BASE + off, buf, n)`. -/
def eeprom_get (mem : List Nat) (off n : Nat) : List Nat :=
  (List.range n).map (fun k => eeprom_byte mem (off + k))

/-- Copy of the first 13 bytes of a record image, the members of
`eeprom_v1_t`, over the same members of `cfg`. -/
def config_load_v1 (cfg : eeprom_v2_t) (b : List Nat) : eeprom_v2_t :=
  { cfg with washing_speed := b.getD 0 0, curing_speed := b.getD 1 0,
             washing_run_time := b.getD 2 0, curing_run_time := b.getD 3 0,
             finish_beep_mode := b.getD 4 0, drying_run_time := b.getD 5 0,
             sound_response := b.getD 6 0, curing_machine_mode := b.getD 7 0,
             heat_to_target_temp := b.getD 8 0, target_temp := b.getD 9 0,
             resin_target_temp := b.getD 10 0, SI_unit_system := b.getD 11 0,
             heater_failure := decide (b.getD 12 0 ≠ 0) }

/-- Copy of a whole 21-byte record image into a configuration record. -/
def config_load_v2 (cfg : eeprom_v2_t) (b : List Nat) : eeprom_v2_t :=
  { config_load_v1 cfg b with
      resin_preheat_run_time := b.getD 13 0, led_pwm_value := b.getD 14 0,
      fans_curing_speed := ⟨b.getD 15 0, b.getD 16 0⟩,
      fans_drying_speed := ⟨b.getD 17 0, b.getD 18 0⟩,
      fans_preheat_speed := ⟨b.getD 19 0, b.getD 20 0⟩ }

/-- Model of `read_config()`. -/
def read_config (s : Sys) : Sys :=
  let test_magic := eeprom_get s.eeprom 0 MAGIC_SIZE
  let s :=
    if test_magic = config_magic then
      { s with config := config_load_v2 s.config (eeprom_get s.eeprom MAGIC_SIZE 21) }
    else if test_magic = legacy_magic then
      let tmp := s.config.resin_target_temp
      let cfg := config_load_v1 s.config (eeprom_get s.eeprom MAGIC_SIZE 13)
      if cfg.SI_unit_system ≠ 0 then
        { s with config := { cfg with resin_target_temp := tmp } }
      else
        { s with config :=
            { cfg with target_temp := round_to_byte (celsius2fahrenheit cfg.target_temp),
                       resin_target_temp := round_to_byte (celsius2fahrenheit tmp) } }
    else s
  { s with speed_control := { s.speed_control with washing_speed := s.config.washing_speed,
                                                   curing_speed := s.config.curing_speed } }

/-- Turn the curing LED off: relay low, PWM pin low. -/
def led_off (c : Consts) (s : Sys) : Sys :=
  let s := chip_write c.LED_RELE_PIN false s
  { s with out := { s.out with led_pwm := 0 } }

/-- Turn the curing LED on at the configured intensity,
`map(config.led_pwm_value, 0, 100, 0, 255)`. -/
def led_on (c : Consts) (s : Sys) : Sys :=
  let s := chip_write c.LED_RELE_PIN true s
  { s with out := { s.out with led_pwm := s.config.led_pwm_value * 255 / 100 } }

/-- Model of `speed_control.speed_configuration(curing_mode)`; the enable state of the
motor is written only by `run_motor` and `stop_motor`. -/
def speed_configuration (e : Ext) (curing : Bool) (s : Sys) : Sys :=
  { s with speed_control :=
      { e.speed_configuration curing s.speed_control with
          motor_running := s.speed_control.motor_running } }

/-- Model of `speed_control.acceleration50ms()`; the enable state of the motor is
written only by `run_motor` and `stop_motor`. -/
def acceleration50ms (e : Ext) (s : Sys) : Sys :=
  { s with speed_control :=
      { e.acceleration50ms s.speed_control with
          motor_running := s.speed_control.motor_running } }

/-! ## Menu rendering -/

/-- Model of `generic_menu_P(num, ...)`: sets the cursor bound and moves the cursor. -/
def generic_menu_P (num : Nat) (s : Sys) : Sys :=
  let s := { s with max_menu_position := (num % 256 + 255) % 256 }
  if s.rotary_diff > 128 then
    (if s.menu_position < s.max_menu_position then
      { s with menu_position := s.menu_position + 1 } else s)
  else if s.rotary_diff < 128 then
    (if s.menu_position ≠ 0 then { s with menu_position := s.menu_position - 1 } else s)
  else s

/-- Model of `generic_value_P(label, value, min, max, units)`: the new `*value`. -/
def generic_value_P (rotary_diff value min max : Nat) : Nat :=
  if rotary_diff > 128 ∧ value < max then value + 1
  else if rotary_diff < 128 ∧ value > min then value - 1
  else value

/-- Model of `generic_items_P(label, value, num, ...)`: the new `*value`. -/
def generic_items_P (rotary_diff value num : Nat) : Nat :=
  let value := if value > num then 0 else value
  if rotary_diff > 128 then
    (if (value : Int) < (num : Int) - 1 then value + 1 else value)
  else if rotary_diff < 128 then
    (if value ≠ 0 then value - 1 else value)
  else value

/-- Model of `menu_position = scrolling_list_P(items)` for items with the given
visibility flags. -/
def scrolling_list (e : Ext) (items : List Bool) (s : Sys) : Sys :=
  let r := e.scrolling_list_P items s.rotary_diff s.menu_position s.scroll
  { s with scroll := r.1, menu_position := r.2 % 256 }

/-- Model of `tDown.setCounter(0, minutes, seconds, tDown.COUNT_DOWN, tDownComplete)`
with the arguments converted to `uint8_t`. -/
def tDown_set (e : Ext) (minutes seconds : Int) (s : Sys) : Sys :=
  { s with tDown := e.timer_setCounter 0 (to_uint8 minutes) (to_uint8 seconds) false s.tDown }

/-- Model of `tUp.setCounter(0, minutes, seconds, tUp.COUNT_UP, tUpComplete)`. -/
def tUp_set (e : Ext) (minutes seconds : Int) (s : Sys) : Sys :=
  { s with tUp := e.timer_setCounter 0 (to_uint8 minutes) (to_uint8 seconds) true s.tUp }

/-- The `RUNNING` case of `menu_move`: adjusting the remaining time by 30 s. -/
def menu_move_running (e : Ext) (s : Sys) : Sys :=
  let s :=
    if s.curing_mode ∧ s.drying_mode ∧ s.config.heat_to_target_temp ≠ 0
        ∧ ¬ s.preheat_complete then s
    else if s.rotary_diff > 128 then
      (if e.timer_getCurrentMinutes s.tDown % 256 ≤ 9 then
        let mins := e.timer_getCurrentMinutes s.tDown % 256
        let secs := e.timer_getCurrentSeconds s.tDown % 256
        if secs ≤ 30 then tDown_set e mins (secs + 30) s
        else tDown_set e (mins + 1) (30 - (60 - (secs : Int))) s
       else s)
    else if s.rotary_diff < 128 then
      (if e.timer_getCurrentSeconds s.tDown % 256 ≥ 30
          ∨ e.timer_getCurrentMinutes s.tDown % 256 ≥ 1 then
        let mins := e.timer_getCurrentMinutes s.tDown % 256
        let secs := e.timer_getCurrentSeconds s.tDown % 256
        if secs ≥ 30 then tDown_set e mins ((secs : Int) - 30) s
        else tDown_set e ((mins : Int) - 1) (60 - (30 - (secs : Int))) s
       else s)
    else s
  { s with redraw_ms := true }

/-- The `switch (state)` of `menu_move`. -/
def menu_move_screen (e : Ext) (c : Consts) (s : Sys) : Sys :=
  match s.state with
  | menu_state.HOME => generic_menu_P 3 s
  | menu_state.SPEED_STATE => generic_menu_P 3 s
  | menu_state.SPEED_CURING =>
      { s with speed_control := { s.speed_control with
          curing_speed := generic_value_P s.rotary_diff s.speed_control.curing_speed 1 10 } }
  | menu_state.SPEED_WASHING =>
      { s with speed_control := { s.speed_control with
          washing_speed := generic_value_P s.rotary_diff s.speed_control.washing_speed 1 10 } }
  | menu_state.TIME => scrolling_list e [true, true, true, true, true] s
  | menu_state.TIME_CURING =>
      { s with config := { s.config with
          curing_run_time := generic_value_P s.rotary_diff s.config.curing_run_time 1 10 } }
  | menu_state.TIME_DRYING =>
      { s with config := { s.config with
          drying_run_time := generic_value_P s.rotary_diff s.config.drying_run_time 1 10 } }
  | menu_state.TIME_WASHING =>
      { s with config := { s.config with
          washing_run_time := generic_value_P s.rotary_diff s.config.washing_run_time 1 10 } }
  | menu_state.TIME_RESIN_PREHEAT =>
      { s with config := { s.config with
          resin_preheat_run_time :=
            generic_value_P s.rotary_diff s.config.resin_preheat_run_time 1 10 } }
  | menu_state.SETTINGS => scrolling_list e [true, true, true, true, true, true, true, true] s
  | menu_state.PREHEAT => scrolling_list e [true, true, true, true, true] s
  | menu_state.TARGET_TEMP =>
      if s.config.SI_unit_system ≠ 0 then
        { s with config := { s.config with
          target_temp :=
            generic_value_P s.rotary_diff s.config.target_temp
              c.MIN_TARGET_TEMP_C c.MAX_TARGET_TEMP_C } }
      else
        { s with config := { s.config with
          target_temp :=
            generic_value_P s.rotary_diff s.config.target_temp
              c.MIN_TARGET_TEMP_F c.MAX_TARGET_TEMP_F } }
  | menu_state.RESIN_TARGET_TEMP =>
      if s.config.SI_unit_system ≠ 0 then
        { s with config := { s.config with
          resin_target_temp :=
            generic_value_P s.rotary_diff s.config.resin_target_temp
              c.MIN_TARGET_TEMP_C c.MAX_TARGET_TEMP_C } }
      else
        { s with config := { s.config with
          resin_target_temp :=
            generic_value_P s.rotary_diff s.config.resin_target_temp
              c.MIN_TARGET_TEMP_F c.MAX_TARGET_TEMP_F } }
  | menu_state.RUN_MODE =>
      { s with config := { s.config with
          curing_machine_mode := generic_items_P s.rotary_diff s.config.curing_machine_mode 4 } }
  | menu_state.SOUND_SETTINGS => generic_menu_P 3 s
  | menu_state.BEEP =>
      { s with config := { s.config with
          finish_beep_mode := generic_items_P s.rotary_diff s.config.finish_beep_mode 3 } }
  | menu_state.FANS => scrolling_list e [true, true, true, true, true] s
  | menu_state.LED_INTENSITY =>
      { s with config := { s.config with
          led_pwm_value := generic_value_P s.rotary_diff s.config.led_pwm_value 1 100 } }
  | menu_state.FAN1_CURING =>
      { s with config := { s.config with
          fans_curing_speed := { s.config.fans_curing_speed with
              fan1 := generic_value_P s.rotary_diff s.config.fans_curing_speed.fan1 0 100 } } }
  | menu_state.FAN1_DRYING =>
      { s with config := { s.config with
          fans_drying_speed := { s.config.fans_drying_speed with
              fan1 := generic_value_P s.rotary_diff s.config.fans_drying_speed.fan1 0 100 } } }
  | menu_state.FAN2_CURING =>
      { s with config := { s.config with
          fans_curing_speed := { s.config.fans_curing_speed with
              fan2 := generic_value_P s.rotary_diff s.config.fans_curing_speed.fan2 0 100 } } }
  | menu_state.FAN2_DRYING =>
      { s with config := { s.config with
          fans_drying_speed := { s.config.fans_drying_speed with
              fan2 := generic_value_P s.rotary_diff s.config.fans_drying_speed.fan2 0 100 } } }
  | menu_state.INFO =>
      scrolling_list e [true, s.fan_error 0, s.fan_error 1, s.config.heater_failure,
        true, true, true, true] s
  | menu_state.RUN_MENU => generic_menu_P 3 s
  | menu_state.RUNNING => menu_move_running e s
  | menu_state.CONFIRM => s
  | menu_state.SELFTEST => if s.selftest.phase = 0 then generic_menu_P 2 s else s
  | menu_state.ERROR => s

/-- Part of `menu_move`, lines 961 to 967: the click when nothing is redrawn. -/
def menu_move_echo (sound_echo : Bool) (s : Sys) : Sys :=
  if ¬ s.redraw_menu then
    (if sound_echo ∧ s.config.sound_response ≠ 0 then echo s else s)
  else s

/-- Model of `menu_move(sound_echo)`. -/
def menu_move (e : Ext) (c : Consts) (sound_echo : Bool) (s : Sys) : Sys :=
  let s := menu_move_echo sound_echo s
  let s := { s with redraw_menu := false }
  let s := menu_move_screen e c s
  { s with rotary_diff := 128 }

/-! ## Process control -/

/-- Model of `run_stop()`. -/
def run_stop (e : Ext) (c : Consts) (s : Sys) : Sys :=
  let s := { s with menu_position := 0, pid_mode := false, state := menu_state.HOME }
  let s := stop_motor c s
  let s := { s with paused := false, cover_open := false }
  let s := chip_write c.EN_PIN true s
  let s := stop_heater c s
  let s := { s with fan_duty := fans_menu_speed }
  let s := led_off c s
  { s with tDown := e.timer_stop s.tDown, tUp := e.timer_stop s.tUp }

/-- Model of `preheat()`. -/
def preheat (e : Ext) (c : Consts) (s : Sys) : Sys :=
  let tmpTargetTemp :=
    if s.config.curing_machine_mode = 3 then s.config.resin_target_temp
    else s.config.target_temp
  if s.chamber_temp < (tmpTargetTemp : ℚ) then run_heater c s
  else tUp_set e 0 0 (stop_heater c s)

/-- Model of `lcd_time_print()`: the bookkeeping around the time display. -/
def lcd_time_print (e : Ext) (c : Consts) (s : Sys) : Sys :=
  let secs :=
    if s.config.heat_to_target_temp ≠ 0 ∨ s.config.curing_machine_mode = 3 then
      (if s.drying_mode then
        (if ¬ s.preheat_complete then e.timer_getCurrentSeconds s.tUp % 256
         else e.timer_getCurrentSeconds s.tDown % 256)
       else e.timer_getCurrentSeconds s.tDown % 256)
    else e.timer_getCurrentSeconds s.tDown % 256
  if s.state = menu_state.RUNNING ∧ (secs ≠ s.last_seconds ∨ s.redraw_ms) then
    let s := { s with redraw_ms := false, last_seconds := secs }
    let s := { s with running_count := (s.running_count + 1) % 256 }
    if s.running_count > c.progress_size then
      { s with running_count := 0, redraw_menu := true }
    else s
  else s

/-- The tank check at the end of `start_drying` and `start_curing`. -/
def gastro_pan_check (e : Ext) (c : Consts) (i : LoopIn) (s : Sys) : Sys :=
  if i.wash_detect_pin = false then
    let s := { s with paused := true }
    let s := if ¬ s.paused_time then { s with paused_time := true } else s
    let s := { s with tDown := e.timer_pause s.tDown }
    let s := stop_heater c s
    let s := stop_motor c s
    if ¬ s.gastro_pan then
      let s := menu_move e c true { s with redraw_menu := true }
      { s with gastro_pan := true }
    else s
  else
    if s.gastro_pan then
      let s := menu_move e c true { s with redraw_menu := true }
      { s with gastro_pan := false }
    else s

/-- Model of `start_drying()`. -/
def start_drying (e : Ext) (c : Consts) (i : LoopIn) (s : Sys) : Sys :=
  let s :=
    if s.cover_open = false ∧ s.paused = false then
      (if s.config.heat_to_target_temp ≠ 0 ∨ s.config.curing_machine_mode = 3 then
        (if ¬ s.preheat_complete then preheat e c s else run_heater c s)
       else run_heater c s)
    else s
  let s :=
    if s.cover_open = true ∨ s.paused = true then
      (if s.config.heat_to_target_temp ≠ 0 ∨ s.config.curing_machine_mode = 3 then
        let s := if ¬ s.paused_time then { s with paused_time := true } else s
        if ¬ s.preheat_complete then { s with tUp := e.timer_pause s.tUp }
        else { s with tDown := e.timer_pause s.tDown }
       else
        let s := if ¬ s.paused_time then { s with paused_time := true } else s
        { s with tDown := e.timer_pause s.tDown })
    else
      (if s.config.heat_to_target_temp ≠ 0 ∨ s.config.curing_machine_mode = 3 then
        let s := if s.paused_time then
            menu_move e c true { s with paused_time := false, redraw_menu := true }
          else s
        if ¬ s.preheat_complete then { s with tUp := e.timer_start s.tUp }
        else { s with tDown := e.timer_start s.tDown }
       else
        let s := if s.paused_time then
            menu_move e c true { s with paused_time := false, redraw_menu := true }
          else s
        { s with tDown := e.timer_start s.tDown })
  let s := gastro_pan_check e c i s
  lcd_time_print e c s

/-- Model of `start_curing()`. -/
def start_curing (e : Ext) (c : Consts) (i : LoopIn) (s : Sys) : Sys :=
  let s := stop_heater c s
  let s :=
    if s.cover_open = false ∧ s.paused = false then
      let s := if ¬ s.led_start then { s with led_start := true, led_time_now := i.millis }
        else s
      if i.millis > ulong_add s.led_time_now c.LED_DELAY then led_on c s else s
    else
      (if s.led_start then { led_off c s with led_start := false } else s)
  let s :=
    if s.cover_open = true ∨ s.paused = true then
      let s := if ¬ s.paused_time then { s with paused_time := true } else s
      { s with tDown := e.timer_pause s.tDown }
    else
      let s := if s.paused_time then
          menu_move e c true { s with paused_time := false, redraw_menu := true }
        else s
      { s with tDown := e.timer_start s.tDown }
  let s := gastro_pan_check e c i s
  lcd_time_print e c s

/-- The `switch (config.finish_beep_mode)` at the end of a run. -/
def finish_beep (s : Sys) : Sys :=
  if s.config.finish_beep_mode = 2 then { beep s with state := menu_state.CONFIRM }
  else if s.config.finish_beep_mode = 1 then { beep s with state := menu_state.HOME }
  else { s with state := menu_state.HOME }

/-- Model of `stop_curing_drying()`. -/
def stop_curing_drying (e : Ext) (c : Consts) (s : Sys) : Sys :=
  let s := { s with pid_mode := false, menu_position := 0 }
  let s := led_off c s
  let s := stop_motor c s
  let s := stop_heater c s
  let s := { s with fan_duty := fans_menu_speed, redraw_menu := true, rotary_diff := 128 }
  let s := finish_beep s
  menu_move e c true s

/-- Part of `start_washing`, lines 2223 to 2249: the cover flag and the tank check. -/
def tank_check_washing (e : Ext) (c : Consts) (i : LoopIn) (s : Sys) : Sys :=
  let s := if s.cover_open then { s with redraw_menu := true, cover_open := false } else s
  if i.wash_detect_pin = true then
    let s := { s with paused := true }
    let s := if ¬ s.paused_time then { s with paused_time := true } else s
    let s := { s with tDown := e.timer_pause s.tDown }
    let s := stop_motor c s
    if ¬ s.gastro_pan then
      let s := menu_move e c true { s with redraw_menu := true }
      { s with gastro_pan := true }
    else s
  else
    let s := if s.paused_time then { s with paused_time := false } else s
    if s.gastro_pan then
      let s := menu_move e c true { s with redraw_menu := true }
      { s with gastro_pan := false }
    else s

/-- Part of `start_washing`, lines 2251 to 2260: the run continues. -/
def washing_continue (e : Ext) (c : Consts) (i : LoopIn) (s : Sys) : Sys :=
  if s.state = menu_state.RUNNING then
    let s :=
      if s.paused = false ∧ i.wash_detect_pin = false then
        let s := run_motor c s
        { s with tDown := e.timer_start s.tDown }
      else { s with tDown := e.timer_pause s.tDown }
    lcd_time_print e c s
  else s

/-- Part of `start_washing`, lines 2262 to 2284: the run is complete. -/
def washing_complete (e : Ext) (c : Consts) (s : Sys) : Sys :=
  let s := { s with menu_position := 0 }
  let s := stop_motor c s
  let s := { s with fan_duty := fans_menu_speed }
  let s := stop_heater c s
  let s := { s with redraw_menu := true, rotary_diff := 128 }
  let s := finish_beep s
  menu_move e c true s

/-- Model of `start_washing()`. -/
def start_washing (e : Ext) (c : Consts) (i : LoopIn) (s : Sys) : Sys :=
  let s := tank_check_washing e c i s
  if e.timer_isCounterCompleted s.tDown = false then washing_continue e c i s
  else washing_complete e c s

/-- Conversion of a value to `long` (32 bits, two's complement). -/
def to_long (x : Int) : Int := (x + 2 ^ 31) % 2 ^ 32 - 2 ^ 31

/-- Set `drying_mode` and ask for a redraw if it was clear. -/
def enter_drying_mode (s : Sys) : Sys :=
  if ¬ s.drying_mode then { s with drying_mode := true, redraw_menu := true } else s

/-- Clear `drying_mode` and ask for a redraw if it was set. -/
def leave_drying_mode (s : Sys) : Sys :=
  if s.drying_mode then { s with drying_mode := false, redraw_menu := true } else s

/-- End of the preheat phase: `preheat_complete` is set and the down-timer is
armed with `minutes` and started (only if `drying_mode` is set). -/
def preheat_done (e : Ext) (minutes : Nat) (s : Sys) : Sys :=
  if s.drying_mode then
    let s := { s with redraw_menu := true, preheat_complete := true, remain := minutes }
    let s := tDown_set e s.remain 0 s
    { s with tDown := e.timer_start s.tDown }
  else s

/-- The two-stage protocol of modes 3 and 2 of `machine_running`: preheat on
the up-timer, then hold on the down-timer of `minutes` minutes. -/
def run_two_stage (e : Ext) (c : Consts) (i : LoopIn) (minutes : Nat) (s : Sys) : Sys :=
  if ¬ s.preheat_complete then
    (if e.timer_isCounterCompleted s.tUp = false then
      start_drying e c i (enter_drying_mode s)
     else preheat_done e minutes s)
  else
    (if e.timer_isCounterCompleted s.tDown = false then
      start_drying e c i (enter_drying_mode s)
     else
      let s := leave_drying_mode s
      stop_curing_drying e c { s with preheat_complete := false })

/-- Switch from the drying phase to the curing phase in mode 0. -/
def drying_to_curing (e : Ext) (c : Consts) (s : Sys) : Sys :=
  if s.drying_mode then
    let s := { s with drying_mode := false, remain := s.config.curing_run_time }
    let s := tDown_set e s.remain 0 s
    let s := { s with tDown := e.timer_start s.tDown }
    menu_move e c true { s with redraw_menu := true }
  else s

/-- The cover check at the top of `machine_running` (curing modes). -/
def cover_check (e : Ext) (c : Consts) (i : LoopIn) (s : Sys) : Sys :=
  let s :=
    if i.cover_open_pin = true then
      (if ¬ s.cover_open then { s with redraw_menu := true, cover_open := true } else s)
    else
      (if s.cover_open then { s with redraw_menu := true, cover_open := false } else s)
  if s.cover_open = true then
    let s := stop_motor c s
    let s := motor_configuration s
    let s := speed_configuration e s.curing_mode s
    let s := stop_heater c s
    led_off c s
  else if ¬ s.paused then
    let s := run_motor c s
    { s with remain := to_long (s.remain - ulong_sub i.millis s.us_last),
             us_last := i.millis }
  else s

/-- The `switch (config.curing_machine_mode)` of `machine_running`. -/
def machine_running_mode (e : Ext) (c : Consts) (i : LoopIn) (s : Sys) : Sys :=
  if s.config.curing_machine_mode = 3 then
    run_two_stage e c i s.config.resin_preheat_run_time s
  else if s.config.curing_machine_mode = 2 then
    (if s.config.heat_to_target_temp = 0 then
      (if e.timer_isCounterCompleted s.tDown = false then
        start_drying e c i (enter_drying_mode s)
       else stop_curing_drying e c (leave_drying_mode s))
     else run_two_stage e c i s.config.drying_run_time s)
  else if s.config.curing_machine_mode = 1 then
    (if e.timer_isCounterCompleted s.tDown = false then
      start_curing e c i (leave_drying_mode s)
     else stop_curing_drying e c s)
  else
    (if s.config.heat_to_target_temp = 0 then
      (if s.drying_mode = true ∧ e.timer_isCounterCompleted s.tDown = false then
        start_drying e c i s
       else
        let s := drying_to_curing e c s
        if e.timer_isCounterCompleted s.tDown = false then
          let s := start_curing e c i s
          { s with fan_duty := s.config.fans_curing_speed }
        else stop_curing_drying e c s)
     else
      (if ¬ s.preheat_complete then
        (if e.timer_isCounterCompleted s.tUp = false then
          start_drying e c i (enter_drying_mode s)
         else preheat_done e s.config.drying_run_time s)
       else
        (if s.drying_mode = true ∧ e.timer_isCounterCompleted s.tDown = false then
          start_drying e c i s
         else
          let s := drying_to_curing e c s
          if e.timer_isCounterCompleted s.tDown = false then start_curing e c i s
          else stop_curing_drying e c s)))

/-- Model of `machine_running()`. -/
def machine_running (e : Ext) (c : Consts) (i : LoopIn) (s : Sys) : Sys :=
  let s := if s.curing_mode then machine_running_mode e c i (cover_check e c i s) else s
  if ¬ s.curing_mode then start_washing e c i s else s

/-! ## Button handling -/

/-- Start of a timed phase on the down-timer: `remain = minutes`, the timer
armed with it and started. -/
def tDown_arm (e : Ext) (minutes : Nat) (s : Sys) : Sys :=
  let s := { s with remain := minutes }
  let s := tDown_set e s.remain 0 s
  { s with tDown := e.timer_start s.tDown }

/-- Start of the preheat phase on the up-timer. -/
def tUp_arm (e : Ext) (s : Sys) : Sys :=
  let s := { s with remain := max_preheat_run_time }
  let s := tUp_set e s.remain 0 s
  { s with tUp := e.timer_start s.tUp }

/-- Part of `button_press`, `case HOME`, item 0 in a curing mode: the
`switch (config.curing_machine_mode)`. -/
def start_run_curing (e : Ext) (c : Consts) (s : Sys) : Sys :=
  if s.config.curing_machine_mode = 3 then
    let s := tUp_arm e { s with pid_mode := true }
    let s := { s with fan_duty := s.config.fans_preheat_speed }
    let s := led_off c s
    { s with drying_mode := true, preheat_complete := false }
  else if s.config.curing_machine_mode = 2 then
    let s := { s with preheat_complete := false, drying_mode := true }
    let s :=
      if s.config.heat_to_target_temp = 0 then
        let s := tDown_arm e s.config.drying_run_time { s with pid_mode := false }
        { s with fan_duty := s.config.fans_drying_speed }
      else
        let s := tUp_arm e { s with pid_mode := true }
        { s with fan_duty := s.config.fans_preheat_speed }
    let s := led_off c s
    { s with drying_mode := true }
  else if s.config.curing_machine_mode = 1 then
    let s := tDown_arm e s.config.curing_run_time { s with pid_mode := false }
    { s with fan_duty := s.config.fans_curing_speed, drying_mode := false }
  else
    let s := { s with tDown := e.timer_stop s.tDown, tUp := e.timer_stop s.tUp }
    let s := { s with preheat_complete := false, drying_mode := true }
    if s.config.heat_to_target_temp = 0 then
      let s := tDown_arm e s.config.drying_run_time { s with pid_mode := false }
      { s with fan_duty := s.config.fans_drying_speed }
    else
      let s := tUp_arm e { s with pid_mode := true }
      { s with fan_duty := s.config.fans_preheat_speed }

/-- Part of `button_press`, `case HOME`. -/
def button_press_home (e : Ext) (c : Consts) (i : LoopIn) (s : Sys) : Sys :=
  if s.menu_position = 0 then
    let s :=
      if s.curing_mode then
        let s := motor_configuration s
        let s := speed_configuration e s.curing_mode s
        start_run_curing e c s
      else
        let s := { s with drying_mode := false }
        let s := run_motor c s
        let s := motor_configuration s
        let s := speed_configuration e s.curing_mode s
        let s := tDown_arm e s.config.washing_run_time s
        { s with fan_duty := fans_washing_speed }
    let s := { s with us_last := i.millis, menu_position := 0,
                      state := menu_state.RUNNING, redraw_menu := true }
    menu_move e c true s
  else if s.menu_position = 1 then { s with menu_position := 0, state := menu_state.TIME }
  else if s.menu_position = 2 then { s with menu_position := 0, state := menu_state.SETTINGS }
  else s

/-- Part of `button_press`, `case SETTINGS`. -/
def button_press_settings (s : Sys) : Sys :=
  if s.menu_position = 0 then { s with menu_position := 2, state := menu_state.HOME }
  else if s.menu_position = 1 then { s with menu_position := 0, state := menu_state.SPEED_STATE }
  else if s.menu_position = 2 then { s with menu_position := 0, state := menu_state.RUN_MODE }
  else if s.menu_position = 3 then { s with menu_position := 0, state := menu_state.PREHEAT }
  else if s.menu_position = 4 then
    { s with menu_position := 0, state := menu_state.SOUND_SETTINGS }
  else if s.menu_position = 5 then { s with menu_position := 0, state := menu_state.FANS }
  else if s.menu_position = 6 then
    { s with menu_position := 0, state := menu_state.LED_INTENSITY }
  else { s with menu_position := 0, state := menu_state.INFO }

/-- Part of `button_press`, `case SOUND_SETTINGS`. -/
def button_press_sound (s : Sys) : Sys :=
  if s.menu_position = 0 then { s with menu_position := 4, state := menu_state.SETTINGS }
  else if s.menu_position = 1 then
    let s := { s with config := { s.config with
      sound_response := Nat.xor s.config.sound_response 1 } }
    { write_config s with redraw_menu := true }
  else if s.menu_position = 2 then { s with menu_position := 0, state := menu_state.BEEP }
  else s

/-- Part of `button_press`, `case FANS`. -/
def button_press_fans (s : Sys) : Sys :=
  if s.menu_position = 0 then { s with menu_position := 5, state := menu_state.SETTINGS }
  else if s.menu_position = 1 then { s with menu_position := 0, state := menu_state.FAN1_CURING }
  else if s.menu_position = 2 then { s with menu_position := 0, state := menu_state.FAN1_DRYING }
  else if s.menu_position = 3 then { s with menu_position := 0, state := menu_state.FAN2_CURING }
  else { s with menu_position := 0, state := menu_state.FAN2_DRYING }

/-- Part of `button_press`, `case PREHEAT`. -/
def button_press_preheat (s : Sys) : Sys :=
  if s.menu_position = 0 then { s with menu_position := 3, state := menu_state.SETTINGS }
  else if s.menu_position = 1 then
    let s := { s with config := { s.config with
      heat_to_target_temp := Nat.xor s.config.heat_to_target_temp 1 } }
    { write_config s with redraw_menu := true }
  else if s.menu_position = 2 then { s with menu_position := 0, state := menu_state.TARGET_TEMP }
  else if s.menu_position = 3 then
    { s with menu_position := 0, state := menu_state.RESIN_TARGET_TEMP }
  else
    let s := { s with config := { s.config with
      SI_unit_system := Nat.xor s.config.SI_unit_system 1 } }
    let s :=
      if s.config.SI_unit_system ≠ 0 then
        let s := { s with config := { s.config with
          target_temp := round_to_byte (fahrenheit2celsius s.config.target_temp) } }
        { s with config := { s.config with
          resin_target_temp := round_to_byte (fahrenheit2celsius s.config.resin_target_temp) } }
      else
        let s := { s with config := { s.config with
          target_temp := round_to_byte (celsius2fahrenheit s.config.target_temp) } }
        { s with config := { s.config with
          resin_target_temp := round_to_byte (celsius2fahrenheit s.config.resin_target_temp) } }
    write_config s

/-- Part of `button_press`, `case SPEED_STATE`. -/
def button_press_speed (s : Sys) : Sys :=
  if s.menu_position = 0 then { s with menu_position := 1, state := menu_state.SETTINGS }
  else if s.menu_position = 1 then
    { s with menu_position := 1, state := menu_state.SPEED_CURING }
  else { s with menu_position := 2, state := menu_state.SPEED_WASHING }

/-- Part of `button_press`, `case TIME`. -/
def button_press_time (s : Sys) : Sys :=
  if s.menu_position = 0 then { s with menu_position := 1, state := menu_state.HOME }
  else if s.menu_position = 1 then { s with menu_position := 0, state := menu_state.TIME_CURING }
  else if s.menu_position = 2 then { s with menu_position := 0, state := menu_state.TIME_DRYING }
  else if s.menu_position = 3 then
    { s with menu_position := 0, state := menu_state.TIME_WASHING }
  else { s with menu_position := 0, state := menu_state.TIME_RESIN_PREHEAT }

/-- Part of `button_press`, `case RUN_MENU`. -/
def button_press_run_menu (e : Ext) (c : Consts) (s : Sys) : Sys :=
  if s.menu_position = 0 then
    (if s.curing_mode then
      (if ¬ s.gastro_pan then
        let s := { s with paused := !s.paused }
        let s :=
          if s.paused then
            let s := stop_motor c s
            let s := stop_heater c s
            { s with fan_duty := fans_menu_speed }
          else
            let s := run_motor c s
            let s := motor_configuration s
            let s := speed_configuration e s.curing_mode s
            if s.config.heat_to_target_temp = 0 then
              { s with fan_duty := s.config.fans_curing_speed }
            else { s with fan_duty := s.config.fans_preheat_speed }
        { s with menu_position := 0, state := menu_state.RUNNING }
       else s)
     else
      (if ¬ s.gastro_pan then
        let s := { s with paused := !s.paused }
        let s :=
          if s.paused then
            let s := stop_motor c s
            stop_heater c s
          else
            let s := run_motor c s
            let s := motor_configuration s
            let s := speed_configuration e s.curing_mode s
            { s with fan_duty := fans_washing_speed }
        { s with menu_position := 0, state := menu_state.RUNNING }
       else s))
  else if s.menu_position = 1 then run_stop e c s
  else if s.menu_position = 2 then { s with menu_position := 0, state := menu_state.RUNNING }
  else s

/-- Confirmation of a self-test phase whose result may be a failure
(phases 3, 4 and 5): `passed` is the pass flag of the phase. -/
def selftest_confirm (e : Ext) (passed : Bool) (s : Sys) : Sys :=
  if passed then
    let s :=
      if s.selftest.fail_flag = true then { s with state := menu_state.HOME }
      else { s with selftest := { s.selftest with phase := s.selftest.phase + 1 } }
    { s with selftest := e.clean_up s.selftest }
  else s

/-- Part of `button_press`, `case SELFTEST`. -/
def button_press_selftest (e : Ext) (s : Sys) : Sys :=
  let s :=
    if s.selftest.phase = 0 then
      (if s.menu_position ≠ 0 then
        { s with selftest := { s.selftest with phase := s.selftest.phase + 1 } }
       else { s with state := menu_state.INFO })
    else if s.selftest.phase = 1 then
      (if s.selftest.cover_test = true then
        { s with selftest := e.clean_up { s.selftest with phase := s.selftest.phase + 1 } }
       else s)
    else if s.selftest.phase = 2 then
      (if s.selftest.tank_test = true then
        { s with selftest := e.clean_up { s.selftest with phase := s.selftest.phase + 1 } }
       else s)
    else if s.selftest.phase = 3 then selftest_confirm e s.selftest.vent_test s
    else if s.selftest.phase = 4 then selftest_confirm e s.selftest.led_test s
    else if s.selftest.phase = 5 then selftest_confirm e s.selftest.heater_test s
    else if s.selftest.phase = 6 then
      (if s.selftest.rotation_test = true then
        { s with selftest := e.clean_up { s.selftest with phase := 0 } }
       else s)
    else s
  { s with menu_position := 0 }

/-- The `switch (state)` of `button_press`. -/
def button_press_state (e : Ext) (c : Consts) (i : LoopIn) (s : Sys) : Sys :=
  match s.state with
  | menu_state.HOME => button_press_home e c i s
  | menu_state.SETTINGS => button_press_settings s
  | menu_state.SOUND_SETTINGS => button_press_sound s
  | menu_state.FANS => button_press_fans s
  | menu_state.LED_INTENSITY =>
      { write_config { s with menu_position := 6 } with state := menu_state.SETTINGS }
  | menu_state.FAN1_CURING =>
      { write_config { s with menu_position := 1 } with state := menu_state.FANS }
  | menu_state.FAN1_DRYING =>
      { write_config { s with menu_position := 2 } with state := menu_state.FANS }
  | menu_state.FAN2_CURING =>
      { write_config { s with menu_position := 3 } with state := menu_state.FANS }
  | menu_state.FAN2_DRYING =>
      { write_config { s with menu_position := 4 } with state := menu_state.FANS }
  | menu_state.PREHEAT => button_press_preheat s
  | menu_state.SPEED_STATE => button_press_speed s
  | menu_state.SPEED_CURING => { write_config s with state := menu_state.SPEED_STATE }
  | menu_state.SPEED_WASHING => { write_config s with state := menu_state.SPEED_STATE }
  | menu_state.TIME => button_press_time s
  | menu_state.BEEP =>
      { write_config s with menu_position := 2, state := menu_state.SOUND_SETTINGS }
  | menu_state.TIME_CURING =>
      { write_config s with menu_position := 1, state := menu_state.TIME }
  | menu_state.TIME_DRYING =>
      { write_config s with menu_position := 2, state := menu_state.TIME }
  | menu_state.TIME_WASHING =>
      { write_config s with menu_position := 3, state := menu_state.TIME }
  | menu_state.TIME_RESIN_PREHEAT =>
      { write_config s with menu_position := 4, state := menu_state.TIME }
  | menu_state.INFO => { s with menu_position := 7, state := menu_state.SETTINGS }
  | menu_state.RUN_MODE =>
      let s := write_config s
      if ¬ s.long_press then { s with menu_position := 2, state := menu_state.SETTINGS }
      else { s with long_press := false, menu_position := 0, state := menu_state.HOME }
  | menu_state.TARGET_TEMP =>
      { write_config s with menu_position := 2, state := menu_state.PREHEAT }
  | menu_state.RESIN_TARGET_TEMP =>
      { write_config s with menu_position := 3, state := menu_state.PREHEAT }
  | menu_state.CONFIRM => { s with menu_position := 0, state := menu_state.HOME }
  | menu_state.RUN_MENU => button_press_run_menu e c s
  | menu_state.RUNNING => { s with menu_position := 0, state := menu_state.RUN_MENU }
  | menu_state.SELFTEST => button_press_selftest e s
  | menu_state.ERROR => s

/-- Model of `button_press()`. -/
def button_press (e : Ext) (c : Consts) (i : LoopIn) (s : Sys) : Sys :=
  let s := { s with log := Event.button_press :: s.log }
  let s := if s.config.sound_response ≠ 0 then echo s else s
  let s := button_press_state e c i s
  let s := { s with scroll := e.scrolling_list_set s.menu_position s.scroll }
  let s := { s with rotary_diff := 128, redraw_menu := true }
  menu_move e c true s

/-! ## The main loop -/

/-- Model of `therm1_read()`. -/
def therm1_read (i : LoopIn) (s : Sys) : Sys :=
  let s := chip_write 9 false s
  let s := chip_write 10 false s
  { s with chamber_temp :=
      if s.config.SI_unit_system ≠ 0 then i.analog2temp
      else celsius2fahrenheit i.analog2temp }

/-- Part of `loop`, self-test phases 1 and 2: a sensor pin test. -/
def selftest_pin_phase (e : Ext) (i : LoopIn) (pin : Bool) (s : Sys) : Sys :=
  let t := { s.selftest with measured_state := pin }
  let r := e.universal_pin_test i.millis t
  { s with selftest := r.1, redraw_menu := r.2 }

/-- Part of `loop`, self-test phase 4: the LED test. -/
def selftest_led_phase (e : Ext) (c : Consts) (i : LoopIn) (s : Sys) : Sys :=
  let s := { s with selftest := { s.selftest with cover_down := !i.cover_open_pin } }
  if s.selftest.cover_down then
    let s := if e.is_first_loop s.selftest then led_on c s else s
    if s.out.chip c.LED_RELE_PIN = true then
      (if s.selftest.led_test = false then
        { s with selftest := e.LED_test i.millis s.selftest }
       else led_off c s)
    else
      (if s.selftest.isCounterRunning then
        let t := { s.selftest with fail_flag := true }
        let t := { t with tCountDown := e.timer_stop t.tCountDown }
        let t := { t with isCounterRunning := false, led_test := true }
        { s with selftest := t, out := { s.out with led_pwm := 0 } }
       else s)
  else
    (if s.selftest.isCounterRunning then
      { s with selftest := { s.selftest with
          tCountDown := e.timer_pause s.selftest.tCountDown } }
     else s)

/-- Part of `loop`, self-test phase 5: the heater test. -/
def selftest_heater_phase (e : Ext) (c : Consts) (i : LoopIn) (s : Sys) : Sys :=
  if ¬ s.selftest.heater_test then
    (if i.wash_detect_pin = true then
      let s := { s with selftest := { s.selftest with
        fans_speed := { s.selftest.fans_speed with fan1 := 10 } } }
      if i.cover_open_pin = false then
        let s := { s with selftest := { s.selftest with
          fans_speed := { s.selftest.fans_speed with fan2 := 10 } } }
        let s :=
          if e.is_first_loop s.selftest then
            let s := run_heater c { s with pid_mode := true }
            { s with fan_duty := fans_menu_speed }
          else s
        { s with selftest := e.heat_test i.millis s.heater_error s.selftest }
      else
        let s := { s with selftest := { s.selftest with
          fans_speed := { s.selftest.fans_speed with fan2 := 0 } } }
        if s.selftest.isCounterRunning then
          { s with selftest := e.heat_test i.millis s.heater_error s.selftest }
        else s
     else
      { s with selftest := { s.selftest with
        fans_speed := { s.selftest.fans_speed with fan1 := 0 } } })
  else if s.heater_running then
    let s := stop_heater c s
    { s with fan_duty := fans_menu_speed, pid_mode := false }
  else s

/-- Part of `loop`, self-test phase 6, the body run when the rotation timer fires. -/
def selftest_rotation_step (e : Ext) (c : Consts) (s : Sys) : Sys :=
  let s :=
    if e.is_first_loop s.selftest then
      let s :=
        if s.mode_flag then
          { s with speed_control := { s.speed_control with curing_speed := 1 },
                   out := { s.out with ihold_irun := (10, 10, 0), mres := 256 } }
        else
          { s with speed_control := { s.speed_control with washing_speed := 1 },
                   out := { s.out with ihold_irun := (31, 31, 5), mres := 16 } }
      let s := speed_configuration e s.mode_flag s
      let s := run_motor c s
      { s with selftest := e.set_first_loop false s.selftest }
    else
      (if s.speed_control.curing_speed ≤ 10 ∧ s.speed_control.washing_speed ≤ 10 then
        (if ¬ s.mode_flag then
          let backup := s.speed_control.microstep_control % 256
          let s := speed_configuration e s.mode_flag s
          { s with speed_control := { s.speed_control with microstep_control := backup } }
         else speed_configuration e s.mode_flag s)
       else s)
  let s :=
    if s.mode_flag then
      { s with speed_control := { s.speed_control with
          curing_speed := (s.speed_control.curing_speed + 1) % 256 } }
    else
      { s with speed_control := { s.speed_control with
          washing_speed := (s.speed_control.washing_speed + 1) % 256 } }
  let s :=
    if s.mode_flag ∧ s.speed_control.curing_speed > 11 then
      let s := stop_motor c s
      let s := { s with selftest := e.clean_up s.selftest }
      { s with speed_control := { s.speed_control with curing_speed := 1 },
               mode_flag := false }
    else s
  if ¬ s.mode_flag ∧ s.speed_control.washing_speed > 11 then
    let s := stop_motor c s
    { s with speed_control := { s.speed_control with washing_speed := 10 },
             selftest := { s.selftest with rotation_test := true } }
  else s

/-- Part of `loop`, self-test phase 6: the motor sweep. -/
def selftest_rotation_phase (e : Ext) (c : Consts) (i : LoopIn) (s : Sys) : Sys :=
  if ¬ s.selftest.rotation_test then
    let r := e.motor_rotation_timer i.millis s.selftest
    let s := { s with selftest := r.1 }
    if r.2 then selftest_rotation_step e c s else s
  else s

/-- Part of `loop`, the block `if (state == SELFTEST)` (lines 703 to 831). -/
def loop_selftest (e : Ext) (c : Consts) (i : LoopIn) (s : Sys) : Sys :=
  if s.state = menu_state.SELFTEST then
    let s := { s with selftest := e.selftest_timer_run i.millis s.selftest }
    let s := { s with ms_last_count := some (s.ms_last_count.getD i.millis) }
    let s :=
      if ulong_sub i.millis (s.ms_last_count.getD i.millis) ≥ 1000 then
        { s with ms_last_count := some i.millis, redraw_menu := true }
      else s
    if s.selftest.phase = 1 then selftest_pin_phase e i i.cover_open_pin s
    else if s.selftest.phase = 2 then selftest_pin_phase e i i.wash_detect_pin s
    else if s.selftest.phase = 3 then
      let s := { s with selftest :=
        e.ventilation_test i.millis (s.fan_error 0) (s.fan_error 1) s.selftest }
      { s with fan_duty := s.selftest.fans_speed }
    else if s.selftest.phase = 4 then selftest_led_phase e c i s
    else if s.selftest.phase = 5 then selftest_heater_phase e c i s
    else if s.selftest.phase = 6 then selftest_rotation_phase e c i s
    else s
  else s

/-- Part of `loop`, the first `if (heater_error)` (lines 833 to 842). -/
def loop_heater_stop (e : Ext) (c : Consts) (s : Sys) : Sys :=
  if s.heater_error then
    let s :=
      if s.config.heat_to_target_temp ≠ 0 then { s with tDown := e.timer_stop s.tDown }
      else { s with tUp := e.timer_stop s.tUp }
    let s := stop_heater c s
    let s := stop_motor c s
    { s with fan_duty := fans_menu_speed }
  else s

/-- Part of `loop`, the mode detection on the home screen (lines 844 to 850). -/
def loop_home_mode (i : LoopIn) (s : Sys) : Sys :=
  if s.state = menu_state.HOME then { s with curing_mode := i.wash_detect_pin } else s

/-- Part of `loop`, the second `if (heater_error)` (lines 852 to 856). -/
def loop_heater_error (s : Sys) : Sys :=
  if s.heater_error then { s with state := menu_state.ERROR } else s

/-- Part of `loop`, the repeated beep of the confirm screen (lines 858 to 864). -/
def loop_confirm_beep (i : LoopIn) (s : Sys) : Sys :=
  if s.state = menu_state.CONFIRM then
    (if ulong_sub i.millis s.us_last > 1000 then { beep s with us_last := i.millis } else s)
  else s

/-- Part of `loop`, lines 866 to 869. -/
def loop_last_mode (s : Sys) : Sys :=
  if s.last_curing_mode ≠ s.curing_mode then
    { s with last_curing_mode := s.curing_mode, redraw_menu := true }
  else s

/-- Part of `loop`, the motor ramp (lines 871 to 881). -/
def loop_acceleration (e : Ext) (i : LoopIn) (s : Sys) : Sys :=
  if s.speed_control.acceleration_flag = true then
    let s :=
      if ulong_sub i.millis s.us_last > 50 then
        { acceleration50ms e s with us_last := i.millis }
      else s
    if s.speed_control.acceleration_flag = false then
      { s with out := { s.out with ihold_irun := (10, 10, 5) } }
    else s
  else s

/-- Part of `loop`, the encoder click test (lines 883 to 886). -/
def loop_rotary (e : Ext) (c : Consts) (s : Sys) : Sys :=
  if s.rotary_diff ≤ 124 ∨ s.rotary_diff ≥ 132 ∨ s.redraw_menu then menu_move e c true s
  else s

/-- Part of `loop`, lines 888 to 890. -/
def loop_running (e : Ext) (c : Consts) (i : LoopIn) (s : Sys) : Sys :=
  if s.state = menu_state.RUNNING ∨ s.state = menu_state.RUN_MENU then
    machine_running e c i s
  else s

/-- Part of `loop`, the action of a long press (the `switch (state)` at line 899). -/
def long_press_action (e : Ext) (c : Consts) (s : Sys) : Sys :=
  match s.state with
  | menu_state.HOME =>
      menu_move e c true
        { s with state := menu_state.RUN_MODE, long_press := true, redraw_menu := true }
  | menu_state.INFO =>
      menu_move e c true
        { s with state := menu_state.SELFTEST, menu_position := 0, redraw_menu := true }
  | menu_state.RUNNING =>
      let s := run_stop e c s
      menu_move e c true { s with redraw_menu := true }
  | _ => s

/-- Part of `loop`, the button is held down (lines 893 to 920). -/
def button_down (e : Ext) (c : Consts) (i : LoopIn) (s : Sys) : Sys :=
  let s := if s.button_active = false then
      { s with button_active := true, button_timer := i.millis }
    else s
  if ulong_sub i.millis s.button_timer > c.LONG_PRESS_TIME ∧ s.long_press_active = false then
    long_press_action e c { s with long_press_active := true }
  else s

/-- Part of `loop`, the button is up (lines 922 to 931). -/
def button_up (e : Ext) (c : Consts) (i : LoopIn) (s : Sys) : Sys :=
  if s.button_active = true then
    let s :=
      if s.long_press_active = true then { s with long_press_active := false }
      else (if ¬ s.heater_error then button_press e c i s else s)
    { s with button_active := false }
  else s

/-- Part of `loop`, the button (lines 892 to 932). -/
def loop_button (e : Ext) (c : Consts) (i : LoopIn) (s : Sys) : Sys :=
  if i.btn_enc = false then button_down e c i s else button_up e c i s

/-- The screens whose cursor survives the periodic display reset. -/
def keeps_cursor (st : menu_state) : Bool :=
  st = menu_state.HOME || st = menu_state.PREHEAT || st = menu_state.SOUND_SETTINGS
    || st = menu_state.SPEED_STATE

/-- Part of `loop`, the periodic display reset (lines 934 to 952). -/
def loop_reinit (e : Ext) (c : Consts) (i : LoopIn) (s : Sys) : Sys :=
  if i.millis > ulong_add s.time_now 5500 then
    let s := if keeps_cursor s.state then { s with last_menu_position := s.menu_position }
      else s
    let s := { s with time_now := i.millis, log := Event.lcd_reinit :: s.log,
                      redraw_menu := true }
    let s := menu_move e c false s
    if keeps_cursor s.state then { s with menu_position := s.last_menu_position } else s
  else s

/-- Part of `loop`, the temperature reading (lines 954 to 957). -/
def loop_therm (i : LoopIn) (s : Sys) : Sys :=
  if i.millis > ulong_add s.therm_read_time_now 2000 then
    therm1_read i { s with therm_read_time_now := i.millis }
  else s

/-- Part of `loop`, lines 697 to 701: watchdog and the two process timers. -/
def loop_timers (e : Ext) (i : LoopIn) (s : Sys) : Sys :=
  let s := if ¬ i.boot_key_is_magic then { s with log := Event.wdt_reset :: s.log } else s
  { s with tDown := e.timer_run i.millis s.tDown, tUp := e.timer_run i.millis s.tUp }

/-- The part of `loop` after the second `if (heater_error)`. -/
def loop_tail (e : Ext) (c : Consts) (i : LoopIn) (s : Sys) : Sys :=
  let s := loop_confirm_beep i s
  let s := loop_last_mode s
  let s := loop_acceleration e i s
  let s := loop_rotary e c s
  let s := loop_running e c i s
  let s := loop_button e c i s
  let s := loop_reinit e c i s
  loop_therm i s

/-- Model of `loop()`: one pass of the main loop with no tick of the 1 ms timer
interrupt inside it.  On the device the interrupt preempts the pass; ticks
between passes are steps of `run_steps`, ticks inside a pass are in
`loop_preempted`. -/
def loop (e : Ext) (c : Consts) (i : LoopIn) (s : Sys) : Sys :=
  let s := loop_timers e i s
  let s := loop_selftest e c i s
  let s := loop_heater_stop e c s
  let s := loop_home_mode i s
  let s := loop_heater_error s
  loop_tail e c i s

/-- Part of `setup()`, as far as it touches the modelled state. -/
def setup (e : Ext) (c : Consts) (s : Sys) : Sys :=
  let s := read_config s
  let s := chip_write c.EN_PIN true s
  let s := { s with fan_duty := fans_menu_speed }
  let s := led_off c s
  let s := { s with out := { s.out with mres := 16, ihold_irun := (10, 10, 0) } }
  let s := stop_heater c s
  menu_move e c true { s with redraw_menu := true }

/-! ## A sample set of collaborators -/

/-- Modelled from the spec: `Countimer::setCounter` (the class has no source
here).  The target duration is stored; a count-up timer starts from 0, a
count-down timer from the target (section 3, "Process Timer"). -/
def sample_setCounter (hours minutes seconds : Nat) (up : Bool) (t : Countimer) : Countimer :=
  let total := ((hours * 3600 + minutes * 60 + seconds) * 1000)
  { t with count_up := up, count_time := total, current := if up then 0 else total }

/-- Modelled from the spec: `Countimer::start`, which (re)starts a stopped or
completed timer (section 4.3). -/
def sample_start (t : Countimer) : Countimer :=
  { t with stopped := false, completed := false }

/-- Modelled from the spec: `Countimer::pause`, which keeps the remaining or
elapsed time (section 4.3). -/
def sample_pause (t : Countimer) : Countimer := { t with stopped := true }

/-- Modelled from the spec: `Countimer::stop`, the stopped and completed state
(section 4.3). -/
def sample_stop (t : Countimer) : Countimer :=
  { t with stopped := true, completed := true,
           current := if t.count_up then 0 else t.count_time }

/-- Modelled from the spec: `Countimer::run` with the completion callback of
`main.cpp`: a running timer advances by the time elapsed since the last call
and, on expiry, is stopped by its callback (section 4.3). -/
def sample_run (now : Nat) (t : Countimer) : Countimer :=
  if t.completed ∨ t.stopped then { t with previous_millis := now }
  else
    let dt := ulong_sub now t.previous_millis
    let t := { t with previous_millis := now }
    if t.count_up then
      (if t.current + dt ≥ t.count_time then sample_stop t
       else { t with current := t.current + dt })
    else
      (if t.current ≤ dt then sample_stop t else { t with current := t.current - dt })

/-- Modelled from the spec: the scrolling menu list (its source is not part of
`main.cpp`): the cursor follows the encoder within the items. -/
def sample_scrolling_list_P (items : List Bool) (rotary_diff menu_position scroll : Nat) :
    Nat × Nat :=
  if rotary_diff > 128 then
    (scroll, if menu_position + 1 < items.length then menu_position + 1 else menu_position)
  else if rotary_diff < 128 then (scroll, menu_position - 1)
  else (scroll, menu_position)

/-- A sample set of collaborators: timers as sketched by the specification,
a scrolling list that follows the encoder, and self-test and speed-control
methods that leave their objects unchanged. -/
def sample_ext : Ext :=
  { timer_run := sample_run, timer_start := sample_start, timer_stop := sample_stop,
    timer_pause := sample_pause, timer_setCounter := sample_setCounter,
    timer_isCounterCompleted := fun t => t.completed,
    timer_getCurrentMinutes := fun t => t.current / 60000 % 60,
    timer_getCurrentSeconds := fun t => t.current / 1000 % 60,
    selftest_timer_run := fun _ t => t,
    universal_pin_test := fun _ t => (t, false),
    ventilation_test := fun _ _ _ t => t,
    is_first_loop := fun _ => false,
    set_first_loop := fun _ t => t,
    LED_test := fun _ t => t,
    heat_test := fun _ _ t => t,
    motor_rotation_timer := fun _ t => (t, false),
    clean_up := fun t => t,
    speed_configuration := fun _ sc => sc,
    acceleration50ms := fun sc => sc,
    scrolling_list_P := sample_scrolling_list_P,
    scrolling_list_set := fun _ scroll => scroll }

/-- Loop input at time `t`: button released, tank in place, cover closed. -/
def idle_in (t : Nat) : LoopIn :=
  { millis := t, cover_open_pin := false, wash_detect_pin := false, btn_enc := true,
    boot_key_is_magic := false, analog2temp := 25 }

/-- Loop input at time `t`: button held down, tank in place, cover closed. -/
def press_in (t : Nat) : LoopIn := { idle_in t with btn_enc := false }

/-- The machine after `setup()` from power-up with an erased EEPROM. -/
def after_setup : Sys := setup sample_ext sample_consts power_up

/-- A washing run in progress: after `setup()`, the button was pressed at
10 ms and released at 20 ms on the home screen. -/
def washing_run : Sys :=
  loop sample_ext sample_consts (idle_in 20)
    (loop sample_ext sample_consts (press_in 10) after_setup)

/-- The washing run after 100 ticks without a tachometer pulse. -/
def washing_run_stalled : Sys := fan_rpm_iter 100 washing_run

/-- The state a heater fault leaves the machine in: the fault flag set, the
error screen shown, motor and heater off. -/
def halted (s : Sys) : Prop :=
  s.heater_error = true ∧ s.state = menu_state.ERROR
    ∧ s.speed_control.motor_running = false ∧ s.heater_running = false

instance (s : Sys) : Decidable (halted s) := by
  unfold halted; infer_instance

/-- Number of entries of `button_press` recorded in the call log. -/
def presses (s : Sys) : Nat := s.log.count Event.button_press

/-- Number of entries of `read_encoder` recorded in the call log. -/
def encoder_reads (s : Sys) : Nat := s.log.count Event.read_encoder

/-- What can happen between two observations of the machine: one pass of the
main loop, one 1 ms tick, or one pulse of tachometer `j`. -/
inductive Step where
  | loop (i : LoopIn)
  | tick (i : TickIn)
  | pulse (j : Nat)

/-- Effect of one step. -/
def step (e : Ext) (c : Consts) : Step → Sys → Sys
  | Step.loop i, s => loop e c i s
  | Step.tick i, s => TIMER0_COMPA_vect c i s
  | Step.pulse j, s => fan_tacho j s

/-- Effect of a sequence of steps, first step first. -/
def run_steps (e : Ext) (c : Consts) : List Step → Sys → Sys
  | [], s => s
  | st :: rest, s => run_steps e c rest (step e c st s)

/-- The observations the fault statements are about agree in `s` and `t`:
screen, heater fault flag, motor and heater switches, and the numbers of
recorded `button_press` and `read_encoder` entries. -/
def keeps (s t : Sys) : Prop :=
  t.state = s.state ∧ t.heater_error = s.heater_error
    ∧ t.speed_control.motor_running = s.speed_control.motor_running
    ∧ t.heater_running = s.heater_running
    ∧ presses t = presses s ∧ encoder_reads t = encoder_reads s

/-- Loop input at time `t`: button released, no tank (curing position), cover
closed. -/
def curing_in (t : Nat) : LoopIn := { idle_in t with wash_detect_pin := true }

/-- A drying run in progress with the heater on: after `setup()` the button
was pressed at 10 ms and released at 20 ms on the home screen with no tank in
place, and one more loop pass ran at 30 ms. -/
def drying_run : Sys :=
  loop sample_ext sample_consts (curing_in 30)
    (loop sample_ext sample_consts (curing_in 20)
      (loop sample_ext sample_consts { curing_in 10 with btn_enc := false } after_setup))

/-- The drying run right after the 1000th tick of a supervision period in
which the heater fan tachometer gave no pulse: the heater fault flag has been
raised. -/
def heater_fault_state : Sys := fan_rpm { drying_run with ams_fan_counter := 999 }

/-- The machine halted by the heater fault: one loop pass after
`heater_fault_state`. -/
def halted_state : Sys := loop sample_ext sample_consts (curing_in 1100) heater_fault_state

/-- A sequence of steps that tries every input on the halted machine: a long
hold of the button, its release, a short press, encoder movement during
ticks, and tachometer pulses. -/
def poke_steps : List Step :=
  [Step.loop (press_in 2000), Step.tick pins_high, Step.loop (press_in 3500),
   Step.loop (idle_in 3600), Step.pulse 2, Step.tick pins_low,
   Step.loop (press_in 4000), Step.loop (idle_in 4100), Step.tick pins_high]

/-- The machine restarted after the heater fault: `setup()` from power-up with
the EEPROM content that `heater_fault_state` left behind. -/
def restarted : Sys :=
  setup sample_ext sample_consts { power_up with eeprom := heater_fault_state.eeprom }

/-- The numeric field the current screen edits, with the bounds `menu_move`
passes to `generic_value_P` for it: (value, min, max). -/
def edited_value (c : Consts) (s : Sys) : Option (Nat × Nat × Nat) :=
  match s.state with
  | menu_state.SPEED_CURING => some (s.speed_control.curing_speed, 1, 10)
  | menu_state.SPEED_WASHING => some (s.speed_control.washing_speed, 1, 10)
  | menu_state.TIME_CURING => some (s.config.curing_run_time, 1, 10)
  | menu_state.TIME_DRYING => some (s.config.drying_run_time, 1, 10)
  | menu_state.TIME_WASHING => some (s.config.washing_run_time, 1, 10)
  | menu_state.TIME_RESIN_PREHEAT => some (s.config.resin_preheat_run_time, 1, 10)
  | menu_state.TARGET_TEMP =>
      if s.config.SI_unit_system ≠ 0 then
        some (s.config.target_temp, c.MIN_TARGET_TEMP_C, c.MAX_TARGET_TEMP_C)
      else some (s.config.target_temp, c.MIN_TARGET_TEMP_F, c.MAX_TARGET_TEMP_F)
  | menu_state.RESIN_TARGET_TEMP =>
      if s.config.SI_unit_system ≠ 0 then
        some (s.config.resin_target_temp, c.MIN_TARGET_TEMP_C, c.MAX_TARGET_TEMP_C)
      else some (s.config.resin_target_temp, c.MIN_TARGET_TEMP_F, c.MAX_TARGET_TEMP_F)
  | menu_state.LED_INTENSITY => some (s.config.led_pwm_value, 1, 100)
  | menu_state.FAN1_CURING => some (s.config.fans_curing_speed.fan1, 0, 100)
  | menu_state.FAN1_DRYING => some (s.config.fans_drying_speed.fan1, 0, 100)
  | menu_state.FAN2_CURING => some (s.config.fans_curing_speed.fan2, 0, 100)
  | menu_state.FAN2_DRYING => some (s.config.fans_drying_speed.fan2, 0, 100)
  | _ => none

/-- The curing-time editor opened on a stored run time of 50 minutes, above
the editor's range 1..10, with the encoder at neutral. -/
def editor_out_of_range : Sys :=
  { power_up with state := menu_state.TIME_CURING, redraw_menu := false,
                  config := { config_default with curing_run_time := 50 } }

/-- Nearest integer to a non-negative rational, halves upward: the reading of
"rounded to nearest" for a temperature. -/
def nearest (x : ℚ) : Int := ⌊x + 1 / 2⌋

/-- An EEPROM image with the legacy magic and a 13-byte legacy record: the
defaults of the old firmware except a Celsius target of 130 and the unit flag
0 (Fahrenheit). -/
def legacy_image_hot : List Nat :=
  legacy_magic ++ [10, 1, 4, 3, 1, 3, 1, 0, 0, 130, 95, 0, 0]

/-- An EEPROM image with the legacy magic and a 13-byte legacy record with a
Celsius target of 40 and the unit flag 0 (Fahrenheit). -/
def legacy_image_f : List Nat :=
  legacy_magic ++ [9, 2, 5, 4, 2, 6, 0, 1, 1, 40, 104, 0, 0]

/-- An EEPROM image with the legacy magic and a 13-byte legacy record with a
Celsius target of 40 and the unit flag 1 (Celsius). -/
def legacy_image_c : List Nat :=
  legacy_magic ++ [9, 2, 5, 4, 2, 6, 0, 1, 1, 40, 104, 1, 0]

/-- Loop input at time `t`: button released, tank removed, cover closed. -/
def tank_out_in (t : Nat) : LoopIn := { idle_in t with wash_detect_pin := true }

/-- The home screen after `setup()`, washing mode, with the encoder one
micro-step past neutral (less than a detent, so the main loop has not
consumed it). -/
def home_turned : Sys := { after_setup with rotary_diff := 129 }

/-- The washing run after one pass of the main loop with the tank removed. -/
def washing_paused : Sys := loop sample_ext sample_consts (tank_out_in 30) washing_run

/-- The paused washing run after the tank is back: two passes of the main loop
with the tank in place. -/
def washing_reinserted : Sys :=
  loop sample_ext sample_consts (idle_in 41)
    (loop sample_ext sample_consts (idle_in 40) washing_paused)

/-- The paused washing run, tank back in place, after the button was pressed
at 50 ms and released at 60 ms: the run menu. -/
def washing_run_menu : Sys :=
  loop sample_ext sample_consts (idle_in 60)
    (loop sample_ext sample_consts (press_in 50) washing_reinserted)

/-! ## Vocabulary of the software PWM -/

/-- The phase and edge-tracking state of one fan: its duty, the phase flag
(`fan1_pwm_high` or `fan2_pwm_high`) and the time of the last edge
(`fan1_previous_millis` or `fan2_previous_millis`). -/
structure PwmChan where
  duty : Nat
  high : Bool
  prev : Nat
  deriving DecidableEq, Repr

/-- Channel of fan `j` (0 for fan 1, otherwise fan 2) in the machine state. -/
def pwm_chan (j : Nat) (s : Sys) : PwmChan :=
  if j = 0 then ⟨s.fan_duty.fan1, s.fan1_pwm_high, s.fan1_previous_millis⟩
  else ⟨s.fan_duty.fan2, s.fan2_pwm_high, s.fan2_previous_millis⟩

/-- The two edge tests `fan_pwm_control()` makes for one fan of non-zero duty,
lines 2377 to 2390 and 2405 to 2418, on the channel alone.  The phase with the
flag set is the on phase of the inverted output: it lasts `period * duty / 100`. -/
def pwm_step (c : Consts) (now : Nat) (x : PwmChan) : PwmChan :=
  let x :=
    if x.high = false then
      (if (ulong_sub now x.prev : ℚ) ≥ period c * (1 - (x.duty : ℚ) / 100) then
        { x with prev := now, high := true }
       else x)
    else x
  if x.high = true then
    (if (ulong_sub now x.prev : ℚ) ≥ period c * ((x.duty : ℚ) / 100) then
      { x with prev := now, high := false }
     else x)
  else x

/-- Value of `millis()` `k` ms after it was `t`; the clock wraps at 2^32. -/
def millis_after (t k : Nat) : Nat := (t + k) % 2 ^ 32

/-- The machine after `n` calls of `fan_pwm_control()`, one per millisecond,
the first one 1 ms after the clock read `t`. -/
def fan_pwm_run (c : Consts) (t : Nat) : Nat → Sys → Sys
  | 0, s => s
  | n + 1, s =>
      fan_pwm_control c { pins_low with millis := millis_after t (n + 1) } (fan_pwm_run c t n s)

/-- Of the first `n` milliseconds after `t`, the number in which fan `j` is in
its on phase: millisecond `k` counts when the flag is set after `k` calls. -/
def on_time (c : Consts) (t j : Nat) : Nat → Sys → Nat
  | 0, _ => 0
  | n + 1, s =>
      on_time c t j n s + (if (pwm_chan j (fan_pwm_run c t n s)).high = true then 1 else 0)

/-- Length of the on phase in ticks at duty `d`: the first whole number of
milliseconds that reaches `period * d / 100`. -/
def on_ticks (c : Consts) (d : Nat) : Nat := Int.toNat ⌈period c * ((d : ℚ) / 100)⌉

/-- Length of the off phase in ticks at duty `d`: the first whole number of
milliseconds, at least one, that reaches `period * (1 - d / 100)`. -/
def off_ticks (c : Consts) (d : Nat) : Nat :=
  max 1 (Int.toNat ⌈period c * (1 - (d : ℚ) / 100)⌉)

/-- A machine with both fans at duty 50 at the start of an on phase at 20 ms. -/
def pwm_start : Sys :=
  { after_setup with fan_duty := ⟨50, 50⟩, fan1_on := true, fan2_on := true,
                     fan1_pwm_high := true, fan2_pwm_high := true,
                     fan1_previous_millis := 20, fan2_previous_millis := 20 }

/-- The machine after `setup()` with the run mode "curing" selected. -/
def curing_setup : Sys :=
  { after_setup with config := { after_setup.config with curing_machine_mode := 1 } }

/-- A first curing run: no tank, cover closed, the button pressed at 10 ms and
released at 20 ms on the home screen, and the first pass of the run at 30 ms. -/
def curing_run_first : Sys :=
  loop sample_ext sample_consts (curing_in 30)
    (loop sample_ext sample_consts (curing_in 20)
      (loop sample_ext sample_consts { curing_in 10 with btn_enc := false } curing_setup))

/-- The first curing run over: passes at 1 s and just after, and the pass at
181 s that finds the down-timer of 3 minutes complete. -/
def curing_run_finished : Sys :=
  loop sample_ext sample_consts (curing_in 181000)
    (loop sample_ext sample_consts (curing_in 1031)
      (loop sample_ext sample_consts (curing_in 1000) curing_run_first))

/-- A second curing run, started from the home screen after the first one:
the button pressed at 200.01 s and released at 200.02 s. -/
def curing_run_second : Sys :=
  loop sample_ext sample_consts (curing_in 200020)
    (loop sample_ext sample_consts { curing_in 200010 with btn_enc := false }
      (loop sample_ext sample_consts (curing_in 200000) curing_run_finished))

/-- The curing LED is lit: its relay is on and its PWM output carries the
configured intensity. -/
def led_lit (c : Consts) (s : Sys) : Prop :=
  s.out.chip c.LED_RELE_PIN = true ∧ s.out.led_pwm = s.config.led_pwm_value * 255 / 100

instance (c : Consts) (s : Sys) : Decidable (led_lit c s) := by
  unfold led_lit; infer_instance

/-- Loop input at time `t` in the curing position (no tank, cover closed,
button released) with the thermistor at `temp` degrees Celsius. -/
def heat_in (t : Nat) (temp : ℚ) : LoopIn := { curing_in t with analog2temp := temp }

/-- The machine after `setup()` with "heat to target temperature" switched on
(run mode drying and curing, target 35 degrees Celsius). -/
def heat_setup : Sys :=
  { after_setup with config := { after_setup.config with heat_to_target_temp := 1 } }

/-- A heat-to-target run in its preheat phase: started with the button pressed
at 10 ms and released at 20 ms, and a pass at 3 s with the chamber at 20
degrees. -/
def heat_run : Sys :=
  loop sample_ext sample_consts (heat_in 3000 20)
    (loop sample_ext sample_consts (heat_in 20 20)
      (loop sample_ext sample_consts { heat_in 10 20 with btn_enc := false } heat_setup))

/-- The heat-to-target run after a pass at 6 s that reads 36 degrees and the
next pass, in which `preheat()` finds the target reached. -/
def heat_run_reached : Sys :=
  loop sample_ext sample_consts (heat_in 6010 36)
    (loop sample_ext sample_consts (heat_in 6000 36) heat_run)

/-- The heat-to-target run with the chamber still at 20 degrees after a pass
at 1800.1 s, past the 30 minutes of `max_preheat_run_time`. -/
def heat_run_late : Sys := loop sample_ext sample_consts (heat_in 1800100 20) heat_run

/-- The run uses the two-stage protocol (preheat, then hold): resin preheat, or
drying or drying and curing with "heat to target temperature" on. -/
def preheat_run (cfg : eeprom_v2_t) : Prop :=
  cfg.curing_machine_mode = 3
    ∨ ((cfg.curing_machine_mode = 0 ∨ cfg.curing_machine_mode = 2)
        ∧ cfg.heat_to_target_temp ≠ 0)

instance (cfg : eeprom_v2_t) : Decidable (preheat_run cfg) := by
  unfold preheat_run; infer_instance

/-- The target `preheat()` compares the chamber temperature with. -/
def preheat_target (cfg : eeprom_v2_t) : Nat :=
  if cfg.curing_machine_mode = 3 then cfg.resin_target_temp else cfg.target_temp

/-- The hold duration of a two-stage run, in minutes. -/
def hold_minutes (cfg : eeprom_v2_t) : Nat :=
  if cfg.curing_machine_mode = 3 then cfg.resin_preheat_run_time else cfg.drying_run_time

/-- The run is in the preheat phase of the two-stage protocol, where the
up-timer governs: resin preheat, or a mode other than curing with "heat to
target temperature" on, before `preheat_complete` is set. -/
def preheat_phase (s : Sys) : Prop :=
  s.preheat_complete = false
    ∧ (s.config.curing_machine_mode = 3
        ∨ (s.config.curing_machine_mode ≠ 1 ∧ s.config.heat_to_target_temp ≠ 0))

instance (s : Sys) : Decidable (preheat_phase s) := by
  unfold preheat_phase; infer_instance

/-- The timer that governs the current phase of a curing-mode run has not
completed: the up-timer in the preheat phase, the down-timer otherwise. -/
def phase_timer_running (e : Ext) (s : Sys) : Prop :=
  if preheat_phase s then e.timer_isCounterCompleted s.tUp = false
  else e.timer_isCounterCompleted s.tDown = false

instance (e : Ext) (s : Sys) : Decidable (phase_timer_running e s) := by
  unfold phase_timer_running; infer_instance

/-- Loop input at time `t`: no tank, cover open, button released. -/
def cover_open_in (t : Nat) : LoopIn := { curing_in t with cover_open_pin := true }

/-- The outputs of a run are frozen: motor stopped, heater off, LED off (relay
off and PWM output at zero). -/
def outputs_off (c : Consts) (s : Sys) : Prop :=
  s.speed_control.motor_running = false ∧ s.heater_running = false
    ∧ s.out.led_pwm = 0 ∧ s.out.chip c.LED_RELE_PIN = false

instance (c : Consts) (s : Sys) : Decidable (outputs_off c s) := by
  unfold outputs_off; infer_instance

/-- What the tank check of the curing modes does to the down-timer: a tank in
place (pin low) pauses it. -/
def tank_pause (e : Ext) (i : LoopIn) (t : Countimer) : Countimer :=
  if i.wash_detect_pin = false then e.timer_pause t else t

/-- Number of calls of `beep()` recorded in the call log. -/
def beeps (s : Sys) : Nat := s.log.count Event.beep

/-- The washing run at the start of the loop pass at 240.1 s: the timers have
just been run and the down-timer of 4 minutes has expired. -/
def washing_timer_done : Sys := loop_timers sample_ext (idle_in 240100) washing_run

/-- Modelled from the spec: `CSelftest::clean_up()` (the class has no source
here).  Section 3 has the self-test context "reset to phase 0 on entry/abort;
... any fail short-circuits back to idle", section 8 "a fail condition in
phases 3,4,5 always returns to idle and clears all phase pass flags": the
bookkeeping of the phase just left is reset, and on a recorded fail or in the
idle phase the phase is 0 and the pass flags and the fail flag are cleared. -/
def spec_clean_up (t : CSelftest) : CSelftest :=
  let t := { t with isCounterRunning := false, measured_state := false }
  if t.fail_flag = true ∨ t.phase = 0 then
    { t with phase := 0, fail_flag := false, cover_test := false, tank_test := false,
             vent_test := false, led_test := false, heater_test := false,
             rotation_test := false }
  else t

/-- The pass flag of self-test phase `k`, which a confirm press tests. -/
def phase_result (t : CSelftest) (k : Nat) : Bool :=
  if k = 3 then t.vent_test else if k = 4 then t.led_test else t.heater_test

/-- All per-phase pass flags of the self-test are clear. -/
def pass_flags_clear (t : CSelftest) : Prop :=
  t.cover_test = false ∧ t.tank_test = false ∧ t.vent_test = false ∧ t.led_test = false
    ∧ t.heater_test = false ∧ t.rotation_test = false

instance (t : CSelftest) : Decidable (pass_flags_clear t) := by
  unfold pass_flags_clear; infer_instance

/-- The sample collaborators with `clean_up` as the specification describes it. -/
def spec_ext : Ext := { sample_ext with clean_up := spec_clean_up }

/-- The self-test in phase 4 with a failed LED test on display: the earlier
phases passed, the fail flag is set. -/
def selftest_led_failed : Sys :=
  { after_setup with
    state := menu_state.SELFTEST
    selftest :=
      { after_setup.selftest with
        phase := 4, fail_flag := true, cover_test := true, tank_test := true,
        vent_test := true, led_test := true } }

/-- The preheat menu with the cursor on the unit item, Celsius selected and a
stored target of 130 degrees. -/
def preheat_units_hot : Sys :=
  { after_setup with state := menu_state.PREHEAT, menu_position := 4,
                     config := { config_default with target_temp := 130 } }

/-- The preheat menu with the cursor on the unit item, Fahrenheit selected and
targets of 95 and 86 degrees. -/
def preheat_units_f : Sys :=
  { after_setup with state := menu_state.PREHEAT, menu_position := 4,
                     config := { config_default with SI_unit_system := 0, target_temp := 95,
                                                     resin_target_temp := 86 } }

/-- The speed the phase-6 sweep of the self-test is working on: the curing
speed while `mode_flag` is set, the washing speed afterwards. -/
def swept_speed (s : Sys) : Nat :=
  if s.mode_flag then s.speed_control.curing_speed else s.speed_control.washing_speed

/-- Passes of self-test phase 6 (`case 6` in `loop`), one for each input. -/
def sweep_passes (e : Ext) (c : Consts) : List LoopIn → Sys → Sys
  | [], s => s
  | i :: l, s => sweep_passes e c l (selftest_rotation_phase e c i s)

/-- A sample self-test class to evaluate the sweep with: the rotation timer
fires at every pass, the first-loop flag is kept in `hidden` (0 stands for
"first loop"), and `clean_up` sets it again. -/
def sweep_ext : Ext :=
  { sample_ext with
    motor_rotation_timer := fun _ t => (t, true)
    is_first_loop := fun t => decide (t.hidden = 0)
    set_first_loop := fun b t => { t with hidden := if b then 0 else 1 }
    clean_up := fun t => { t with hidden := 0 } }

/-- Entry of self-test phase 6 after `setup()`. -/
def sweep_entry : Sys :=
  { after_setup with
    state := menu_state.SELFTEST
    selftest := { after_setup.selftest with phase := 6 } }

/-- Entry of self-test phase 6 with a washing speed of 50, as a configuration
image with that byte out of range leaves it. -/
def sweep_entry_fast : Sys :=
  { sweep_entry with
    speed_control := { sweep_entry.speed_control with washing_speed := 50 } }

/-- Part of `loop`, self-test phase 6: the first half of a fired step, which
sets the motor up (lines 784 to 807). -/
def sweep_apply (e : Ext) (c : Consts) (s : Sys) : Sys :=
  if e.is_first_loop s.selftest then
    let s :=
      if s.mode_flag then
        { s with speed_control := { s.speed_control with curing_speed := 1 },
                 out := { s.out with ihold_irun := (10, 10, 0), mres := 256 } }
      else
        { s with speed_control := { s.speed_control with washing_speed := 1 },
                 out := { s.out with ihold_irun := (31, 31, 5), mres := 16 } }
    let s := speed_configuration e s.mode_flag s
    let s := run_motor c s
    { s with selftest := e.set_first_loop false s.selftest }
  else
    (if s.speed_control.curing_speed ≤ 10 ∧ s.speed_control.washing_speed ≤ 10 then
      (if ¬ s.mode_flag then
        let backup := s.speed_control.microstep_control % 256
        let s := speed_configuration e s.mode_flag s
        { s with speed_control := { s.speed_control with microstep_control := backup } }
       else speed_configuration e s.mode_flag s)
     else s)

/-- Part of `loop`, self-test phase 6: the second half of a fired step, which
advances the speed and tests for the end of the two sub-sweeps (lines 809 to
824). -/
def sweep_advance (e : Ext) (c : Consts) (s : Sys) : Sys :=
  let s :=
    if s.mode_flag then
      { s with speed_control := { s.speed_control with
          curing_speed := (s.speed_control.curing_speed + 1) % 256 } }
    else
      { s with speed_control := { s.speed_control with
          washing_speed := (s.speed_control.washing_speed + 1) % 256 } }
  let s :=
    if s.mode_flag ∧ s.speed_control.curing_speed > 11 then
      let s := stop_motor c s
      let s := { s with selftest := e.clean_up s.selftest }
      { s with speed_control := { s.speed_control with curing_speed := 1 },
               mode_flag := false }
    else s
  if ¬ s.mode_flag ∧ s.speed_control.washing_speed > 11 then
    let s := stop_motor c s
    { s with speed_control := { s.speed_control with washing_speed := 10 },
             selftest := { s.selftest with rotation_test := true } }
  else s

/-- Between `s` and `r` the motor was left alone or stopped, and the sweep was
not marked complete. -/
def motor_rests (s r : Sys) : Prop :=
  (r.speed_control.motor_running = s.speed_control.motor_running
    ∨ r.speed_control.motor_running = false)
  ∧ (r.selftest.rotation_test = true → s.selftest.rotation_test = true)

/-- The sweep of `sweep_entry` one fired step before its end. -/
def sweep_last_step : Sys :=
  sweep_passes sweep_ext sample_consts (List.replicate 21 (idle_in 0)) sweep_entry

/-- The sweep of `sweep_entry` after its end. -/
def sweep_ended : Sys := loop sweep_ext sample_consts (idle_in 100) sweep_last_step

/-- The part of `loop` before the button block (lines 697 to 890). -/
def loop_to_button (e : Ext) (c : Consts) (i : LoopIn) (s : Sys) : Sys :=
  loop_running e c i (loop_rotary e c (loop_acceleration e i (loop_last_mode
    (loop_confirm_beep i (loop_heater_error (loop_home_mode i
      (loop_heater_stop e c (loop_selftest e c i (loop_timers e i s)))))))))

/-- Passes of `loop`, one for each input. -/
def loop_passes (e : Ext) (c : Consts) : List LoopIn → Sys → Sys
  | [], s => s
  | i :: l, s => loop_passes e c l (loop e c i s)

/-- Some pass of a hold that started at `t0` found the button held for longer
than `LONG_PRESS_TIME`. -/
def held_long (c : Consts) (t0 : Nat) (held : List LoopIn) : Bool :=
  held.any (fun i => decide (ulong_sub i.millis t0 > c.LONG_PRESS_TIME))

/-- The info screen after `setup()`. -/
def info_screen : Sys := { after_setup with state := menu_state.INFO }

/-- The info screen with the encoder one step past neutral. -/
def info_turned : Sys := { info_screen with rotary_diff := 129 }

/-- The finish-beep screen after `setup()` with a stored finish-beep mode of 3,
one past the last option. -/
def beep_screen_stale : Sys :=
  { after_setup with
    state := menu_state.BEEP
    config := { after_setup.config with finish_beep_mode := 3 } }

/-- The preheat menu after `setup()` with the cursor on the unit item: Celsius,
target 35, resin target 30. -/
def preheat_units_c : Sys :=
  { after_setup with state := menu_state.PREHEAT, menu_position := 4 }

/-- The run is in the part of the preheat phase in which the running screen
shows no time adjustment (the test at the head of `case RUNNING` in
`menu_move`). -/
def adjust_locked (s : Sys) : Prop :=
  s.curing_mode = true ∧ s.drying_mode = true ∧ s.config.heat_to_target_temp ≠ 0
    ∧ s.preheat_complete = false

instance (s : Sys) : Decidable (adjust_locked s) := by
  unfold adjust_locked; infer_instance

/-- The washing run with the encoder one step up. -/
def washing_run_up : Sys := { washing_run with rotary_diff := 129 }

/-- The washing run after the running screen took the step up, with the
encoder one step down. -/
def washing_run_down : Sys :=
  { menu_move sample_ext sample_consts true washing_run_up with rotary_diff := 127 }

/-- The pass flag of self-test phase `k` (1 to 6). -/
def pass_flag (t : CSelftest) (k : Nat) : Bool :=
  if k = 1 then t.cover_test else if k = 2 then t.tank_test else if k = 3 then t.vent_test
  else if k = 4 then t.led_test else if k = 5 then t.heater_test
  else if k = 6 then t.rotation_test else false

/-- The phase after a button press on the self-test screen in the words of the
specification: from 0 to 1 if the cursor is on the start item; from a phase 1 to
5 to the next if its pass flag is set and, in phases 3 to 5, no fail is flagged;
from 6 to 0 if the rotation test has passed; unchanged in every other case. -/
def spec_confirm_phase (t : CSelftest) (menu_position : Nat) : Nat :=
  if t.phase = 0 then (if menu_position ≠ 0 then 1 else 0)
  else if t.phase = 6 then (if t.rotation_test = true then 0 else 6)
  else if 1 ≤ t.phase ∧ t.phase ≤ 5 ∧ pass_flag t t.phase = true
      ∧ (t.phase < 3 ∨ t.fail_flag = false) then t.phase + 1
  else t.phase

/-- A button press on the self-test screen calls `clean_up()`: in the phases 1
to 6 when the pass flag of the phase is set. -/
def confirm_cleans (t : CSelftest) : Bool :=
  decide (1 ≤ t.phase ∧ t.phase ≤ 6) && pass_flag t t.phase

/-- The self-test in phase 1 with the cover test passed. -/
def selftest_cover_passed : Sys :=
  { after_setup with
    state := menu_state.SELFTEST
    selftest := { after_setup.selftest with phase := 1, cover_test := true } }

/-- The child screen that item `k` of a parent menu opens in `button_press`;
`none` for an item that opens no screen (the back item, a toggle, the start of a
run). -/
def child_screen (parent : menu_state) (k : Nat) : Option menu_state :=
  match parent, k with
  | menu_state.HOME, 1 => some menu_state.TIME
  | menu_state.HOME, 2 => some menu_state.SETTINGS
  | menu_state.SETTINGS, 1 => some menu_state.SPEED_STATE
  | menu_state.SETTINGS, 2 => some menu_state.RUN_MODE
  | menu_state.SETTINGS, 3 => some menu_state.PREHEAT
  | menu_state.SETTINGS, 4 => some menu_state.SOUND_SETTINGS
  | menu_state.SETTINGS, 5 => some menu_state.FANS
  | menu_state.SETTINGS, 6 => some menu_state.LED_INTENSITY
  | menu_state.SETTINGS, 7 => some menu_state.INFO
  | menu_state.TIME, 1 => some menu_state.TIME_CURING
  | menu_state.TIME, 2 => some menu_state.TIME_DRYING
  | menu_state.TIME, 3 => some menu_state.TIME_WASHING
  | menu_state.TIME, 4 => some menu_state.TIME_RESIN_PREHEAT
  | menu_state.PREHEAT, 2 => some menu_state.TARGET_TEMP
  | menu_state.PREHEAT, 3 => some menu_state.RESIN_TARGET_TEMP
  | menu_state.SOUND_SETTINGS, 2 => some menu_state.BEEP
  | menu_state.FANS, 1 => some menu_state.FAN1_CURING
  | menu_state.FANS, 2 => some menu_state.FAN1_DRYING
  | menu_state.FANS, 3 => some menu_state.FAN2_CURING
  | menu_state.FANS, 4 => some menu_state.FAN2_DRYING
  | menu_state.SPEED_STATE, 1 => some menu_state.SPEED_CURING
  | menu_state.SPEED_STATE, 2 => some menu_state.SPEED_WASHING
  | _, _ => none

/-- The cursor position with which `button_press` enters a child screen: 0, the
back item of a menu, except for the two speed editors, which keep the position
of their item. -/
def entry_position (child : menu_state) : Nat :=
  if child = menu_state.SPEED_CURING then 1
  else if child = menu_state.SPEED_WASHING then 2 else 0

/-- The scrolling list leaves the cursor where it is when the encoder is at
neutral. -/
def list_neutral (e : Ext) : Prop :=
  ∀ (items : List Bool) (pos scroll : Nat), (e.scrolling_list_P items 128 pos scroll).2 = pos

/-- The settings menu after `setup()` with the cursor on item `k`. -/
def settings_item (k : Nat) : Sys :=
  { after_setup with state := menu_state.SETTINGS, menu_position := k }

/-- The screens drawn with the scrolling list, whose source is absent. -/
def list_screen (st : menu_state) : Bool :=
  st = menu_state.SETTINGS || st = menu_state.TIME || st = menu_state.PREHEAT
    || st = menu_state.FANS || st = menu_state.INFO

/-- The curing-time editor after `setup()` with the encoder one step down. -/
def time_curing_turned : Sys :=
  { after_setup with state := menu_state.TIME_CURING, rotary_diff := 127 }

/-- Entry of self-test phase 6 for the second time since power-up: the state the
first sweep ended in, with the self-test object as at the first entry (phase 6,
sweep not passed yet, first-loop flag set). -/
def sweep_again : Sys :=
  { sweep_ended with selftest := sweep_entry.selftest }

/-- The driver settings (`set_mres`, `set_IHOLD_IRUN`) in force after each pass
of self-test phase 6, one entry for each input. -/
def sweep_driver (e : Ext) (c : Consts) : List LoopIn → Sys → List (Nat × Nat × Nat × Nat)
  | [], _ => []
  | i :: l, s =>
    ((selftest_rotation_phase e c i s).out.mres,
      (selftest_rotation_phase e c i s).out.ihold_irun)
      :: sweep_driver e c l (selftest_rotation_phase e c i s)

/-- The number of items `menu_move` passes to `generic_menu_P` on the screen of
`s`, if the screen is drawn by `generic_menu_P` (the `switch (state)` of
`menu_move`; the self-test screen is a menu in its idle phase only). -/
def menu_items (s : Sys) : Option Nat :=
  match s.state with
  | menu_state.HOME => some 3
  | menu_state.SPEED_STATE => some 3
  | menu_state.SOUND_SETTINGS => some 3
  | menu_state.RUN_MENU => some 3
  | menu_state.SELFTEST => if s.selftest.phase = 0 then some 2 else none
  | _ => none

/-- The largest cursor position a screen admits: the last item of a menu drawn
by `generic_menu_P`, and for the two speed editors the last item of the speed
menu, to which they return without writing the cursor. -/
def cursor_limit : menu_state → Option Nat
  | menu_state.HOME => some 2
  | menu_state.SPEED_STATE => some 2
  | menu_state.SPEED_CURING => some 2
  | menu_state.SPEED_WASHING => some 2
  | menu_state.SOUND_SETTINGS => some 2
  | menu_state.RUN_MENU => some 2
  | menu_state.SELFTEST => some 1
  | _ => none

/-- Position `p` is within the limit of screen `st`. -/
def cursor_fits (st : menu_state) (p : Nat) : Prop :=
  match cursor_limit st with
  | some m => p ≤ m
  | none => True

instance (st : menu_state) (p : Nat) : Decidable (cursor_fits st p) := by
  unfold cursor_fits; split <;> infer_instance

/-- The cursor of `s` is within the limit of the screen of `s`. -/
def cursor_ok (s : Sys) : Prop := cursor_fits s.state s.menu_position

instance (s : Sys) : Decidable (cursor_ok s) := by
  unfold cursor_ok; infer_instance

/-- The speed menu with the cursor on its last item, the encoder turned up. -/
def speed_menu_last : Sys :=
  { after_setup with state := menu_state.SPEED_STATE, menu_position := 2, rotary_diff := 129 }

/-- Successive runs of the 1 ms tick handler `SIGNAL(TIMER0_COMPA_vect)`, one
for each sample of the encoder pins, first sample first. -/
def ticks (c : Consts) : List TickIn → Sys → Sys
  | [], s => s
  | t :: ts, s => ticks c ts (TIMER0_COMPA_vect c t s)

/-- A pass of `loop()` that the 1 ms timer interrupt preempts: the ticks `ts`
run after the heater-fault block (lines 833 to 842) and before the rest of the
pass (lines 844 to 957), where the error screen is written to the display.
With no tick it is `loop`. -/
def loop_preempted (e : Ext) (c : Consts) (i : LoopIn) (ts : List TickIn) (s : Sys) : Sys :=
  let s := loop_timers e i s
  let s := loop_selftest e c i s
  let s := loop_heater_stop e c s
  let s := ticks c ts s
  let s := loop_home_mode i s
  let s := loop_heater_error s
  loop_tail e c i s

/-- The heat-to-target run in its hold phase with the heater on and the chamber
at 36 degrees, one above the target: two passes after `heat_run_reached`. -/
def heat_hold : Sys :=
  loop sample_ext sample_consts (heat_in 6030 36)
    (loop sample_ext sample_consts (heat_in 6020 36) heat_run_reached)

/-- The heat-to-target run right after the 1000th tick of a supervision period
in which the heater fan tachometer gave no pulse: the heater fault flag has
been raised, `pid_mode` is still set. -/
def heat_fault_state : Sys := fan_rpm { heat_hold with ams_fan_counter := 999 }

/-- The machine after `setup()` with an edited configuration in RAM (curing
time 7 minutes, "heat to target temperature" on, preheat fans at 45 and 55
percent) and the speeds 8 and 4 selected in `speed_control`. -/
def config_edited : Sys :=
  { after_setup with
    config := { after_setup.config with curing_run_time := 7, heat_to_target_temp := 1,
                                        fans_preheat_speed := ⟨45, 55⟩ },
    speed_control := { after_setup.speed_control with washing_speed := 8, curing_speed := 4 } }

/-- The next power-up after `config_edited` was saved: the globals at their
initialisers (the record in RAM at the compiled defaults), the EEPROM as
`write_config` left it. -/
def config_restart : Sys :=
  { power_up with eeprom := (write_config config_edited).eeprom }

/-- The machine after `setup()` with the run mode "curing" (mode 1) selected
and "heat to target temperature" switched on. -/
def curing_heat_setup : Sys :=
  { after_setup with
    config := { after_setup.config with curing_machine_mode := 1, heat_to_target_temp := 1 } }

/-- A curing run in progress: no tank, cover closed, the button pressed at
10 ms and released at 20 ms on the home screen, and the first pass of the run
at 30 ms. -/
def curing_heat_run : Sys :=
  loop sample_ext sample_consts (curing_in 30)
    (loop sample_ext sample_consts (curing_in 20)
      (loop sample_ext sample_consts { curing_in 10 with btn_enc := false } curing_heat_setup))

/-- The curing run paused: a press on the running screen opens the run menu, a
press on its item 0 pauses. -/
def curing_heat_paused : Sys :=
  button_press sample_ext sample_consts (curing_in 2000)
    (button_press sample_ext sample_consts (curing_in 1000) curing_heat_run)

/-- The paused curing run with the run menu open again. -/
def curing_heat_menu : Sys :=
  button_press sample_ext sample_consts (curing_in 3000) curing_heat_paused

/-! # Theorems -/

theorem setAt_same {α : Type} (a : Nat → α) (j : Nat) (v : α) : setAt a j v j = v := by
  simp [setAt]

theorem setAt_other {α : Type} (a : Nat → α) (j k : Nat) (v : α) (h : k ≠ j) :
    setAt a j v k = a k := by
  simp [setAt, h]

/-- What one stall check does to the latch of fan `j`. -/
theorem fan_rpm_check_fan_error (j : Nat) (s : Sys) :
    (fan_rpm_check j s).fan_error =
      if s.fan_tacho_count j ≤ s.fan_tacho_last_count j then
        (if fan_duty_test j s.fan_duty then setAt s.fan_error j true else s.fan_error)
      else setAt s.fan_error j false := by
  unfold fan_rpm_check
  simp only []
  split <;> split <;> (try split) <;> simp_all

theorem fan_rpm_check_other (j k : Nat) (h : k ≠ j) (s : Sys) :
    (fan_rpm_check j s).fan_error k = s.fan_error k
    ∧ ((fan_rpm_check j s).fan_tacho_count k = s.fan_tacho_count k)
    ∧ ((fan_rpm_check j s).fan_tacho_last_count k = s.fan_tacho_last_count k) := by
  unfold fan_rpm_check
  simp only []
  split <;> split <;> (try split) <;> simp_all [setAt]

theorem fan_rpm_check_fan_duty (j : Nat) (s : Sys) :
    (fan_rpm_check j s).fan_duty = s.fan_duty := by
  unfold fan_rpm_check
  simp only []
  split <;> split <;> (try split) <;> simp_all

theorem fan_rpm_heater_fan_error (s : Sys) :
    (fan_rpm_heater s).fan_error = s.fan_error ∧ (fan_rpm_heater s).fan_duty = s.fan_duty := by
  unfold fan_rpm_heater write_config
  simp only []
  constructor <;> (repeat' split) <;> simp_all

theorem fan_rpm_check_tacho (j : Nat) (s : Sys) :
    (fan_rpm_check j s).fan_tacho_count j = (fan_rpm_check j s).fan_tacho_last_count j := by
  unfold fan_rpm_check
  simp only []
  split <;> split <;> (try split) <;> simp_all [setAt]

theorem fan_rpm_heater_tacho (s : Sys) (k : Nat) (h : k ≠ 2) :
    (fan_rpm_heater s).fan_tacho_count k = s.fan_tacho_count k
    ∧ (fan_rpm_heater s).fan_tacho_last_count k = s.fan_tacho_last_count k := by
  unfold fan_rpm_heater write_config
  simp only []
  constructor <;> (repeat' split) <;> simp_all [setAt]

theorem fan_duty_test_iff (j : Nat) (d : fans_duty_t) :
    fan_duty_test j d = true ↔ 0 < duty_of d j := by
  unfold fan_duty_test duty_of
  by_cases h : j = 0 <;> simp [h, Nat.pos_iff_ne_zero]

theorem fan_rpm_check_fan_error_self (j : Nat) (s : Sys) :
    (fan_rpm_check j s).fan_error j =
      if s.fan_tacho_count j ≤ s.fan_tacho_last_count j then
        (if 0 < duty_of s.fan_duty j then true else s.fan_error j)
      else false := by
  rw [fan_rpm_check_fan_error]
  by_cases h1 : s.fan_tacho_count j ≤ s.fan_tacho_last_count j
  · by_cases h2 : 0 < duty_of s.fan_duty j
    · simp [h1, h2, (fan_duty_test_iff j s.fan_duty).2 h2, setAt]
    · have h3 : ¬ fan_duty_test j s.fan_duty = true := fun h => h2 ((fan_duty_test_iff _ _).1 h)
      simp [h1, h2, h3]
  · simp [h1, setAt]

/-- Effect of one call of `fan_rpm` on the latch of fan `j`. -/
theorem fan_rpm_fan_error (s : Sys) (j : Nat) (hj : j = 0 ∨ j = 1) :
    (fan_rpm s).fan_error j =
      if stall_check_due s then
        (if s.fan_tacho_count j ≤ s.fan_tacho_last_count j then
          (if 0 < duty_of s.fan_duty j then true else s.fan_error j)
         else false)
      else s.fan_error j := by
  unfold fan_rpm stall_check_due
  simp only []
  split
  · rw [(fan_rpm_heater_fan_error _).1]
    rcases hj with rfl | rfl
    · rw [(fan_rpm_check_other 1 0 (by decide) _).1, fan_rpm_check_fan_error_self]
    · rw [fan_rpm_check_fan_error_self, (fan_rpm_check_other 0 1 (by decide) _).2.1,
        (fan_rpm_check_other 0 1 (by decide) _).2.2, (fan_rpm_check_other 0 1 (by decide) _).1,
        fan_rpm_check_fan_duty]
  · rfl

theorem fan_rpm_fan_duty (s : Sys) : (fan_rpm s).fan_duty = s.fan_duty := by
  unfold fan_rpm
  simp only []
  split
  · rw [(fan_rpm_heater_fan_error _).2, fan_rpm_check_fan_duty, fan_rpm_check_fan_duty]
  · rfl

theorem fan_rpm_keeps_stalled (s : Sys) (j : Nat) (hj : j = 0 ∨ j = 1)
    (h : s.fan_tacho_count j ≤ s.fan_tacho_last_count j) :
    (fan_rpm s).fan_tacho_count j ≤ (fan_rpm s).fan_tacho_last_count j := by
  unfold fan_rpm
  simp only []
  split
  · have h2 : j ≠ 2 := by rcases hj with rfl | rfl <;> decide
    rw [(fan_rpm_heater_tacho _ j h2).1, (fan_rpm_heater_tacho _ j h2).2]
    rcases hj with rfl | rfl
    · rw [(fan_rpm_check_other 1 0 (by decide) _).2.1, (fan_rpm_check_other 1 0 (by decide) _).2.2]
      exact le_of_eq (fan_rpm_check_tacho 0 _)
    · exact le_of_eq (fan_rpm_check_tacho 1 _)
  · exact h

theorem fan_rpm_iter_latched (n : Nat) (s : Sys) (j : Nat) (hj : j = 0 ∨ j = 1)
    (herr : s.fan_error j = true)
    (hstall : s.fan_tacho_count j ≤ s.fan_tacho_last_count j) :
    (fan_rpm_iter n s).fan_error j = true := by
  induction n generalizing s with
  | zero => exact herr
  | succ n ih =>
    apply ih
    · rw [fan_rpm_fan_error s j hj]
      split <;> simp_all
    · exact fan_rpm_keeps_stalled s j hj hstall

/-- C5: when `fan_rpm` performs a stall check and the tachometer count of fan
`j` has not increased since the previous check while the duty of that fan is
above zero, `fan_error[j]` is true afterwards, and it is still true after every
further call made with no tachometer pulse in between, in particular after the
next check (the 101st call). -/
theorem fan_rpm_stall_sets_latch (s : Sys) (j : Nat) (hj : j = 0 ∨ j = 1)
    (hdue : stall_check_due s)
    (hstall : s.fan_tacho_count j ≤ s.fan_tacho_last_count j)
    (hduty : 0 < duty_of s.fan_duty j) :
    (fan_rpm s).fan_error j = true
      ∧ (∀ n, (fan_rpm_iter (n + 1) s).fan_error j = true)
      ∧ (fan_rpm_iter (100 + 1) s).fan_error j = true := by
  have h1 : (fan_rpm s).fan_error j = true := by
    rw [fan_rpm_fan_error s j hj]; simp [hdue, hstall, hduty]
  have h2 : ∀ n, (fan_rpm_iter (n + 1) s).fan_error j = true := fun n =>
    fan_rpm_iter_latched n (fan_rpm s) j hj h1 (fan_rpm_keeps_stalled s j hj hstall)
  exact ⟨h1, h2, h2 100⟩

theorem fan_rpm_stall_sets_latch_witness :
    (fan_rpm stalled_fan_state).fan_error 0 = true
      ∧ (∀ n, (fan_rpm_iter (n + 1) stalled_fan_state).fan_error 0 = true)
      ∧ (fan_rpm_iter (100 + 1) stalled_fan_state).fan_error 0 = true :=
  fan_rpm_stall_sets_latch stalled_fan_state 0 (Or.inl rfl)
    (by decide) (by decide) (by decide)

/-- C6 as stated fails: a latched fan error is cleared by `fan_rpm` at a check
where the tachometer count has increased, although the duty of the fan is 0. -/
theorem fan_rpm_clears_latch_at_zero_duty :
    latched_turning_state.fan_error 0 = true
    ∧ duty_of latched_turning_state.fan_duty 0 = 0
    ∧ (fan_rpm latched_turning_state).fan_error 0 = false := by
  decide

/-- C6 (amended): once `fan_error[j]` is set, a call of `fan_rpm` leaves it set
whatever the duty of the fan (also at duty 0), unless the call performs a check
at which the tachometer count has increased since the previous check; exactly
in that case `fan_rpm` clears the latch. -/
theorem fan_rpm_latch_sticky (s : Sys) (j : Nat) (hj : j = 0 ∨ j = 1)
    (herr : s.fan_error j = true) :
    ((fan_rpm s).fan_error j = false ↔
      (stall_check_due s ∧ s.fan_tacho_last_count j < s.fan_tacho_count j))
    ∧ (s.fan_tacho_count j ≤ s.fan_tacho_last_count j →
        ∀ n, (fan_rpm_iter n s).fan_error j = true) := by
  constructor
  · rw [fan_rpm_fan_error s j hj]
    by_cases hd : stall_check_due s <;>
      by_cases hs : s.fan_tacho_count j ≤ s.fan_tacho_last_count j <;>
      by_cases hp : 0 < duty_of s.fan_duty j <;> simp [hd, hs, hp, herr] <;> omega
  · intro hstall n
    exact fan_rpm_iter_latched n s j hj herr hstall

theorem fan_rpm_latch_sticky_witness :
    latched_idle_state.fan_error 1 = true
    ∧ ((fan_rpm latched_idle_state).fan_error 1 = false ↔
      (stall_check_due latched_idle_state
        ∧ latched_idle_state.fan_tacho_last_count 1 < latched_idle_state.fan_tacho_count 1))
    ∧ (latched_idle_state.fan_tacho_count 1 ≤ latched_idle_state.fan_tacho_last_count 1 →
        ∀ n, (fan_rpm_iter n latched_idle_state).fan_error 1 = true) :=
  ⟨rfl, fan_rpm_latch_sticky latched_idle_state 1 (Or.inr rfl) rfl⟩

theorem read_encoder_rotary_diff (c : Consts) (i : TickIn) (s : Sys) :
    (read_encoder c i s).rotary_diff
      = (read_encoder_step c s.lcd_encoder_bits s.rotary_diff (encoder_sample i)).2 := rfl

theorem read_encoder_step_delta (c : Consts) (prev rd enc : Nat) :
    (read_encoder_step c prev rd enc).2 = rd
      ∨ (read_encoder_step c prev rd enc).2 = rd + 1
      ∨ (read_encoder_step c prev rd enc).2 + 1 = rd := by
  unfold read_encoder_step
  simp only []
  repeat' split
  all_goals first
    | (left; rfl)
    | (right; left; rfl)
    | (right; right; simp only []; omega)

theorem read_encoder_step_same (c : Consts) (prev rd : Nat) :
    (read_encoder_step c prev rd prev).2 = rd := by
  simp [read_encoder_step]

theorem read_encoder_step_invalid (c : Consts) (hd : encrot_distinct c) (prev rd enc : Nat)
    (h : invalid_jump c prev enc) : (read_encoder_step c prev rd enc).2 = rd := by
  obtain ⟨h01, h02, h03, h12, h13, h23⟩ := hd
  unfold read_encoder_step
  rcases h with ⟨rfl, rfl⟩ | ⟨rfl, rfl⟩ | ⟨rfl, rfl⟩ | ⟨rfl, rfl⟩ <;>
    simp [h01, h02, h03, h12, h13, h23, Ne.symm h01, Ne.symm h02, Ne.symm h03, Ne.symm h12,
      Ne.symm h13, Ne.symm h23]

/-- C7: with the four encoder states pairwise different, one call of
`read_encoder` changes `rotary_diff` by -1, 0 or +1, whatever the previous
state and the sampled pins; when the sampled state equals the previous state,
or lies two steps away in the rotation cycle, `rotary_diff` is unchanged. -/
theorem read_encoder_delta (c : Consts) (hd : encrot_distinct c) (i : TickIn) (s : Sys) :
    ((read_encoder c i s).rotary_diff = s.rotary_diff
      ∨ (read_encoder c i s).rotary_diff = s.rotary_diff + 1
      ∨ (read_encoder c i s).rotary_diff + 1 = s.rotary_diff)
    ∧ (encoder_sample i = s.lcd_encoder_bits →
        (read_encoder c i s).rotary_diff = s.rotary_diff)
    ∧ (invalid_jump c s.lcd_encoder_bits (encoder_sample i) →
        (read_encoder c i s).rotary_diff = s.rotary_diff) := by
  rw [read_encoder_rotary_diff]
  refine ⟨read_encoder_step_delta _ _ _ _, ?_, read_encoder_step_invalid c hd _ _ _⟩
  intro h
  rw [h]
  exact read_encoder_step_same _ _ _

theorem read_encoder_delta_witness :
    invalid_jump sample_consts power_up.lcd_encoder_bits (encoder_sample pins_high)
    ∧ (((read_encoder sample_consts pins_high power_up).rotary_diff = power_up.rotary_diff
      ∨ (read_encoder sample_consts pins_high power_up).rotary_diff = power_up.rotary_diff + 1
      ∨ (read_encoder sample_consts pins_high power_up).rotary_diff + 1 = power_up.rotary_diff)
    ∧ (encoder_sample pins_high = power_up.lcd_encoder_bits →
        (read_encoder sample_consts pins_high power_up).rotary_diff = power_up.rotary_diff)
    ∧ (invalid_jump sample_consts power_up.lcd_encoder_bits (encoder_sample pins_high) →
        (read_encoder sample_consts pins_high power_up).rotary_diff
          = power_up.rotary_diff)) :=
  ⟨by decide, read_encoder_delta sample_consts (by decide) pins_high power_up⟩

theorem read_encoder_step_le (c : Consts) (prev rd enc : Nat) (h : rd ≤ 255) :
    (read_encoder_step c prev rd enc).2 ≤ 255 := by
  unfold read_encoder_step
  simp only []
  repeat' split
  all_goals simp only []; omega

theorem read_encoder_step_forward_top (c : Consts) (hd : encrot_distinct c) (prev enc : Nat)
    (h : forward_transition c prev enc) : (read_encoder_step c prev 255 enc).2 = 255 := by
  obtain ⟨h01, h02, h03, h12, h13, h23⟩ := hd
  unfold read_encoder_step
  rcases h with ⟨rfl, rfl⟩ | ⟨rfl, rfl⟩ | ⟨rfl, rfl⟩ | ⟨rfl, rfl⟩ <;>
    simp [h01, h02, h03, h12, h13, h23, Ne.symm h01, Ne.symm h02, Ne.symm h03, Ne.symm h12,
      Ne.symm h13, Ne.symm h23]

theorem read_encoder_step_backward_zero (c : Consts) (hd : encrot_distinct c) (prev enc : Nat)
    (h : backward_transition c prev enc) : (read_encoder_step c prev 0 enc).2 = 0 := by
  obtain ⟨h01, h02, h03, h12, h13, h23⟩ := hd
  unfold read_encoder_step
  rcases h with ⟨rfl, rfl⟩ | ⟨rfl, rfl⟩ | ⟨rfl, rfl⟩ | ⟨rfl, rfl⟩ <;>
    simp [h01, h02, h03, h12, h13, h23, Ne.symm h01, Ne.symm h02, Ne.symm h03, Ne.symm h12,
      Ne.symm h13, Ne.symm h23]

/-- C8: `rotary_diff` saturates and never wraps: with the four encoder states
pairwise different, `read_encoder` leaves `rotary_diff` at 255 on a forward
transition when it is already 255 and at 0 on a backward transition when it is
already 0, and a value of at most 255 stays at most 255 on every call. -/
theorem read_encoder_saturates (c : Consts) (hd : encrot_distinct c) (i : TickIn) (s : Sys) :
    (s.rotary_diff = 255 → forward_transition c s.lcd_encoder_bits (encoder_sample i) →
        (read_encoder c i s).rotary_diff = 255)
    ∧ (s.rotary_diff = 0 → backward_transition c s.lcd_encoder_bits (encoder_sample i) →
        (read_encoder c i s).rotary_diff = 0)
    ∧ (s.rotary_diff ≤ 255 → (read_encoder c i s).rotary_diff ≤ 255) := by
  rw [read_encoder_rotary_diff]
  refine ⟨?_, ?_, read_encoder_step_le _ _ _ _⟩
  · intro h0 hf
    rw [h0]
    exact read_encoder_step_forward_top c hd _ _ hf
  · intro h0 hb
    rw [h0]
    exact read_encoder_step_backward_zero c hd _ _ hb

theorem read_encoder_saturates_witness :
    (forward_transition sample_consts encoder_top_state.lcd_encoder_bits (encoder_sample pins_low)
      ∧ (read_encoder sample_consts pins_low encoder_top_state).rotary_diff = 255)
    ∧ (backward_transition sample_consts encoder_bottom_state.lcd_encoder_bits
          (encoder_sample pins_low)
      ∧ (read_encoder sample_consts pins_low encoder_bottom_state).rotary_diff = 0) :=
  ⟨⟨by decide, (read_encoder_saturates sample_consts (by decide) pins_low encoder_top_state).1
      rfl (by decide)⟩,
   ⟨by decide, (read_encoder_saturates sample_consts (by decide) pins_low
      encoder_bottom_state).2.1 rfl (by decide)⟩⟩

/-- The value `PI_regulator` leaves in `summErr`, in closed form. -/
theorem PI_summErr_eq (summErr actualTemp : ℚ) (targetTemp : Nat) :
    PI_summErr summErr actualTemp targetTemp =
      if summErr + (actualTemp - targetTemp) > 10000
          ∨ summErr + (actualTemp - targetTemp) < -10000 then 10000
      else summErr + (actualTemp - targetTemp) := rfl

theorem PI_newSpeed_le (c : Consts) (summErr actualTemp : ℚ) (targetTemp : Nat) :
    PI_newSpeed c summErr actualTemp targetTemp ≤ 100 := by
  unfold PI_newSpeed
  simp only []
  split
  · exact le_refl _
  · exact le_of_not_lt ‹_›

theorem PI_summErr_nonneg (summErr actualTemp : ℚ) (targetTemp : Nat)
    (hs : 0 ≤ summErr) (ht : (targetTemp : ℚ) ≤ actualTemp) :
    0 ≤ PI_summErr summErr actualTemp targetTemp := by
  rw [PI_summErr_eq]
  split
  · norm_num
  · linarith

theorem PI_newSpeed_nonneg (c : Consts) (hP : 0 ≤ c.P) (hI : 0 ≤ c.I)
    (summErr actualTemp : ℚ) (targetTemp : Nat)
    (hs : 0 ≤ summErr) (ht : (targetTemp : ℚ) ≤ actualTemp) :
    0 ≤ PI_newSpeed c summErr actualTemp targetTemp := by
  have h1 := PI_summErr_nonneg summErr actualTemp targetTemp hs ht
  unfold PI_newSpeed
  simp only []
  split
  · norm_num
  · have h2 : 0 ≤ c.P * (actualTemp - targetTemp) := mul_nonneg hP (by linarith)
    have h3 : 0 ≤ c.I * PI_summErr summErr actualTemp targetTemp := mul_nonneg hI h1
    linarith

theorem double_to_uint8_le (c : Consts) (x : ℚ) (h0 : 0 ≤ x) (h1 : x ≤ 100) :
    double_to_uint8 c x ≤ 100 := by
  unfold double_to_uint8
  have hx : -1 < x ∧ x < 256 := ⟨by linarith, by linarith⟩
  rw [if_pos hx]
  have h2 : ⌊x⌋ ≤ 100 := by
    have : ⌊x⌋ ≤ ⌊(100 : ℚ)⌋ := Int.floor_mono h1
    simpa using this
  omega

/-- For positive `P` and non-negative `I` the regulator output is negative for
a chamber at 0 degrees against target 50. -/
theorem PI_newSpeed_negative (c : Consts) (hP : 0 < c.P) (hI : 0 ≤ c.I) :
    PI_newSpeed c 0 0 50 < 0 := by
  unfold PI_newSpeed PI_summErr
  norm_num
  have h1 : c.P * 50 > 0 := by positivity
  have h2 : c.I * 50 ≥ 0 := by positivity
  split <;> linarith

/-- C10 as stated fails: with no accumulated integral, a chamber at 0 degrees
and target 50, the value computed as new fan duty is -500.05; it is not raised
to 0. -/
theorem PI_newSpeed_not_clamped_below :
    PI_newSpeed sample_consts 0 0 50 = -10001 / 20
      ∧ ¬ (0 ≤ PI_newSpeed sample_consts 0 0 50) := by
  have h : PI_newSpeed sample_consts 0 0 50 = -10001 / 20 := by
    norm_num [PI_newSpeed, PI_summErr, sample_consts]
  refine ⟨h, ?_⟩
  rw [h]; norm_num

/-- The three outcomes of the regulation block of the tick handler. -/
theorem tick_pid_cases (c : Consts) (s : Sys) :
    tick_pid c s = s ∨ tick_pid c s = { s with fan_duty := fans_menu_speed }
    ∨ ∃ t : Nat, (t : ℚ) ≤ s.chamber_temp
        ∧ tick_pid c s = { s with summErr := (PI_regulator c s.summErr s.chamber_temp t).1,
                                  fan_duty := ⟨(PI_regulator c s.summErr s.chamber_temp t).2,
                                               (PI_regulator c s.summErr s.chamber_temp t).2⟩ } := by
  unfold tick_pid
  by_cases h1 : s.pid_mode = true
  · rw [if_pos h1]
    by_cases h2 : s.config.curing_machine_mode = 0 ∨ s.config.curing_machine_mode = 2
        ∨ s.config.curing_machine_mode = 3
        ∨ (s.selftest.phase = 5 ∧ s.state = menu_state.SELFTEST)
    · rw [if_pos h2]
      simp only []
      by_cases h3 : s.chamber_temp ≥ ((if s.config.curing_machine_mode = 3
          then s.config.resin_target_temp else s.config.target_temp : Nat) : ℚ)
      · rw [if_pos h3]
        exact Or.inr (Or.inr ⟨_, h3, rfl⟩)
      · rw [if_neg h3]
        exact Or.inr (Or.inl rfl)
    · rw [if_neg h2]
      exact Or.inl rfl
  · rw [if_neg h1]
    exact Or.inl rfl

/-- C10 (amended): the value `PI_regulator` computes as new fan duty is clamped
from above to 100 for every input.  With non-negative gains, for a measured
temperature at or above the target and a non-negative accumulated integral (the
calls the tick handler makes) the value lies in `[0, 100]`, the byte returned
is at most 100 and the integral stays non-negative; so the duty pair left by
the regulation block of the tick handler stays within `[0, 100]`. -/
theorem PI_regulator_duty_range (c : Consts) (hP : 0 ≤ c.P) (hI : 0 ≤ c.I) :
    (∀ (summErr actualTemp : ℚ) (targetTemp : Nat),
        PI_newSpeed c summErr actualTemp targetTemp ≤ 100
        ∧ (100 < c.P * (actualTemp - targetTemp) + c.I * PI_summErr summErr actualTemp targetTemp →
            PI_newSpeed c summErr actualTemp targetTemp = 100))
    ∧ (∀ (summErr actualTemp : ℚ) (targetTemp : Nat),
        0 ≤ summErr → (targetTemp : ℚ) ≤ actualTemp →
          0 ≤ PI_newSpeed c summErr actualTemp targetTemp
          ∧ (PI_regulator c summErr actualTemp targetTemp).2 ≤ 100
          ∧ 0 ≤ (PI_regulator c summErr actualTemp targetTemp).1)
    ∧ (∀ s : Sys, 0 ≤ s.summErr → s.fan_duty.fan1 ≤ 100 → s.fan_duty.fan2 ≤ 100 →
          (tick_pid c s).fan_duty.fan1 ≤ 100 ∧ (tick_pid c s).fan_duty.fan2 ≤ 100
          ∧ 0 ≤ (tick_pid c s).summErr) := by
  refine ⟨fun summErr actualTemp targetTemp => ⟨PI_newSpeed_le c _ _ _, ?_⟩, ?_, ?_⟩
  · intro h
    unfold PI_newSpeed
    simp only []
    rw [if_pos h]
  · intro summErr actualTemp targetTemp hs ht
    exact ⟨PI_newSpeed_nonneg c hP hI _ _ _ hs ht,
      double_to_uint8_le c _ (PI_newSpeed_nonneg c hP hI _ _ _ hs ht) (PI_newSpeed_le c _ _ _),
      PI_summErr_nonneg _ _ _ hs ht⟩
  · intro s hs h1 h2
    rcases tick_pid_cases c s with h | h | ⟨t, ht, h⟩
    · rw [h]; exact ⟨h1, h2, hs⟩
    · rw [h]; exact ⟨by simp [fans_menu_speed], by simp [fans_menu_speed], hs⟩
    · rw [h]
      exact ⟨double_to_uint8_le c _ (PI_newSpeed_nonneg c hP hI _ _ _ hs ht)
          (PI_newSpeed_le c _ _ _),
        double_to_uint8_le c _ (PI_newSpeed_nonneg c hP hI _ _ _ hs ht)
          (PI_newSpeed_le c _ _ _),
        PI_summErr_nonneg _ _ _ hs ht⟩

theorem PI_regulator_duty_range_witness :
    (PI_regulator sample_consts 0 60 35).2 = 100
    ∧ (PI_regulator sample_consts 0 36 35).2 = 10
    ∧ ((∀ (summErr actualTemp : ℚ) (targetTemp : Nat),
        PI_newSpeed sample_consts summErr actualTemp targetTemp ≤ 100
        ∧ (100 < sample_consts.P * (actualTemp - targetTemp)
              + sample_consts.I * PI_summErr summErr actualTemp targetTemp →
            PI_newSpeed sample_consts summErr actualTemp targetTemp = 100))
    ∧ (∀ (summErr actualTemp : ℚ) (targetTemp : Nat),
        0 ≤ summErr → (targetTemp : ℚ) ≤ actualTemp →
          0 ≤ PI_newSpeed sample_consts summErr actualTemp targetTemp
          ∧ (PI_regulator sample_consts summErr actualTemp targetTemp).2 ≤ 100
          ∧ 0 ≤ (PI_regulator sample_consts summErr actualTemp targetTemp).1)
    ∧ (∀ s : Sys, 0 ≤ s.summErr → s.fan_duty.fan1 ≤ 100 → s.fan_duty.fan2 ≤ 100 →
          (tick_pid sample_consts s).fan_duty.fan1 ≤ 100
          ∧ (tick_pid sample_consts s).fan_duty.fan2 ≤ 100
          ∧ 0 ≤ (tick_pid sample_consts s).summErr)) := by
  refine ⟨?_, ?_, PI_regulator_duty_range sample_consts (by norm_num [sample_consts])
    (by norm_num [sample_consts])⟩
  · norm_num [PI_regulator, PI_newSpeed, PI_summErr, sample_consts, double_to_uint8]
    rfl
  · norm_num [PI_regulator, PI_newSpeed, PI_summErr, sample_consts, double_to_uint8]
    rfl

/-! ### Frame facts of the loop stages under a heater fault -/

theorem count_cons_ne (a b : Event) (l : List Event) (h : b ≠ a) :
    (b :: l).count a = l.count a := by
  simp [List.count_cons, h]

theorem menu_move_echo_cases (b : Bool) (s : Sys) :
    menu_move_echo b s = s ∨ menu_move_echo b s = echo s := by
  unfold menu_move_echo
  split
  · split
    · exact Or.inr rfl
    · exact Or.inl rfl
  · exact Or.inl rfl

theorem menu_move_screen_error (e : Ext) (c : Consts) (s : Sys)
    (h : s.state = menu_state.ERROR) : menu_move_screen e c s = s := by
  unfold menu_move_screen
  rw [h]

theorem menu_move_error (e : Ext) (c : Consts) (b : Bool) (s : Sys)
    (h : s.state = menu_state.ERROR) :
    (menu_move e c b s).state = menu_state.ERROR
    ∧ (menu_move e c b s).heater_error = s.heater_error
    ∧ (menu_move e c b s).speed_control = s.speed_control
    ∧ (menu_move e c b s).heater_running = s.heater_running
    ∧ (menu_move e c b s).fan_duty = s.fan_duty
    ∧ (menu_move e c b s).menu_position = s.menu_position
    ∧ presses (menu_move e c b s) = presses s
    ∧ encoder_reads (menu_move e c b s) = encoder_reads s := by
  unfold menu_move
  simp only []
  rcases menu_move_echo_cases b s with h1 | h1 <;> rw [h1]
  · rw [menu_move_screen_error e c { s with redraw_menu := false } h]
    simp [h, presses, encoder_reads]
  · rw [menu_move_screen_error e c { echo s with redraw_menu := false } h]
    simp [h, presses, encoder_reads, echo]

theorem keeps_refl (s : Sys) : keeps s s := ⟨rfl, rfl, rfl, rfl, rfl, rfl⟩

theorem keeps_trans {s t u : Sys} (h1 : keeps s t) (h2 : keeps t u) : keeps s u := by
  unfold keeps at h1 h2 ⊢
  refine ⟨?_, ?_, ?_, ?_, ?_, ?_⟩
  · rw [h2.1, h1.1]
  · rw [h2.2.1, h1.2.1]
  · rw [h2.2.2.1, h1.2.2.1]
  · rw [h2.2.2.2.1, h1.2.2.2.1]
  · rw [h2.2.2.2.2.1, h1.2.2.2.2.1]
  · rw [h2.2.2.2.2.2, h1.2.2.2.2.2]

theorem menu_move_error_keeps (e : Ext) (c : Consts) (b : Bool) (s : Sys)
    (h : s.state = menu_state.ERROR) :
    keeps s (menu_move e c b s) ∧ (menu_move e c b s).fan_duty = s.fan_duty := by
  obtain ⟨h1, h2, h3, h4, h5, _, h6, h7⟩ := menu_move_error e c b s h
  exact ⟨⟨h1.trans h.symm, h2, by rw [h3], h4, h6, h7⟩, h5⟩

theorem loop_confirm_beep_error (i : LoopIn) (s : Sys) (h : s.state = menu_state.ERROR) :
    loop_confirm_beep i s = s := by
  unfold loop_confirm_beep
  simp [h]

theorem loop_last_mode_keeps (s : Sys) :
    keeps s (loop_last_mode s) ∧ (loop_last_mode s).fan_duty = s.fan_duty := by
  unfold loop_last_mode keeps presses encoder_reads
  split <;> simp

theorem loop_acceleration_keeps (e : Ext) (i : LoopIn) (s : Sys) :
    keeps s (loop_acceleration e i s) ∧ (loop_acceleration e i s).fan_duty = s.fan_duty := by
  unfold loop_acceleration acceleration50ms keeps presses encoder_reads
  simp only []
  repeat' split
  all_goals simp

theorem loop_rotary_error (e : Ext) (c : Consts) (s : Sys) (h : s.state = menu_state.ERROR) :
    keeps s (loop_rotary e c s) ∧ (loop_rotary e c s).fan_duty = s.fan_duty := by
  unfold loop_rotary
  split
  · exact menu_move_error_keeps e c true s h
  · exact ⟨keeps_refl s, rfl⟩

theorem loop_running_error (e : Ext) (c : Consts) (i : LoopIn) (s : Sys)
    (h : s.state = menu_state.ERROR) : loop_running e c i s = s := by
  unfold loop_running
  simp [h]

theorem long_press_action_error (e : Ext) (c : Consts) (s : Sys)
    (h : s.state = menu_state.ERROR) : long_press_action e c s = s := by
  unfold long_press_action
  rw [h]

theorem button_down_error (e : Ext) (c : Consts) (i : LoopIn) (s : Sys)
    (h : s.state = menu_state.ERROR) :
    keeps s (button_down e c i s) ∧ (button_down e c i s).fan_duty = s.fan_duty := by
  unfold button_down
  simp only []
  by_cases ha : s.button_active = false
  · rw [if_pos ha]
    split
    · rw [long_press_action_error e c _ (by simpa using h)]
      simp [keeps, presses, encoder_reads]
    · simp [keeps, presses, encoder_reads]
  · rw [if_neg ha]
    split
    · rw [long_press_action_error e c _ (by simpa using h)]
      simp [keeps, presses, encoder_reads]
    · exact ⟨keeps_refl s, rfl⟩

theorem button_up_error (e : Ext) (c : Consts) (i : LoopIn) (s : Sys)
    (he : s.heater_error = true) :
    keeps s (button_up e c i s) ∧ (button_up e c i s).fan_duty = s.fan_duty := by
  unfold button_up
  simp only []
  split
  · split
    · simp [keeps, presses, encoder_reads]
    · simp [he, keeps, presses, encoder_reads]
  · exact ⟨keeps_refl s, rfl⟩

theorem loop_button_error (e : Ext) (c : Consts) (i : LoopIn) (s : Sys)
    (h : s.state = menu_state.ERROR) (he : s.heater_error = true) :
    keeps s (loop_button e c i s) ∧ (loop_button e c i s).fan_duty = s.fan_duty := by
  unfold loop_button
  split
  · exact button_down_error e c i s h
  · exact button_up_error e c i s he

theorem keeps_cursor_error : keeps_cursor menu_state.ERROR = false := by decide

theorem loop_reinit_error (e : Ext) (c : Consts) (i : LoopIn) (s : Sys)
    (h : s.state = menu_state.ERROR) :
    keeps s (loop_reinit e c i s) ∧ (loop_reinit e c i s).fan_duty = s.fan_duty := by
  unfold loop_reinit
  split
  · have hk : ¬ (keeps_cursor s.state = true) := by rw [h]; decide
    simp only []
    rw [if_neg hk]
    have k1 : keeps s { s with time_now := i.millis, log := Event.lcd_reinit :: s.log,
                               redraw_menu := true } := by
      simp [keeps, presses, encoder_reads]
    have hm := menu_move_error_keeps e c false
      { s with time_now := i.millis, log := Event.lcd_reinit :: s.log, redraw_menu := true } h
    have hk2 : ¬ (keeps_cursor (menu_move e c false
        { s with time_now := i.millis, log := Event.lcd_reinit :: s.log,
                 redraw_menu := true }).state = true) := by
      rw [hm.1.1]; exact hk
    rw [if_neg hk2]
    exact ⟨keeps_trans k1 hm.1, hm.2⟩
  · exact ⟨keeps_refl s, rfl⟩

theorem loop_therm_keeps (i : LoopIn) (s : Sys) :
    keeps s (loop_therm i s) ∧ (loop_therm i s).fan_duty = s.fan_duty := by
  unfold loop_therm therm1_read chip_write keeps presses encoder_reads
  split <;> simp

/-- Once the error screen is up with the heater fault flag set, the rest of the
loop pass changes none of the observations nor the fan duty. -/
theorem loop_tail_error (e : Ext) (c : Consts) (i : LoopIn) (s : Sys)
    (h : s.state = menu_state.ERROR) (he : s.heater_error = true) :
    keeps s (loop_tail e c i s) ∧ (loop_tail e c i s).fan_duty = s.fan_duty := by
  unfold loop_tail
  simp only []
  rw [loop_confirm_beep_error i s h]
  have h1 := loop_last_mode_keeps s
  have h2 := loop_acceleration_keeps e i (loop_last_mode s)
  have k2 := keeps_trans h1.1 h2.1
  have h3 := loop_rotary_error e c (loop_acceleration e i (loop_last_mode s)) (k2.1.trans h)
  have k3 := keeps_trans k2 h3.1
  rw [loop_running_error e c i _ (k3.1.trans h)]
  have h4 := loop_button_error e c i _ (k3.1.trans h) (k3.2.1.trans he)
  have k4 := keeps_trans k3 h4.1
  have h5 := loop_reinit_error e c i _ (k4.1.trans h)
  have k5 := keeps_trans k4 h5.1
  have h6 := loop_therm_keeps i (loop_reinit e c i (loop_button e c i (loop_rotary e c
    (loop_acceleration e i (loop_last_mode s)))))
  exact ⟨keeps_trans k5 h6.1,
    h6.2.trans (h5.2.trans (h4.2.trans (h3.2.trans (h2.2.trans h1.2))))⟩

/-! ### The front part of the loop pass -/

theorem loop_timers_frame (e : Ext) (i : LoopIn) (s : Sys) :
    keeps s (loop_timers e i s) ∧ (loop_timers e i s).fan_duty = s.fan_duty
    ∧ (loop_timers e i s).fan_error = s.fan_error
    ∧ (loop_timers e i s).config = s.config := by
  unfold loop_timers keeps presses encoder_reads
  simp only []
  split <;> simp

theorem selftest_pin_phase_frame (e : Ext) (i : LoopIn) (pin : Bool) (s : Sys) :
    (selftest_pin_phase e i pin s).state = s.state
    ∧ (selftest_pin_phase e i pin s).heater_error = s.heater_error
    ∧ (selftest_pin_phase e i pin s).log = s.log := by
  simp [selftest_pin_phase]

theorem selftest_led_phase_frame (e : Ext) (c : Consts) (i : LoopIn) (s : Sys) :
    (selftest_led_phase e c i s).state = s.state
    ∧ (selftest_led_phase e c i s).heater_error = s.heater_error
    ∧ (selftest_led_phase e c i s).log = s.log := by
  unfold selftest_led_phase led_on led_off chip_write
  simp only []
  repeat' split
  all_goals simp

theorem selftest_heater_phase_frame (e : Ext) (c : Consts) (i : LoopIn) (s : Sys) :
    (selftest_heater_phase e c i s).state = s.state
    ∧ (selftest_heater_phase e c i s).heater_error = s.heater_error
    ∧ (selftest_heater_phase e c i s).log = s.log := by
  unfold selftest_heater_phase run_heater stop_heater chip_write
  simp only []
  repeat' split
  all_goals simp

theorem selftest_rotation_step_frame (e : Ext) (c : Consts) (s : Sys) :
    (selftest_rotation_step e c s).state = s.state
    ∧ (selftest_rotation_step e c s).heater_error = s.heater_error
    ∧ (selftest_rotation_step e c s).log = s.log := by
  simp [selftest_rotation_step, run_motor, stop_motor, speed_configuration, chip_write,
    apply_ite Sys.state, apply_ite Sys.heater_error, apply_ite Sys.log]

theorem selftest_rotation_phase_frame (e : Ext) (c : Consts) (i : LoopIn) (s : Sys) :
    (selftest_rotation_phase e c i s).state = s.state
    ∧ (selftest_rotation_phase e c i s).heater_error = s.heater_error
    ∧ (selftest_rotation_phase e c i s).log = s.log := by
  unfold selftest_rotation_phase
  simp only []
  split
  · split
    · exact selftest_rotation_step_frame e c _
    · simp
  · simp

theorem loop_selftest_frame (e : Ext) (c : Consts) (i : LoopIn) (s : Sys) :
    (loop_selftest e c i s).state = s.state
    ∧ (loop_selftest e c i s).heater_error = s.heater_error
    ∧ (loop_selftest e c i s).log = s.log := by
  simp [loop_selftest, selftest_pin_phase_frame, selftest_led_phase_frame,
    selftest_heater_phase_frame, selftest_rotation_phase_frame,
    apply_ite Sys.state, apply_ite Sys.heater_error, apply_ite Sys.log]

theorem loop_heater_stop_on (e : Ext) (c : Consts) (s : Sys) (h : s.heater_error = true) :
    (loop_heater_stop e c s).speed_control.motor_running = false
    ∧ (loop_heater_stop e c s).heater_running = false
    ∧ (loop_heater_stop e c s).fan_duty = fans_menu_speed
    ∧ (loop_heater_stop e c s).heater_error = true
    ∧ (loop_heater_stop e c s).state = s.state
    ∧ (loop_heater_stop e c s).log = s.log := by
  simp [loop_heater_stop, h, stop_heater, stop_motor, chip_write,
    apply_ite Sys.state, apply_ite Sys.heater_error, apply_ite Sys.log,
    apply_ite Sys.speed_control, apply_ite Sys.heater_running, apply_ite Sys.fan_duty]

theorem loop_home_mode_frame (i : LoopIn) (s : Sys) :
    keeps s (loop_home_mode i s) ∧ (loop_home_mode i s).fan_duty = s.fan_duty := by
  unfold loop_home_mode keeps presses encoder_reads
  split <;> simp

/-- A loop pass that starts with the heater fault flag set ends halted, with
the idle fan duty, and records no `button_press` and no `read_encoder`. -/
theorem loop_of_heater_error (e : Ext) (c : Consts) (i : LoopIn) (s : Sys)
    (h : s.heater_error = true) :
    halted (loop e c i s) ∧ (loop e c i s).fan_duty = fans_menu_speed
    ∧ presses (loop e c i s) = presses s ∧ encoder_reads (loop e c i s) = encoder_reads s := by
  unfold loop
  simp only []
  have h1 := loop_timers_frame e i s
  have h2 := loop_selftest_frame e c i (loop_timers e i s)
  have he2 : (loop_selftest e c i (loop_timers e i s)).heater_error = true :=
    h2.2.1.trans (h1.1.2.1.trans h)
  have h3 := loop_heater_stop_on e c _ he2
  have h4 := loop_home_mode_frame i (loop_heater_stop e c (loop_selftest e c i (loop_timers e i s)))
  have he4 : (loop_home_mode i (loop_heater_stop e c
      (loop_selftest e c i (loop_timers e i s)))).heater_error = true :=
    h4.1.2.1.trans h3.2.2.2.1
  have h5s : (loop_heater_error (loop_home_mode i (loop_heater_stop e c
      (loop_selftest e c i (loop_timers e i s))))).state = menu_state.ERROR := by
    simp [loop_heater_error, he4]
  have h5 : ∀ t : Sys, t.heater_error = true →
      (loop_heater_error t).heater_error = true
      ∧ (loop_heater_error t).speed_control = t.speed_control
      ∧ (loop_heater_error t).heater_running = t.heater_running
      ∧ (loop_heater_error t).fan_duty = t.fan_duty
      ∧ (loop_heater_error t).log = t.log := by
    intro t ht
    simp [loop_heater_error, ht]
  have h5' := h5 _ he4
  have h6 := loop_tail_error e c i _ h5s h5'.1
  obtain ⟨⟨k1, k2, k3, k4, k5, k6⟩, kf⟩ := h6
  refine ⟨⟨k2.trans h5'.1, k1.trans h5s, ?_, ?_⟩, ?_, ?_, ?_⟩
  · rw [k3, h5'.2.1, h4.1.2.2.1, h3.1]
  · rw [k4, h5'.2.2.1, h4.1.2.2.2.1, h3.2.1]
  · rw [kf, h5'.2.2.2.1, h4.2, h3.2.2.1]
  · rw [k5]
    have : presses (loop_heater_error (loop_home_mode i (loop_heater_stop e c
        (loop_selftest e c i (loop_timers e i s))))) = presses (loop_home_mode i
        (loop_heater_stop e c (loop_selftest e c i (loop_timers e i s)))) := by
      unfold presses; rw [h5'.2.2.2.2]
    rw [this, h4.1.2.2.2.2.1]
    unfold presses
    rw [h3.2.2.2.2.2, h2.2.2]
    exact h1.1.2.2.2.2.1
  · rw [k6]
    have : encoder_reads (loop_heater_error (loop_home_mode i (loop_heater_stop e c
        (loop_selftest e c i (loop_timers e i s))))) = encoder_reads (loop_home_mode i
        (loop_heater_stop e c (loop_selftest e c i (loop_timers e i s)))) := by
      unfold encoder_reads; rw [h5'.2.2.2.2]
    rw [this, h4.1.2.2.2.2.2]
    unfold encoder_reads
    rw [h3.2.2.2.2.2, h2.2.2]
    exact h1.1.2.2.2.2.2

/-! ### The tick handler under a heater fault -/

theorem tick_pid_frame (c : Consts) (s : Sys) :
    keeps s (tick_pid c s) := by
  rcases tick_pid_cases c s with h | h | ⟨t, _, h⟩ <;> rw [h] <;>
    simp [keeps, presses, encoder_reads]

theorem fan1_pwm_control_frame (c : Consts) (m : Nat) (s : Sys) :
    keeps s (fan1_pwm_control c m s) := by
  simp [keeps, presses, encoder_reads, fan1_pwm_control, chip_write,
    apply_ite Sys.state, apply_ite Sys.heater_error, apply_ite Sys.log,
    apply_ite Sys.speed_control, apply_ite Sys.heater_running]

theorem fan2_pwm_control_frame (c : Consts) (m : Nat) (s : Sys) :
    keeps s (fan2_pwm_control c m s) := by
  simp [keeps, presses, encoder_reads, fan2_pwm_control, chip_write,
    apply_ite Sys.state, apply_ite Sys.heater_error, apply_ite Sys.log,
    apply_ite Sys.speed_control, apply_ite Sys.heater_running]

theorem fan_rpm_check_frame (j : Nat) (s : Sys) :
    keeps s (fan_rpm_check j s) := by
  simp [keeps, presses, encoder_reads, fan_rpm_check,
    apply_ite Sys.state, apply_ite Sys.heater_error, apply_ite Sys.log,
    apply_ite Sys.speed_control, apply_ite Sys.heater_running]

theorem fan_rpm_heater_off (s : Sys) (h : s.heater_running = false) :
    keeps s (fan_rpm_heater s) := by
  simp [keeps, presses, encoder_reads, fan_rpm_heater, h,
    apply_ite Sys.state, apply_ite Sys.heater_error, apply_ite Sys.log,
    apply_ite Sys.speed_control, apply_ite Sys.heater_running]

theorem fan_rpm_heater_off_keeps (s : Sys) (h : s.heater_running = false) :
    keeps s (fan_rpm s) := by
  unfold fan_rpm
  simp only []
  have k0 : keeps s { s with ams_fan_counter := s.ams_fan_counter + 1 } := by
    simp [keeps, presses, encoder_reads]
  split
  · have k1 := fan_rpm_check_frame 0 { s with ams_fan_counter := s.ams_fan_counter + 1 }
    have k2 := fan_rpm_check_frame 1
      (fan_rpm_check 0 { s with ams_fan_counter := s.ams_fan_counter + 1 })
    have k12 := keeps_trans (keeps_trans k0 k1) k2
    exact keeps_trans k12 (fan_rpm_heater_off _ (k12.2.2.2.1.trans h))
  · exact k0

/-- With the heater fault flag set and the heater off, the tick handler
changes none of the observations; in particular it does not call
`read_encoder`. -/
theorem tick_halted (c : Consts) (i : TickIn) (s : Sys)
    (he : s.heater_error = true) (hr : s.heater_running = false) :
    keeps s (TIMER0_COMPA_vect c i s) := by
  unfold TIMER0_COMPA_vect fan_pwm_control
  simp only [he, not_true_eq_false, if_false]
  have k1 := tick_pid_frame c s
  have k2 := fan1_pwm_control_frame c i.millis (tick_pid c s)
  have k3 := fan2_pwm_control_frame c i.millis (fan1_pwm_control c i.millis (tick_pid c s))
  have k123 := keeps_trans (keeps_trans k1 k2) k3
  exact keeps_trans k123 (fan_rpm_heater_off_keeps _ (k123.2.2.2.1.trans hr))

theorem halted_of_keeps {s t : Sys} (h : halted s) (k : keeps s t) : halted t := by
  obtain ⟨h1, h2, h3, h4⟩ := h
  obtain ⟨k1, k2, k3, k4, _, _⟩ := k
  exact ⟨k2.trans h1, k1.trans h2, k3.trans h3, k4.trans h4⟩

theorem step_halted (e : Ext) (c : Consts) (st : Step) (s : Sys) (h : halted s) :
    halted (step e c st s) ∧ presses (step e c st s) = presses s
    ∧ encoder_reads (step e c st s) = encoder_reads s := by
  cases st with
  | loop i =>
    obtain ⟨h1, _, h3, h4⟩ := loop_of_heater_error e c i s h.1
    exact ⟨h1, h3, h4⟩
  | tick i =>
    have k := tick_halted c i s h.1 h.2.2.2
    exact ⟨halted_of_keeps h k, k.2.2.2.2.1, k.2.2.2.2.2⟩
  | pulse j =>
    have k : keeps s (fan_tacho j s) := by simp [keeps, presses, encoder_reads, fan_tacho]
    exact ⟨halted_of_keeps h k, k.2.2.2.2.1, k.2.2.2.2.2⟩

/-- C3: the heater-fault error state is absorbing.  From a halted state
(heater fault flag set, error screen, motor and heater off) every sequence of
loop passes, 1 ms ticks and tachometer pulses, with arbitrary button and
encoder inputs, ends halted again: the flag stays set, `state` stays `ERROR`,
motor and heater stay off; `button_press` is never invoked and the tick never
samples the encoder (`rotary_diff` is only reset by the menu redraw). -/
theorem heater_fault_absorbing (e : Ext) (c : Consts) (steps : List Step) (s : Sys)
    (h : halted s) :
    halted (run_steps e c steps s)
    ∧ presses (run_steps e c steps s) = presses s
    ∧ encoder_reads (run_steps e c steps s) = encoder_reads s := by
  induction steps generalizing s with
  | nil => exact ⟨h, rfl, rfl⟩
  | cons st rest ih =>
    obtain ⟨h1, h2, h3⟩ := step_halted e c st s h
    obtain ⟨g1, g2, g3⟩ := ih (step e c st s) h1
    exact ⟨g1, g2.trans h2, g3.trans h3⟩

/-! ### Which procedures can change the screen -/

@[simp]
theorem echo_state (s : Sys) : (echo s).state = s.state := rfl
@[simp]
theorem beep_state (s : Sys) : (beep s).state = s.state := rfl
@[simp]
theorem chip_write_state (p : Nat) (b : Bool) (s : Sys) :
    (chip_write p b s).state = s.state := rfl
@[simp]
theorem run_motor_state (c : Consts) (s : Sys) : (run_motor c s).state = s.state := rfl
@[simp]
theorem stop_motor_state (c : Consts) (s : Sys) : (stop_motor c s).state = s.state := rfl
@[simp]
theorem run_heater_state (c : Consts) (s : Sys) : (run_heater c s).state = s.state := rfl
@[simp]
theorem stop_heater_state (c : Consts) (s : Sys) :
    (stop_heater c s).state = s.state := rfl
@[simp]
theorem led_on_state (c : Consts) (s : Sys) : (led_on c s).state = s.state := rfl
@[simp]
theorem led_off_state (c : Consts) (s : Sys) : (led_off c s).state = s.state := rfl
@[simp]
theorem write_config_state (s : Sys) : (write_config s).state = s.state := rfl
@[simp]
theorem speed_configuration_state (e : Ext) (b : Bool) (s : Sys) :
    (speed_configuration e b s).state = s.state := rfl
@[simp]
theorem tDown_set_state (e : Ext) (m n : Int) (s : Sys) :
    (tDown_set e m n s).state = s.state := rfl
@[simp]
theorem tUp_set_state (e : Ext) (m n : Int) (s : Sys) :
    (tUp_set e m n s).state = s.state := rfl
@[simp]
theorem scrolling_list_state (e : Ext) (l : List Bool) (s : Sys) :
    (scrolling_list e l s).state = s.state := rfl

@[simp]
theorem motor_configuration_state (s : Sys) :
    (motor_configuration s).state = s.state := by
  simp [motor_configuration, apply_ite Sys.state]

@[simp]
theorem generic_menu_P_state (n : Nat) (s : Sys) :
    (generic_menu_P n s).state = s.state := by
  simp [generic_menu_P, apply_ite Sys.state]

@[simp]
theorem menu_move_running_state (e : Ext) (s : Sys) :
    (menu_move_running e s).state = s.state := by
  simp [menu_move_running, apply_ite Sys.state]

@[simp]
theorem menu_move_echo_state (b : Bool) (s : Sys) :
    (menu_move_echo b s).state = s.state := by
  simp [menu_move_echo, apply_ite Sys.state]

@[simp]
theorem menu_move_screen_state (e : Ext) (c : Consts) (s : Sys) :
    (menu_move_screen e c s).state = s.state := by
  unfold menu_move_screen
  split <;> simp [apply_ite Sys.state]

@[simp]
theorem menu_move_state (e : Ext) (c : Consts) (b : Bool) (s : Sys) :
    (menu_move e c b s).state = s.state := by
  simp [menu_move]

@[simp]
theorem preheat_state (e : Ext) (c : Consts) (s : Sys) :
    (preheat e c s).state = s.state := by
  simp [preheat, apply_ite Sys.state]

@[simp]
theorem lcd_time_print_state (e : Ext) (c : Consts) (s : Sys) :
    (lcd_time_print e c s).state = s.state := by
  simp [lcd_time_print, apply_ite Sys.state]

@[simp]
theorem gastro_pan_check_state (e : Ext) (c : Consts) (i : LoopIn) (s : Sys) :
    (gastro_pan_check e c i s).state = s.state := by
  simp [gastro_pan_check, apply_ite Sys.state]

@[simp]
theorem start_drying_state (e : Ext) (c : Consts) (i : LoopIn) (s : Sys) :
    (start_drying e c i s).state = s.state := by
  simp [start_drying, apply_ite Sys.state]

@[simp]
theorem start_curing_state (e : Ext) (c : Consts) (i : LoopIn) (s : Sys) :
    (start_curing e c i s).state = s.state := by
  simp [start_curing, apply_ite Sys.state]

@[simp]
theorem enter_drying_mode_state (s : Sys) : (enter_drying_mode s).state = s.state := by
  simp [enter_drying_mode, apply_ite Sys.state]

@[simp]
theorem leave_drying_mode_state (s : Sys) : (leave_drying_mode s).state = s.state := by
  simp [leave_drying_mode, apply_ite Sys.state]

@[simp]
theorem preheat_done_state (e : Ext) (m : Nat) (s : Sys) :
    (preheat_done e m s).state = s.state := by
  simp [preheat_done, apply_ite Sys.state]

@[simp]
theorem drying_to_curing_state (e : Ext) (c : Consts) (s : Sys) :
    (drying_to_curing e c s).state = s.state := by
  simp [drying_to_curing, apply_ite Sys.state]

@[simp]
theorem cover_check_state (e : Ext) (c : Consts) (i : LoopIn) (s : Sys) :
    (cover_check e c i s).state = s.state := by
  simp [cover_check, apply_ite Sys.state]

@[simp]
theorem tDown_arm_state (e : Ext) (m : Nat) (s : Sys) :
    (tDown_arm e m s).state = s.state := rfl

@[simp]
theorem tUp_arm_state (e : Ext) (s : Sys) : (tUp_arm e s).state = s.state := rfl

/-- A screen other than the error screen. -/
theorem finish_beep_state (s : Sys) :
    (finish_beep s).state = menu_state.HOME ∨ (finish_beep s).state = menu_state.CONFIRM := by
  unfold finish_beep
  split_ifs <;> simp

theorem stop_curing_drying_state (e : Ext) (c : Consts) (s : Sys) :
    (stop_curing_drying e c s).state ≠ menu_state.ERROR := by
  unfold stop_curing_drying
  simp only [menu_move_state]
  rcases finish_beep_state (({ stop_heater c (stop_motor c (led_off c
    { s with pid_mode := false, menu_position := 0 })) with
      fan_duty := fans_menu_speed, redraw_menu := true, rotary_diff := 128 } : Sys))
    with h | h <;> rw [h] <;> decide

theorem finish_beep_ne (s : Sys) : (finish_beep s).state ≠ menu_state.ERROR := by
  rcases finish_beep_state s with h | h <;> rw [h] <;> decide

theorem tank_check_washing_state (e : Ext) (c : Consts) (i : LoopIn) (s : Sys) :
    (tank_check_washing e c i s).state = s.state := by
  simp [tank_check_washing, apply_ite Sys.state]

theorem washing_continue_state (e : Ext) (c : Consts) (i : LoopIn) (s : Sys) :
    (washing_continue e c i s).state = s.state := by
  simp [washing_continue, apply_ite Sys.state]

theorem washing_complete_state (e : Ext) (c : Consts) (s : Sys) :
    (washing_complete e c s).state ≠ menu_state.ERROR := by
  unfold washing_complete
  simp only [menu_move_state]
  exact finish_beep_ne _

theorem start_washing_state (e : Ext) (c : Consts) (i : LoopIn) (s : Sys)
    (h : s.state ≠ menu_state.ERROR) :
    (start_washing e c i s).state ≠ menu_state.ERROR := by
  unfold start_washing
  simp only []
  split
  · rw [washing_continue_state, tank_check_washing_state]; exact h
  · exact washing_complete_state e c _

theorem run_two_stage_state (e : Ext) (c : Consts) (i : LoopIn) (m : Nat) (s : Sys)
    (h : s.state ≠ menu_state.ERROR) :
    (run_two_stage e c i m s).state ≠ menu_state.ERROR := by
  unfold run_two_stage
  simp only []
  split_ifs <;> simp [h, stop_curing_drying_state]

theorem machine_running_mode_state (e : Ext) (c : Consts) (i : LoopIn) (s : Sys)
    (h : s.state ≠ menu_state.ERROR) :
    (machine_running_mode e c i s).state ≠ menu_state.ERROR := by
  unfold machine_running_mode
  simp only []
  split_ifs <;> simp [h, stop_curing_drying_state, run_two_stage_state]

theorem machine_running_state (e : Ext) (c : Consts) (i : LoopIn) (s : Sys)
    (h : s.state ≠ menu_state.ERROR) :
    (machine_running e c i s).state ≠ menu_state.ERROR := by
  unfold machine_running
  simp only []
  by_cases hc : s.curing_mode = true
  · rw [if_pos hc]
    have h1 := machine_running_mode_state e c i (cover_check e c i s) (by simpa using h)
    split
    · exact start_washing_state e c i _ h1
    · exact h1
  · rw [if_neg hc, if_pos hc]
    exact start_washing_state e c i s h

theorem run_stop_state (e : Ext) (c : Consts) (s : Sys) :
    (run_stop e c s).state = menu_state.HOME := by
  simp [run_stop]

theorem long_press_action_state (e : Ext) (c : Consts) (s : Sys)
    (h : s.state ≠ menu_state.ERROR) :
    (long_press_action e c s).state ≠ menu_state.ERROR := by
  unfold long_press_action
  split <;> simp [run_stop_state, h]

theorem start_run_curing_state (e : Ext) (c : Consts) (s : Sys) :
    (start_run_curing e c s).state = s.state := by
  simp [start_run_curing, apply_ite Sys.state]

theorem button_press_home_state (e : Ext) (c : Consts) (i : LoopIn) (s : Sys)
    (h : s.state ≠ menu_state.ERROR) :
    (button_press_home e c i s).state ≠ menu_state.ERROR := by
  unfold button_press_home
  simp only []
  split_ifs <;> simp [h]

theorem button_press_settings_state (s : Sys) :
    (button_press_settings s).state ≠ menu_state.ERROR := by
  unfold button_press_settings
  split_ifs <;> simp

theorem button_press_sound_state (s : Sys) (h : s.state ≠ menu_state.ERROR) :
    (button_press_sound s).state ≠ menu_state.ERROR := by
  unfold button_press_sound
  split_ifs <;> simp [h]

theorem button_press_fans_state (s : Sys) :
    (button_press_fans s).state ≠ menu_state.ERROR := by
  unfold button_press_fans
  split_ifs <;> simp

theorem button_press_preheat_state (s : Sys) (h : s.state ≠ menu_state.ERROR) :
    (button_press_preheat s).state ≠ menu_state.ERROR := by
  unfold button_press_preheat
  simp only []
  split_ifs <;> simp [h]

theorem button_press_speed_state (s : Sys) :
    (button_press_speed s).state ≠ menu_state.ERROR := by
  unfold button_press_speed
  split_ifs <;> simp

theorem button_press_time_state (s : Sys) :
    (button_press_time s).state ≠ menu_state.ERROR := by
  unfold button_press_time
  split_ifs <;> simp

theorem button_press_run_menu_state (e : Ext) (c : Consts) (s : Sys)
    (h : s.state ≠ menu_state.ERROR) :
    (button_press_run_menu e c s).state ≠ menu_state.ERROR := by
  unfold button_press_run_menu
  simp only []
  split_ifs <;> simp [h, run_stop_state]

theorem selftest_confirm_state (e : Ext) (b : Bool) (s : Sys)
    (h : s.state ≠ menu_state.ERROR) :
    (selftest_confirm e b s).state ≠ menu_state.ERROR := by
  unfold selftest_confirm
  simp only []
  split_ifs <;> simp [h]

theorem button_press_selftest_state (e : Ext) (s : Sys)
    (h : s.state ≠ menu_state.ERROR) :
    (button_press_selftest e s).state ≠ menu_state.ERROR := by
  unfold button_press_selftest
  simp only []
  split_ifs <;> simp [h, selftest_confirm_state]

theorem button_press_state_state (e : Ext) (c : Consts) (i : LoopIn) (s : Sys)
    (h : s.state ≠ menu_state.ERROR) :
    (button_press_state e c i s).state ≠ menu_state.ERROR := by
  unfold button_press_state
  split
  · exact button_press_home_state e c i s h
  · exact button_press_settings_state s
  · exact button_press_sound_state s h
  · exact button_press_fans_state s
  · simp
  · simp
  · simp
  · simp
  · simp
  · exact button_press_preheat_state s h
  · exact button_press_speed_state s
  · simp
  · simp
  · exact button_press_time_state s
  · simp
  · simp
  · simp
  · simp
  · simp
  · simp
  · simp only []; split_ifs <;> simp
  · simp
  · simp
  · simp
  · exact button_press_run_menu_state e c s h
  · simp
  · exact button_press_selftest_state e s h
  · exact h

theorem button_press_state_ne (e : Ext) (c : Consts) (i : LoopIn) (s : Sys)
    (h : s.state ≠ menu_state.ERROR) :
    (button_press e c i s).state ≠ menu_state.ERROR := by
  unfold button_press
  simp only [menu_move_state]
  apply button_press_state_state
  simp [apply_ite Sys.state, h]

theorem loop_confirm_beep_state (i : LoopIn) (s : Sys) :
    (loop_confirm_beep i s).state = s.state := by
  simp [loop_confirm_beep, apply_ite Sys.state]

theorem loop_rotary_state (e : Ext) (c : Consts) (s : Sys) :
    (loop_rotary e c s).state = s.state := by
  simp [loop_rotary, apply_ite Sys.state]

theorem loop_running_ne (e : Ext) (c : Consts) (i : LoopIn) (s : Sys)
    (h : s.state ≠ menu_state.ERROR) :
    (loop_running e c i s).state ≠ menu_state.ERROR := by
  unfold loop_running
  split
  · exact machine_running_state e c i s h
  · exact h

theorem button_down_ne (e : Ext) (c : Consts) (i : LoopIn) (s : Sys)
    (h : s.state ≠ menu_state.ERROR) :
    (button_down e c i s).state ≠ menu_state.ERROR := by
  unfold button_down
  simp only []
  by_cases ha : s.button_active = false
  · rw [if_pos ha]
    split
    · exact long_press_action_state e c _ (by simpa using h)
    · simpa using h
  · rw [if_neg ha]
    split
    · exact long_press_action_state e c _ (by simpa using h)
    · exact h

theorem button_up_ne (e : Ext) (c : Consts) (i : LoopIn) (s : Sys)
    (h : s.state ≠ menu_state.ERROR) :
    (button_up e c i s).state ≠ menu_state.ERROR := by
  unfold button_up
  simp only []
  split
  · split
    · simpa using h
    · split
      · simpa using button_press_state_ne e c i s h
      · simpa using h
  · exact h

theorem loop_button_ne (e : Ext) (c : Consts) (i : LoopIn) (s : Sys)
    (h : s.state ≠ menu_state.ERROR) :
    (loop_button e c i s).state ≠ menu_state.ERROR := by
  unfold loop_button
  split
  · exact button_down_ne e c i s h
  · exact button_up_ne e c i s h

theorem loop_reinit_state (e : Ext) (c : Consts) (i : LoopIn) (s : Sys) :
    (loop_reinit e c i s).state = s.state := by
  simp [loop_reinit, apply_ite Sys.state]

theorem loop_tail_ne (e : Ext) (c : Consts) (i : LoopIn) (s : Sys)
    (h : s.state ≠ menu_state.ERROR) :
    (loop_tail e c i s).state ≠ menu_state.ERROR := by
  unfold loop_tail
  simp only []
  rw [(loop_therm_keeps i _).1.1, loop_reinit_state]
  apply loop_button_ne
  apply loop_running_ne
  rw [loop_rotary_state, (loop_acceleration_keeps e i _).1.1, (loop_last_mode_keeps _).1.1,
    loop_confirm_beep_state]
  exact h

/-- The main loop brings up the error screen exactly when the heater fault
flag is set at the start of the pass. -/
theorem loop_state_error (e : Ext) (c : Consts) (i : LoopIn) (s : Sys)
    (h : s.state ≠ menu_state.ERROR) :
    (loop e c i s).state = menu_state.ERROR ↔ s.heater_error = true := by
  constructor
  · intro hl
    by_contra hne
    have he : s.heater_error = false := by simpa using hne
    have h1 := loop_timers_frame e i s
    have h2 := loop_selftest_frame e c i (loop_timers e i s)
    have he2 : (loop_selftest e c i (loop_timers e i s)).heater_error = false :=
      h2.2.1.trans (h1.1.2.1.trans he)
    have hs2 : (loop_selftest e c i (loop_timers e i s)).state ≠ menu_state.ERROR := by
      rw [h2.1, h1.1.1]; exact h
    have h3 : loop_heater_stop e c (loop_selftest e c i (loop_timers e i s))
        = loop_selftest e c i (loop_timers e i s) := by
      simp [loop_heater_stop, he2]
    have h4 := loop_home_mode_frame i (loop_selftest e c i (loop_timers e i s))
    have h5 : loop_heater_error (loop_home_mode i (loop_selftest e c i (loop_timers e i s)))
        = loop_home_mode i (loop_selftest e c i (loop_timers e i s)) := by
      simp [loop_heater_error, h4.1.2.1, he2]
    have h6 := loop_tail_ne e c i (loop_home_mode i (loop_selftest e c i (loop_timers e i s)))
      (by rw [h4.1.1]; exact hs2)
    apply h6
    have : loop e c i s = loop_tail e c i (loop_heater_error (loop_home_mode i
        (loop_heater_stop e c (loop_selftest e c i (loop_timers e i s))))) := rfl
    rw [this, h3, h5] at hl
    exact hl
  · intro he
    exact (loop_of_heater_error e c i s he).1.2.1

set_option maxRecDepth 100000 in
theorem heater_fault_absorbing_witness :
    halted halted_state
    ∧ halted (run_steps sample_ext sample_consts poke_steps halted_state)
    ∧ presses (run_steps sample_ext sample_consts poke_steps halted_state) = presses halted_state
    ∧ encoder_reads (run_steps sample_ext sample_consts poke_steps halted_state)
        = encoder_reads halted_state :=
  ⟨by decide, heater_fault_absorbing sample_ext sample_consts poke_steps halted_state
    (by decide)⟩

set_option maxRecDepth 100000 in
/-- C2 as stated fails: in a washing run whose two fan fault latches are set
(the fans gave no tachometer pulse for 100 ticks at non-zero duty), one loop
pass leaves the run going: `state` stays `RUNNING` and the motor stays
enabled. -/
theorem fan_fault_does_not_halt :
    washing_run_stalled.state = menu_state.RUNNING
    ∧ washing_run_stalled.fan_error 0 = true ∧ washing_run_stalled.fan_error 1 = true
    ∧ (loop sample_ext sample_consts (idle_in 130) washing_run_stalled).state
        = menu_state.RUNNING
    ∧ (loop sample_ext sample_consts (idle_in 130)
        washing_run_stalled).speed_control.motor_running = true := by
  decide

/-- C2 (amended): for every state with a run in progress (`RUNNING` or
`RUN_MENU`) in which a fan fault latch is set, one loop pass sets `state` to
`ERROR` exactly when `heater_error` is set as well, and in that case it forces
the motor and the heater off as for any heater fault; a fan fault latch alone
does not bring up the error screen. -/
theorem loop_fan_fault (e : Ext) (c : Consts) (i : LoopIn) (s : Sys)
    (hrun : s.state = menu_state.RUNNING ∨ s.state = menu_state.RUN_MENU)
    (hfan : s.fan_error 0 = true ∨ s.fan_error 1 = true) :
    is_error s = true
    ∧ ((loop e c i s).state = menu_state.ERROR ↔ s.heater_error = true)
    ∧ (s.heater_error = true →
        (loop e c i s).speed_control.motor_running = false
        ∧ (loop e c i s).heater_running = false) := by
  have hne : s.state ≠ menu_state.ERROR := by
    rcases hrun with h | h <;> rw [h] <;> decide
  refine ⟨?_, loop_state_error e c i s hne, ?_⟩
  · unfold is_error
    rcases hfan with h | h <;> simp [h]
  · intro he
    obtain ⟨⟨_, _, h3, h4⟩, _⟩ := loop_of_heater_error e c i s he
    exact ⟨h3, h4⟩

set_option maxRecDepth 100000 in
theorem loop_fan_fault_witness :
    washing_run_stalled.heater_error = false
    ∧ is_error washing_run_stalled = true
    ∧ ((loop sample_ext sample_consts (idle_in 130) washing_run_stalled).state = menu_state.ERROR
        ↔ washing_run_stalled.heater_error = true)
    ∧ (washing_run_stalled.heater_error = true →
        (loop sample_ext sample_consts (idle_in 130)
          washing_run_stalled).speed_control.motor_running = false
        ∧ (loop sample_ext sample_consts (idle_in 130) washing_run_stalled).heater_running
          = false) :=
  ⟨by decide, loop_fan_fault sample_ext sample_consts (idle_in 130) washing_run_stalled
    (Or.inl (by decide)) (Or.inl (by decide))⟩

set_option maxRecDepth 100000 in
/-- C4 as stated fails: after a restart with the heater-failure flag loaded
from EEPROM the loop does not force the error screen, and a press and release
of the button on the home screen starts a run with the motor enabled. -/
theorem restart_allows_run :
    restarted.config.heater_failure = true
    ∧ restarted.state = menu_state.HOME
    ∧ (loop sample_ext sample_consts (idle_in 10) restarted).state = menu_state.HOME
    ∧ (loop sample_ext sample_consts (idle_in 30)
        (loop sample_ext sample_consts (press_in 20) restarted)).state = menu_state.RUNNING
    ∧ (loop sample_ext sample_consts (idle_in 30)
        (loop sample_ext sample_consts (press_in 20)
          restarted)).speed_control.motor_running = true := by
  decide

theorem eeprom_get_getD (mem : List Nat) (off n k : Nat) (h : k < n) :
    (eeprom_get mem off n).getD k 0 = eeprom_byte mem (off + k) := by
  unfold eeprom_get
  simp [List.getD_eq_getElem?_getD, List.getElem?_map, List.getElem?_range h]

theorem read_config_frame (s : Sys) :
    (read_config s).heater_error = s.heater_error ∧ (read_config s).state = s.state := by
  simp [read_config, apply_ite Sys.heater_error, apply_ite Sys.state]

theorem read_config_heater_failure (s : Sys)
    (hmagic : eeprom_get s.eeprom 0 MAGIC_SIZE = config_magic)
    (hflag : eeprom_byte s.eeprom (MAGIC_SIZE + 12) ≠ 0) :
    (read_config s).config.heater_failure = true := by
  have hb : (eeprom_get s.eeprom MAGIC_SIZE 21).getD 12 0 ≠ 0 := by
    rw [eeprom_get_getD _ _ _ _ (by decide)]; exact hflag
  unfold read_config
  simp only [hmagic, if_true]
  simp only [config_load_v2, config_load_v1]
  simpa using hb

theorem menu_move_home_config (e : Ext) (c : Consts) (b : Bool) (s : Sys)
    (h : s.state = menu_state.HOME) :
    (menu_move e c b s).config = s.config
    ∧ (menu_move e c b s).heater_error = s.heater_error
    ∧ (menu_move e c b s).fan_error = s.fan_error := by
  unfold menu_move
  simp only []
  have hs : ∀ t : Sys, t.state = menu_state.HOME →
      menu_move_screen e c t = generic_menu_P 3 t := by
    intro t ht
    unfold menu_move_screen
    rw [ht]
  rw [hs _ (by simp [h])]
  rcases menu_move_echo_cases b s with h1 | h1 <;> rw [h1] <;>
    simp [generic_menu_P, echo, apply_ite Sys.config, apply_ite Sys.heater_error,
      apply_ite Sys.fan_error]

theorem setup_frame (e : Ext) (c : Consts) (s : Sys) (h : s.state = menu_state.HOME) :
    (setup e c s).config = (read_config s).config
    ∧ (setup e c s).heater_error = s.heater_error
    ∧ (setup e c s).state = menu_state.HOME
    ∧ (setup e c s).fan_error = (read_config s).fan_error := by
  have hr := read_config_frame s
  unfold setup
  simp only []
  have hm := menu_move_home_config e c true
    { stop_heater c ({ led_off c ({ chip_write c.EN_PIN true (read_config s) with
        fan_duty := fans_menu_speed }) with
        out := { (led_off c ({ chip_write c.EN_PIN true (read_config s) with
          fan_duty := fans_menu_speed })).out with mres := 16, ihold_irun := (10, 10, 0) } })
      with redraw_menu := true }
    (by simp [stop_heater, led_off, chip_write, hr.2, h])
  refine ⟨?_, ?_, ?_, ?_⟩
  · rw [hm.1]; simp [stop_heater, led_off, chip_write]
  · rw [hm.2.1]; simp [stop_heater, led_off, chip_write, hr.1]
  · rw [menu_move_state]; simp [stop_heater, led_off, chip_write, hr.2, h]
  · rw [hm.2.2]; simp [stop_heater, led_off, chip_write]

/-- C4 (amended): when `read_config` loads a record whose `heater_failure`
flag is set, then after the restart `is_error()` is true, but `heater_error`
is clear and `state` is `HOME`; a loop pass does not set `state` to `ERROR`
then.  In general a loop pass started outside the error screen ends in `ERROR`
exactly when `heater_error` is set at its start; the loaded flag is not
consulted. -/
theorem restart_with_heater_failure (e : Ext) (c : Consts) (mem : List Nat)
    (hmagic : eeprom_get mem 0 MAGIC_SIZE = config_magic)
    (hflag : eeprom_byte mem (MAGIC_SIZE + 12) ≠ 0) :
    (read_config { power_up with eeprom := mem }).config.heater_failure = true
    ∧ (setup e c { power_up with eeprom := mem }).config.heater_failure = true
    ∧ is_error (setup e c { power_up with eeprom := mem }) = true
    ∧ (setup e c { power_up with eeprom := mem }).heater_error = false
    ∧ (setup e c { power_up with eeprom := mem }).state = menu_state.HOME
    ∧ (∀ i : LoopIn,
        (loop e c i (setup e c { power_up with eeprom := mem })).state ≠ menu_state.ERROR)
    ∧ (∀ (i : LoopIn) (u : Sys), u.state ≠ menu_state.ERROR →
        ((loop e c i u).state = menu_state.ERROR ↔ u.heater_error = true)) := by
  have hr := read_config_heater_failure { power_up with eeprom := mem } hmagic hflag
  have hs := setup_frame e c { power_up with eeprom := mem } rfl
  have hc : (setup e c { power_up with eeprom := mem }).config.heater_failure = true := by
    rw [hs.1]; exact hr
  have he : (setup e c { power_up with eeprom := mem }).heater_error = false := by
    rw [hs.2.1]; rfl
  refine ⟨hr, hc, ?_, he, hs.2.2.1, ?_, fun i u hu => loop_state_error e c i u hu⟩
  · unfold is_error
    simp [hc]
  · intro i hl
    have hne : (setup e c { power_up with eeprom := mem }).state ≠ menu_state.ERROR := by
      rw [hs.2.2.1]; decide
    have := (loop_state_error e c i _ hne).1 hl
    rw [he] at this
    exact Bool.false_ne_true this

set_option maxRecDepth 100000 in
theorem restart_with_heater_failure_witness :
    (read_config { power_up with eeprom := heater_fault_state.eeprom }).config.heater_failure
      = true
    ∧ (setup sample_ext sample_consts
        { power_up with eeprom := heater_fault_state.eeprom }).config.heater_failure = true
    ∧ is_error (setup sample_ext sample_consts
        { power_up with eeprom := heater_fault_state.eeprom }) = true
    ∧ (setup sample_ext sample_consts
        { power_up with eeprom := heater_fault_state.eeprom }).heater_error = false
    ∧ (setup sample_ext sample_consts
        { power_up with eeprom := heater_fault_state.eeprom }).state = menu_state.HOME
    ∧ (∀ i : LoopIn,
        (loop sample_ext sample_consts i (setup sample_ext sample_consts
          { power_up with eeprom := heater_fault_state.eeprom })).state ≠ menu_state.ERROR)
    ∧ (∀ (i : LoopIn) (u : Sys), u.state ≠ menu_state.ERROR →
        ((loop sample_ext sample_consts i u).state = menu_state.ERROR
          ↔ u.heater_error = true)) :=
  restart_with_heater_failure sample_ext sample_consts heater_fault_state.eeprom
    (by decide) (by decide)

/-! ### The regulator at the target temperature -/

/-- With the temperature at the target the regulator output is the integral
term alone, cut off at 100. -/
theorem PI_newSpeed_at_target (c : Consts) (summErr : ℚ) (t : Nat) :
    PI_newSpeed c summErr t t = min 100 (c.I * PI_summErr summErr t t) := by
  unfold PI_newSpeed
  simp only [sub_self, mul_zero, zero_add]
  split
  · rename_i h
    exact (min_eq_left (le_of_lt h)).symm
  · rename_i h
    exact (min_eq_right (le_of_not_lt h)).symm

theorem PI_summErr_at_target (summErr : ℚ) (t : Nat) :
    PI_summErr summErr t t
      = if summErr > 10000 ∨ summErr < -10000 then 10000 else summErr := by
  rw [PI_summErr_eq]
  simp only [sub_self, add_zero]

/-- C11 as stated fails: with an accumulated integral of 5000 and the chamber
exactly at the target 35 the error is 0, the proportional-only term `P * error`
is 0, and `PI_regulator` returns 5, the integral term `I * summErr`. -/
theorem PI_regulator_at_target_not_proportional :
    sample_consts.P * ((35 : ℚ) - (35 : Nat)) = 0
    ∧ PI_newSpeed sample_consts 5000 35 35 = 5
    ∧ (PI_regulator sample_consts 5000 35 35).2 = 5 := by
  refine ⟨by norm_num, ?_, ?_⟩
  · norm_num [PI_newSpeed, PI_summErr, sample_consts]
  · norm_num [PI_regulator, PI_newSpeed, PI_summErr, sample_consts, double_to_uint8]
    rfl

/-- C11 (amended): for every accumulated integral value, when the measured
temperature is exactly the target (error 0) the proportional term `P * error`
is 0 and the value `PI_regulator` computes is the integral term `I * summErr`
of the clamped integral, cut off at 100 from above; it equals the
proportional-only term, 0, when the accumulated integral is 0. -/
theorem PI_regulator_at_target (c : Consts) (summErr : ℚ) (t : Nat) :
    c.P * ((t : ℚ) - (t : Nat)) = 0
    ∧ (PI_regulator c summErr t t).1
        = (if summErr > 10000 ∨ summErr < -10000 then 10000 else summErr)
    ∧ PI_newSpeed c summErr t t = min 100 (c.I * (PI_regulator c summErr t t).1)
    ∧ (PI_regulator c summErr t t).2
        = double_to_uint8 c (min 100 (c.I * (PI_regulator c summErr t t).1))
    ∧ PI_newSpeed c 0 t t = c.P * ((t : ℚ) - (t : Nat))
    ∧ (PI_regulator c 0 t t).2 = 0 := by
  have h0 : PI_newSpeed c 0 t t = 0 := by
    rw [PI_newSpeed_at_target, PI_summErr_at_target]
    norm_num
  refine ⟨by simp, ?_, ?_, ?_, ?_, ?_⟩
  · exact PI_summErr_at_target summErr t
  · exact PI_newSpeed_at_target c summErr t
  · show double_to_uint8 c (PI_newSpeed c summErr t t) = _
    rw [PI_newSpeed_at_target]
    rfl
  · rw [h0]; simp
  · show double_to_uint8 c (PI_newSpeed c 0 t t) = 0
    rw [h0]
    norm_num [double_to_uint8]

/-! ### Software PWM: one full cycle -/

theorem fan2_pwm_control_chan1 (c : Consts) (m : Nat) (u : Sys) :
    (fan2_pwm_control c m u).fan_duty = u.fan_duty
    ∧ (fan2_pwm_control c m u).fan1_pwm_high = u.fan1_pwm_high
    ∧ (fan2_pwm_control c m u).fan1_previous_millis = u.fan1_previous_millis := by
  simp [fan2_pwm_control, chip_write, apply_ite Sys.fan_duty, apply_ite Sys.fan1_pwm_high,
    apply_ite Sys.fan1_previous_millis]

theorem fan1_pwm_control_chan2 (c : Consts) (m : Nat) (u : Sys) :
    (fan1_pwm_control c m u).fan_duty = u.fan_duty
    ∧ (fan1_pwm_control c m u).fan2_pwm_high = u.fan2_pwm_high
    ∧ (fan1_pwm_control c m u).fan2_previous_millis = u.fan2_previous_millis := by
  simp [fan1_pwm_control, chip_write, apply_ite Sys.fan_duty, apply_ite Sys.fan2_pwm_high,
    apply_ite Sys.fan2_previous_millis]

theorem fan1_pwm_control_chan1 (c : Consts) (m : Nat) (s : Sys) (hd : 0 < s.fan_duty.fan1) :
    (⟨(fan1_pwm_control c m s).fan_duty.fan1, (fan1_pwm_control c m s).fan1_pwm_high,
        (fan1_pwm_control c m s).fan1_previous_millis⟩ : PwmChan)
      = pwm_step c m ⟨s.fan_duty.fan1, s.fan1_pwm_high, s.fan1_previous_millis⟩ := by
  cases hh : s.fan1_pwm_high <;> cases ho : s.fan1_on <;>
    simp [fan1_pwm_control, pwm_step, chip_write, hd, hh, ho, apply_ite Sys.fan_duty,
      apply_ite Sys.fan1_pwm_high, apply_ite Sys.fan1_previous_millis] <;>
    split_ifs <;> simp_all

theorem fan2_pwm_control_chan2 (c : Consts) (m : Nat) (s : Sys) (hd : 0 < s.fan_duty.fan2) :
    (⟨(fan2_pwm_control c m s).fan_duty.fan2, (fan2_pwm_control c m s).fan2_pwm_high,
        (fan2_pwm_control c m s).fan2_previous_millis⟩ : PwmChan)
      = pwm_step c m ⟨s.fan_duty.fan2, s.fan2_pwm_high, s.fan2_previous_millis⟩ := by
  cases hh : s.fan2_pwm_high <;> cases ho : s.fan2_on <;>
    simp [fan2_pwm_control, pwm_step, chip_write, hd, hh, ho, apply_ite Sys.fan_duty,
      apply_ite Sys.fan2_pwm_high, apply_ite Sys.fan2_previous_millis] <;>
    split_ifs <;> simp_all

/-- On the channel of a fan with a non-zero duty, `fan_pwm_control` is `pwm_step`. -/
theorem fan_pwm_control_chan (c : Consts) (i : TickIn) (j : Nat) (s : Sys)
    (hd : 0 < (pwm_chan j s).duty) :
    pwm_chan j (fan_pwm_control c i s) = pwm_step c i.millis (pwm_chan j s) := by
  by_cases hj : j = 0
  · simp only [pwm_chan, hj, if_true] at hd ⊢
    obtain ⟨a1, a2, a3⟩ := fan2_pwm_control_chan1 c i.millis (fan1_pwm_control c i.millis s)
    unfold fan_pwm_control
    rw [a1, a2, a3]
    exact fan1_pwm_control_chan1 c i.millis s hd
  · simp only [pwm_chan, hj, if_false] at hd ⊢
    obtain ⟨a1, a2, a3⟩ := fan1_pwm_control_chan2 c i.millis s
    unfold fan_pwm_control
    rw [← a1, ← a2, ← a3]
    rw [← a1] at hd
    exact fan2_pwm_control_chan2 c i.millis _ hd

theorem ulong_sub_after (u m : Nat) (hm : m < 2 ^ 32) :
    ulong_sub (millis_after u m) (u % 2 ^ 32) = m := by
  unfold ulong_sub millis_after
  norm_num at hm ⊢
  omega

theorem millis_after_add (t a b : Nat) :
    millis_after t (a + b) = millis_after (millis_after t a) b := by
  unfold millis_after
  norm_num
  omega

theorem ulong_sub_after_lit (u m : Nat) (hm : m < 2 ^ 32) :
    ulong_sub (millis_after u m) (u % 4294967296) = m := by
  simpa using ulong_sub_after u m hm

/-- In the on phase nothing happens before the on time has elapsed. -/
theorem pwm_step_on_stay (c : Consts) (d u m : Nat) (hm : m < 2 ^ 32)
    (h : (m : ℚ) < period c * ((d : ℚ) / 100)) :
    pwm_step c (millis_after u m) ⟨d, true, u % 2 ^ 32⟩ = ⟨d, true, u % 2 ^ 32⟩ := by
  simp [pwm_step, ulong_sub_after_lit u m hm, not_le.mpr h]

/-- The on phase ends at the first tick at which the on time has elapsed. -/
theorem pwm_step_on_edge (c : Consts) (d u m : Nat) (hm : m < 2 ^ 32)
    (h : period c * ((d : ℚ) / 100) ≤ (m : ℚ)) :
    pwm_step c (millis_after u m) ⟨d, true, u % 2 ^ 32⟩ = ⟨d, false, millis_after u m⟩ := by
  simp [pwm_step, ulong_sub_after_lit u m hm, h]

/-- In the off phase nothing happens before the off time has elapsed. -/
theorem pwm_step_off_stay (c : Consts) (d u m : Nat) (hm : m < 2 ^ 32)
    (h : (m : ℚ) < period c * (1 - (d : ℚ) / 100)) :
    pwm_step c (millis_after u m) ⟨d, false, u % 2 ^ 32⟩ = ⟨d, false, u % 2 ^ 32⟩ := by
  simp [pwm_step, ulong_sub_after_lit u m hm, not_le.mpr h]

/-- The off phase ends at the first tick at which the off time has elapsed, and
the on phase that starts there does not end in the same call. -/
theorem pwm_step_off_edge (c : Consts) (d u m : Nat) (hm : m < 2 ^ 32)
    (hon : 0 < period c * ((d : ℚ) / 100))
    (h : period c * (1 - (d : ℚ) / 100) ≤ (m : ℚ)) :
    pwm_step c (millis_after u m) ⟨d, false, u % 2 ^ 32⟩ = ⟨d, true, millis_after u m⟩ := by
  have h0 : ulong_sub (millis_after u m) (millis_after u m) = 0 := by
    unfold ulong_sub millis_after
    norm_num
  simp [pwm_step, ulong_sub_after_lit u m hm, h, h0, not_le.mpr hon]

theorem lt_of_lt_ceil_toNat (x : ℚ) (k : Nat) (h : k < Int.toNat ⌈x⌉) : (k : ℚ) < x := by
  have h1 : (k : Int) < ⌈x⌉ := Int.lt_toNat.mp h
  have h2 := Int.lt_ceil.mp h1
  exact_mod_cast h2

theorem le_ceil_toNat (x : ℚ) : x ≤ ((Int.toNat ⌈x⌉ : Nat) : ℚ) := by
  have h1 : x ≤ ((⌈x⌉ : Int) : ℚ) := Int.le_ceil x
  have h2 : (⌈x⌉ : Int) ≤ ((Int.toNat ⌈x⌉ : Nat) : Int) := Int.self_le_toNat _
  have h3 : ((⌈x⌉ : Int) : ℚ) ≤ (((Int.toNat ⌈x⌉ : Nat) : Int) : ℚ) := by exact_mod_cast h2
  calc x ≤ ((⌈x⌉ : Int) : ℚ) := h1
    _ ≤ (((Int.toNat ⌈x⌉ : Nat) : Int) : ℚ) := h3
    _ = ((Int.toNat ⌈x⌉ : Nat) : ℚ) := by norm_cast

theorem ceil_toNat_lt_add_one (x : ℚ) (hx : 0 ≤ x) : ((Int.toNat ⌈x⌉ : Nat) : ℚ) < x + 1 := by
  have h1 : ((⌈x⌉ : Int) : ℚ) < x + 1 := Int.ceil_lt_add_one x
  have h2 : ((Int.toNat ⌈x⌉ : Nat) : Int) = ⌈x⌉ := Int.toNat_of_nonneg (Int.ceil_nonneg hx)
  have h3 : ((Int.toNat ⌈x⌉ : Nat) : ℚ) = ((⌈x⌉ : Int) : ℚ) := by
    rw [← h2]; norm_cast
  rw [h3]; exact h1

/-- What is used of the two phase lengths: each is the first tick count that
reaches the phase time, and the off phase has at least one tick. -/
theorem phase_ticks (c : Consts) (d : Nat) (hP : 0 < period c) (hd1 : 1 ≤ d) (hd2 : d ≤ 100) :
    0 < period c * ((d : ℚ) / 100) ∧ 0 ≤ period c * (1 - (d : ℚ) / 100)
    ∧ (∀ k, k < on_ticks c d → (k : ℚ) < period c * ((d : ℚ) / 100))
    ∧ period c * ((d : ℚ) / 100) ≤ (on_ticks c d : ℚ)
    ∧ (on_ticks c d : ℚ) < period c * ((d : ℚ) / 100) + 1
    ∧ 1 ≤ on_ticks c d
    ∧ (∀ k, 1 ≤ k → k < off_ticks c d → (k : ℚ) < period c * (1 - (d : ℚ) / 100))
    ∧ period c * (1 - (d : ℚ) / 100) ≤ (off_ticks c d : ℚ)
    ∧ (off_ticks c d : ℚ) ≤ period c * (1 - (d : ℚ) / 100) + 1
    ∧ 1 ≤ off_ticks c d := by
  have hdq : (1 : ℚ) ≤ (d : ℚ) := by exact_mod_cast hd1
  have hdq2 : (d : ℚ) ≤ 100 := by exact_mod_cast hd2
  have ha : 0 < period c * ((d : ℚ) / 100) := by positivity
  have hb : 0 ≤ period c * (1 - (d : ℚ) / 100) := by
    apply mul_nonneg hP.le
    linarith [div_le_one_of_le₀ hdq2 (by norm_num : (0 : ℚ) ≤ 100)]
  have hA1 : 1 ≤ on_ticks c d := by
    by_contra hlt
    have h0 : on_ticks c d = 0 := by omega
    have := le_ceil_toNat (period c * ((d : ℚ) / 100))
    unfold on_ticks at h0
    rw [h0] at this
    norm_num at this
    linarith
  refine ⟨ha, hb, fun k hk => lt_of_lt_ceil_toNat _ k hk, le_ceil_toNat _,
    ceil_toNat_lt_add_one _ ha.le, hA1, ?_, ?_, ?_, ?_⟩
  · intro k hk1 hk
    apply lt_of_lt_ceil_toNat
    unfold off_ticks at hk
    omega
  · have := le_ceil_toNat (period c * (1 - (d : ℚ) / 100))
    unfold off_ticks
    refine this.trans ?_
    exact_mod_cast le_max_right _ _
  · have := ceil_toNat_lt_add_one (period c * (1 - (d : ℚ) / 100)) hb
    unfold off_ticks
    rcases max_cases 1 (Int.toNat ⌈period c * (1 - (d : ℚ) / 100)⌉) with h | h
    · rw [h.1]; push_cast; linarith
    · rw [h.1]; exact this.le
  · unfold off_ticks
    exact le_max_left _ _

theorem millis_after_mod (t k : Nat) : millis_after t k % 2 ^ 32 = millis_after t k := by
  unfold millis_after
  exact Nat.mod_mod _ _

theorem fan_pwm_run_chan (c : Consts) (t j n : Nat) (s : Sys)
    (hd : 0 < (pwm_chan j (fan_pwm_run c t n s)).duty) :
    pwm_chan j (fan_pwm_run c t (n + 1) s)
      = pwm_step c (millis_after t (n + 1)) (pwm_chan j (fan_pwm_run c t n s)) := by
  show pwm_chan j (fan_pwm_control c _ (fan_pwm_run c t n s)) = _
  rw [fan_pwm_control_chan c _ j _ hd]

/-- During the on phase the channel does not change. -/
theorem fan_pwm_run_on (c : Consts) (t j d : Nat) (s : Sys) (hP : 0 < period c)
    (hd1 : 1 ≤ d) (hd2 : d ≤ 100) (hA : on_ticks c d < 2 ^ 32)
    (hs : pwm_chan j s = ⟨d, true, t % 2 ^ 32⟩) (k : Nat) (hk : k < on_ticks c d) :
    pwm_chan j (fan_pwm_run c t k s) = ⟨d, true, t % 2 ^ 32⟩ := by
  obtain ⟨-, -, h3, -⟩ := phase_ticks c d hP hd1 hd2
  induction k with
  | zero => exact hs
  | succ k ih =>
    have ihk := ih (by omega)
    rw [fan_pwm_run_chan c t j k s (by rw [ihk]; exact hd1), ihk]
    exact pwm_step_on_stay c d t (k + 1) (by omega) (h3 _ hk)

/-- The on phase ends with the call `on_ticks` ms after it began. -/
theorem fan_pwm_run_on_edge (c : Consts) (t j d : Nat) (s : Sys) (hP : 0 < period c)
    (hd1 : 1 ≤ d) (hd2 : d ≤ 100) (hA : on_ticks c d < 2 ^ 32)
    (hs : pwm_chan j s = ⟨d, true, t % 2 ^ 32⟩) :
    pwm_chan j (fan_pwm_run c t (on_ticks c d) s)
      = ⟨d, false, millis_after t (on_ticks c d)⟩ := by
  obtain ⟨-, -, -, h4, -, h6, -⟩ := phase_ticks c d hP hd1 hd2
  obtain ⟨n, hn⟩ : ∃ n, on_ticks c d = n + 1 := ⟨on_ticks c d - 1, by omega⟩
  have hprev := fan_pwm_run_on c t j d s hP hd1 hd2 hA hs n (by omega)
  rw [hn] at h4 hA ⊢
  rw [fan_pwm_run_chan c t j n s (by rw [hprev]; exact hd1), hprev]
  exact pwm_step_on_edge c d t (n + 1) hA h4

/-- During the off phase the channel does not change. -/
theorem fan_pwm_run_off (c : Consts) (t j d : Nat) (s : Sys) (hP : 0 < period c)
    (hd1 : 1 ≤ d) (hd2 : d ≤ 100) (hA : on_ticks c d < 2 ^ 32) (hB : off_ticks c d < 2 ^ 32)
    (hs : pwm_chan j s = ⟨d, true, t % 2 ^ 32⟩) (m : Nat) (hm : m < off_ticks c d) :
    pwm_chan j (fan_pwm_run c t (on_ticks c d + m) s)
      = ⟨d, false, millis_after t (on_ticks c d)⟩ := by
  obtain ⟨-, -, -, -, -, -, h7, -⟩ := phase_ticks c d hP hd1 hd2
  induction m with
  | zero => exact fan_pwm_run_on_edge c t j d s hP hd1 hd2 hA hs
  | succ m ih =>
    have ihm := ih (by omega)
    rw [← Nat.add_assoc, fan_pwm_run_chan c t j (on_ticks c d + m) s (by rw [ihm]; exact hd1),
      ihm, Nat.add_assoc, millis_after_add]
    have := pwm_step_off_stay c d (millis_after t (on_ticks c d)) (m + 1) (by omega)
      (h7 _ (by omega) hm)
    rw [millis_after_mod] at this
    exact this

/-- The off phase ends with the call `off_ticks` ms after it began: the next
on phase starts one full cycle after the first. -/
theorem fan_pwm_run_off_edge (c : Consts) (t j d : Nat) (s : Sys) (hP : 0 < period c)
    (hd1 : 1 ≤ d) (hd2 : d ≤ 100) (hA : on_ticks c d < 2 ^ 32) (hB : off_ticks c d < 2 ^ 32)
    (hs : pwm_chan j s = ⟨d, true, t % 2 ^ 32⟩) :
    pwm_chan j (fan_pwm_run c t (on_ticks c d + off_ticks c d) s)
      = ⟨d, true, millis_after t (on_ticks c d + off_ticks c d)⟩ := by
  obtain ⟨h1, -, -, -, -, -, -, h8, -, h10⟩ := phase_ticks c d hP hd1 hd2
  obtain ⟨n, hn⟩ : ∃ n, off_ticks c d = n + 1 := ⟨off_ticks c d - 1, by omega⟩
  have hprev := fan_pwm_run_off c t j d s hP hd1 hd2 hA hB hs n (by omega)
  rw [hn] at h8 hB ⊢
  rw [← Nat.add_assoc, fan_pwm_run_chan c t j (on_ticks c d + n) s (by rw [hprev]; exact hd1),
    hprev, Nat.add_assoc, millis_after_add]
  have := pwm_step_off_edge c d (millis_after t (on_ticks c d)) (n + 1) hB h1 h8
  rw [millis_after_mod] at this
  exact this

theorem on_time_on (c : Consts) (t j d : Nat) (s : Sys) (hP : 0 < period c)
    (hd1 : 1 ≤ d) (hd2 : d ≤ 100) (hA : on_ticks c d < 2 ^ 32)
    (hs : pwm_chan j s = ⟨d, true, t % 2 ^ 32⟩) (k : Nat) (hk : k ≤ on_ticks c d) :
    on_time c t j k s = k := by
  induction k with
  | zero => rfl
  | succ k ih =>
    show on_time c t j k s + _ = _
    rw [ih (by omega), fan_pwm_run_on c t j d s hP hd1 hd2 hA hs k (by omega)]
    simp

theorem on_time_off (c : Consts) (t j d : Nat) (s : Sys) (hP : 0 < period c)
    (hd1 : 1 ≤ d) (hd2 : d ≤ 100) (hA : on_ticks c d < 2 ^ 32) (hB : off_ticks c d < 2 ^ 32)
    (hs : pwm_chan j s = ⟨d, true, t % 2 ^ 32⟩) (m : Nat) (hm : m ≤ off_ticks c d) :
    on_time c t j (on_ticks c d + m) s = on_ticks c d := by
  induction m with
  | zero => exact on_time_on c t j d s hP hd1 hd2 hA hs _ le_rfl
  | succ m ih =>
    have e : on_time c t j (on_ticks c d + (m + 1)) s
        = on_time c t j (on_ticks c d + m) s
          + (if (pwm_chan j (fan_pwm_run c t (on_ticks c d + m) s)).high = true
              then 1 else 0) := rfl
    rw [e, ih (by omega), fan_pwm_run_off c t j d s hP hd1 hd2 hA hB hs m (by omega)]
    simp

/-- The arithmetic of one cycle: phase lengths that are the phase times rounded
up to whole ticks give an on fraction within `1 / P` of the duty fraction. -/
theorem pwm_fraction_bound (P q A B : ℚ) (hP : 0 < P) (hq0 : 0 ≤ q) (hq1 : q ≤ 1)
    (hA1 : P * q ≤ A) (hA2 : A < P * q + 1) (hB1 : P * (1 - q) ≤ B)
    (hB2 : B ≤ P * (1 - q) + 1) (hA : 0 < A) (hB : 0 < B) :
    |A / (A + B) - q| ≤ 1 / P := by
  have hS : 0 < A + B := by linarith
  have ha : 0 ≤ P * q := mul_nonneg hP.le hq0
  have hb : 0 ≤ P * (1 - q) := mul_nonneg hP.le (by linarith)
  have e : A / (A + B) - q = (A - q * (A + B)) / (A + B) := by
    field_simp
    ring
  have p1 := mul_le_mul_of_nonneg_left hA2.le hb
  have p2 := mul_le_mul_of_nonneg_left hB1 ha
  have p3 := mul_le_mul_of_nonneg_left hA1 hb
  have p4 := mul_le_mul_of_nonneg_left hB2 ha
  rw [e, abs_le]
  constructor
  · rw [show -(1 / P) = (-1) / P by ring, div_le_div_iff₀ hP hS]
    nlinarith
  · rw [div_le_div_iff₀ hS hP]
    nlinarith

theorem period_pos (c : Consts) (hf : 0 < c.FAN_FREQUENCY) : 0 < period c := by
  unfold period
  positivity

/-- C12: at a constant duty `d` in 1..100 of fan `j`, with `fan_pwm_control`
called once per millisecond from the start of an on phase at time `t`: the fan
stays in its on phase for `on_ticks` calls, then in its off phase for
`off_ticks` calls, and the call that ends the off phase starts the next on
phase (one full PWM cycle); over that cycle the fraction of the time spent in
the on phase differs from `d / 100` by at most one tick relative to the PWM
period, `1 / period`. -/
theorem fan_pwm_cycle_fraction (c : Consts) (s : Sys) (j t d : Nat)
    (hf : 0 < c.FAN_FREQUENCY) (hper : period c ≤ 2 ^ 32 - 1) (ht : t < 2 ^ 32)
    (hd1 : 1 ≤ d) (hd2 : d ≤ 100) (hs : pwm_chan j s = ⟨d, true, t⟩) :
    (∀ k, k < on_ticks c d → pwm_chan j (fan_pwm_run c t k s) = ⟨d, true, t⟩)
    ∧ (∀ k, on_ticks c d ≤ k → k < on_ticks c d + off_ticks c d →
        pwm_chan j (fan_pwm_run c t k s) = ⟨d, false, millis_after t (on_ticks c d)⟩)
    ∧ pwm_chan j (fan_pwm_run c t (on_ticks c d + off_ticks c d) s)
        = ⟨d, true, millis_after t (on_ticks c d + off_ticks c d)⟩
    ∧ on_time c t j (on_ticks c d + off_ticks c d) s = on_ticks c d
    ∧ |(on_time c t j (on_ticks c d + off_ticks c d) s : ℚ)
          / ((on_ticks c d + off_ticks c d : Nat) : ℚ) - (d : ℚ) / 100| ≤ 1 / period c := by
  have hP := period_pos c hf
  obtain ⟨h1, h2, -, h4, h5, h6, -, h8, h9, h10⟩ := phase_ticks c d hP hd1 hd2
  have hdq : (1 : ℚ) ≤ (d : ℚ) := by exact_mod_cast hd1
  have hdq2 : (d : ℚ) ≤ 100 := by exact_mod_cast hd2
  have hq1 : (d : ℚ) / 100 ≤ 1 := div_le_one_of_le₀ hdq2 (by norm_num)
  have hq0 : (0 : ℚ) < (d : ℚ) / 100 := by positivity
  have hA : on_ticks c d < 2 ^ 32 := by
    have : (on_ticks c d : ℚ) < 2 ^ 32 := by nlinarith
    exact_mod_cast this
  have hB : off_ticks c d < 2 ^ 32 := by
    have : (off_ticks c d : ℚ) < 2 ^ 32 := by nlinarith
    exact_mod_cast this
  have htm : t % 2 ^ 32 = t := Nat.mod_eq_of_lt ht
  have hs2 : pwm_chan j s = ⟨d, true, t % 2 ^ 32⟩ := by rw [htm]; exact hs
  have hon := on_time_off c t j d s hP hd1 hd2 hA hB hs2 (off_ticks c d) le_rfl
  refine ⟨fun k hk => ?_, fun k hk1 hk2 => ?_, ?_, hon, ?_⟩
  · have := fan_pwm_run_on c t j d s hP hd1 hd2 hA hs2 k hk
    rw [htm] at this
    exact this
  · obtain ⟨m, rfl⟩ : ∃ m, k = on_ticks c d + m := ⟨k - on_ticks c d, by omega⟩
    exact fan_pwm_run_off c t j d s hP hd1 hd2 hA hB hs2 m (by omega)
  · exact fan_pwm_run_off_edge c t j d s hP hd1 hd2 hA hB hs2
  · rw [hon]
    push_cast
    exact pwm_fraction_bound (period c) ((d : ℚ) / 100) (on_ticks c d) (off_ticks c d) hP
      hq0.le hq1 h4 h5 h8 h9 (by exact_mod_cast h6) (by exact_mod_cast h10)

theorem on_ticks_sample : on_ticks sample_consts 50 = 8 ∧ off_ticks sample_consts 50 = 8 := by
  have h1 : ⌈period sample_consts * (((50 : Nat) : ℚ) / 100)⌉ = 8 := by
    rw [Int.ceil_eq_iff]
    norm_num [period, sample_consts]
  have h2 : ⌈period sample_consts * (1 - ((50 : Nat) : ℚ) / 100)⌉ = 8 := by
    rw [Int.ceil_eq_iff]
    norm_num [period, sample_consts]
  unfold on_ticks off_ticks
  rw [h1, h2]
  decide

theorem fan_pwm_cycle_fraction_witness :
    0 < sample_consts.FAN_FREQUENCY ∧ period sample_consts ≤ 2 ^ 32 - 1
    ∧ pwm_chan 0 pwm_start = ⟨50, true, 20⟩ ∧ pwm_chan 1 pwm_start = ⟨50, true, 20⟩
    ∧ on_time sample_consts 20 0 (on_ticks sample_consts 50 + off_ticks sample_consts 50)
        pwm_start = on_ticks sample_consts 50
    ∧ |(on_time sample_consts 20 0 (on_ticks sample_consts 50 + off_ticks sample_consts 50)
          pwm_start : ℚ)
        / ((on_ticks sample_consts 50 + off_ticks sample_consts 50 : Nat) : ℚ)
        - ((50 : Nat) : ℚ) / 100| ≤ 1 / period sample_consts
    ∧ pwm_chan 1 (fan_pwm_run sample_consts 20
          (on_ticks sample_consts 50 + off_ticks sample_consts 50) pwm_start)
        = ⟨50, true, millis_after 20 (on_ticks sample_consts 50 + off_ticks sample_consts 50)⟩ :=
  ⟨by norm_num [sample_consts], by norm_num [period, sample_consts], rfl, rfl,
    (fan_pwm_cycle_fraction sample_consts pwm_start 0 20 50 (by norm_num [sample_consts])
      (by norm_num [period, sample_consts]) (by norm_num) (by decide) (by decide)
      rfl).2.2.2.1,
    (fan_pwm_cycle_fraction sample_consts pwm_start 0 20 50 (by norm_num [sample_consts])
      (by norm_num [period, sample_consts]) (by norm_num) (by decide) (by decide)
      rfl).2.2.2.2,
    (fan_pwm_cycle_fraction sample_consts pwm_start 1 20 50 (by norm_num [sample_consts])
      (by norm_num [period, sample_consts]) (by norm_num) (by decide) (by decide)
      rfl).2.2.1⟩

/-! ### The numeric editor -/

theorem generic_value_P_range (rd v lo hi : Nat) (h1 : lo ≤ v) (h2 : v ≤ hi) :
    lo ≤ generic_value_P rd v lo hi ∧ generic_value_P rd v lo hi ≤ hi := by
  unfold generic_value_P
  split_ifs <;> omega

theorem generic_value_P_step (rd v lo hi : Nat) :
    generic_value_P rd v lo hi = v ∨ generic_value_P rd v lo hi = v + 1
      ∨ generic_value_P rd v lo hi + 1 = v := by
  unfold generic_value_P
  split_ifs <;> omega

theorem generic_value_P_above (rd v lo hi : Nat) (h0 : lo ≤ hi) (h : hi < v) :
    generic_value_P rd v lo hi = (if rd < 128 then v - 1 else v) := by
  unfold generic_value_P
  split_ifs <;> omega

theorem generic_value_P_below (rd v lo hi : Nat) (h0 : lo ≤ hi) (h : v < lo) :
    generic_value_P rd v lo hi = (if rd > 128 then v + 1 else v) := by
  unfold generic_value_P
  split_ifs <;> omega

theorem menu_move_echo_fields (b : Bool) (s : Sys) :
    (menu_move_echo b s).config = s.config
    ∧ (menu_move_echo b s).speed_control = s.speed_control
    ∧ (menu_move_echo b s).rotary_diff = s.rotary_diff
    ∧ (menu_move_echo b s).state = s.state := by
  rcases menu_move_echo_cases b s with h | h <;> rw [h] <;> simp [echo]

theorem edited_value_congr (c : Consts) (s t : Sys) (h1 : t.state = s.state)
    (h2 : t.config = s.config) (h3 : t.speed_control = s.speed_control) :
    edited_value c t = edited_value c s := by
  unfold edited_value
  rw [h1, h2, h3]

theorem menu_move_screen_edited_value (e : Ext) (c : Consts) (t : Sys)
    (v lo hi : Nat) (h : edited_value c t = some (v, lo, hi)) :
    edited_value c (menu_move_screen e c t)
      = some (generic_value_P t.rotary_diff v lo hi, lo, hi) := by
  unfold edited_value at h
  split at h
  all_goals first
    | cases h
    | (split at h <;> cases h)
  all_goals (rename_i hs; simp [menu_move_screen, edited_value, hs])
  all_goals simp_all

/-- What `menu_move` does to the field under the editor. -/
theorem menu_move_edited_value (e : Ext) (c : Consts) (b : Bool) (s : Sys)
    (v lo hi : Nat) (h : edited_value c s = some (v, lo, hi)) :
    edited_value c (menu_move e c b s)
      = some (generic_value_P s.rotary_diff v lo hi, lo, hi) := by
  obtain ⟨h1, h2, h3, h4⟩ := menu_move_echo_fields b s
  have ht : edited_value c { menu_move_echo b s with redraw_menu := false }
      = some (v, lo, hi) :=
    (edited_value_congr c s { menu_move_echo b s with redraw_menu := false } h4 h1 h2).trans h
  have hm := menu_move_screen_edited_value e c _ v lo hi ht
  have hr : ({ menu_move_echo b s with redraw_menu := false } : Sys).rotary_diff
      = s.rotary_diff := h3
  rw [hr] at hm
  rw [← hm]
  exact edited_value_congr c _ _ rfl rfl rfl

/-- C13 as stated fails: a stored value that starts outside the bounds is not
clamped.  The editor for 1..10 leaves 50 at 50 with the encoder at neutral and
moves it to 49 on a step down; the curing-time screen shows the same. -/
theorem generic_value_P_does_not_clamp :
    generic_value_P 128 50 1 10 = 50 ∧ generic_value_P 120 50 1 10 = 49
    ∧ editor_out_of_range.config.curing_run_time = 50
    ∧ (menu_move sample_ext sample_consts true editor_out_of_range).config.curing_run_time
        = 50 := by
  decide

/-- C13 (amended): for every bounds `min <= max`, every stored value within
the bounds and every encoder delta, after `generic_value_P` the edited value
lies in `[min, max]`, one step at most from where it was; a value that starts
outside the bounds is not clamped, it stays or moves one step toward the
bounds.  Hence every numeric field shown in an editor screen (speeds and run
times 1..10, LED intensity 1..100, fan duties 0..100, target temperatures
within their unit's MIN/MAX) that is within its range when `menu_move` runs is
within its range afterwards. -/
theorem generic_value_P_keeps_range (rd v lo hi : Nat) (h0 : lo ≤ hi) :
    (lo ≤ v → v ≤ hi →
        lo ≤ generic_value_P rd v lo hi ∧ generic_value_P rd v lo hi ≤ hi)
    ∧ (generic_value_P rd v lo hi = v ∨ generic_value_P rd v lo hi = v + 1
        ∨ generic_value_P rd v lo hi + 1 = v)
    ∧ (hi < v → generic_value_P rd v lo hi = (if rd < 128 then v - 1 else v))
    ∧ (v < lo → generic_value_P rd v lo hi = (if rd > 128 then v + 1 else v))
    ∧ (∀ (e : Ext) (c : Consts) (b : Bool) (s : Sys),
        s.rotary_diff = rd → edited_value c s = some (v, lo, hi) → lo ≤ v → v ≤ hi →
          ∃ w, edited_value c (menu_move e c b s) = some (w, lo, hi) ∧ lo ≤ w ∧ w ≤ hi) := by
  refine ⟨generic_value_P_range rd v lo hi, generic_value_P_step rd v lo hi,
    generic_value_P_above rd v lo hi h0, generic_value_P_below rd v lo hi h0, ?_⟩
  intro e c b s hrd hed h1 h2
  refine ⟨generic_value_P rd v lo hi, ?_, generic_value_P_range rd v lo hi h1 h2⟩
  rw [← hrd]
  exact menu_move_edited_value e c b s v lo hi hed

theorem generic_value_P_keeps_range_witness :
    generic_value_P 130 10 1 10 = 10 ∧ generic_value_P 130 9 1 10 = 10
    ∧ generic_value_P 126 1 1 10 = 1
    ∧ ((1 ≤ 10 → 10 ≤ 10 →
        1 ≤ generic_value_P 130 10 1 10 ∧ generic_value_P 130 10 1 10 ≤ 10)
    ∧ (generic_value_P 130 10 1 10 = 10 ∨ generic_value_P 130 10 1 10 = 10 + 1
        ∨ generic_value_P 130 10 1 10 + 1 = 10)
    ∧ (10 < 10 → generic_value_P 130 10 1 10 = (if 130 < 128 then 10 - 1 else 10))
    ∧ (10 < 1 → generic_value_P 130 10 1 10 = (if 130 > 128 then 10 + 1 else 10))
    ∧ (∀ (e : Ext) (c : Consts) (b : Bool) (s : Sys),
        s.rotary_diff = 130 → edited_value c s = some (10, 1, 10) → 1 ≤ 10 → 10 ≤ 10 →
          ∃ w, edited_value c (menu_move e c b s) = some (w, 1, 10) ∧ 1 ≤ w ∧ w ≤ 10)) :=
  ⟨by decide, by decide, by decide, generic_value_P_keeps_range 130 10 1 10 (by decide)⟩

/-! ### Configuration store: save and load -/

theorem write_config_config (s : Sys) :
    (write_config s).config
      = { s.config with washing_speed := s.speed_control.washing_speed,
                        curing_speed := s.speed_control.curing_speed }
    ∧ (write_config s).speed_control = s.speed_control := by
  simp [write_config]

theorem write_config_eeprom (s : Sys) :
    (write_config s).eeprom
      = config_magic ++ (config_bytes (write_config s).config ++ s.eeprom.drop 27) := by
  simp [write_config, eeprom_put, config_magic, MAGIC_SIZE, config_bytes]

theorem eeprom_get_magic (rest : List Nat) :
    eeprom_get (config_magic ++ rest) 0 MAGIC_SIZE = config_magic := by
  simp [eeprom_get, eeprom_byte, config_magic, MAGIC_SIZE, List.range, List.range.loop]

theorem eeprom_get_record (cfg : eeprom_v2_t) (rest : List Nat) :
    eeprom_get (config_magic ++ (config_bytes cfg ++ rest)) MAGIC_SIZE 21 = config_bytes cfg := by
  simp [eeprom_get, eeprom_byte, config_magic, MAGIC_SIZE, config_bytes, List.range,
    List.range.loop]

theorem config_load_v2_bytes (cfg0 cfg : eeprom_v2_t) :
    config_load_v2 cfg0 (config_bytes cfg) = cfg := by
  cases cfg with
  | mk a1 a2 a3 a4 a5 a6 a7 a8 a9 a10 a11 a12 hf a13 a14 f1 f2 f3 =>
    cases hf <;> simp [config_load_v2, config_load_v1, config_bytes]

/-- After `read_config` with the current magic in place the record is the one
decoded from the 21 bytes behind the magic. -/
theorem read_config_current (s : Sys)
    (hmagic : eeprom_get s.eeprom 0 MAGIC_SIZE = config_magic) :
    (read_config s).config = config_load_v2 s.config (eeprom_get s.eeprom MAGIC_SIZE 21)
    ∧ (read_config s).speed_control.washing_speed = (read_config s).config.washing_speed
    ∧ (read_config s).speed_control.curing_speed = (read_config s).config.curing_speed
    ∧ (read_config s).eeprom = s.eeprom := by
  unfold read_config
  simp only [hmagic, if_true]
  simp

/-! ### Configuration store: legacy and missing records -/

theorem legacy_magic_ne : legacy_magic ≠ config_magic := by decide

/-- After `read_config` with the legacy magic in place. -/
theorem read_config_legacy (s : Sys)
    (hmagic : eeprom_get s.eeprom 0 MAGIC_SIZE = legacy_magic) :
    (read_config s).config
      = (if (config_load_v1 s.config (eeprom_get s.eeprom MAGIC_SIZE 13)).SI_unit_system ≠ 0
          then
            { config_load_v1 s.config (eeprom_get s.eeprom MAGIC_SIZE 13) with
                resin_target_temp := s.config.resin_target_temp }
          else
            { config_load_v1 s.config (eeprom_get s.eeprom MAGIC_SIZE 13) with
                target_temp := round_to_byte (celsius2fahrenheit
                  (config_load_v1 s.config (eeprom_get s.eeprom MAGIC_SIZE 13)).target_temp),
                resin_target_temp :=
                  round_to_byte (celsius2fahrenheit s.config.resin_target_temp) }) := by
  by_cases hsi : (config_load_v1 s.config (eeprom_get s.eeprom MAGIC_SIZE 13)).SI_unit_system = 0
  · simp [read_config, hmagic, legacy_magic_ne, hsi]
  · simp [read_config, hmagic, legacy_magic_ne, hsi]

theorem config_load_v1_fields (cfg : eeprom_v2_t) (mem : List Nat) :
    (config_load_v1 cfg (eeprom_get mem MAGIC_SIZE 13)).washing_speed
        = eeprom_byte mem (MAGIC_SIZE + 0)
    ∧ (config_load_v1 cfg (eeprom_get mem MAGIC_SIZE 13)).curing_speed
        = eeprom_byte mem (MAGIC_SIZE + 1)
    ∧ (config_load_v1 cfg (eeprom_get mem MAGIC_SIZE 13)).washing_run_time
        = eeprom_byte mem (MAGIC_SIZE + 2)
    ∧ (config_load_v1 cfg (eeprom_get mem MAGIC_SIZE 13)).curing_run_time
        = eeprom_byte mem (MAGIC_SIZE + 3)
    ∧ (config_load_v1 cfg (eeprom_get mem MAGIC_SIZE 13)).finish_beep_mode
        = eeprom_byte mem (MAGIC_SIZE + 4)
    ∧ (config_load_v1 cfg (eeprom_get mem MAGIC_SIZE 13)).drying_run_time
        = eeprom_byte mem (MAGIC_SIZE + 5)
    ∧ (config_load_v1 cfg (eeprom_get mem MAGIC_SIZE 13)).sound_response
        = eeprom_byte mem (MAGIC_SIZE + 6)
    ∧ (config_load_v1 cfg (eeprom_get mem MAGIC_SIZE 13)).curing_machine_mode
        = eeprom_byte mem (MAGIC_SIZE + 7)
    ∧ (config_load_v1 cfg (eeprom_get mem MAGIC_SIZE 13)).heat_to_target_temp
        = eeprom_byte mem (MAGIC_SIZE + 8)
    ∧ (config_load_v1 cfg (eeprom_get mem MAGIC_SIZE 13)).target_temp
        = eeprom_byte mem (MAGIC_SIZE + 9)
    ∧ (config_load_v1 cfg (eeprom_get mem MAGIC_SIZE 13)).SI_unit_system
        = eeprom_byte mem (MAGIC_SIZE + 11)
    ∧ (config_load_v1 cfg (eeprom_get mem MAGIC_SIZE 13)).heater_failure
        = decide (eeprom_byte mem (MAGIC_SIZE + 12) ≠ 0) := by
  simp only [config_load_v1]
  rw [eeprom_get_getD _ _ _ 0 (by decide), eeprom_get_getD _ _ _ 1 (by decide),
    eeprom_get_getD _ _ _ 2 (by decide), eeprom_get_getD _ _ _ 3 (by decide),
    eeprom_get_getD _ _ _ 4 (by decide), eeprom_get_getD _ _ _ 5 (by decide),
    eeprom_get_getD _ _ _ 6 (by decide), eeprom_get_getD _ _ _ 7 (by decide),
    eeprom_get_getD _ _ _ 8 (by decide), eeprom_get_getD _ _ _ 9 (by decide),
    eeprom_get_getD _ _ _ 11 (by decide), eeprom_get_getD _ _ _ 12 (by decide)]
  simp

theorem config_load_v1_newer (cfg : eeprom_v2_t) (b : List Nat) :
    (config_load_v1 cfg b).resin_preheat_run_time = cfg.resin_preheat_run_time
    ∧ (config_load_v1 cfg b).led_pwm_value = cfg.led_pwm_value
    ∧ (config_load_v1 cfg b).fans_curing_speed = cfg.fans_curing_speed
    ∧ (config_load_v1 cfg b).fans_drying_speed = cfg.fans_drying_speed
    ∧ (config_load_v1 cfg b).fans_preheat_speed = cfg.fans_preheat_speed := by
  simp [config_load_v1]

/-- C15: when the stored magic is the legacy magic "CURWA" and `config` holds
the compiled defaults, `read_config` copies the members of the legacy layout
`eeprom_v1_t` from the stored bytes and leaves every newer field at its
compiled default: `resin_preheat_run_time = 3`, `led_pwm_value = 100`,
`fans_curing_speed = {60,70}`, `fans_drying_speed = {60,70}`,
`fans_preheat_speed = {40,40}`. -/
theorem read_config_legacy_newer_fields (s : Sys) (hcfg : s.config = config_default)
    (hmagic : eeprom_get s.eeprom 0 MAGIC_SIZE = legacy_magic) :
    ((read_config s).config.resin_preheat_run_time = 3
      ∧ (read_config s).config.led_pwm_value = 100
      ∧ (read_config s).config.fans_curing_speed = ⟨60, 70⟩
      ∧ (read_config s).config.fans_drying_speed = ⟨60, 70⟩
      ∧ (read_config s).config.fans_preheat_speed = ⟨40, 40⟩)
    ∧ ((read_config s).config.washing_speed = eeprom_byte s.eeprom (MAGIC_SIZE + 0)
      ∧ (read_config s).config.curing_speed = eeprom_byte s.eeprom (MAGIC_SIZE + 1)
      ∧ (read_config s).config.washing_run_time = eeprom_byte s.eeprom (MAGIC_SIZE + 2)
      ∧ (read_config s).config.curing_run_time = eeprom_byte s.eeprom (MAGIC_SIZE + 3)
      ∧ (read_config s).config.finish_beep_mode = eeprom_byte s.eeprom (MAGIC_SIZE + 4)
      ∧ (read_config s).config.drying_run_time = eeprom_byte s.eeprom (MAGIC_SIZE + 5)
      ∧ (read_config s).config.sound_response = eeprom_byte s.eeprom (MAGIC_SIZE + 6)
      ∧ (read_config s).config.curing_machine_mode = eeprom_byte s.eeprom (MAGIC_SIZE + 7)
      ∧ (read_config s).config.heat_to_target_temp = eeprom_byte s.eeprom (MAGIC_SIZE + 8)
      ∧ (read_config s).config.SI_unit_system = eeprom_byte s.eeprom (MAGIC_SIZE + 11)
      ∧ (read_config s).config.heater_failure
          = decide (eeprom_byte s.eeprom (MAGIC_SIZE + 12) ≠ 0)) := by
  have hl := read_config_legacy s hmagic
  obtain ⟨f0, f1, f2, f3, f4, f5, f6, f7, f8, _, f11, f12⟩ :=
    config_load_v1_fields s.config s.eeprom
  obtain ⟨n1, n2, n3, n4, n5⟩ :=
    config_load_v1_newer s.config (eeprom_get s.eeprom MAGIC_SIZE 13)
  have d1 : s.config.resin_preheat_run_time = 3 := by rw [hcfg]; rfl
  have d2 : s.config.led_pwm_value = 100 := by rw [hcfg]; rfl
  have d3 : s.config.fans_curing_speed = ⟨60, 70⟩ := by rw [hcfg]; rfl
  have d4 : s.config.fans_drying_speed = ⟨60, 70⟩ := by rw [hcfg]; rfl
  have d5 : s.config.fans_preheat_speed = ⟨40, 40⟩ := by rw [hcfg]; rfl
  rw [hl]
  constructor
  · split <;>
      exact ⟨n1.trans d1, n2.trans d2, n3.trans d3, n4.trans d4, n5.trans d5⟩
  · split <;> exact ⟨f0, f1, f2, f3, f4, f5, f6, f7, f8, f11, f12⟩

theorem read_config_legacy_newer_fields_witness :
    (read_config { power_up with eeprom := legacy_image_c }).config.washing_run_time = 5
    ∧ (((read_config { power_up with eeprom := legacy_image_c }).config.resin_preheat_run_time
          = 3
      ∧ (read_config { power_up with eeprom := legacy_image_c }).config.led_pwm_value = 100
      ∧ (read_config { power_up with eeprom := legacy_image_c }).config.fans_curing_speed
          = ⟨60, 70⟩
      ∧ (read_config { power_up with eeprom := legacy_image_c }).config.fans_drying_speed
          = ⟨60, 70⟩
      ∧ (read_config { power_up with eeprom := legacy_image_c }).config.fans_preheat_speed
          = ⟨40, 40⟩)
    ∧ ((read_config { power_up with eeprom := legacy_image_c }).config.washing_speed
          = eeprom_byte legacy_image_c (MAGIC_SIZE + 0)
      ∧ (read_config { power_up with eeprom := legacy_image_c }).config.curing_speed
          = eeprom_byte legacy_image_c (MAGIC_SIZE + 1)
      ∧ (read_config { power_up with eeprom := legacy_image_c }).config.washing_run_time
          = eeprom_byte legacy_image_c (MAGIC_SIZE + 2)
      ∧ (read_config { power_up with eeprom := legacy_image_c }).config.curing_run_time
          = eeprom_byte legacy_image_c (MAGIC_SIZE + 3)
      ∧ (read_config { power_up with eeprom := legacy_image_c }).config.finish_beep_mode
          = eeprom_byte legacy_image_c (MAGIC_SIZE + 4)
      ∧ (read_config { power_up with eeprom := legacy_image_c }).config.drying_run_time
          = eeprom_byte legacy_image_c (MAGIC_SIZE + 5)
      ∧ (read_config { power_up with eeprom := legacy_image_c }).config.sound_response
          = eeprom_byte legacy_image_c (MAGIC_SIZE + 6)
      ∧ (read_config { power_up with eeprom := legacy_image_c }).config.curing_machine_mode
          = eeprom_byte legacy_image_c (MAGIC_SIZE + 7)
      ∧ (read_config { power_up with eeprom := legacy_image_c }).config.heat_to_target_temp
          = eeprom_byte legacy_image_c (MAGIC_SIZE + 8)
      ∧ (read_config { power_up with eeprom := legacy_image_c }).config.SI_unit_system
          = eeprom_byte legacy_image_c (MAGIC_SIZE + 11)
      ∧ (read_config { power_up with eeprom := legacy_image_c }).config.heater_failure
          = decide (eeprom_byte legacy_image_c (MAGIC_SIZE + 12) ≠ 0))) :=
  ⟨by decide, read_config_legacy_newer_fields { power_up with eeprom := legacy_image_c } rfl
    (by decide)⟩

/-! ### Legacy records: temperature units -/

theorem nearest_c2f (t : Nat) :
    nearest (celsius2fahrenheit (t : ℚ)) = (18 * (t : Int) + 325) / 10 := by
  unfold nearest celsius2fahrenheit
  have h : (18 / 10 * (t : ℚ) + 32 + 1 / 2)
      = ((18 * (t : Int) + 325 : Int) : ℚ) / ((10 : Nat) : ℚ) := by
    push_cast
    ring
  rw [h, Rat.floor_intCast_div_natCast]
  rfl

theorem celsius2fahrenheit_nonneg (t : Nat) : 0 ≤ celsius2fahrenheit (t : ℚ) := by
  unfold celsius2fahrenheit
  positivity

theorem round_to_byte_c2f (t : Nat) :
    round_to_byte (celsius2fahrenheit (t : ℚ))
      = to_uint8 (nearest (celsius2fahrenheit (t : ℚ))) := by
  have h0 := celsius2fahrenheit_nonneg t
  have h1 : (0 : ℚ) ≤ celsius2fahrenheit (t : ℚ) + 1 / 2 := by linarith
  unfold round_to_byte trunc_long nearest
  rw [if_pos h0, if_pos h1]

/-- Up to 124 degrees Celsius the Fahrenheit value fits a byte and the stored
byte is the nearest integer. -/
theorem round_to_byte_c2f_small (t : Nat) (ht : t ≤ 124) :
    (round_to_byte (celsius2fahrenheit (t : ℚ)) : Int) = nearest (celsius2fahrenheit (t : ℚ))
    ∧ round_to_byte (celsius2fahrenheit (t : ℚ)) ≤ 255 := by
  rw [round_to_byte_c2f, nearest_c2f]
  unfold to_uint8
  omega

theorem round_to_byte_c2f_default : round_to_byte (celsius2fahrenheit ((30 : Nat) : ℚ)) = 86 := by
  rw [round_to_byte_c2f, nearest_c2f]
  decide

set_option maxRecDepth 100000 in
/-- C16 as stated fails: a legacy record with a stored Celsius target of 130
and the unit flag 0 loads `target_temp = 10`; the Fahrenheit value rounded to
nearest is 266, which does not fit the byte. -/
theorem read_config_legacy_target_wraps :
    eeprom_get legacy_image_hot 0 MAGIC_SIZE = legacy_magic
    ∧ eeprom_byte legacy_image_hot (MAGIC_SIZE + 9) = 130
    ∧ eeprom_byte legacy_image_hot (MAGIC_SIZE + 11) = 0
    ∧ nearest (celsius2fahrenheit ((130 : Nat) : ℚ)) = 266
    ∧ (read_config { power_up with eeprom := legacy_image_hot }).config.target_temp = 10 := by
  refine ⟨by decide, by decide, by decide, by rw [nearest_c2f]; decide, ?_⟩
  have hl := read_config_legacy { power_up with eeprom := legacy_image_hot } (by decide)
  have hf := config_load_v1_fields power_up.config legacy_image_hot
  have hsi : (config_load_v1 power_up.config
      (eeprom_get legacy_image_hot MAGIC_SIZE 13)).SI_unit_system = 0 := by
    rw [hf.2.2.2.2.2.2.2.2.2.2.1]; decide
  have ht : (config_load_v1 power_up.config
      (eeprom_get legacy_image_hot MAGIC_SIZE 13)).target_temp = 130 := by
    rw [hf.2.2.2.2.2.2.2.2.2.1]; decide
  rw [hl]
  simp only [hsi, ne_eq, not_true_eq_false, if_false, ht]
  rw [round_to_byte_c2f, nearest_c2f]
  decide

/-- C16 (amended): when a legacy ("CURWA") record is loaded into the compiled
defaults, then with a non-zero unit flag (Celsius) `target_temp` is the stored
legacy Celsius target and `resin_target_temp` is the default 30; with the flag
zero (Fahrenheit) `resin_target_temp` is 86, the default 30 C in Fahrenheit,
and `target_temp` is the stored Celsius target converted to Fahrenheit and
rounded to nearest, reduced to eight bits: it is the rounded Fahrenheit value
itself for every stored target up to 124 C, whose Fahrenheit value fits a
byte. -/
theorem read_config_legacy_temperatures (s : Sys) (hcfg : s.config = config_default)
    (hmagic : eeprom_get s.eeprom 0 MAGIC_SIZE = legacy_magic) :
    (eeprom_byte s.eeprom (MAGIC_SIZE + 11) ≠ 0 →
        (read_config s).config.target_temp = eeprom_byte s.eeprom (MAGIC_SIZE + 9)
        ∧ (read_config s).config.resin_target_temp = 30)
    ∧ (eeprom_byte s.eeprom (MAGIC_SIZE + 11) = 0 →
        (read_config s).config.resin_target_temp = 86
        ∧ (read_config s).config.target_temp
            = to_uint8 (nearest (celsius2fahrenheit (eeprom_byte s.eeprom (MAGIC_SIZE + 9))))
        ∧ (eeprom_byte s.eeprom (MAGIC_SIZE + 9) ≤ 124 →
            ((read_config s).config.target_temp : Int)
              = nearest (celsius2fahrenheit (eeprom_byte s.eeprom (MAGIC_SIZE + 9))))) := by
  have hl := read_config_legacy s hmagic
  have hf := config_load_v1_fields s.config s.eeprom
  have hsi := hf.2.2.2.2.2.2.2.2.2.2.1
  have ht := hf.2.2.2.2.2.2.2.2.2.1
  have hr : s.config.resin_target_temp = 30 := by rw [hcfg]; rfl
  constructor
  · intro hflag
    rw [hl, if_pos (by rw [hsi]; exact hflag)]
    exact ⟨ht, hr⟩
  · intro hflag
    rw [hl, if_neg (by rw [hsi]; simpa using hflag)]
    simp only [hr, ht]
    refine ⟨round_to_byte_c2f_default, round_to_byte_c2f _, fun hsmall => ?_⟩
    exact (round_to_byte_c2f_small _ hsmall).1

theorem read_config_legacy_temperatures_witness :
    eeprom_byte legacy_image_c (MAGIC_SIZE + 11) ≠ 0
    ∧ eeprom_byte legacy_image_f (MAGIC_SIZE + 11) = 0
    ∧ eeprom_byte legacy_image_f (MAGIC_SIZE + 9) = 40
    ∧ ((read_config { power_up with eeprom := legacy_image_c }).config.target_temp
          = eeprom_byte legacy_image_c (MAGIC_SIZE + 9)
        ∧ (read_config { power_up with eeprom := legacy_image_c }).config.resin_target_temp
          = 30)
    ∧ ((read_config { power_up with eeprom := legacy_image_f }).config.resin_target_temp = 86
        ∧ (read_config { power_up with eeprom := legacy_image_f }).config.target_temp
            = to_uint8 (nearest (celsius2fahrenheit
                (eeprom_byte legacy_image_f (MAGIC_SIZE + 9))))
        ∧ (eeprom_byte legacy_image_f (MAGIC_SIZE + 9) ≤ 124 →
            ((read_config { power_up with eeprom := legacy_image_f }).config.target_temp : Int)
              = nearest (celsius2fahrenheit
                  (eeprom_byte legacy_image_f (MAGIC_SIZE + 9))))) :=
  ⟨by decide, by decide, by decide,
    (read_config_legacy_temperatures { power_up with eeprom := legacy_image_c } rfl
      (by decide)).1 (by decide),
    (read_config_legacy_temperatures { power_up with eeprom := legacy_image_f } rfl
      (by decide)).2 (by decide)⟩

/-! ### Neither magic: the compiled defaults stay -/

/-- C17: when the magic read from EEPROM equals neither the current magic
"CW1v2" nor the legacy magic "CURWA", `read_config` (a total function: it
always returns) leaves every field of `config` as it was, so a `config` holding
the compiled defaults keeps them; the speeds of `speed_control` are set from
those defaults (washing 10, curing 1), and nothing else of the machine state
changes. -/
theorem read_config_no_magic (s : Sys) (hcfg : s.config = config_default)
    (h2 : eeprom_get s.eeprom 0 MAGIC_SIZE ≠ config_magic)
    (h1 : eeprom_get s.eeprom 0 MAGIC_SIZE ≠ legacy_magic) :
    (read_config s).config = config_default
    ∧ (read_config s).speed_control.washing_speed = config_default.washing_speed
    ∧ (read_config s).speed_control.curing_speed = config_default.curing_speed
    ∧ (read_config s).speed_control.washing_speed = 10
    ∧ (read_config s).speed_control.curing_speed = 1
    ∧ read_config s
        = { s with speed_control := { s.speed_control with washing_speed := 10,
                                                           curing_speed := 1 } } := by
  have h : read_config s
      = { s with speed_control := { s.speed_control with
            washing_speed := s.config.washing_speed,
            curing_speed := s.config.curing_speed } } := by
    unfold read_config
    simp only [if_neg h2, if_neg h1]
  rw [h, hcfg]
  simp [hcfg, config_default]

theorem read_config_no_magic_witness :
    eeprom_get power_up.eeprom 0 MAGIC_SIZE ≠ config_magic
    ∧ eeprom_get power_up.eeprom 0 MAGIC_SIZE ≠ legacy_magic
    ∧ (read_config power_up).config = config_default
    ∧ (read_config power_up).speed_control.washing_speed = 10
    ∧ (read_config power_up).speed_control.curing_speed = 1 :=
  ⟨by decide, by decide,
    (read_config_no_magic power_up rfl (by decide) (by decide)).1,
    (read_config_no_magic power_up rfl (by decide) (by decide)).2.2.2.1,
    (read_config_no_magic power_up rfl (by decide) (by decide)).2.2.2.2.1⟩

/-! ### Start of a washing run from the home screen -/

theorem menu_move_redraw (e : Ext) (c : Consts) (b : Bool) (s : Sys)
    (hr : s.redraw_menu = true) :
    menu_move e c b s
      = { menu_move_screen e c { s with redraw_menu := false } with rotary_diff := 128 } := by
  simp [menu_move, menu_move_echo, hr]

theorem menu_move_running_turned (e : Ext) (s : Sys) (m : Nat) (hmode : s.curing_mode = false)
    (hrot : 128 < s.rotary_diff) (hmin : e.timer_getCurrentMinutes s.tDown = m)
    (hm : m ≤ 9) (hsec : e.timer_getCurrentSeconds s.tDown = 0) :
    (menu_move_running e s).tDown = e.timer_setCounter 0 m 30 false s.tDown := by
  have hm2 : m % 256 = m := by omega
  simp [menu_move_running, hmode, hrot, hmin, hsec, hm, hm2, tDown_set, to_uint8]
  have h3 : ((m : Int) % 256).toNat = m := by omega
  rw [h3]

/-- The washing branch of the home screen's item 0, up to the redraw: the motor
is enabled, the down-timer armed with `washing_run_time` minutes and started. -/
theorem button_press_home_washing (e : Ext) (c : Consts) (i : LoopIn) (s : Sys)
    (hpos : s.menu_position = 0) (hmode : s.curing_mode = false) :
    button_press_home e c i s
      = menu_move e c true
          { (speed_configuration e false (motor_configuration
              (run_motor c { s with drying_mode := false }))) with
            remain := s.config.washing_run_time,
            tDown := e.timer_start (e.timer_setCounter 0
              (to_uint8 s.config.washing_run_time) 0 false s.tDown),
            fan_duty := fans_washing_speed, us_last := i.millis, menu_position := 0,
            state := menu_state.RUNNING, redraw_menu := true } := by
  simp [button_press_home, hpos, hmode, tDown_arm, tDown_set, run_motor, motor_configuration,
    speed_configuration, chip_write, to_uint8]

theorem menu_move_screen_running (e : Ext) (c : Consts) (s : Sys)
    (hst : s.state = menu_state.RUNNING) : menu_move_screen e c s = menu_move_running e s := by
  unfold menu_move_screen
  rw [hst]

theorem menu_move_running_frame (e : Ext) (s : Sys) :
    (menu_move_running e s).menu_position = s.menu_position
    ∧ (menu_move_running e s).fan_duty = s.fan_duty
    ∧ (menu_move_running e s).speed_control = s.speed_control
    ∧ (menu_move_running e s).remain = s.remain := by
  simp [menu_move_running, tDown_set, apply_ite Sys.menu_position, apply_ite Sys.fan_duty,
    apply_ite Sys.speed_control, apply_ite Sys.remain]

/-- The state in which `button_press` enters its `switch (state)`. -/
theorem button_press_entry (e : Ext) (c : Consts) (i : LoopIn) (s : Sys) :
    ∃ s1 : Sys, s1.state = s.state ∧ s1.menu_position = s.menu_position
      ∧ s1.curing_mode = s.curing_mode ∧ s1.rotary_diff = s.rotary_diff
      ∧ s1.tDown = s.tDown ∧ s1.config = s.config ∧ s1.paused = s.paused
      ∧ s1.gastro_pan = s.gastro_pan ∧ s1.speed_control = s.speed_control
      ∧ button_press e c i s
        = menu_move e c true
            { button_press_state e c i s1 with
              scroll := e.scrolling_list_set (button_press_state e c i s1).menu_position
                (button_press_state e c i s1).scroll,
              rotary_diff := 128, redraw_menu := true } := by
  by_cases h : s.config.sound_response ≠ 0
  · exact ⟨echo { s with log := Event.button_press :: s.log }, rfl, rfl, rfl, rfl, rfl, rfl, rfl,
      rfl, rfl, by simp [button_press, h]⟩
  · exact ⟨{ s with log := Event.button_press :: s.log }, rfl, rfl, rfl, rfl, rfl, rfl, rfl,
      rfl, rfl, by simp [button_press, h]⟩

theorem menu_move_running_neutral (e : Ext) (s : Sys) (hrot : s.rotary_diff = 128) :
    (menu_move_running e s).tDown = s.tDown := by
  simp [menu_move_running, hrot, apply_ite Sys.tDown]

/-- The redraw at the end of `button_press` on the running screen: with the
encoder reset to neutral it leaves the run as it is. -/
theorem button_press_tail_running (e : Ext) (c : Consts) (x : Sys) (sc : Nat)
    (hst : x.state = menu_state.RUNNING) :
    (menu_move e c true { x with scroll := sc, rotary_diff := 128, redraw_menu := true }).tDown
        = x.tDown
    ∧ (menu_move e c true
        { x with scroll := sc, rotary_diff := 128, redraw_menu := true }).speed_control
        = x.speed_control
    ∧ (menu_move e c true { x with scroll := sc, rotary_diff := 128, redraw_menu := true }).fan_duty
        = x.fan_duty
    ∧ (menu_move e c true { x with scroll := sc, rotary_diff := 128, redraw_menu := true }).state
        = menu_state.RUNNING
    ∧ (menu_move e c true
        { x with scroll := sc, rotary_diff := 128, redraw_menu := true }).menu_position
        = x.menu_position := by
  rw [menu_move_redraw e c true _ rfl, menu_move_screen_running e c _ (by exact hst)]
  refine ⟨?_, ?_, ?_, ?_, ?_⟩
  · simp [menu_move_running_neutral]
  · simp [(menu_move_running_frame _ _).2.2.1]
  · simp [(menu_move_running_frame _ _).2.1]
  · simp [hst]
  · simp [(menu_move_running_frame _ _).1]

theorem button_press_home_neutral (e : Ext) (c : Consts) (i : LoopIn) (s : Sys)
    (hpos : s.menu_position = 0) (hmode : s.curing_mode = false) (hrot : s.rotary_diff = 128) :
    (button_press_home e c i s).speed_control.motor_running = true
    ∧ (button_press_home e c i s).tDown
        = e.timer_start (e.timer_setCounter 0 (to_uint8 s.config.washing_run_time) 0 false
            s.tDown)
    ∧ (button_press_home e c i s).fan_duty = fans_washing_speed
    ∧ (button_press_home e c i s).state = menu_state.RUNNING
    ∧ (button_press_home e c i s).menu_position = 0 := by
  rw [button_press_home_washing e c i s hpos hmode, menu_move_redraw e c true _ rfl,
    menu_move_screen_running e c _ rfl]
  refine ⟨?_, ?_, ?_, ?_, ?_⟩
  · simp [(menu_move_running_frame _ _).2.2.1, speed_configuration, motor_configuration,
      run_motor, chip_write, apply_ite Sys.speed_control]
  · simp [menu_move_running_neutral, hrot, speed_configuration,
      motor_configuration, run_motor, chip_write, apply_ite Sys.rotary_diff]
  · simp [(menu_move_running_frame _ _).2.1]
  · simp
  · simp [(menu_move_running_frame _ _).1]

/-- With the encoder at neutral the claim of C18 holds: from the home screen,
item 0, washing mode, `button_press` enables the motor, arms the down-timer
with `washing_run_time` minutes and 0 seconds counting down and starts it, sets
`fan_duty` to `fans_washing_speed` and shows the running screen at item 0. -/
theorem button_press_home_washing_neutral (e : Ext) (c : Consts) (i : LoopIn) (s : Sys)
    (hst : s.state = menu_state.HOME) (hpos : s.menu_position = 0)
    (hmode : s.curing_mode = false) (hrot : s.rotary_diff = 128)
    (hwr : s.config.washing_run_time < 256) :
    (button_press e c i s).speed_control.motor_running = true
    ∧ (button_press e c i s).tDown
        = e.timer_start (e.timer_setCounter 0 s.config.washing_run_time 0 false s.tDown)
    ∧ (button_press e c i s).fan_duty = fans_washing_speed
    ∧ (button_press e c i s).state = menu_state.RUNNING
    ∧ (button_press e c i s).menu_position = 0 := by
  obtain ⟨s1, e1, e2, e3, e4, e5, e6, -, -, -, hbp⟩ := button_press_entry e c i s
  have hX : button_press_state e c i s1 = button_press_home e c i s1 := by
    unfold button_press_state
    rw [e1, hst]
  obtain ⟨n1, n2, n3, n4, n5⟩ :=
    button_press_home_neutral e c i s1 (e2.trans hpos) (e3.trans hmode) (e4.trans hrot)
  obtain ⟨t1, t2, t3, t4, t5⟩ := button_press_tail_running e c (button_press_home e c i s1)
    (e.scrolling_list_set (button_press_home e c i s1).menu_position
      (button_press_home e c i s1).scroll) n4
  have hto : to_uint8 (s.config.washing_run_time : Int) = s.config.washing_run_time := by
    unfold to_uint8
    omega
  rw [hbp, hX]
  refine ⟨?_, ?_, t3.trans n3, t4, t5.trans n5⟩
  · rw [t2]; exact n1
  · rw [t1, n2, e5, e6, hto]

theorem button_press_home_turned (e : Ext) (c : Consts) (i : LoopIn) (s : Sys) (m : Nat)
    (hpos : s.menu_position = 0) (hmode : s.curing_mode = false) (hrot : 128 < s.rotary_diff)
    (hwr : s.config.washing_run_time = m) (hm : m ≤ 9)
    (hmin : e.timer_getCurrentMinutes
      (e.timer_start (e.timer_setCounter 0 m 0 false s.tDown)) = m)
    (hsec : e.timer_getCurrentSeconds
      (e.timer_start (e.timer_setCounter 0 m 0 false s.tDown)) = 0) :
    (button_press_home e c i s).tDown
        = e.timer_setCounter 0 m 30 false
            (e.timer_start (e.timer_setCounter 0 m 0 false s.tDown))
    ∧ (button_press_home e c i s).state = menu_state.RUNNING := by
  have hto : to_uint8 (m : Int) = m := by
    unfold to_uint8
    omega
  rw [button_press_home_washing e c i s hpos hmode, menu_move_redraw e c true _ rfl,
    menu_move_screen_running e c _ rfl]
  refine ⟨?_, by simp⟩
  refine (menu_move_running_turned e _ m ?_ ?_ ?_ hm ?_).trans ?_
  · simpa [speed_configuration, motor_configuration, run_motor, chip_write,
      apply_ite Sys.curing_mode] using hmode
  · simpa [speed_configuration, motor_configuration, run_motor, chip_write,
      apply_ite Sys.rotary_diff] using hrot
  · simpa [hwr, hto] using hmin
  · simpa [hwr, hto] using hsec
  · simp [hwr, hto]

/-- C18 fails on the code: from the home screen, item 0, washing mode, with the
encoder past neutral at the press (`rotary_diff > 128`, which the main loop leaves
alone up to 131), `button_press` arms the down-timer with `washing_run_time`
minutes and 0 seconds and starts it, and then, on a timer that reads that
time, its `menu_move(true)` of `case HOME` runs the running screen before
`rotary_diff` is reset and arms the timer again, with 30 seconds more:
`setCounter(0, m, 30)` follows `start()`. -/
theorem button_press_home_washing_turned (e : Ext) (c : Consts) (i : LoopIn) (s : Sys)
    (m : Nat) (hst : s.state = menu_state.HOME) (hpos : s.menu_position = 0)
    (hmode : s.curing_mode = false) (hrot : 128 < s.rotary_diff)
    (hwr : s.config.washing_run_time = m) (hm : m ≤ 9)
    (hmin : e.timer_getCurrentMinutes
      (e.timer_start (e.timer_setCounter 0 m 0 false s.tDown)) = m)
    (hsec : e.timer_getCurrentSeconds
      (e.timer_start (e.timer_setCounter 0 m 0 false s.tDown)) = 0) :
    (button_press e c i s).state = menu_state.RUNNING
    ∧ (button_press e c i s).tDown
        = e.timer_setCounter 0 m 30 false
            (e.timer_start (e.timer_setCounter 0 m 0 false s.tDown)) := by
  obtain ⟨s1, e1, e2, e3, e4, e5, e6, -, -, -, hbp⟩ := button_press_entry e c i s
  have hX : button_press_state e c i s1 = button_press_home e c i s1 := by
    unfold button_press_state
    rw [e1, hst]
  obtain ⟨n1, n2⟩ := button_press_home_turned e c i s1 m (e2.trans hpos) (e3.trans hmode)
    (by rw [e4]; exact hrot) (by rw [e6]; exact hwr) hm (by rw [e5]; exact hmin)
    (by rw [e5]; exact hsec)
  obtain ⟨t1, -, -, t4, -⟩ := button_press_tail_running e c (button_press_home e c i s1)
    (e.scrolling_list_set (button_press_home e c i s1).menu_position
      (button_press_home e c i s1).scroll) n2
  rw [hbp, hX]
  exact ⟨t4, by rw [t1, n1, e5]⟩

set_option maxRecDepth 100000 in
theorem button_press_home_washing_turned_witness :
    home_turned.state = menu_state.HOME ∧ home_turned.menu_position = 0
    ∧ home_turned.curing_mode = false ∧ home_turned.rotary_diff = 129
    ∧ home_turned.config.washing_run_time = 4
    ∧ (button_press sample_ext sample_consts (idle_in 10) home_turned).tDown
        = sample_setCounter 0 4 30 false
            (sample_start (sample_setCounter 0 4 0 false home_turned.tDown))
    ∧ (button_press sample_ext sample_consts (idle_in 10) home_turned).tDown.current = 270000
    ∧ (button_press sample_ext sample_consts (idle_in 10) after_setup).tDown.current
        = 240000 :=
  ⟨by decide, by decide, by decide, by decide, by decide,
    (button_press_home_washing_turned sample_ext sample_consts (idle_in 10) home_turned 4
      (by decide) (by decide) (by decide) (by decide) (by decide) (by decide) (by decide)
      (by decide)).2,
    by decide, by decide⟩

set_option maxRecDepth 100000 in
/-- The encoder value of `home_turned` is what one forward micro-step of the
encoder, sampled by `read_encoder` on the home screen, leaves behind. -/
theorem read_encoder_home_turned :
    (read_encoder sample_consts { millis := 5, btn_en1 := false, btn_en2 := true }
        after_setup).rotary_diff = home_turned.rotary_diff
    ∧ (read_encoder sample_consts { millis := 5, btn_en1 := false, btn_en2 := true }
        after_setup).state = menu_state.HOME := by
  decide

/-! ### Washing: the tank check -/

theorem menu_move_screen_paused (e : Ext) (c : Consts) (s : Sys) :
    (menu_move_screen e c s).paused = s.paused := by
  unfold menu_move_screen
  split <;> simp [apply_ite Sys.paused, generic_menu_P, scrolling_list, menu_move_running,
    tDown_set]

theorem menu_move_paused (e : Ext) (c : Consts) (b : Bool) (s : Sys) :
    (menu_move e c b s).paused = s.paused := by
  simp [menu_move, menu_move_screen_paused, menu_move_echo, echo, apply_ite Sys.paused]

theorem menu_move_screen_motor (e : Ext) (c : Consts) (s : Sys) :
    (menu_move_screen e c s).speed_control.motor_running = s.speed_control.motor_running
    ∧ (menu_move_screen e c s).out = s.out := by
  unfold menu_move_screen
  split <;> simp [apply_ite Sys.speed_control, apply_ite Sys.out, generic_menu_P,
    scrolling_list, menu_move_running, tDown_set]

theorem menu_move_motor (e : Ext) (c : Consts) (b : Bool) (s : Sys) :
    (menu_move e c b s).speed_control.motor_running = s.speed_control.motor_running
    ∧ (menu_move e c b s).out = s.out := by
  simp [menu_move, menu_move_screen_motor, menu_move_echo, echo,
    apply_ite Sys.speed_control, apply_ite Sys.out]

/-- With the encoder at neutral no screen of `menu_move` touches the down-timer. -/
theorem menu_move_screen_tDown (e : Ext) (c : Consts) (s : Sys) (h : s.rotary_diff = 128) :
    (menu_move_screen e c s).tDown = s.tDown := by
  unfold menu_move_screen
  split <;> simp [apply_ite Sys.tDown, generic_menu_P, scrolling_list, menu_move_running,
    tDown_set, h]

theorem menu_move_tDown (e : Ext) (c : Consts) (b : Bool) (s : Sys) (h : s.rotary_diff = 128) :
    (menu_move e c b s).tDown = s.tDown := by
  have h1 : ({ menu_move_echo b s with redraw_menu := false } : Sys).rotary_diff = 128 := by
    simp [menu_move_echo, echo, apply_ite Sys.rotary_diff, h]
  have h2 : (menu_move_echo b s).tDown = s.tDown := by
    simp [menu_move_echo, echo, apply_ite Sys.tDown]
  simp only [menu_move]
  rw [menu_move_screen_tDown e c _ h1]
  exact h2

theorem menu_move_rotary_diff (e : Ext) (c : Consts) (b : Bool) (s : Sys) :
    (menu_move e c b s).rotary_diff = 128 := rfl

theorem lcd_time_print_run (e : Ext) (c : Consts) (s : Sys) :
    (lcd_time_print e c s).paused = s.paused
    ∧ (lcd_time_print e c s).speed_control = s.speed_control
    ∧ (lcd_time_print e c s).out = s.out
    ∧ (lcd_time_print e c s).tDown = s.tDown := by
  unfold lcd_time_print
  simp only []
  split_ifs <;> simp

theorem tank_check_washing_removed (e : Ext) (c : Consts) (i : LoopIn) (s : Sys)
    (hrot : s.rotary_diff = 128) (htank : i.wash_detect_pin = true) :
    (tank_check_washing e c i s).paused = true
    ∧ (tank_check_washing e c i s).speed_control.motor_running = false
    ∧ (tank_check_washing e c i s).tDown = e.timer_pause s.tDown := by
  cases hco : s.cover_open <;> cases hpt : s.paused_time <;> cases hgp : s.gastro_pan <;>
    simp [tank_check_washing, htank, hco, hpt, hgp, menu_move_paused, menu_move_motor,
      menu_move_tDown, stop_motor, chip_write, hrot]

theorem finish_beep_run (s : Sys) :
    (finish_beep s).paused = s.paused ∧ (finish_beep s).speed_control = s.speed_control
    ∧ (finish_beep s).tDown = s.tDown ∧ (finish_beep s).rotary_diff = s.rotary_diff := by
  unfold finish_beep
  split_ifs <;> simp [beep]

theorem washing_complete_run (e : Ext) (c : Consts) (s : Sys) :
    (washing_complete e c s).paused = s.paused
    ∧ (washing_complete e c s).speed_control.motor_running = false
    ∧ (washing_complete e c s).tDown = s.tDown := by
  unfold washing_complete
  simp only []
  obtain ⟨f1, f2, f3, f4⟩ := finish_beep_run
    ({ stop_heater c { stop_motor c { s with menu_position := 0 } with
          fan_duty := fans_menu_speed } with redraw_menu := true, rotary_diff := 128 } : Sys)
  refine ⟨?_, ?_, ?_⟩
  · rw [menu_move_paused, f1]; rfl
  · rw [(menu_move_motor _ _ _ _).1, f2]; rfl
  · rw [menu_move_tDown _ _ _ _ (f4.trans rfl), f3]; rfl

/-- C19: in a washing run (`state = RUNNING`) with the encoder at neutral,
when the tank sensor reports the tank removed, `start_washing` sets `paused`,
stops the motor, and the only thing it does to the down-timer is to pause it
(`pause()` once, and once more while the timer is not complete): no `stop`,
`start` or `setCounter` is applied, so with a `pause()` that keeps the
remaining time the remaining time is unchanged. -/
theorem start_washing_tank_removed (e : Ext) (c : Consts) (i : LoopIn) (s : Sys)
    (hst : s.state = menu_state.RUNNING) (hrot : s.rotary_diff = 128)
    (htank : i.wash_detect_pin = true) :
    (start_washing e c i s).paused = true
    ∧ (start_washing e c i s).speed_control.motor_running = false
    ∧ (start_washing e c i s).tDown
        = (if e.timer_isCounterCompleted (e.timer_pause s.tDown) = false
            then e.timer_pause (e.timer_pause s.tDown) else e.timer_pause s.tDown)
    ∧ ((∀ t, (e.timer_pause t).current = t.current) →
        (start_washing e c i s).tDown.current = s.tDown.current) := by
  obtain ⟨h1, h2, h3⟩ := tank_check_washing_removed e c i s hrot htank
  have h4 : (tank_check_washing e c i s).state = menu_state.RUNNING := by
    rw [tank_check_washing_state]; exact hst
  have key : (start_washing e c i s).paused = true
      ∧ (start_washing e c i s).speed_control.motor_running = false
      ∧ (start_washing e c i s).tDown
          = (if e.timer_isCounterCompleted (e.timer_pause s.tDown) = false
              then e.timer_pause (e.timer_pause s.tDown) else e.timer_pause s.tDown) := by
    unfold start_washing
    simp only [h3]
    by_cases hc : e.timer_isCounterCompleted (e.timer_pause s.tDown) = false
    · rw [if_pos hc, if_pos hc]
      unfold washing_continue
      rw [if_pos h4]
      obtain ⟨l1, l2, -, l4⟩ := lcd_time_print_run e c
        (if (tank_check_washing e c i s).paused = false ∧ i.wash_detect_pin = false then
          { run_motor c (tank_check_washing e c i s) with
              tDown := e.timer_start (run_motor c (tank_check_washing e c i s)).tDown }
         else { tank_check_washing e c i s with
              tDown := e.timer_pause (tank_check_washing e c i s).tDown })
      simp only [l1, l2, l4]
      simp [h1, h2, h3]
    · rw [if_neg hc, if_neg hc]
      obtain ⟨w1, w2, w3⟩ := washing_complete_run e c (tank_check_washing e c i s)
      exact ⟨w1.trans h1, w2, w3.trans h3⟩
  refine ⟨key.1, key.2.1, key.2.2, fun hp => ?_⟩
  rw [key.2.2]
  split
  · rw [hp, hp]
  · rw [hp]

set_option maxRecDepth 100000 in
theorem start_washing_tank_removed_witness :
    washing_run.state = menu_state.RUNNING ∧ washing_run.rotary_diff = 128
    ∧ washing_run.curing_mode = false ∧ (tank_out_in 30).wash_detect_pin = true
    ∧ (start_washing sample_ext sample_consts (tank_out_in 30) washing_run).paused = true
    ∧ (start_washing sample_ext sample_consts (tank_out_in 30)
        washing_run).speed_control.motor_running = false
    ∧ (start_washing sample_ext sample_consts (tank_out_in 30) washing_run).tDown.current
        = washing_run.tDown.current :=
  ⟨by decide, by decide, by decide, rfl,
    (start_washing_tank_removed sample_ext sample_consts (tank_out_in 30) washing_run
      (by decide) (by decide) rfl).1,
    (start_washing_tank_removed sample_ext sample_consts (tank_out_in 30) washing_run
      (by decide) (by decide) rfl).2.1,
    (start_washing_tank_removed sample_ext sample_consts (tank_out_in 30) washing_run
      (by decide) (by decide) rfl).2.2.2 (fun _ => rfl)⟩

/-! ### Washing: after the tank is back -/

theorem tank_check_washing_keeps_paused (e : Ext) (c : Consts) (i : LoopIn) (s : Sys)
    (hp : s.paused = true) (hm : s.speed_control.motor_running = false) :
    (tank_check_washing e c i s).paused = true
    ∧ (tank_check_washing e c i s).speed_control.motor_running = false := by
  cases hco : s.cover_open <;> cases hpt : s.paused_time <;> cases hgp : s.gastro_pan <;>
    cases htank : i.wash_detect_pin <;>
    simp [tank_check_washing, htank, hco, hpt, hgp, menu_move_paused, menu_move_motor,
      stop_motor, chip_write, hp, hm]

theorem tank_check_washing_present (e : Ext) (c : Consts) (i : LoopIn) (s : Sys)
    (hrot : s.rotary_diff = 128) (htank : i.wash_detect_pin = false) :
    (tank_check_washing e c i s).paused = s.paused
    ∧ (tank_check_washing e c i s).speed_control.motor_running
        = s.speed_control.motor_running
    ∧ (tank_check_washing e c i s).tDown = s.tDown := by
  cases hco : s.cover_open <;> cases hpt : s.paused_time <;> cases hgp : s.gastro_pan <;>
    simp [tank_check_washing, htank, hco, hpt, hgp, menu_move_paused, menu_move_motor,
      menu_move_tDown, hrot]

theorem washing_continue_paused (e : Ext) (c : Consts) (i : LoopIn) (s : Sys)
    (hp : s.paused = true) (hm : s.speed_control.motor_running = false) :
    (washing_continue e c i s).paused = true
    ∧ (washing_continue e c i s).speed_control.motor_running = false := by
  unfold washing_continue
  split
  · obtain ⟨l1, l2, -, -⟩ := lcd_time_print_run e c
      (if s.paused = false ∧ i.wash_detect_pin = false then
        { run_motor c s with tDown := e.timer_start (run_motor c s).tDown }
       else { s with tDown := e.timer_pause s.tDown })
    rw [l1, l2]
    simp [hp, hm]
  · exact ⟨hp, hm⟩

theorem washing_continue_resumes (e : Ext) (c : Consts) (i : LoopIn) (s : Sys)
    (hst : s.state = menu_state.RUNNING) (hp : s.paused = false)
    (htank : i.wash_detect_pin = false) :
    (washing_continue e c i s).paused = false
    ∧ (washing_continue e c i s).speed_control.motor_running = true
    ∧ (washing_continue e c i s).tDown = e.timer_start s.tDown := by
  unfold washing_continue
  rw [if_pos hst]
  obtain ⟨l1, l2, -, l4⟩ := lcd_time_print_run e c
    (if s.paused = false ∧ i.wash_detect_pin = false then
      { run_motor c s with tDown := e.timer_start (run_motor c s).tDown }
     else { s with tDown := e.timer_pause s.tDown })
  rw [l1, l2, l4]
  simp [hp, htank, run_motor, chip_write]

/-- Nothing in `start_washing` clears `paused` or enables the motor of a paused run. -/
theorem start_washing_keeps_paused (e : Ext) (c : Consts) (i : LoopIn) (s : Sys)
    (hp : s.paused = true) (hm : s.speed_control.motor_running = false) :
    (start_washing e c i s).paused = true
    ∧ (start_washing e c i s).speed_control.motor_running = false := by
  obtain ⟨h1, h2⟩ := tank_check_washing_keeps_paused e c i s hp hm
  unfold start_washing
  simp only []
  split
  · exact washing_continue_paused e c i _ h1 h2
  · obtain ⟨w1, w2, -⟩ := washing_complete_run e c (tank_check_washing e c i s)
    exact ⟨w1.trans h1, w2⟩

theorem machine_running_washing (e : Ext) (c : Consts) (i : LoopIn) (s : Sys)
    (hmode : s.curing_mode = false) : machine_running e c i s = start_washing e c i s := by
  simp [machine_running, hmode]

theorem button_press_run_menu_continue (e : Ext) (c : Consts) (s : Sys)
    (hpos : s.menu_position = 0) (hmode : s.curing_mode = false)
    (hgp : s.gastro_pan = false) (hp : s.paused = true) :
    (button_press_run_menu e c s).paused = false
    ∧ (button_press_run_menu e c s).speed_control.motor_running = true
    ∧ (button_press_run_menu e c s).state = menu_state.RUNNING
    ∧ (button_press_run_menu e c s).tDown = s.tDown := by
  simp [button_press_run_menu, hpos, hmode, hgp, hp, run_motor, motor_configuration,
    speed_configuration, chip_write]

/-- The item "Continue" of the run menu: with the tank in place (`gastro_pan`
clear) `button_press` clears `paused`, enables the motor and returns to the
running screen; the down-timer is not touched. -/
theorem button_press_continue (e : Ext) (c : Consts) (i : LoopIn) (s : Sys)
    (hst : s.state = menu_state.RUN_MENU) (hpos : s.menu_position = 0)
    (hmode : s.curing_mode = false) (hgp : s.gastro_pan = false) (hp : s.paused = true) :
    (button_press e c i s).paused = false
    ∧ (button_press e c i s).speed_control.motor_running = true
    ∧ (button_press e c i s).state = menu_state.RUNNING
    ∧ (button_press e c i s).tDown = s.tDown
    ∧ (button_press e c i s).rotary_diff = 128 := by
  obtain ⟨s1, e1, e2, e3, -, e5, -, e7, e8, -, hbp⟩ := button_press_entry e c i s
  have hX : button_press_state e c i s1 = button_press_run_menu e c s1 := by
    unfold button_press_state
    rw [e1, hst]
  obtain ⟨n1, n2, n3, n4⟩ := button_press_run_menu_continue e c s1 (e2.trans hpos)
    (e3.trans hmode) (e8.trans hgp) (e7.trans hp)
  obtain ⟨t1, t2, -, t4, -⟩ := button_press_tail_running e c (button_press_run_menu e c s1)
    (e.scrolling_list_set (button_press_run_menu e c s1).menu_position
      (button_press_run_menu e c s1).scroll) n3
  rw [hbp, hX]
  refine ⟨?_, ?_, t4, ?_, rfl⟩
  · rw [menu_move_paused]; exact n1
  · rw [t2]; exact n2
  · rw [t1, n4, e5]

/-- C20 (amended): in washing mode a paused run stays paused: whatever the tank
sensor reports, `machine_running` (that is `start_washing`) leaves `paused`
set and the motor stopped.  The run resumes on the item "Continue" of the run
menu: with the tank in place `button_press` clears `paused` and enables the
motor without touching the down-timer, and the next `machine_running` call
with the tank in place and the timer not complete keeps the motor enabled and
calls `start()` on the down-timer as the pause left it, with no `setCounter`
or `stop()` in between, so the run goes on from its remaining time. -/
theorem washing_resumes_on_continue (e : Ext) (c : Consts) (i j : LoopIn) (s : Sys)
    (hmode : s.curing_mode = false) (hp : s.paused = true)
    (hm : s.speed_control.motor_running = false) :
    ((machine_running e c j s).paused = true
      ∧ (machine_running e c j s).speed_control.motor_running = false)
    ∧ (s.state = menu_state.RUN_MENU → s.menu_position = 0 → s.gastro_pan = false →
        j.wash_detect_pin = false → e.timer_isCounterCompleted s.tDown = false →
        (button_press e c i s).paused = false
        ∧ (button_press e c i s).speed_control.motor_running = true
        ∧ (button_press e c i s).state = menu_state.RUNNING
        ∧ (button_press e c i s).tDown = s.tDown
        ∧ (start_washing e c j (button_press e c i s)).paused = false
        ∧ (start_washing e c j (button_press e c i s)).speed_control.motor_running = true
        ∧ (start_washing e c j (button_press e c i s)).tDown = e.timer_start s.tDown) := by
  constructor
  · rw [machine_running_washing e c j s hmode]
    exact start_washing_keeps_paused e c j s hp hm
  · intro hst hpos hgp htank hnc
    obtain ⟨b1, b2, b3, b4, b5⟩ := button_press_continue e c i s hst hpos hmode hgp hp
    obtain ⟨k1, k2, k3⟩ := tank_check_washing_present e c j (button_press e c i s) b5 htank
    have k4 : (tank_check_washing e c j (button_press e c i s)).state = menu_state.RUNNING := by
      rw [tank_check_washing_state]; exact b3
    obtain ⟨r1, r2, r3⟩ := washing_continue_resumes e c j
      (tank_check_washing e c j (button_press e c i s)) k4 (k1.trans b1) htank
    have hs : start_washing e c j (button_press e c i s)
        = washing_continue e c j (tank_check_washing e c j (button_press e c i s)) := by
      unfold start_washing
      simp only [k3, b4, hnc, if_true]
    rw [hs]
    exact ⟨b1, b2, b3, b4, r1, r2, by rw [r3, k3, b4]⟩

set_option maxRecDepth 100000 in
/-- C20 as stated fails: the washing run paused by the removal of the tank
stays paused after the tank is back.  After two passes of the main loop with
the tank in place, and after one more call of `machine_running`, `paused` is
still set, the motor is off and the down-timer is not running; no button was
pressed in between. -/
theorem washing_no_auto_resume :
    washing_run.paused = false ∧ washing_paused.paused = true
    ∧ (idle_in 40).wash_detect_pin = false
    ∧ presses washing_reinserted = presses washing_paused
    ∧ washing_reinserted.state = menu_state.RUNNING
    ∧ washing_reinserted.gastro_pan = false
    ∧ washing_reinserted.paused = true
    ∧ washing_reinserted.speed_control.motor_running = false
    ∧ washing_reinserted.tDown.stopped = true
    ∧ (machine_running sample_ext sample_consts (idle_in 42) washing_reinserted).paused = true
    ∧ (machine_running sample_ext sample_consts (idle_in 42)
        washing_reinserted).speed_control.motor_running = false
    ∧ (machine_running sample_ext sample_consts (idle_in 42)
        washing_reinserted).tDown.stopped = true := by
  decide

set_option maxRecDepth 100000 in
theorem washing_resumes_on_continue_witness :
    washing_run_menu.curing_mode = false ∧ washing_run_menu.paused = true
    ∧ washing_run_menu.speed_control.motor_running = false
    ∧ washing_run_menu.state = menu_state.RUN_MENU
    ∧ (machine_running sample_ext sample_consts (idle_in 71) washing_run_menu).paused = true
    ∧ (button_press sample_ext sample_consts (idle_in 70) washing_run_menu).paused = false
    ∧ (start_washing sample_ext sample_consts (idle_in 71)
        (button_press sample_ext sample_consts (idle_in 70) washing_run_menu)).tDown
        = sample_start washing_run_menu.tDown
    ∧ (start_washing sample_ext sample_consts (idle_in 71)
        (button_press sample_ext sample_consts (idle_in 70) washing_run_menu)).tDown.current
        = washing_paused.tDown.current :=
  ⟨by decide, by decide, by decide, by decide,
    (washing_resumes_on_continue sample_ext sample_consts (idle_in 70) (idle_in 71)
      washing_run_menu (by decide) (by decide) (by decide)).1.1,
    ((washing_resumes_on_continue sample_ext sample_consts (idle_in 70) (idle_in 71)
      washing_run_menu (by decide) (by decide) (by decide)).2 (by decide) (by decide)
      (by decide) rfl (by decide)).1,
    ((washing_resumes_on_continue sample_ext sample_consts (idle_in 70) (idle_in 71)
      washing_run_menu (by decide) (by decide) (by decide)).2 (by decide) (by decide)
      (by decide) rfl (by decide)).2.2.2.2.2.2,
    by decide⟩

/-! ### The LED delay -/

set_option maxRecDepth 100000 in
/-- The first curing run after power-up waits for the LED delay: the LED is dark
at the first pass of the run (30 ms) and 970 ms later, and lit at 1031 ms. -/
theorem first_run_led_waits :
    curing_run_first.state = menu_state.RUNNING ∧ curing_run_first.led_start = true
    ∧ curing_run_first.led_time_now = 30 ∧ ¬ led_lit sample_consts curing_run_first
    ∧ ¬ led_lit sample_consts (loop sample_ext sample_consts (curing_in 1000) curing_run_first)
    ∧ led_lit sample_consts (loop sample_ext sample_consts (curing_in 1031)
        (loop sample_ext sample_consts (curing_in 1000) curing_run_first)) := by
  decide

theorem menu_move_led (e : Ext) (c : Consts) (b : Bool) (u : Sys) :
    (menu_move e c b u).led_start = u.led_start
    ∧ (menu_move e c b u).led_time_now = u.led_time_now := by
  have h1 : (menu_move_screen e c { menu_move_echo b u with redraw_menu := false }).led_start
        = u.led_start
      ∧ (menu_move_screen e c { menu_move_echo b u with redraw_menu := false }).led_time_now
        = u.led_time_now := by
    unfold menu_move_screen
    split <;> simp [apply_ite Sys.led_start, apply_ite Sys.led_time_now, generic_menu_P,
      scrolling_list, menu_move_running, tDown_set, menu_move_echo, echo]
  exact h1

theorem lcd_time_print_led (e : Ext) (c : Consts) (u : Sys) :
    (lcd_time_print e c u).led_start = u.led_start
    ∧ (lcd_time_print e c u).led_time_now = u.led_time_now := by
  unfold lcd_time_print
  simp only []
  split_ifs <;> simp

theorem gastro_pan_check_no_tank (e : Ext) (c : Consts) (i : LoopIn) (s : Sys)
    (htank : i.wash_detect_pin = true) :
    (gastro_pan_check e c i s).out = s.out
    ∧ (gastro_pan_check e c i s).led_start = s.led_start
    ∧ (gastro_pan_check e c i s).led_time_now = s.led_time_now := by
  cases hgp : s.gastro_pan <;>
    simp [gastro_pan_check, htank, hgp, menu_move_motor, menu_move_led]

/-- The LED part of `start_curing` with the cover closed, the run not paused
and no tank in place: the delay is counted from `led_time_now`, which is set
only when `led_start` is clear. -/
theorem start_curing_led (e : Ext) (c : Consts) (i : LoopIn) (s : Sys)
    (hco : s.cover_open = false) (hp : s.paused = false) (htank : i.wash_detect_pin = true) :
    (start_curing e c i s).led_start = true
    ∧ (start_curing e c i s).led_time_now
        = (if s.led_start = true then s.led_time_now else i.millis)
    ∧ (start_curing e c i s).out
        = (if i.millis > ulong_add (if s.led_start = true then s.led_time_now else i.millis)
              c.LED_DELAY
            then (led_on c (stop_heater c s)).out else (stop_heater c s).out) := by
  have hg := fun u => gastro_pan_check_no_tank e c i u htank
  have hl1 := fun u => (lcd_time_print_run e c u).2.2.1
  cases hls : s.led_start <;> cases hpt : s.paused_time <;>
    by_cases hl : i.millis > ulong_add s.led_time_now c.LED_DELAY <;>
    by_cases hn : i.millis > ulong_add i.millis c.LED_DELAY <;>
    simp [start_curing, stop_heater, chip_write, led_on, hco, hp, hls, hpt, hl, hn,
      menu_move_motor, menu_move_led, lcd_time_print_led, hl1, hg]

theorem stop_curing_drying_led (e : Ext) (c : Consts) (s : Sys) :
    (stop_curing_drying e c s).led_start = s.led_start
    ∧ (stop_curing_drying e c s).led_time_now = s.led_time_now := by
  unfold stop_curing_drying finish_beep
  simp only []
  rw [(menu_move_led e c true _).1, (menu_move_led e c true _).2]
  split_ifs <;> simp [beep, stop_heater, stop_motor, led_off, chip_write]

theorem run_stop_led (e : Ext) (c : Consts) (s : Sys) :
    (run_stop e c s).led_start = s.led_start
    ∧ (run_stop e c s).led_time_now = s.led_time_now := by
  simp [run_stop, stop_heater, stop_motor, led_off, chip_write]

theorem start_run_curing_led (e : Ext) (c : Consts) (s : Sys) :
    (start_run_curing e c s).led_start = s.led_start
    ∧ (start_run_curing e c s).led_time_now = s.led_time_now := by
  unfold start_run_curing
  split_ifs <;>
    simp [tUp_arm, tDown_arm, tUp_set, tDown_set, led_off, chip_write,
      apply_ite Sys.led_start, apply_ite Sys.led_time_now]

theorem button_press_home_led (e : Ext) (c : Consts) (i : LoopIn) (s : Sys) :
    (button_press_home e c i s).led_start = s.led_start
    ∧ (button_press_home e c i s).led_time_now = s.led_time_now := by
  unfold button_press_home
  split_ifs <;>
    simp [menu_move_led, start_run_curing_led, tDown_arm, tDown_set, run_motor,
      motor_configuration, speed_configuration, chip_write, apply_ite Sys.led_start,
      apply_ite Sys.led_time_now]

theorem button_press_state_home (e : Ext) (c : Consts) (i : LoopIn) (s : Sys)
    (hst : s.state = menu_state.HOME) :
    button_press_state e c i s = button_press_home e c i s := by
  unfold button_press_state
  rw [hst]

/-- The state in which `button_press` enters its `switch (state)` differs from
the state at the call in the call log only. -/
theorem button_press_entry_log (e : Ext) (c : Consts) (i : LoopIn) (s : Sys) :
    ∃ l : List Event,
      button_press e c i s
        = menu_move e c true
            { button_press_state e c i { s with log := l } with
              scroll := e.scrolling_list_set
                (button_press_state e c i { s with log := l }).menu_position
                (button_press_state e c i { s with log := l }).scroll,
              rotary_diff := 128, redraw_menu := true } := by
  by_cases h : s.config.sound_response ≠ 0
  · exact ⟨Event.echo :: Event.button_press :: s.log, by simp [button_press, h, echo]⟩
  · exact ⟨Event.button_press :: s.log, by simp [button_press, h]⟩

theorem button_press_led_home (e : Ext) (c : Consts) (i : LoopIn) (s : Sys)
    (hst : s.state = menu_state.HOME) :
    (button_press e c i s).led_start = s.led_start
    ∧ (button_press e c i s).led_time_now = s.led_time_now := by
  obtain ⟨l, hl⟩ := button_press_entry_log e c i s
  rw [hl, (menu_move_led e c true _).1, (menu_move_led e c true _).2,
    button_press_state_home e c i _ (by exact hst)]
  exact button_press_home_led e c i _

/-- C29 fails on the code: `led_start` and `led_time_now` are written only by
`start_curing`; the end of a run (`stop_curing_drying`), a stop (`run_stop`)
and the start of the next run from the home screen (`button_press`) leave them
as they are.  So in a run that starts with `led_start` still set from an
earlier run, cover closed and not paused, `start_curing` counts the delay from
the old `led_time_now` and lights the LED at its first call, whenever the run
was started. -/
theorem start_curing_led_stale (e : Ext) (c : Consts) (i j : LoopIn) (s : Sys)
    (hco : s.cover_open = false) (hp : s.paused = false) (htank : j.wash_detect_pin = true)
    (hls : s.led_start = true) (hlate : j.millis > ulong_add s.led_time_now c.LED_DELAY) :
    ((stop_curing_drying e c s).led_start = s.led_start
      ∧ (stop_curing_drying e c s).led_time_now = s.led_time_now)
    ∧ ((run_stop e c s).led_start = s.led_start
      ∧ (run_stop e c s).led_time_now = s.led_time_now)
    ∧ (s.state = menu_state.HOME →
        (button_press e c i s).led_start = s.led_start
        ∧ (button_press e c i s).led_time_now = s.led_time_now)
    ∧ (start_curing e c j s).out.chip c.LED_RELE_PIN = true
    ∧ (start_curing e c j s).out.led_pwm = s.config.led_pwm_value * 255 / 100
    ∧ (start_curing e c j s).led_time_now = s.led_time_now := by
  obtain ⟨h1, h2, h3⟩ := start_curing_led e c j s hco hp htank
  rw [hls] at h2 h3
  simp only [if_true] at h2 h3
  rw [if_pos hlate] at h3
  refine ⟨stop_curing_drying_led e c s, run_stop_led e c s,
    fun hst => button_press_led_home e c i s hst, ?_, ?_, h2⟩
  · rw [h3]; simp [led_on, stop_heater, chip_write, setAt]
  · rw [h3]; simp [led_on, stop_heater, chip_write]

set_option maxRecDepth 100000 in
theorem start_curing_led_stale_witness :
    curing_run_finished.state = menu_state.HOME ∧ curing_run_finished.led_start = true
    ∧ curing_run_finished.led_time_now = 30
    ∧ curing_run_second.state = menu_state.RUNNING ∧ curing_run_second.us_last = 200020
    ∧ curing_run_second.led_start = true ∧ curing_run_second.led_time_now = 30
    ∧ ¬ led_lit sample_consts curing_run_second
    ∧ ulong_sub 200030 curing_run_second.us_last ≤ sample_consts.LED_DELAY
    ∧ (start_curing sample_ext sample_consts (curing_in 200030) curing_run_second).out.chip
        sample_consts.LED_RELE_PIN = true
    ∧ led_lit sample_consts
        (loop sample_ext sample_consts (curing_in 200030) curing_run_second) :=
  ⟨by decide, by decide, by decide, by decide, by decide, by decide, by decide, by decide,
    by decide,
    (start_curing_led_stale sample_ext sample_consts (curing_in 200030) (curing_in 200030)
      curing_run_second (by decide) (by decide) rfl (by decide) (by decide)).2.2.2.1,
    by decide⟩

/-! ### The two-stage protocol: preheat, then hold -/

theorem preheat_cases (e : Ext) (c : Consts) (s : Sys) :
    (s.chamber_temp < (preheat_target s.config : ℚ) → preheat e c s = run_heater c s)
    ∧ ((preheat_target s.config : ℚ) ≤ s.chamber_temp →
        preheat e c s = tUp_set e 0 0 (stop_heater c s)) := by
  unfold preheat preheat_target
  constructor
  · intro h
    simp only []
    rw [if_pos h]
  · intro h
    simp only []
    rw [if_neg (not_lt.mpr h)]

theorem cover_check_frame (e : Ext) (c : Consts) (i : LoopIn) (s : Sys) :
    (cover_check e c i s).config = s.config
    ∧ (cover_check e c i s).preheat_complete = s.preheat_complete
    ∧ (cover_check e c i s).drying_mode = s.drying_mode
    ∧ (cover_check e c i s).tUp = s.tUp
    ∧ (cover_check e c i s).tDown = s.tDown
    ∧ (cover_check e c i s).curing_mode = s.curing_mode
    ∧ (cover_check e c i s).chamber_temp = s.chamber_temp := by
  simp [cover_check, stop_motor, run_motor, motor_configuration, speed_configuration,
    stop_heater, led_off, chip_write, apply_ite Sys.config, apply_ite Sys.preheat_complete,
    apply_ite Sys.drying_mode, apply_ite Sys.tUp, apply_ite Sys.tDown,
    apply_ite Sys.curing_mode, apply_ite Sys.chamber_temp]

theorem preheat_done_hold (e : Ext) (m : Nat) (s : Sys) (hdm : s.drying_mode = true) :
    (preheat_done e m s).preheat_complete = true
    ∧ (preheat_done e m s).tDown
        = e.timer_start (e.timer_setCounter 0 (m % 256) 0 false s.tDown)
    ∧ (preheat_done e m s).curing_mode = s.curing_mode := by
  have h : ((m : Int) % 256).toNat = m % 256 := by omega
  simp [preheat_done, hdm, tDown_set, h, to_uint8]

/-- In a two-stage run that is still in its preheat phase, the mode switch of
`machine_running` starts the hold phase when it finds the up-timer complete. -/
theorem machine_running_mode_hold (e : Ext) (c : Consts) (i : LoopIn) (s : Sys)
    (hrun : preheat_run s.config) (hpc : s.preheat_complete = false)
    (hdone : e.timer_isCounterCompleted s.tUp = true) :
    machine_running_mode e c i s = preheat_done e (hold_minutes s.config) s := by
  unfold machine_running_mode run_two_stage hold_minutes
  rcases hrun with h3 | ⟨h0 | h2, hh⟩
  · simp [h3, hpc, hdone]
  · simp [h0, hh, hpc, hdone]
  · simp [h2, hh, hpc, hdone]

theorem menu_move_screen_heat (e : Ext) (c : Consts) (s : Sys) :
    (menu_move_screen e c s).heater_running = s.heater_running
    ∧ (menu_move_screen e c s).tUp = s.tUp
    ∧ (menu_move_screen e c s).preheat_complete = s.preheat_complete
    ∧ (menu_move_screen e c s).drying_mode = s.drying_mode
    ∧ (menu_move_screen e c s).curing_mode = s.curing_mode
    ∧ (menu_move_screen e c s).cover_open = s.cover_open := by
  unfold menu_move_screen
  split <;> simp [apply_ite Sys.heater_running, apply_ite Sys.tUp,
    apply_ite Sys.preheat_complete, apply_ite Sys.drying_mode, apply_ite Sys.curing_mode,
    apply_ite Sys.cover_open, generic_menu_P, scrolling_list, menu_move_running, tDown_set]

theorem menu_move_heat (e : Ext) (c : Consts) (b : Bool) (s : Sys) :
    (menu_move e c b s).heater_running = s.heater_running
    ∧ (menu_move e c b s).tUp = s.tUp
    ∧ (menu_move e c b s).preheat_complete = s.preheat_complete
    ∧ (menu_move e c b s).drying_mode = s.drying_mode
    ∧ (menu_move e c b s).curing_mode = s.curing_mode
    ∧ (menu_move e c b s).cover_open = s.cover_open := by
  simp [menu_move, menu_move_screen_heat, menu_move_echo, echo,
    apply_ite Sys.heater_running, apply_ite Sys.tUp, apply_ite Sys.preheat_complete,
    apply_ite Sys.drying_mode, apply_ite Sys.curing_mode, apply_ite Sys.cover_open]

theorem lcd_time_print_heat (e : Ext) (c : Consts) (s : Sys) :
    (lcd_time_print e c s).heater_running = s.heater_running
    ∧ (lcd_time_print e c s).tUp = s.tUp
    ∧ (lcd_time_print e c s).preheat_complete = s.preheat_complete
    ∧ (lcd_time_print e c s).drying_mode = s.drying_mode
    ∧ (lcd_time_print e c s).curing_mode = s.curing_mode
    ∧ (lcd_time_print e c s).cover_open = s.cover_open := by
  unfold lcd_time_print
  simp only []
  split_ifs <;> simp

theorem gastro_pan_check_heat (e : Ext) (c : Consts) (i : LoopIn) (s : Sys) :
    (gastro_pan_check e c i s).tUp = s.tUp
    ∧ (gastro_pan_check e c i s).preheat_complete = s.preheat_complete
    ∧ (gastro_pan_check e c i s).drying_mode = s.drying_mode
    ∧ (gastro_pan_check e c i s).curing_mode = s.curing_mode
    ∧ (gastro_pan_check e c i s).cover_open = s.cover_open
    ∧ (i.wash_detect_pin = true →
        (gastro_pan_check e c i s).heater_running = s.heater_running
        ∧ (gastro_pan_check e c i s).paused = s.paused) := by
  cases hgp : s.gastro_pan <;> cases hpt : s.paused_time <;> cases ht : i.wash_detect_pin <;>
    simp [gastro_pan_check, hgp, hpt, ht, menu_move_heat, menu_move_paused, stop_heater,
      stop_motor, chip_write]

/-- The preheat phase inside `start_drying`, cover closed, not paused, no tank
in place: `preheat()` decides on the heater, then the up-timer is (re)started. -/
theorem start_drying_preheat (e : Ext) (c : Consts) (i : LoopIn) (s : Sys)
    (hco : s.cover_open = false) (hp : s.paused = false)
    (hcfg : s.config.heat_to_target_temp ≠ 0 ∨ s.config.curing_machine_mode = 3)
    (hpc : s.preheat_complete = false) (htank : i.wash_detect_pin = true) :
    (start_drying e c i s).heater_running = (preheat e c s).heater_running
    ∧ (start_drying e c i s).tUp = e.timer_start (preheat e c s).tUp
    ∧ (start_drying e c i s).preheat_complete = false
    ∧ (start_drying e c i s).drying_mode = s.drying_mode
    ∧ (start_drying e c i s).curing_mode = s.curing_mode := by
  have hg := fun u => (gastro_pan_check_heat e c i u).2.2.2.2.2 htank
  by_cases ht : s.chamber_temp < (preheat_target s.config : ℚ)
  · have hpre := (preheat_cases e c s).1 ht
    cases hpt : s.paused_time <;>
      simp [start_drying, hpre, hco, hp, hcfg, hpc, hpt, run_heater, chip_write,
        lcd_time_print_heat, gastro_pan_check_heat, hg, menu_move_heat, menu_move_paused]
  · have hpre := (preheat_cases e c s).2 (not_lt.mp ht)
    cases hpt : s.paused_time <;>
      simp [start_drying, hpre, hco, hp, hcfg, hpc, hpt, stop_heater, tUp_set, chip_write,
        lcd_time_print_heat, gastro_pan_check_heat, hg, menu_move_heat, menu_move_paused]

theorem enter_drying_mode_frame (s : Sys) :
    (enter_drying_mode s).drying_mode = true
    ∧ (enter_drying_mode s).config = s.config
    ∧ (enter_drying_mode s).preheat_complete = s.preheat_complete
    ∧ (enter_drying_mode s).tUp = s.tUp ∧ (enter_drying_mode s).tDown = s.tDown
    ∧ (enter_drying_mode s).curing_mode = s.curing_mode
    ∧ (enter_drying_mode s).chamber_temp = s.chamber_temp
    ∧ (enter_drying_mode s).cover_open = s.cover_open
    ∧ (enter_drying_mode s).paused = s.paused := by
  unfold enter_drying_mode
  split_ifs <;> simp_all

theorem cover_check_closed (e : Ext) (c : Consts) (i : LoopIn) (s : Sys)
    (hpin : i.cover_open_pin = false) (hco : s.cover_open = false) :
    (cover_check e c i s).cover_open = false ∧ (cover_check e c i s).paused = s.paused := by
  cases hp : s.paused <;> simp [cover_check, hpin, hco, hp, run_motor, chip_write]

theorem machine_running_curing (e : Ext) (c : Consts) (i : LoopIn) (s : Sys)
    (hmode : s.curing_mode = true)
    (hkeep : (machine_running_mode e c i (cover_check e c i s)).curing_mode = true) :
    machine_running e c i s = machine_running_mode e c i (cover_check e c i s) := by
  unfold machine_running
  simp only [hmode, if_true]
  rw [if_neg (by rw [hkeep]; simp)]

theorem preheat_target_ext (a b : eeprom_v2_t) (h : a = b) :
    preheat_target a = preheat_target b := by rw [h]

/-- One `machine_running` call in the preheat phase of a two-stage run, cover
closed, not paused, no tank in place, the up-timer not complete: the heater
follows the comparison `preheat()` makes, and when the target is reached the
up-timer is set to the target 0:00 (and started). -/
theorem machine_running_preheat (e : Ext) (c : Consts) (i : LoopIn) (s : Sys)
    (hmode : s.curing_mode = true) (hrun : preheat_run s.config)
    (hpc : s.preheat_complete = false) (hnd : e.timer_isCounterCompleted s.tUp = false)
    (hpin : i.cover_open_pin = false) (hco : s.cover_open = false) (hp : s.paused = false)
    (htank : i.wash_detect_pin = true) :
    (s.chamber_temp < (preheat_target s.config : ℚ) →
        (machine_running e c i s).heater_running = true
        ∧ (machine_running e c i s).tUp = e.timer_start s.tUp)
    ∧ ((preheat_target s.config : ℚ) ≤ s.chamber_temp →
        (machine_running e c i s).heater_running = false
        ∧ (machine_running e c i s).tUp
            = e.timer_start (e.timer_setCounter 0 0 0 true s.tUp))
    ∧ (machine_running e c i s).preheat_complete = false
    ∧ (machine_running e c i s).drying_mode = true := by
  obtain ⟨f1, f2, f3, f4, f5, f6, f7⟩ := cover_check_frame e c i s
  obtain ⟨g1, g2⟩ := cover_check_closed e c i s hpin hco
  obtain ⟨d1, d2, d3, d4, d5, d6, d7, d8, d9⟩ := enter_drying_mode_frame (cover_check e c i s)
  have hcfg : (enter_drying_mode (cover_check e c i s)).config.heat_to_target_temp ≠ 0
      ∨ (enter_drying_mode (cover_check e c i s)).config.curing_machine_mode = 3 := by
    rw [d2, f1]
    rcases hrun with h3 | ⟨-, hh⟩
    · exact Or.inr h3
    · exact Or.inl hh
  obtain ⟨s1, s2, s3, s4, s5⟩ := start_drying_preheat e c i
    (enter_drying_mode (cover_check e c i s)) (d8.trans g1) (d9.trans (g2.trans hp)) hcfg
    (d3.trans (f2.trans hpc)) htank
  have hmm : machine_running_mode e c i (cover_check e c i s)
      = start_drying e c i (enter_drying_mode (cover_check e c i s)) := by
    have hnd2 : e.timer_isCounterCompleted (cover_check e c i s).tUp = false := by
      rw [f4]; exact hnd
    have hpc2 : (cover_check e c i s).preheat_complete = false := f2.trans hpc
    have hrun2 : preheat_run (cover_check e c i s).config := by rw [f1]; exact hrun
    unfold machine_running_mode run_two_stage
    rcases hrun2 with h3 | ⟨h0 | h2, hh⟩
    · simp [h3, hpc2, hnd2]
    · simp [h0, hh, hpc2, hnd2]
    · simp [h2, hh, hpc2, hnd2]
  have hmr : machine_running e c i s
      = start_drying e c i (enter_drying_mode (cover_check e c i s)) := by
    rw [machine_running_curing e c i s hmode (by rw [hmm, s5, d6, f6]; exact hmode), hmm]
  have htgt : preheat_target (enter_drying_mode (cover_check e c i s)).config
      = preheat_target s.config := preheat_target_ext _ _ (d2.trans f1)
  obtain ⟨p1, p2⟩ := preheat_cases e c (enter_drying_mode (cover_check e c i s))
  rw [htgt, d7, f7] at p1 p2
  rw [hmr]
  refine ⟨fun h => ?_, fun h => ?_, s3, s4.trans d1⟩
  · rw [s1, s2, p1 h]
    simp [run_heater, chip_write, d4, f4]
  · rw [s1, s2, p2 h]
    simp [stop_heater, tUp_set, chip_write, d4, f4, to_uint8]

/-- In a two-stage run that is still in its preheat phase, the `machine_running`
call that finds the up-timer complete starts the hold phase: it sets
`preheat_complete`, arms the down-timer with the hold duration and starts it.
The chamber temperature plays no part. -/
theorem machine_running_hold (e : Ext) (c : Consts) (i : LoopIn) (s : Sys)
    (hmode : s.curing_mode = true) (hrun : preheat_run s.config)
    (hpc : s.preheat_complete = false) (hdm : s.drying_mode = true)
    (hdone : e.timer_isCounterCompleted s.tUp = true) :
    (machine_running e c i s).preheat_complete = true
    ∧ (machine_running e c i s).tDown
        = e.timer_start (e.timer_setCounter 0 (hold_minutes s.config % 256) 0 false s.tDown) := by
  obtain ⟨f1, f2, f3, f4, f5, f6, f7⟩ := cover_check_frame e c i s
  have hmm : machine_running_mode e c i (cover_check e c i s)
      = preheat_done e (hold_minutes s.config) (cover_check e c i s) := by
    rw [machine_running_mode_hold e c i (cover_check e c i s) (by rw [f1]; exact hrun)
      (f2.trans hpc) (by rw [f4]; exact hdone), f1]
  obtain ⟨p1, p2, p3⟩ := preheat_done_hold e (hold_minutes s.config) (cover_check e c i s)
    (f3.trans hdm)
  rw [machine_running_curing e c i s hmode (by rw [hmm, p3, f6]; exact hmode), hmm]
  exact ⟨p1, by rw [p2, f5]⟩

/-- C22: in a drying-to-target run (mode 0 or 2 with `heat_to_target_temp` set)
or a resin-preheat run (mode 3): while `chamber_temp` is below the target,
`preheat()` switches the heater on; once it is at or above the target,
`preheat()` switches the heater off and sets the up-timer to the target 0:00,
which completes it; inside `machine_running` (cover closed, not paused, no
tank) the same holds, the preheat phase going on; and the `machine_running`
call that finds the up-timer complete sets `preheat_complete` and starts the
down-timer at the hold duration, `config.drying_run_time` minutes for modes 0
and 2 and `config.resin_preheat_run_time` minutes for mode 3. -/
theorem preheat_then_hold (e : Ext) (c : Consts) (i : LoopIn) (s : Sys)
    (hmode : s.curing_mode = true) (hrun : preheat_run s.config)
    (hpc : s.preheat_complete = false) :
    (s.chamber_temp < (preheat_target s.config : ℚ) →
        (preheat e c s).heater_running = true ∧ (preheat e c s).tUp = s.tUp)
    ∧ ((preheat_target s.config : ℚ) ≤ s.chamber_temp →
        (preheat e c s).heater_running = false
        ∧ (preheat e c s).tUp = e.timer_setCounter 0 0 0 true s.tUp)
    ∧ (e.timer_isCounterCompleted s.tUp = false → i.cover_open_pin = false →
        s.cover_open = false → s.paused = false → i.wash_detect_pin = true →
        (machine_running e c i s).preheat_complete = false
        ∧ (machine_running e c i s).drying_mode = true
        ∧ (s.chamber_temp < (preheat_target s.config : ℚ) →
            (machine_running e c i s).heater_running = true)
        ∧ ((preheat_target s.config : ℚ) ≤ s.chamber_temp →
            (machine_running e c i s).heater_running = false
            ∧ (machine_running e c i s).tUp
                = e.timer_start (e.timer_setCounter 0 0 0 true s.tUp)))
    ∧ (s.drying_mode = true → e.timer_isCounterCompleted s.tUp = true →
        (machine_running e c i s).preheat_complete = true
        ∧ (machine_running e c i s).tDown
            = e.timer_start (e.timer_setCounter 0
                ((if s.config.curing_machine_mode = 3 then s.config.resin_preheat_run_time
                  else s.config.drying_run_time) % 256) 0 false s.tDown)) := by
  obtain ⟨p1, p2⟩ := preheat_cases e c s
  refine ⟨fun h => ?_, fun h => ?_, fun hnd hpin hco hp htank => ?_, fun hdm hdone => ?_⟩
  · rw [p1 h]; simp [run_heater, chip_write]
  · rw [p2 h]; simp [stop_heater, tUp_set, chip_write, to_uint8]
  · obtain ⟨m1, m2, m3, m4⟩ :=
      machine_running_preheat e c i s hmode hrun hpc hnd hpin hco hp htank
    exact ⟨m3, m4, fun h => (m1 h).1, m2⟩
  · exact machine_running_hold e c i s hmode hrun hpc hdm hdone

set_option maxRecDepth 100000 in
theorem preheat_then_hold_witness :
    heat_run.curing_mode = true ∧ preheat_run heat_run.config
    ∧ heat_run.preheat_complete = false ∧ preheat_target heat_run.config = 35
    ∧ heat_run.chamber_temp = 20
    ∧ (preheat sample_ext sample_consts heat_run).heater_running = true
    ∧ heat_run_reached.chamber_temp = 36
    ∧ (preheat sample_ext sample_consts heat_run_reached).heater_running = false
    ∧ heat_run_reached.heater_running = false ∧ heat_run_reached.preheat_complete = false
    ∧ sample_ext.timer_isCounterCompleted
        (loop_timers sample_ext (heat_in 6020 36) heat_run_reached).tUp = true
    ∧ (machine_running sample_ext sample_consts (heat_in 6020 36)
        (loop_timers sample_ext (heat_in 6020 36) heat_run_reached)).preheat_complete = true
    ∧ (loop sample_ext sample_consts (heat_in 6020 36) heat_run_reached).preheat_complete
        = true
    ∧ (loop sample_ext sample_consts (heat_in 6020 36) heat_run_reached).tDown.current
        = 180000
    ∧ (loop sample_ext sample_consts (heat_in 6020 36) heat_run_reached).tDown.stopped
        = false :=
  ⟨by decide, by decide, by decide, by decide, by decide,
    ((preheat_then_hold sample_ext sample_consts (heat_in 3010 20) heat_run (by decide)
      (by decide) (by decide)).1 (by decide)).1,
    by decide,
    ((preheat_then_hold sample_ext sample_consts (heat_in 6020 36) heat_run_reached (by decide)
      (by decide) (by decide)).2.1 (by decide)).1,
    by decide, by decide, by decide,
    ((preheat_then_hold sample_ext sample_consts (heat_in 6020 36)
      (loop_timers sample_ext (heat_in 6020 36) heat_run_reached) (by decide)
      (by decide) (by decide)).2.2.2 (by decide) (by decide)).1,
    by decide, by decide, by decide⟩

/-! ### The preheat phase is bounded -/

theorem preheat_frame (e : Ext) (c : Consts) (s : Sys) :
    (preheat e c s).preheat_complete = s.preheat_complete
    ∧ (preheat e c s).curing_mode = s.curing_mode
    ∧ (preheat e c s).cover_open = s.cover_open ∧ (preheat e c s).paused = s.paused
    ∧ (preheat e c s).config = s.config ∧ (preheat e c s).paused_time = s.paused_time := by
  unfold preheat
  simp only []
  split_ifs <;> simp [run_heater, stop_heater, tUp_set, chip_write]

theorem start_drying_keeps_phase (e : Ext) (c : Consts) (i : LoopIn) (s : Sys) :
    (start_drying e c i s).preheat_complete = s.preheat_complete
    ∧ (start_drying e c i s).curing_mode = s.curing_mode := by
  unfold start_drying
  simp only []
  rw [(lcd_time_print_heat e c _).2.2.1, (lcd_time_print_heat e c _).2.2.2.2.1,
    (gastro_pan_check_heat e c i _).2.1, (gastro_pan_check_heat e c i _).2.2.2.1]
  constructor <;>
    simp [apply_ite Sys.preheat_complete, apply_ite Sys.curing_mode, menu_move_heat,
      preheat_frame, run_heater, chip_write]

theorem machine_running_mode_preheat (e : Ext) (c : Consts) (i : LoopIn) (s : Sys)
    (hrun : preheat_run s.config) (hpc : s.preheat_complete = false)
    (hnd : e.timer_isCounterCompleted s.tUp = false) :
    machine_running_mode e c i s = start_drying e c i (enter_drying_mode s) := by
  unfold machine_running_mode run_two_stage
  rcases hrun with h3 | ⟨h0 | h2, hh⟩
  · simp [h3, hpc, hnd]
  · simp [h0, hh, hpc, hnd]
  · simp [h2, hh, hpc, hnd]

/-- While the up-timer is not complete the preheat phase goes on, whatever the
chamber temperature is. -/
theorem machine_running_preheat_goes_on (e : Ext) (c : Consts) (i : LoopIn) (s : Sys)
    (hmode : s.curing_mode = true) (hrun : preheat_run s.config)
    (hpc : s.preheat_complete = false) (hnd : e.timer_isCounterCompleted s.tUp = false) :
    (machine_running e c i s).preheat_complete = false := by
  obtain ⟨f1, f2, f3, f4, f5, f6, f7⟩ := cover_check_frame e c i s
  obtain ⟨d1, d2, d3, d4, d5, d6, d7, d8, d9⟩ := enter_drying_mode_frame (cover_check e c i s)
  have hmm := machine_running_mode_preheat e c i (cover_check e c i s) (by rw [f1]; exact hrun)
    (f2.trans hpc) (by rw [f4]; exact hnd)
  obtain ⟨k1, k2⟩ := start_drying_keeps_phase e c i (enter_drying_mode (cover_check e c i s))
  rw [machine_running_curing e c i s hmode (by rw [hmm, k2, d6, f6]; exact hmode), hmm, k1, d3,
    f2, hpc]

theorem start_run_curing_preheat (e : Ext) (c : Consts) (s : Sys)
    (hrun : preheat_run s.config) :
    (start_run_curing e c s).tUp
        = e.timer_start (e.timer_setCounter 0 max_preheat_run_time 0 true
            (if s.config.curing_machine_mode = 0 then e.timer_stop s.tUp else s.tUp))
    ∧ (start_run_curing e c s).preheat_complete = false
    ∧ (start_run_curing e c s).drying_mode = true := by
  have h30 : to_uint8 ((max_preheat_run_time : Nat) : Int) = max_preheat_run_time := by decide
  have hz : to_uint8 0 = 0 := by decide
  unfold start_run_curing
  rcases hrun with h3 | ⟨h0 | h2, hh⟩
  · simp [h3, tUp_arm, tUp_set, led_off, chip_write, h30, hz]
  · simp [h0, hh, tUp_arm, tUp_set, led_off, chip_write, h30, hz]
  · simp [h2, hh, tUp_arm, tUp_set, led_off, chip_write, h30, hz]

/-- The start of a two-stage run from the home screen arms the up-timer as a
count-up timer with the target `max_preheat_run_time` minutes. -/
theorem button_press_arms_preheat (e : Ext) (c : Consts) (i : LoopIn) (s : Sys)
    (hst : s.state = menu_state.HOME) (hpos : s.menu_position = 0)
    (hmode : s.curing_mode = true) (hrun : preheat_run s.config) :
    (button_press e c i s).tUp
        = e.timer_start (e.timer_setCounter 0 max_preheat_run_time 0 true
            (if s.config.curing_machine_mode = 0 then e.timer_stop s.tUp else s.tUp))
    ∧ (button_press e c i s).preheat_complete = false
    ∧ (button_press e c i s).state = menu_state.RUNNING := by
  obtain ⟨l, hl⟩ := button_press_entry_log e c i s
  have hh : button_press_home e c i { s with log := l }
      = menu_move e c true
          { start_run_curing e c (speed_configuration e true (motor_configuration
              { s with log := l })) with
            us_last := i.millis, menu_position := 0, state := menu_state.RUNNING,
            redraw_menu := true } := by
    simp [button_press_home, hpos, hmode, motor_configuration, speed_configuration]
  obtain ⟨a1, a2, a3⟩ := start_run_curing_preheat e c
    (speed_configuration e true (motor_configuration { s with log := l }))
    (by simpa [speed_configuration, motor_configuration, apply_ite Sys.config] using hrun)
  rw [hl, (menu_move_heat e c true _).2.1, (menu_move_heat e c true _).2.2.1, menu_move_state,
    button_press_state_home e c i _ (by exact hst), hh, (menu_move_heat e c true _).2.1,
    (menu_move_heat e c true _).2.2.1, menu_move_state]
  refine ⟨?_, a2, rfl⟩
  show (start_run_curing e c _).tUp = _
  rw [a1]
  simp [speed_configuration, motor_configuration, apply_ite Sys.config, apply_ite Sys.tUp]

set_option maxRecDepth 100000 in
/-- C23 as stated fails: in the heat-to-target run with target 35 the chamber
stays at 20 degrees, and the pass of the main loop at 1800.1 s, past the 30
minutes the up-timer was armed with, starts the hold phase: `preheat_complete`
is set and the down-timer of 3 minutes is running. -/
theorem preheat_ends_by_time :
    preheat_run heat_run.config ∧ preheat_target heat_run.config = 35
    ∧ heat_run.tUp.count_up = true ∧ heat_run.tUp.count_time = 30 * 60 * 1000
    ∧ heat_run.chamber_temp = 20 ∧ heat_run.preheat_complete = false
    ∧ heat_run_late.chamber_temp = 20
    ∧ heat_run_late.preheat_complete = true
    ∧ heat_run_late.tDown.count_time = 3 * 60 * 1000
    ∧ heat_run_late.tDown.stopped = false := by
  decide

/-- C23 (amended): the preheat phase is bounded by `max_preheat_run_time` (30
minutes).  The start of a heat-to-target or resin-preheat run arms the up-timer
as a count-up timer with that target; in the preheat phase a `machine_running`
call that finds the up-timer not complete leaves the run in the preheat phase,
and the first call that finds it complete begins the hold phase
(`preheat_complete` set, down-timer started), whatever `chamber_temp` is: the
up-timer completes when `preheat()` has set its target to 0:00 on reaching the
target temperature, or when it has run for its 30 minutes. -/
theorem preheat_phase_bounded (e : Ext) (c : Consts) (i : LoopIn) (s : Sys)
    (hmode : s.curing_mode = true) (hrun : preheat_run s.config) :
    max_preheat_run_time = 30
    ∧ (s.state = menu_state.HOME → s.menu_position = 0 →
        (button_press e c i s).tUp
            = e.timer_start (e.timer_setCounter 0 max_preheat_run_time 0 true
                (if s.config.curing_machine_mode = 0 then e.timer_stop s.tUp else s.tUp))
        ∧ (button_press e c i s).preheat_complete = false
        ∧ (button_press e c i s).state = menu_state.RUNNING)
    ∧ (s.preheat_complete = false → e.timer_isCounterCompleted s.tUp = false →
        (machine_running e c i s).preheat_complete = false)
    ∧ (s.preheat_complete = false → s.drying_mode = true →
        e.timer_isCounterCompleted s.tUp = true →
        (machine_running e c i s).preheat_complete = true
        ∧ (machine_running e c i s).tDown
            = e.timer_start
                (e.timer_setCounter 0 (hold_minutes s.config % 256) 0 false s.tDown)) :=
  ⟨rfl, fun hst hpos => button_press_arms_preheat e c i s hst hpos hmode hrun,
    fun hpc hnd => machine_running_preheat_goes_on e c i s hmode hrun hpc hnd,
    fun hpc hdm hdone => machine_running_hold e c i s hmode hrun hpc hdm hdone⟩

set_option maxRecDepth 100000 in
theorem preheat_phase_bounded_witness :
    heat_run.curing_mode = true ∧ preheat_run heat_run.config
    ∧ heat_run.preheat_complete = false
    ∧ sample_ext.timer_isCounterCompleted heat_run.tUp = false
    ∧ (machine_running sample_ext sample_consts (heat_in 3010 20) heat_run).preheat_complete
        = false
    ∧ sample_ext.timer_isCounterCompleted
        (loop_timers sample_ext (heat_in 1800100 20) heat_run).tUp = true
    ∧ (machine_running sample_ext sample_consts (heat_in 1800100 20)
        (loop_timers sample_ext (heat_in 1800100 20) heat_run)).preheat_complete = true :=
  ⟨by decide, by decide, by decide, by decide,
    (preheat_phase_bounded sample_ext sample_consts (heat_in 3010 20) heat_run (by decide)
      (by decide)).2.2.1 (by decide) (by decide),
    by decide,
    ((preheat_phase_bounded sample_ext sample_consts (heat_in 1800100 20)
      (loop_timers sample_ext (heat_in 1800100 20) heat_run) (by decide)
      (by decide)).2.2.2 (by decide) (by decide) (by decide)).1⟩

/-! ### Curing modes: the cover is open -/

/-- The cover check of `machine_running` with the cover sensor reporting open:
motor, heater and LED are switched off; the run data are not touched. -/
theorem cover_check_open (e : Ext) (c : Consts) (i : LoopIn) (s : Sys)
    (hpin : i.cover_open_pin = true) :
    (cover_check e c i s).cover_open = true
    ∧ (cover_check e c i s).speed_control.motor_running = false
    ∧ (cover_check e c i s).heater_running = false
    ∧ (cover_check e c i s).out.led_pwm = 0
    ∧ (cover_check e c i s).out.chip c.LED_RELE_PIN = false
    ∧ (cover_check e c i s).rotary_diff = s.rotary_diff
    ∧ (cover_check e c i s).paused = s.paused
    ∧ (cover_check e c i s).led_start = s.led_start := by
  cases hco : s.cover_open <;> cases hm : s.curing_mode <;>
    simp [cover_check, hpin, hco, hm, stop_motor, motor_configuration, speed_configuration,
      stop_heater, led_off, chip_write, setAt]

theorem gastro_pan_check_frozen (e : Ext) (c : Consts) (i : LoopIn) (s : Sys)
    (hpins : c.EN_PIN ≠ c.LED_RELE_PIN) (hrot : s.rotary_diff = 128)
    (hf : outputs_off c s) :
    outputs_off c (gastro_pan_check e c i s)
    ∧ (gastro_pan_check e c i s).tDown = tank_pause e i s.tDown
    ∧ (gastro_pan_check e c i s).tUp = s.tUp := by
  obtain ⟨h1, h2, h3, h4⟩ := hf
  have hne : c.LED_RELE_PIN ≠ c.EN_PIN := fun h => hpins h.symm
  unfold outputs_off tank_pause
  cases hgp : s.gastro_pan <;> cases hpt : s.paused_time <;> cases ht : i.wash_detect_pin <;>
    simp [gastro_pan_check, hgp, hpt, ht, menu_move_heat, menu_move_motor, menu_move_tDown,
      stop_heater, stop_motor, chip_write, setAt, h1, h2, h3, h4, hrot, hne]

theorem lcd_time_print_frozen (e : Ext) (c : Consts) (s : Sys) (hf : outputs_off c s) :
    outputs_off c (lcd_time_print e c s) := by
  obtain ⟨l1, l2, l3, -⟩ := lcd_time_print_run e c s
  obtain ⟨k1, -⟩ := lcd_time_print_heat e c s
  unfold outputs_off at hf ⊢
  rw [l2, l3, k1]
  exact hf

/-- With the cover open `start_drying` starts nothing: it pauses the timer of
the phase (the up-timer before `preheat_complete` in a heat-to-target or
resin-preheat run, the down-timer otherwise) and runs the tank check. -/
theorem start_drying_cover_open (e : Ext) (c : Consts) (i : LoopIn) (s : Sys)
    (hpins : c.EN_PIN ≠ c.LED_RELE_PIN) (hco : s.cover_open = true)
    (hrot : s.rotary_diff = 128) (hf : outputs_off c s) :
    outputs_off c (start_drying e c i s)
    ∧ (start_drying e c i s).tUp
        = (if (s.config.heat_to_target_temp ≠ 0 ∨ s.config.curing_machine_mode = 3)
              ∧ s.preheat_complete = false
            then e.timer_pause s.tUp else s.tUp)
    ∧ (start_drying e c i s).tDown
        = (if (s.config.heat_to_target_temp ≠ 0 ∨ s.config.curing_machine_mode = 3)
              ∧ s.preheat_complete = false
            then tank_pause e i s.tDown else tank_pause e i (e.timer_pause s.tDown))
    ∧ (start_drying e c i s).curing_mode = s.curing_mode := by
  have key : ∀ u : Sys, outputs_off c u → u.rotary_diff = 128 →
      outputs_off c (lcd_time_print e c (gastro_pan_check e c i u))
      ∧ (lcd_time_print e c (gastro_pan_check e c i u)).tUp = u.tUp
      ∧ (lcd_time_print e c (gastro_pan_check e c i u)).tDown = tank_pause e i u.tDown
      ∧ (lcd_time_print e c (gastro_pan_check e c i u)).curing_mode = u.curing_mode := by
    intro u hu hr
    obtain ⟨g1, g2, g3⟩ := gastro_pan_check_frozen e c i u hpins hr hu
    refine ⟨lcd_time_print_frozen e c _ g1, ?_, ?_, ?_⟩
    · rw [(lcd_time_print_heat e c _).2.1, g3]
    · rw [(lcd_time_print_run e c _).2.2.2, g2]
    · rw [(lcd_time_print_heat e c _).2.2.2.2.1, (gastro_pan_check_heat e c i _).2.2.2.1]
  unfold outputs_off at hf
  obtain ⟨h1, h2, h3, h4⟩ := hf
  unfold start_drying
  simp only [hco, Bool.true_eq_false, false_and, if_false, true_or, if_true]
  by_cases hcfg : s.config.heat_to_target_temp ≠ 0 ∨ s.config.curing_machine_mode = 3
  · cases hpc : s.preheat_complete <;> cases hpt : s.paused_time
    all_goals
      simp only [hcfg, hpc, hpt, if_true, if_false, not_true_eq_false, not_false_eq_true,
        Bool.false_eq_true, true_and, and_true, and_false, Bool.true_eq_false]
      refine key _ ?_ ?_
      · unfold outputs_off; exact ⟨h1, h2, h3, h4⟩
      · exact hrot
  · cases hpt : s.paused_time
    all_goals
      simp only [hcfg, hpt, if_true, if_false, not_true_eq_false, not_false_eq_true,
        Bool.false_eq_true, false_and]
      refine key _ ?_ ?_
      · unfold outputs_off; exact ⟨h1, h2, h3, h4⟩
      · exact hrot

/-- With the cover open `start_curing` lights nothing: it pauses the down-timer
and runs the tank check. -/
theorem start_curing_cover_open (e : Ext) (c : Consts) (i : LoopIn) (s : Sys)
    (hpins : c.EN_PIN ≠ c.LED_RELE_PIN) (hco : s.cover_open = true)
    (hrot : s.rotary_diff = 128) (hf : outputs_off c s) :
    outputs_off c (start_curing e c i s)
    ∧ (start_curing e c i s).tUp = s.tUp
    ∧ (start_curing e c i s).tDown = tank_pause e i (e.timer_pause s.tDown)
    ∧ (start_curing e c i s).curing_mode = s.curing_mode := by
  have key : ∀ u : Sys, outputs_off c u → u.rotary_diff = 128 →
      outputs_off c (lcd_time_print e c (gastro_pan_check e c i u))
      ∧ (lcd_time_print e c (gastro_pan_check e c i u)).tUp = u.tUp
      ∧ (lcd_time_print e c (gastro_pan_check e c i u)).tDown = tank_pause e i u.tDown
      ∧ (lcd_time_print e c (gastro_pan_check e c i u)).curing_mode = u.curing_mode := by
    intro u hu hr
    obtain ⟨g1, g2, g3⟩ := gastro_pan_check_frozen e c i u hpins hr hu
    refine ⟨lcd_time_print_frozen e c _ g1, ?_, ?_, ?_⟩
    · rw [(lcd_time_print_heat e c _).2.1, g3]
    · rw [(lcd_time_print_run e c _).2.2.2, g2]
    · rw [(lcd_time_print_heat e c _).2.2.2.2.1, (gastro_pan_check_heat e c i _).2.2.2.1]
  unfold outputs_off at hf
  obtain ⟨h1, h2, h3, h4⟩ := hf
  unfold start_curing
  cases hls : s.led_start <;> cases hpt : s.paused_time
  all_goals
    simp only [stop_heater, chip_write, hco, hls, hpt, Bool.true_eq_false, false_and, if_false,
      true_or, if_true, not_true_eq_false, not_false_eq_true, Bool.false_eq_true, led_off]
    refine key _ ?_ ?_
    · unfold outputs_off
      simp [setAt, h1, h3, h4]
    · exact hrot

theorem enter_drying_mode_eq (s : Sys) :
    enter_drying_mode s
      = { s with drying_mode := true, redraw_menu := (s.redraw_menu || !s.drying_mode) } := by
  unfold enter_drying_mode
  cases h : s.drying_mode <;> simp [h]
  rw [← h]

theorem leave_drying_mode_eq (s : Sys) :
    leave_drying_mode s
      = { s with drying_mode := false, redraw_menu := (s.redraw_menu || s.drying_mode) } := by
  unfold leave_drying_mode
  cases h : s.drying_mode <;> simp [h]
  rw [← h]

/-- The mode switch of `machine_running` with `cover_open` set, the outputs off,
the encoder at neutral and the timer of the phase not complete: whichever mode
is selected, the outputs stay off and the timer of the phase is paused. -/
theorem machine_running_mode_cover_open (e : Ext) (c : Consts) (i : LoopIn) (x : Sys)
    (hpins : c.EN_PIN ≠ c.LED_RELE_PIN) (hco : x.cover_open = true)
    (hrot : x.rotary_diff = 128) (hf : outputs_off c x) (hrun : phase_timer_running e x) :
    outputs_off c (machine_running_mode e c i x)
    ∧ (machine_running_mode e c i x).tUp
        = (if preheat_phase x then e.timer_pause x.tUp else x.tUp)
    ∧ (machine_running_mode e c i x).tDown
        = (if preheat_phase x then tank_pause e i x.tDown
            else tank_pause e i (e.timer_pause x.tDown))
    ∧ (machine_running_mode e c i x).curing_mode = x.curing_mode := by
  have hfe : outputs_off c (enter_drying_mode x) := by
    rw [enter_drying_mode_eq]; exact hf
  have hfl : outputs_off c (leave_drying_mode x) := by
    rw [leave_drying_mode_eq]; exact hf
  have de := start_drying_cover_open e c i (enter_drying_mode x) hpins
    (by rw [enter_drying_mode_eq]; exact hco) (by rw [enter_drying_mode_eq]; exact hrot) hfe
  have dx := start_drying_cover_open e c i x hpins hco hrot hf
  have cl := start_curing_cover_open e c i (leave_drying_mode x) hpins
    (by rw [leave_drying_mode_eq]; exact hco) (by rw [leave_drying_mode_eq]; exact hrot) hfl
  have cx := start_curing_cover_open e c i x hpins hco hrot hf
  rw [enter_drying_mode_eq] at de
  rw [leave_drying_mode_eq] at cl
  simp only [] at de cl
  unfold phase_timer_running at hrun
  unfold machine_running_mode run_two_stage drying_to_curing
  by_cases h3 : x.config.curing_machine_mode = 3
  · cases hpc : x.preheat_complete
    · have hph : preheat_phase x := ⟨hpc, Or.inl h3⟩
      rw [if_pos hph] at hrun
      simp only [h3, hpc, hrun, if_true, if_false, not_false_eq_true, Bool.false_eq_true,
        enter_drying_mode_eq, hph]
      simpa [h3, hpc] using de
    · have hph : ¬ preheat_phase x := fun h => by rw [h.1] at hpc; cases hpc
      rw [if_neg hph] at hrun
      simp only [h3, hpc, hrun, if_true, if_false, not_true_eq_false, enter_drying_mode_eq, hph]
      simpa [h3, hpc] using de
  · by_cases h2 : x.config.curing_machine_mode = 2
    · by_cases hh : x.config.heat_to_target_temp = 0
      · have hph : ¬ preheat_phase x := by
          rintro ⟨-, h | ⟨-, h⟩⟩
          · exact h3 h
          · exact h hh
        rw [if_neg hph] at hrun
        simp only [h3, h2, hh, hrun, if_true, if_false, enter_drying_mode_eq, hph]
        simpa [h3, h2, hh] using de
      · cases hpc : x.preheat_complete
        · have hph : preheat_phase x := ⟨hpc, Or.inr ⟨by rw [h2]; decide, hh⟩⟩
          rw [if_pos hph] at hrun
          simp only [h3, h2, hh, hpc, hrun, if_true, if_false, not_false_eq_true,
            Bool.false_eq_true, enter_drying_mode_eq, hph]
          simpa [h3, h2, hh, hpc] using de
        · have hph : ¬ preheat_phase x := fun h => by rw [h.1] at hpc; cases hpc
          rw [if_neg hph] at hrun
          simp only [h3, h2, hh, hpc, hrun, if_true, if_false, not_true_eq_false,
            enter_drying_mode_eq, hph]
          simpa [h3, h2, hh, hpc] using de
    · by_cases h1 : x.config.curing_machine_mode = 1
      · have hph : ¬ preheat_phase x := by
          rintro ⟨-, h | ⟨h, -⟩⟩
          · exact h3 h
          · exact h h1
        rw [if_neg hph] at hrun
        simp only [h3, h2, h1, hrun, if_true, if_false, leave_drying_mode_eq, hph]
        exact cl
      · by_cases hh : x.config.heat_to_target_temp = 0
        · have hph : ¬ preheat_phase x := by
            rintro ⟨-, h | ⟨-, h⟩⟩
            · exact h3 h
            · exact h hh
          rw [if_neg hph] at hrun
          cases hdm : x.drying_mode
          · simp only [h3, h2, h1, hh, hrun, hdm, if_true, if_false, Bool.false_eq_true,
              false_and, hph]
            exact cx
          · simp only [h3, h2, h1, hh, hrun, hdm, if_true, if_false, and_self, hph]
            simpa [h3, hh] using dx
        · cases hpc : x.preheat_complete
          · have hph : preheat_phase x := ⟨hpc, Or.inr ⟨h1, hh⟩⟩
            rw [if_pos hph] at hrun
            simp only [h3, h2, h1, hh, hpc, hrun, if_true, if_false, not_false_eq_true,
              Bool.false_eq_true, enter_drying_mode_eq, hph]
            simpa [h3, hh, hpc] using de
          · have hph : ¬ preheat_phase x := fun h => by rw [h.1] at hpc; cases hpc
            rw [if_neg hph] at hrun
            cases hdm : x.drying_mode
            · simp only [h3, h2, h1, hh, hpc, hrun, hdm, if_true, if_false,
                Bool.false_eq_true, false_and, not_true_eq_false, hph]
              exact cx
            · simp only [h3, h2, h1, hh, hpc, hrun, hdm, if_true, if_false, and_self,
                not_true_eq_false, hph]
              simpa [h3, hh, hpc] using dx

set_option maxRecDepth 100000 in
/-- C21 as stated fails: in the curing run, with the encoder one micro-step
past neutral, the cover sensor reports open while the tank sensor reports a
tank in place; the tank check of `start_curing` redraws the running screen,
which takes the pending encoder step for a time adjustment: the paused
down-timer is set again, from 2:59 left to 3:29. -/
theorem cover_open_timer_reset :
    curing_run_first.curing_mode = true
    ∧ sample_ext.timer_isCounterCompleted curing_run_first.tDown = false
    ∧ curing_run_first.tDown.current = 179990
    ∧ ({ idle_in 40 with cover_open_pin := true } : LoopIn).cover_open_pin = true
    ∧ (machine_running sample_ext sample_consts { idle_in 40 with cover_open_pin := true }
        { curing_run_first with rotary_diff := 129 }).tDown
        = sample_setCounter 0 2 89 false (sample_pause (sample_pause curing_run_first.tDown))
    ∧ (machine_running sample_ext sample_consts { idle_in 40 with cover_open_pin := true }
        { curing_run_first with rotary_diff := 129 }).tDown.current = 209000 := by
  decide

/-- C21 (amended): in the curing modes, for every run state in which the cover
sensor reports open, the timer of the phase has not completed and the encoder
is at neutral, one `machine_running` call leaves the motor stopped, the heater
off and the LED off, and the only thing it does to the timers is to pause: the
up-timer in the preheat phase, the down-timer otherwise, and the down-timer
once more when a tank is in place.  No timer is stopped or set, so with a
`pause()` that keeps the time both timers keep theirs. -/
theorem machine_running_cover_open (e : Ext) (c : Consts) (i : LoopIn) (s : Sys)
    (hpins : c.EN_PIN ≠ c.LED_RELE_PIN) (hmode : s.curing_mode = true)
    (hpin : i.cover_open_pin = true) (hrun : phase_timer_running e s)
    (hrot : s.rotary_diff = 128) :
    outputs_off c (machine_running e c i s)
    ∧ (preheat_phase s →
        (machine_running e c i s).tUp = e.timer_pause s.tUp
        ∧ (machine_running e c i s).tDown = tank_pause e i s.tDown)
    ∧ (¬ preheat_phase s →
        (machine_running e c i s).tUp = s.tUp
        ∧ (machine_running e c i s).tDown = tank_pause e i (e.timer_pause s.tDown))
    ∧ ((∀ t, (e.timer_pause t).current = t.current) →
        (machine_running e c i s).tUp.current = s.tUp.current
        ∧ (machine_running e c i s).tDown.current = s.tDown.current) := by
  obtain ⟨f1, f2, f3, f4, f5, f6, f7⟩ := cover_check_frame e c i s
  obtain ⟨o1, o2, o3, o4, o5, o6, o7, o8⟩ := cover_check_open e c i s hpin
  have hph : preheat_phase (cover_check e c i s) ↔ preheat_phase s := by
    unfold preheat_phase
    rw [f1, f2]
  have hrun2 : phase_timer_running e (cover_check e c i s) := by
    unfold phase_timer_running at hrun ⊢
    by_cases h : preheat_phase s
    · rw [if_pos (hph.mpr h), f4]
      rw [if_pos h] at hrun
      exact hrun
    · rw [if_neg (fun h2 => h (hph.mp h2)), f5]
      rw [if_neg h] at hrun
      exact hrun
  obtain ⟨m1, m2, m3, m4⟩ := machine_running_mode_cover_open e c i (cover_check e c i s) hpins
    o1 (o6.trans hrot) ⟨o2, o3, o4, o5⟩ hrun2
  rw [machine_running_curing e c i s hmode (by rw [m4, f6]; exact hmode)]
  rw [f4] at m2
  rw [f5] at m3
  have a1 : preheat_phase s →
      (machine_running_mode e c i (cover_check e c i s)).tUp = e.timer_pause s.tUp
      ∧ (machine_running_mode e c i (cover_check e c i s)).tDown = tank_pause e i s.tDown := by
    intro h
    rw [m2, m3, if_pos (hph.mpr h), if_pos (hph.mpr h)]
    exact ⟨rfl, rfl⟩
  have a2 : ¬ preheat_phase s →
      (machine_running_mode e c i (cover_check e c i s)).tUp = s.tUp
      ∧ (machine_running_mode e c i (cover_check e c i s)).tDown
          = tank_pause e i (e.timer_pause s.tDown) := by
    intro h
    rw [m2, m3, if_neg (fun h2 => h (hph.mp h2)), if_neg (fun h2 => h (hph.mp h2))]
    exact ⟨rfl, rfl⟩
  refine ⟨m1, a1, a2, fun hp => ?_⟩
  have hk : ∀ t, (tank_pause e i t).current = t.current := by
    intro t
    unfold tank_pause
    split
    · exact hp t
    · rfl
  by_cases h : preheat_phase s
  · rw [(a1 h).1, (a1 h).2, hp, hk]
    exact ⟨rfl, rfl⟩
  · rw [(a2 h).1, (a2 h).2, hk, hp]
    exact ⟨rfl, rfl⟩

set_option maxRecDepth 100000 in
theorem machine_running_cover_open_witness :
    sample_consts.EN_PIN ≠ sample_consts.LED_RELE_PIN
    ∧ curing_run_first.curing_mode = true ∧ (cover_open_in 40).cover_open_pin = true
    ∧ phase_timer_running sample_ext curing_run_first
    ∧ curing_run_first.rotary_diff = 128
    ∧ curing_run_first.speed_control.motor_running = true
    ∧ outputs_off sample_consts
        (machine_running sample_ext sample_consts (cover_open_in 40) curing_run_first)
    ∧ (machine_running sample_ext sample_consts (cover_open_in 40) curing_run_first).tDown
        = tank_pause sample_ext (cover_open_in 40) (sample_pause curing_run_first.tDown)
    ∧ (machine_running sample_ext sample_consts (cover_open_in 40)
        curing_run_first).tDown.current = curing_run_first.tDown.current :=
  ⟨by decide, by decide, rfl, by decide, by decide, by decide,
    (machine_running_cover_open sample_ext sample_consts (cover_open_in 40) curing_run_first
      (by decide) (by decide) rfl (by decide) (by decide)).1,
    ((machine_running_cover_open sample_ext sample_consts (cover_open_in 40) curing_run_first
      (by decide) (by decide) rfl (by decide) (by decide)).2.2.1 (by decide)).2,
    ((machine_running_cover_open sample_ext sample_consts (cover_open_in 40) curing_run_first
      (by decide) (by decide) rfl (by decide) (by decide)).2.2.2 (fun _ => rfl)).2⟩

/-! ### Normal completion of a run -/

theorem finish_beep_frame (s : Sys) :
    (finish_beep s).speed_control = s.speed_control
    ∧ (finish_beep s).heater_running = s.heater_running
    ∧ (finish_beep s).fan_duty = s.fan_duty
    ∧ (finish_beep s).menu_position = s.menu_position
    ∧ (finish_beep s).rotary_diff = s.rotary_diff
    ∧ (finish_beep s).redraw_menu = s.redraw_menu
    ∧ beeps (finish_beep s)
        = beeps s + (if s.config.finish_beep_mode = 1 ∨ s.config.finish_beep_mode = 2
            then 1 else 0)
    ∧ (finish_beep s).state
        = (if s.config.finish_beep_mode = 2 then menu_state.CONFIRM else menu_state.HOME) := by
  unfold finish_beep
  split_ifs <;> simp_all [beep, beeps]

/-- The redraw that ends a run: on the home or the confirm screen, with a
redraw pending and the encoder at neutral, `menu_move` neither moves the cursor
nor touches the outputs, and it makes no sound. -/
theorem menu_move_end_of_run (e : Ext) (c : Consts) (s : Sys)
    (hst : s.state = menu_state.HOME ∨ s.state = menu_state.CONFIRM)
    (hrot : s.rotary_diff = 128) (hr : s.redraw_menu = true) :
    (menu_move e c true s).speed_control = s.speed_control
    ∧ (menu_move e c true s).heater_running = s.heater_running
    ∧ (menu_move e c true s).fan_duty = s.fan_duty
    ∧ (menu_move e c true s).menu_position = s.menu_position
    ∧ (menu_move e c true s).log = s.log
    ∧ (menu_move e c true s).state = s.state := by
  rw [menu_move_redraw e c true s hr]
  rcases hst with h | h <;> simp [menu_move_screen, h, generic_menu_P, hrot]

theorem menu_move_run_config (e : Ext) (c : Consts) (b : Bool) (s : Sys)
    (hst : s.state = menu_state.RUNNING ∨ s.state = menu_state.RUN_MENU) :
    (menu_move e c b s).config = s.config ∧ beeps (menu_move e c b s) = beeps s := by
  have h1 : (menu_move_echo b s).config = s.config ∧ beeps (menu_move_echo b s) = beeps s
      ∧ (menu_move_echo b s).state = s.state := by
    rcases menu_move_echo_cases b s with h | h <;> rw [h] <;> simp [echo, beeps]
  rcases hst with h | h <;>
    simp [menu_move, menu_move_screen, h1.2.2, h, generic_menu_P, menu_move_running, tDown_set,
      apply_ite Sys.config, apply_ite Sys.log, beeps, h1.1] <;>
    exact h1.2.1

theorem tank_check_washing_config (e : Ext) (c : Consts) (i : LoopIn) (s : Sys)
    (hst : s.state = menu_state.RUNNING ∨ s.state = menu_state.RUN_MENU) :
    (tank_check_washing e c i s).config = s.config
    ∧ beeps (tank_check_washing e c i s) = beeps s := by
  cases hco : s.cover_open <;> cases hpt : s.paused_time <;> cases hgp : s.gastro_pan <;>
    cases htank : i.wash_detect_pin <;>
    simp [tank_check_washing, htank, hco, hpt, hgp, stop_motor, chip_write, beeps] <;>
    first
      | exact (menu_move_run_config e c true _ (by simpa using hst)).1
      | exact (menu_move_run_config e c true _ (by simpa using hst)).2
      | (constructor
         · exact (menu_move_run_config e c true _ (by simpa using hst)).1
         · exact (menu_move_run_config e c true _ (by simpa using hst)).2)

/-- What `stop_curing_drying` and the completion branch of `start_washing`
share, from the point where the outputs are off: the beep, the next screen and
the final redraw. -/
theorem finish_run (e : Ext) (c : Consts) (y : Sys)
    (hrot : y.rotary_diff = 128) (hr : y.redraw_menu = true) :
    (menu_move e c true (finish_beep y)).speed_control = y.speed_control
    ∧ (menu_move e c true (finish_beep y)).heater_running = y.heater_running
    ∧ (menu_move e c true (finish_beep y)).fan_duty = y.fan_duty
    ∧ (menu_move e c true (finish_beep y)).menu_position = y.menu_position
    ∧ beeps (menu_move e c true (finish_beep y))
        = beeps y + (if y.config.finish_beep_mode = 1 ∨ y.config.finish_beep_mode = 2
            then 1 else 0)
    ∧ (menu_move e c true (finish_beep y)).state
        = (if y.config.finish_beep_mode = 2 then menu_state.CONFIRM else menu_state.HOME) := by
  obtain ⟨f1, f2, f3, f4, f5, f6, f7, f8⟩ := finish_beep_frame y
  have hst : (finish_beep y).state = menu_state.HOME
      ∨ (finish_beep y).state = menu_state.CONFIRM := finish_beep_state y
  obtain ⟨m1, m2, m3, m4, m5, m6⟩ :=
    menu_move_end_of_run e c (finish_beep y) hst (f5.trans hrot) (f6.trans hr)
  refine ⟨m1.trans f1, m2.trans f2, m3.trans f3, m4.trans f4, ?_, m6.trans f8⟩
  unfold beeps at f7 ⊢
  rw [m5]
  exact f7

/-- C24: on normal completion of a run, both in `stop_curing_drying` and in
the completed-timer branch of `start_washing` (a run in progress, the
down-timer complete after the tank check), the motor and the heater are
stopped, `fan_duty` is `fans_menu_speed`, `menu_position` is 0, `beep()` is
called once when `config.finish_beep_mode` is 1 or 2 and not at all otherwise,
and `state` is `CONFIRM` if `finish_beep_mode` is 2 and `HOME` for every other
value. -/
theorem run_completion (e : Ext) (c : Consts) (i : LoopIn) (s : Sys) :
    ((stop_curing_drying e c s).speed_control.motor_running = false
      ∧ (stop_curing_drying e c s).heater_running = false
      ∧ (stop_curing_drying e c s).fan_duty = fans_menu_speed
      ∧ (stop_curing_drying e c s).menu_position = 0
      ∧ beeps (stop_curing_drying e c s)
          = beeps s + (if s.config.finish_beep_mode = 1 ∨ s.config.finish_beep_mode = 2
              then 1 else 0)
      ∧ (stop_curing_drying e c s).state
          = (if s.config.finish_beep_mode = 2 then menu_state.CONFIRM else menu_state.HOME))
    ∧ ((s.state = menu_state.RUNNING ∨ s.state = menu_state.RUN_MENU) →
        e.timer_isCounterCompleted (tank_check_washing e c i s).tDown = true →
        (start_washing e c i s).speed_control.motor_running = false
        ∧ (start_washing e c i s).heater_running = false
        ∧ (start_washing e c i s).fan_duty = fans_menu_speed
        ∧ (start_washing e c i s).menu_position = 0
        ∧ beeps (start_washing e c i s)
            = beeps s + (if s.config.finish_beep_mode = 1 ∨ s.config.finish_beep_mode = 2
                then 1 else 0)
        ∧ (start_washing e c i s).state
            = (if s.config.finish_beep_mode = 2 then menu_state.CONFIRM
                else menu_state.HOME)) := by
  constructor
  · obtain ⟨r1, r2, r3, r4, r5, r6⟩ := finish_run e c
      ({ stop_heater c (stop_motor c (led_off c
          { s with pid_mode := false, menu_position := 0 })) with
          fan_duty := fans_menu_speed, redraw_menu := true, rotary_diff := 128 } : Sys) rfl rfl
    unfold stop_curing_drying
    simp only []
    rw [r1, r2, r3, r4, r5, r6]
    simp [stop_heater, stop_motor, led_off, chip_write, beeps]
  · intro hst hdone
    obtain ⟨t1, t2⟩ := tank_check_washing_config e c i s hst
    obtain ⟨r1, r2, r3, r4, r5, r6⟩ := finish_run e c
      ({ stop_heater c { stop_motor c { tank_check_washing e c i s with menu_position := 0 } with
          fan_duty := fans_menu_speed } with redraw_menu := true, rotary_diff := 128 } : Sys)
      rfl rfl
    have hs : start_washing e c i s = washing_complete e c (tank_check_washing e c i s) := by
      unfold start_washing
      simp only [hdone]
      rfl
    rw [hs]
    unfold washing_complete
    simp only []
    rw [r1, r2, r3, r4, r5, r6]
    unfold beeps at t2
    simp [stop_heater, stop_motor, chip_write, beeps, t1, t2]

set_option maxRecDepth 100000 in
theorem run_completion_witness :
    washing_timer_done.state = menu_state.RUNNING
    ∧ sample_ext.timer_isCounterCompleted
        (tank_check_washing sample_ext sample_consts (idle_in 240100)
          washing_timer_done).tDown = true
    ∧ washing_timer_done.config.finish_beep_mode = 1
    ∧ (start_washing sample_ext sample_consts (idle_in 240100)
        washing_timer_done).speed_control.motor_running = false
    ∧ beeps (start_washing sample_ext sample_consts (idle_in 240100) washing_timer_done)
        = beeps washing_timer_done
          + (if washing_timer_done.config.finish_beep_mode = 1
              ∨ washing_timer_done.config.finish_beep_mode = 2 then 1 else 0)
    ∧ (start_washing sample_ext sample_consts (idle_in 240100) washing_timer_done).state
        = (if washing_timer_done.config.finish_beep_mode = 2 then menu_state.CONFIRM
            else menu_state.HOME)
    ∧ (stop_curing_drying sample_ext sample_consts drying_run).state
        = (if drying_run.config.finish_beep_mode = 2 then menu_state.CONFIRM
            else menu_state.HOME) :=
  ⟨by decide, by decide, by decide,
    ((run_completion sample_ext sample_consts (idle_in 240100) washing_timer_done).2
      (Or.inl (by decide)) (by decide)).1,
    ((run_completion sample_ext sample_consts (idle_in 240100) washing_timer_done).2
      (Or.inl (by decide)) (by decide)).2.2.2.2.1,
    ((run_completion sample_ext sample_consts (idle_in 240100) washing_timer_done).2
      (Or.inl (by decide)) (by decide)).2.2.2.2.2,
    (run_completion sample_ext sample_consts (idle_in 240100) drying_run).1.2.2.2.2.2⟩

/-! ### Self-test: a failed phase is confirmed -/

theorem menu_move_selftest (e : Ext) (c : Consts) (b : Bool) (s : Sys) :
    (menu_move e c b s).selftest = s.selftest := by
  have h1 : (menu_move_screen e c { menu_move_echo b s with redraw_menu := false }).selftest
      = s.selftest := by
    unfold menu_move_screen
    split <;> simp [apply_ite Sys.selftest, generic_menu_P, scrolling_list, menu_move_running,
      tDown_set, menu_move_echo, echo]
  exact h1

/-- What `main.cpp` itself does when a failed phase 3, 4 or 5 is confirmed:
the screen goes home and `clean_up()` is called on the self-test as it is, the
phase number untouched. -/
theorem button_press_selftest_fail (e : Ext) (s : Sys) (k : Nat)
    (hk : k = 3 ∨ k = 4 ∨ k = 5) (hph : s.selftest.phase = k)
    (hres : phase_result s.selftest k = true) (hfail : s.selftest.fail_flag = true) :
    (button_press_selftest e s).state = menu_state.HOME
    ∧ (button_press_selftest e s).selftest = e.clean_up s.selftest
    ∧ (button_press_selftest e s).menu_position = 0 := by
  unfold phase_result at hres
  rcases hk with h | h | h <;> subst h <;>
    simp at hres <;>
    simp [button_press_selftest, selftest_confirm, hph, hres, hfail]

theorem button_press_state_selftest (e : Ext) (c : Consts) (i : LoopIn) (s : Sys)
    (hst : s.state = menu_state.SELFTEST) :
    button_press_state e c i s = button_press_selftest e s := by
  unfold button_press_state
  rw [hst]

theorem spec_clean_up_fail (t : CSelftest) (hfail : t.fail_flag = true) :
    (spec_clean_up t).phase = 0 ∧ pass_flags_clear (spec_clean_up t)
    ∧ (spec_clean_up t).fail_flag = false := by
  simp [spec_clean_up, pass_flags_clear, hfail]

/-- C26: when a fail is recorded (`selftest.fail_flag` set) in self-test phase
3, 4 or 5 and the result is confirmed with a button press, `button_press` shows
the home screen and calls `clean_up()` on the self-test, the phase number
untouched by `main.cpp`; with `clean_up()` as the specification describes it
the self-test is idle afterwards: `selftest.phase` is 0 and all per-phase pass
flags (and the fail flag) are clear, and a later self-test, entered by a long
press on the info screen, starts from the idle phase. -/
theorem selftest_fail_returns_to_idle (e : Ext) (c : Consts) (i : LoopIn) (s : Sys) (k : Nat)
    (hclean : e.clean_up = spec_clean_up) (hst : s.state = menu_state.SELFTEST)
    (hk : k = 3 ∨ k = 4 ∨ k = 5) (hph : s.selftest.phase = k)
    (hres : phase_result s.selftest k = true) (hfail : s.selftest.fail_flag = true) :
    (button_press e c i s).state = menu_state.HOME
    ∧ (button_press e c i s).selftest = e.clean_up s.selftest
    ∧ (button_press e c i s).selftest.phase = 0
    ∧ pass_flags_clear (button_press e c i s).selftest
    ∧ (button_press e c i s).selftest.fail_flag = false
    ∧ (∀ u : Sys, u.state = menu_state.INFO → u.selftest = (button_press e c i s).selftest →
        (long_press_action e c u).state = menu_state.SELFTEST
        ∧ (long_press_action e c u).selftest.phase = 0) := by
  obtain ⟨l, hl⟩ := button_press_entry_log e c i s
  obtain ⟨b1, b2, b3⟩ := button_press_selftest_fail e { s with log := l } k hk hph hres hfail
  have hsel : (button_press e c i s).selftest = e.clean_up s.selftest := by
    rw [hl, menu_move_selftest, button_press_state_selftest e c i _ (by exact hst)]
    exact b2
  have hstate : (button_press e c i s).state = menu_state.HOME := by
    rw [hl, menu_move_state, button_press_state_selftest e c i _ (by exact hst)]
    exact b1
  obtain ⟨c1, c2, c3⟩ := spec_clean_up_fail s.selftest hfail
  rw [← hclean, ← hsel] at c1 c2 c3
  refine ⟨hstate, hsel, c1, c2, c3, fun u hu1 hu2 => ?_⟩
  have hlp : long_press_action e c u
      = menu_move e c true
          { u with state := menu_state.SELFTEST, menu_position := 0, redraw_menu := true } := by
    unfold long_press_action
    rw [hu1]
  rw [hlp, menu_move_state, menu_move_selftest]
  exact ⟨rfl, by rw [hu2]; exact c1⟩

set_option maxRecDepth 100000 in
theorem selftest_fail_returns_to_idle_witness :
    spec_ext.clean_up = spec_clean_up ∧ selftest_led_failed.state = menu_state.SELFTEST
    ∧ selftest_led_failed.selftest.phase = 4
    ∧ phase_result selftest_led_failed.selftest 4 = true
    ∧ selftest_led_failed.selftest.fail_flag = true
    ∧ (button_press spec_ext sample_consts (idle_in 50) selftest_led_failed).state
        = menu_state.HOME
    ∧ (button_press spec_ext sample_consts (idle_in 50) selftest_led_failed).selftest.phase = 0
    ∧ pass_flags_clear
        (button_press spec_ext sample_consts (idle_in 50) selftest_led_failed).selftest
    ∧ (button_press sample_ext sample_consts (idle_in 50) selftest_led_failed).selftest.phase
        = 4 :=
  ⟨rfl, rfl, rfl, rfl, rfl,
    (selftest_fail_returns_to_idle spec_ext sample_consts (idle_in 50) selftest_led_failed 4
      rfl rfl (by decide) rfl rfl rfl).1,
    (selftest_fail_returns_to_idle spec_ext sample_consts (idle_in 50) selftest_led_failed 4
      rfl rfl (by decide) rfl rfl rfl).2.2.1,
    (selftest_fail_returns_to_idle spec_ext sample_consts (idle_in 50) selftest_led_failed 4
      rfl rfl (by decide) rfl rfl rfl).2.2.2.1,
    by decide⟩

/-! ### The unit item of the preheat menu -/

theorem button_press_preheat_units (s : Sys) (hpos : 4 ≤ s.menu_position) :
    (button_press_preheat s).config.SI_unit_system = Nat.xor s.config.SI_unit_system 1
    ∧ (button_press_preheat s).config.target_temp
        = (if Nat.xor s.config.SI_unit_system 1 ≠ 0
            then round_to_byte (fahrenheit2celsius s.config.target_temp)
            else round_to_byte (celsius2fahrenheit s.config.target_temp))
    ∧ (button_press_preheat s).config.resin_target_temp
        = (if Nat.xor s.config.SI_unit_system 1 ≠ 0
            then round_to_byte (fahrenheit2celsius s.config.resin_target_temp)
            else round_to_byte (celsius2fahrenheit s.config.resin_target_temp))
    ∧ (button_press_preheat s).eeprom
        = config_magic ++ (config_bytes (button_press_preheat s).config ++ s.eeprom.drop 27)
    ∧ (button_press_preheat s).state = s.state := by
  have h0 : s.menu_position ≠ 0 := by omega
  have h1 : s.menu_position ≠ 1 := by omega
  have h2 : s.menu_position ≠ 2 := by omega
  have h3 : s.menu_position ≠ 3 := by omega
  unfold button_press_preheat
  simp only [h0, h1, h2, h3, if_false]
  refine ⟨?_, ?_, ?_, ?_, ?_⟩
  · by_cases hx : Nat.xor s.config.SI_unit_system 1 = 0 <;> simp [write_config, hx]
  · by_cases hx : Nat.xor s.config.SI_unit_system 1 = 0 <;> simp [write_config, hx]
  · by_cases hx : Nat.xor s.config.SI_unit_system 1 = 0 <;> simp [write_config, hx]
  · rw [write_config_eeprom]
    by_cases hx : Nat.xor s.config.SI_unit_system 1 = 0 <;> simp [hx]
  · by_cases hx : Nat.xor s.config.SI_unit_system 1 = 0 <;> simp [write_config, hx]

theorem button_press_entry_store (e : Ext) (c : Consts) (i : LoopIn) (s : Sys) :
    ∃ s1 : Sys, s1.state = s.state ∧ s1.menu_position = s.menu_position
      ∧ s1.config = s.config ∧ s1.eeprom = s.eeprom
      ∧ button_press e c i s
        = menu_move e c true
            { button_press_state e c i s1 with
              scroll := e.scrolling_list_set (button_press_state e c i s1).menu_position
                (button_press_state e c i s1).scroll,
              rotary_diff := 128, redraw_menu := true } := by
  by_cases h : s.config.sound_response ≠ 0
  · exact ⟨echo { s with log := Event.button_press :: s.log }, rfl, rfl, rfl, rfl,
      by simp [button_press, h]⟩
  · exact ⟨{ s with log := Event.button_press :: s.log }, rfl, rfl, rfl, rfl,
      by simp [button_press, h]⟩

/-- The redraw at the end of `button_press` on the preheat menu leaves the
configuration and the stored record alone. -/
theorem button_press_tail_preheat (e : Ext) (c : Consts) (x : Sys) (sc : Nat)
    (hst : x.state = menu_state.PREHEAT) :
    (menu_move e c true { x with scroll := sc, rotary_diff := 128, redraw_menu := true }).config
        = x.config
    ∧ (menu_move e c true { x with scroll := sc, rotary_diff := 128, redraw_menu := true }).eeprom
        = x.eeprom
    ∧ (menu_move e c true { x with scroll := sc, rotary_diff := 128, redraw_menu := true }).state
        = menu_state.PREHEAT := by
  rw [menu_move_redraw e c true _ rfl]
  simp [menu_move_screen, hst, scrolling_list]

/-- The unit item through `button_press`: the flag has its lowest bit flipped,
both temperatures are converted by the conversion the new flag selects, each
result rounded and stored into its byte, and the record is written out. -/
theorem button_press_units (e : Ext) (c : Consts) (i : LoopIn) (s : Sys)
    (hst : s.state = menu_state.PREHEAT) (hpos : 4 ≤ s.menu_position) :
    (button_press e c i s).config.SI_unit_system = Nat.xor s.config.SI_unit_system 1
    ∧ (button_press e c i s).config.target_temp
        = (if Nat.xor s.config.SI_unit_system 1 ≠ 0
            then round_to_byte (fahrenheit2celsius s.config.target_temp)
            else round_to_byte (celsius2fahrenheit s.config.target_temp))
    ∧ (button_press e c i s).config.resin_target_temp
        = (if Nat.xor s.config.SI_unit_system 1 ≠ 0
            then round_to_byte (fahrenheit2celsius s.config.resin_target_temp)
            else round_to_byte (celsius2fahrenheit s.config.resin_target_temp))
    ∧ (button_press e c i s).eeprom
        = config_magic ++ (config_bytes (button_press e c i s).config ++ s.eeprom.drop 27)
    ∧ (button_press e c i s).state = menu_state.PREHEAT := by
  obtain ⟨s1, e1, e2, e3, e4, hbp⟩ := button_press_entry_store e c i s
  have hX : button_press_state e c i s1 = button_press_preheat s1 := by
    unfold button_press_state
    rw [e1, hst]
  obtain ⟨u1, u2, u3, u4, u5⟩ := button_press_preheat_units s1 (by rw [e2]; exact hpos)
  obtain ⟨t1, t2, t3⟩ := button_press_tail_preheat e c (button_press_preheat s1)
    (e.scrolling_list_set (button_press_preheat s1).menu_position
      (button_press_preheat s1).scroll) (by rw [u5, e1]; exact hst)
  rw [hbp, hX, t1, t2, t3]
  rw [e3] at u1 u2 u3
  rw [e4] at u4
  exact ⟨u1, u2, u3, u4, rfl⟩

theorem nearest_f2c (t : Nat) :
    nearest (fahrenheit2celsius (t : ℚ)) = (10 * (t : Int) - 311) / 18 := by
  unfold nearest fahrenheit2celsius
  have h : (((t : ℚ) - 32) / (18 / 10) + 1 / 2)
      = ((10 * (t : Int) - 311 : Int) : ℚ) / ((18 : Nat) : ℚ) := by
    push_cast
    ring
  rw [h, Rat.floor_intCast_div_natCast]
  rfl

theorem round_to_byte_f2c (t : Nat) (ht : 32 ≤ t) :
    round_to_byte (fahrenheit2celsius (t : ℚ))
      = to_uint8 (nearest (fahrenheit2celsius (t : ℚ))) := by
  have htq : (32 : ℚ) ≤ (t : ℚ) := by exact_mod_cast ht
  have h0 : (0 : ℚ) ≤ fahrenheit2celsius (t : ℚ) := by
    unfold fahrenheit2celsius
    apply div_nonneg <;> linarith
  have h1 : (0 : ℚ) ≤ fahrenheit2celsius (t : ℚ) + 1 / 2 := by linarith
  unfold round_to_byte trunc_long nearest
  rw [if_pos h0, if_pos h1]

/-- From 32 to 255 degrees Fahrenheit the Celsius value fits a byte and the
stored byte is the nearest integer. -/
theorem round_to_byte_f2c_fits (t : Nat) (ht : 32 ≤ t) (ht2 : t ≤ 255) :
    (round_to_byte (fahrenheit2celsius (t : ℚ)) : Int)
      = nearest (fahrenheit2celsius (t : ℚ)) := by
  rw [round_to_byte_f2c t ht, nearest_f2c]
  unfold to_uint8
  omega

theorem xor_one_flag (f : Nat) : (f = 1 → Nat.xor f 1 = 0) ∧ (f = 0 → Nat.xor f 1 = 1) := by
  constructor <;> intro h <;> rw [h] <;> decide

/-- C30 as stated fails: with Celsius selected and a stored target of 130
degrees, pressing the unit item selects Fahrenheit and stores `target_temp =
10`; the Fahrenheit value rounded to nearest is 266, which does not fit the
byte. -/
theorem button_press_units_target_wraps :
    preheat_units_hot.state = menu_state.PREHEAT ∧ preheat_units_hot.menu_position = 4
    ∧ preheat_units_hot.config.SI_unit_system = 1
    ∧ preheat_units_hot.config.target_temp = 130
    ∧ nearest (celsius2fahrenheit ((130 : Nat) : ℚ)) = 266
    ∧ (button_press sample_ext sample_consts (idle_in 10)
        preheat_units_hot).config.SI_unit_system = 0
    ∧ (button_press sample_ext sample_consts (idle_in 10)
        preheat_units_hot).config.target_temp = 10 := by
  obtain ⟨u1, u2, -⟩ := button_press_units sample_ext sample_consts (idle_in 10)
    preheat_units_hot rfl (by decide)
  refine ⟨rfl, rfl, rfl, rfl, by rw [nearest_c2f]; decide, ?_, ?_⟩
  · rw [u1]; decide
  · rw [u2]
    have hx : Nat.xor preheat_units_hot.config.SI_unit_system 1 = 0 := by decide
    have ht : preheat_units_hot.config.target_temp = 130 := rfl
    rw [if_neg (by rw [hx]; decide), ht, round_to_byte_c2f, nearest_c2f]
    decide

/-- C30 (amended): when the unit item of the preheat menu is pressed (cursor
past item 3), a unit flag of 1 becomes 0 and a flag of 0 becomes 1, both
`target_temp` and `resin_target_temp` are converted to the newly selected unit
by the same conversion and stored as bytes: to Fahrenheit `1.8 * t + 32`, the
nearest integer for every value up to 124, to Celsius `(t - 32) / 1.8`, the
nearest integer for every byte value from 32 on; the record is written out
with `write_config`, so that reading it back returns the configuration. -/
theorem button_press_units_converts (e : Ext) (c : Consts) (i : LoopIn) (s : Sys)
    (hst : s.state = menu_state.PREHEAT) (hpos : 4 ≤ s.menu_position) :
    (s.config.SI_unit_system = 1 →
        (button_press e c i s).config.SI_unit_system = 0
        ∧ (s.config.target_temp ≤ 124 →
            ((button_press e c i s).config.target_temp : Int)
              = nearest (celsius2fahrenheit s.config.target_temp))
        ∧ (s.config.resin_target_temp ≤ 124 →
            ((button_press e c i s).config.resin_target_temp : Int)
              = nearest (celsius2fahrenheit s.config.resin_target_temp)))
    ∧ (s.config.SI_unit_system = 0 →
        (button_press e c i s).config.SI_unit_system = 1
        ∧ (32 ≤ s.config.target_temp → s.config.target_temp ≤ 255 →
            ((button_press e c i s).config.target_temp : Int)
              = nearest (fahrenheit2celsius s.config.target_temp))
        ∧ (32 ≤ s.config.resin_target_temp → s.config.resin_target_temp ≤ 255 →
            ((button_press e c i s).config.resin_target_temp : Int)
              = nearest (fahrenheit2celsius s.config.resin_target_temp)))
    ∧ eeprom_get (button_press e c i s).eeprom 0 MAGIC_SIZE = config_magic
    ∧ eeprom_get (button_press e c i s).eeprom MAGIC_SIZE 21
        = config_bytes (button_press e c i s).config
    ∧ (read_config (button_press e c i s)).config = (button_press e c i s).config
    ∧ (button_press e c i s).state = menu_state.PREHEAT := by
  obtain ⟨u1, u2, u3, u4, u5⟩ := button_press_units e c i s hst hpos
  have hm : eeprom_get (button_press e c i s).eeprom 0 MAGIC_SIZE = config_magic := by
    rw [u4]; exact eeprom_get_magic _
  have hr : eeprom_get (button_press e c i s).eeprom MAGIC_SIZE 21
      = config_bytes (button_press e c i s).config := by
    rw [u4]; exact eeprom_get_record _ _
  refine ⟨fun hf => ?_, fun hf => ?_, hm, hr, ?_, u5⟩
  · have hx := (xor_one_flag _).1 hf
    rw [hx] at u1 u2 u3
    simp only [ne_eq, not_true_eq_false, if_false] at u2 u3
    refine ⟨u1, fun h => ?_, fun h => ?_⟩
    · rw [u2]; exact (round_to_byte_c2f_small _ h).1
    · rw [u3]; exact (round_to_byte_c2f_small _ h).1
  · have hx := (xor_one_flag _).2 hf
    rw [hx] at u1 u2 u3
    simp only [ne_eq, one_ne_zero, not_false_eq_true, if_true] at u2 u3
    refine ⟨u1, fun h1 h2 => ?_, fun h1 h2 => ?_⟩
    · rw [u2]; exact round_to_byte_f2c_fits _ h1 h2
    · rw [u3]; exact round_to_byte_f2c_fits _ h1 h2
  · rw [(read_config_current _ hm).1, hr, config_load_v2_bytes]

theorem button_press_units_converts_witness :
    preheat_units_f.state = menu_state.PREHEAT ∧ preheat_units_f.menu_position = 4
    ∧ preheat_units_f.config.SI_unit_system = 0
    ∧ preheat_units_f.config.target_temp = 95
    ∧ (button_press sample_ext sample_consts (idle_in 10)
        preheat_units_f).config.SI_unit_system = 1
    ∧ ((button_press sample_ext sample_consts (idle_in 10)
        preheat_units_f).config.target_temp : Int)
        = nearest (fahrenheit2celsius preheat_units_f.config.target_temp)
    ∧ nearest (fahrenheit2celsius ((95 : Nat) : ℚ)) = 35
    ∧ (read_config (button_press sample_ext sample_consts (idle_in 10)
        preheat_units_f)).config
        = (button_press sample_ext sample_consts (idle_in 10) preheat_units_f).config :=
  ⟨rfl, rfl, rfl, rfl,
    ((button_press_units_converts sample_ext sample_consts (idle_in 10) preheat_units_f rfl
      (by decide)).2.1 rfl).1,
    ((button_press_units_converts sample_ext sample_consts (idle_in 10) preheat_units_f rfl
      (by decide)).2.1 rfl).2.1 (by decide) (by decide),
    by rw [nearest_f2c]; decide,
    (button_press_units_converts sample_ext sample_consts (idle_in 10) preheat_units_f rfl
      (by decide)).2.2.2.2.1⟩

/-! ### Self-test phase 6: the speed sweep -/

/-- A fired step of the sweep is its two halves in sequence. -/
theorem selftest_rotation_step_halves (e : Ext) (c : Consts) (s : Sys) :
    selftest_rotation_step e c s = sweep_advance e c (sweep_apply e c s) := rfl

/-- The second half of a step leaves the swept speed at 11 or below. -/
theorem sweep_advance_swept (e : Ext) (c : Consts) (s : Sys) :
    swept_speed (sweep_advance e c s) ≤ 11 := by
  unfold sweep_advance swept_speed
  cases hmf : s.mode_flag
  · by_cases h : (s.speed_control.washing_speed + 1) % 256 > 11
    · simp [hmf, h, stop_motor, chip_write]
    · simp [hmf, h]; omega
  · by_cases h : (s.speed_control.curing_speed + 1) % 256 > 11
    · by_cases h2 : s.speed_control.washing_speed > 11
      · simp [hmf, h, h2, stop_motor, chip_write]
      · simp [hmf, h, h2, stop_motor, chip_write]; omega
    · simp [hmf, h]; omega

/-- The second half of a step keeps both speeds at 11 or below when the speed
that is not swept was so before. -/
theorem sweep_advance_both (e : Ext) (c : Consts) (s : Sys) :
    (s.mode_flag = true → s.speed_control.washing_speed ≤ 11) →
    (s.mode_flag = false → s.speed_control.curing_speed ≤ 11) →
    (sweep_advance e c s).speed_control.curing_speed ≤ 11
    ∧ (sweep_advance e c s).speed_control.washing_speed ≤ 11 := by
  unfold sweep_advance
  cases hmf : s.mode_flag
  · by_cases h : (s.speed_control.washing_speed + 1) % 256 > 11
    · simp [hmf, h, stop_motor, chip_write]
    · simp [hmf, h]; omega
  · by_cases h : (s.speed_control.curing_speed + 1) % 256 > 11
    · by_cases h2 : s.speed_control.washing_speed > 11
      · simp [hmf, h, h2, stop_motor, chip_write]
      · simp [hmf, h, h2, stop_motor, chip_write]
    · simp [hmf, h]; omega

/-- The first half of a step keeps `mode_flag`, and keeps the speed that is not
swept when `speed_configuration` keeps the speeds. -/
theorem sweep_apply_other (e : Ext) (c : Consts) (s : Sys)
    (hsc : ∀ b sc, (e.speed_configuration b sc).curing_speed = sc.curing_speed
      ∧ (e.speed_configuration b sc).washing_speed = sc.washing_speed) :
    (sweep_apply e c s).mode_flag = s.mode_flag
    ∧ (s.mode_flag = true →
        (sweep_apply e c s).speed_control.washing_speed = s.speed_control.washing_speed)
    ∧ (s.mode_flag = false →
        (sweep_apply e c s).speed_control.curing_speed = s.speed_control.curing_speed) := by
  have h1 := fun b sc => (hsc b sc).1
  have h2 := fun b sc => (hsc b sc).2
  unfold sweep_apply
  cases hmf : s.mode_flag <;> cases hfl : e.is_first_loop s.selftest <;>
    simp [hmf, hfl, speed_configuration, run_motor, chip_write, h1, h2,
      apply_ite Sys.mode_flag, apply_ite Sys.speed_control,
      apply_ite CSpeedControl.curing_speed, apply_ite CSpeedControl.washing_speed]

/-- A fired step of the sweep leaves the swept speed at 11 or below, whatever
the speeds were before and whatever `speed_configuration` does. -/
theorem selftest_rotation_step_swept (e : Ext) (c : Consts) (s : Sys) :
    swept_speed (selftest_rotation_step e c s) ≤ 11 := by
  rw [selftest_rotation_step_halves]
  exact sweep_advance_swept e c _

/-- A pass of phase 6 keeps the swept speed at 11 or below. -/
theorem selftest_rotation_phase_swept (e : Ext) (c : Consts) (i : LoopIn) (s : Sys)
    (h : swept_speed s ≤ 11) : swept_speed (selftest_rotation_phase e c i s) ≤ 11 := by
  unfold selftest_rotation_phase
  simp only []
  split
  · split
    · exact selftest_rotation_step_swept e c _
    · simpa [swept_speed] using h
  · exact h

/-- A pass of phase 6 keeps both speeds at 11 or below. -/
theorem selftest_rotation_phase_both (e : Ext) (c : Consts) (i : LoopIn) (s : Sys)
    (hsc : ∀ b sc, (e.speed_configuration b sc).curing_speed = sc.curing_speed
      ∧ (e.speed_configuration b sc).washing_speed = sc.washing_speed)
    (hc : s.speed_control.curing_speed ≤ 11) (hw : s.speed_control.washing_speed ≤ 11) :
    (selftest_rotation_phase e c i s).speed_control.curing_speed ≤ 11
    ∧ (selftest_rotation_phase e c i s).speed_control.washing_speed ≤ 11 := by
  unfold selftest_rotation_phase
  simp only []
  split
  · split
    · rw [selftest_rotation_step_halves]
      obtain ⟨a1, a2, a3⟩ := sweep_apply_other e c
        { s with selftest := (e.motor_rotation_timer i.millis s.selftest).1 } hsc
      apply sweep_advance_both
      · intro hm
        rw [a1] at hm
        rw [a2 hm]
        exact hw
      · intro hm
        rw [a1] at hm
        rw [a3 hm]
        exact hc
    · exact ⟨hc, hw⟩
  · exact ⟨hc, hw⟩

/-- The first half of a step consults `speed_configuration` only with a swept
speed of 10 or below: a method that agrees with it on those arguments gives the
same state. -/
theorem sweep_apply_consults (e : Ext) (c : Consts) (s : Sys)
    (g : Bool → CSpeedControl → CSpeedControl)
    (hg : ∀ b sc, (if b = true then sc.curing_speed else sc.washing_speed) ≤ 10 →
      g b sc = e.speed_configuration b sc) :
    sweep_apply { e with speed_configuration := g } c s = sweep_apply e c s := by
  unfold sweep_apply
  cases hmf : s.mode_flag <;> cases hfl : e.is_first_loop s.selftest
  · by_cases h : s.speed_control.curing_speed ≤ 10 ∧ s.speed_control.washing_speed ≤ 10
    · have := hg false s.speed_control (by simpa using h.2)
      simp [hmf, hfl, h, speed_configuration, this]
    · simp [hmf, hfl, h]
  · have := hg false { s.speed_control with washing_speed := 1 } (by simp)
    simp [hmf, hfl, speed_configuration, this]
  · by_cases h : s.speed_control.curing_speed ≤ 10 ∧ s.speed_control.washing_speed ≤ 10
    · have := hg true s.speed_control (by simpa using h.1)
      simp [hmf, hfl, h, speed_configuration, this]
    · simp [hmf, hfl, h]
  · have := hg true { s.speed_control with curing_speed := 1 } (by simp)
    simp [hmf, hfl, speed_configuration, this]

/-- A pass of phase 6 consults `speed_configuration` only with a swept speed
of 10 or below. -/
theorem selftest_rotation_phase_consults (e : Ext) (c : Consts) (i : LoopIn) (s : Sys)
    (g : Bool → CSpeedControl → CSpeedControl)
    (hg : ∀ b sc, (if b = true then sc.curing_speed else sc.washing_speed) ≤ 10 →
      g b sc = e.speed_configuration b sc) :
    selftest_rotation_phase { e with speed_configuration := g } c i s
      = selftest_rotation_phase e c i s := by
  unfold selftest_rotation_phase
  simp only []
  split
  · split
    · rw [selftest_rotation_step_halves, selftest_rotation_step_halves,
        sweep_apply_consults e c _ g hg]
      rfl
    · rfl
  · rfl

/-- C27 (amended): in the self-test phase-6 sweep, every fired step leaves the
swept speed (`curing_speed` while `mode_flag` is set, `washing_speed`
afterwards) at 11 or below, whatever the speeds were on entry and whatever
`speed_configuration` does; passes of phase 6 keep the swept speed at 11 or
below; they keep both speeds at 11 or below when both were so on entry and
`speed_configuration` leaves the speeds alone; and `speed_configuration` is
consulted only with a swept speed of 10 or below, so that a method that differs
from it on higher speeds only gives the same sweep. -/
theorem sweep_speed_ceiling (e : Ext) (c : Consts) (l : List LoopIn) (s : Sys)
    (hsc : ∀ b sc, (e.speed_configuration b sc).curing_speed = sc.curing_speed
      ∧ (e.speed_configuration b sc).washing_speed = sc.washing_speed) :
    swept_speed (selftest_rotation_step e c s) ≤ 11
    ∧ (swept_speed s ≤ 11 → swept_speed (sweep_passes e c l s) ≤ 11)
    ∧ (s.speed_control.curing_speed ≤ 11 → s.speed_control.washing_speed ≤ 11 →
        (sweep_passes e c l s).speed_control.curing_speed ≤ 11
        ∧ (sweep_passes e c l s).speed_control.washing_speed ≤ 11)
    ∧ (∀ g : Bool → CSpeedControl → CSpeedControl,
        (∀ b sc, (if b = true then sc.curing_speed else sc.washing_speed) ≤ 10 →
          g b sc = e.speed_configuration b sc) →
        sweep_passes { e with speed_configuration := g } c l s = sweep_passes e c l s) := by
  refine ⟨selftest_rotation_step_swept e c s, ?_, ?_, ?_⟩
  · induction l generalizing s with
    | nil => exact fun h => h
    | cons i l ih => exact fun h => ih _ (selftest_rotation_phase_swept e c i s h)
  · induction l generalizing s with
    | nil => exact fun hc hw => ⟨hc, hw⟩
    | cons i l ih =>
      intro hc hw
      obtain ⟨a, b⟩ := selftest_rotation_phase_both e c i s hsc hc hw
      exact ih _ a b
  · intro g hg
    induction l generalizing s with
    | nil => rfl
    | cons i l ih =>
      show sweep_passes _ c l (selftest_rotation_phase _ c i s) = _
      rw [selftest_rotation_phase_consults e c i s g hg]
      exact ih _

set_option maxRecDepth 100000 in
theorem sweep_speed_ceiling_witness :
    (∀ b sc, (sweep_ext.speed_configuration b sc).curing_speed = sc.curing_speed
      ∧ (sweep_ext.speed_configuration b sc).washing_speed = sc.washing_speed)
    ∧ sweep_entry.speed_control.curing_speed = 1
    ∧ sweep_entry.speed_control.washing_speed = 10
    ∧ (sweep_passes sweep_ext sample_consts (List.replicate 4 (idle_in 0))
        sweep_entry).speed_control.curing_speed = 5
    ∧ (sweep_passes sweep_ext sample_consts (List.replicate 22 (idle_in 0))
        sweep_entry).selftest.rotation_test = true
    ∧ (sweep_passes sweep_ext sample_consts (List.replicate 22 (idle_in 0))
        sweep_entry).speed_control.curing_speed ≤ 11
    ∧ (sweep_passes sweep_ext sample_consts (List.replicate 22 (idle_in 0))
        sweep_entry).speed_control.washing_speed ≤ 11 :=
  ⟨fun _ _ => ⟨rfl, rfl⟩, by decide, by decide, by decide, by decide,
    ((sweep_speed_ceiling sweep_ext sample_consts (List.replicate 22 (idle_in 0)) sweep_entry
      (fun _ _ => ⟨rfl, rfl⟩)).2.2.1 (by decide) (by decide)).1,
    ((sweep_speed_ceiling sweep_ext sample_consts (List.replicate 22 (idle_in 0)) sweep_entry
      (fun _ _ => ⟨rfl, rfl⟩)).2.2.1 (by decide) (by decide)).2⟩

set_option maxRecDepth 100000 in
/-- C27, the claim as stated fails: phase 6 entered with a washing speed of 50
keeps that value through the steps of the curing sub-sweep (here after one and
after five fired steps, the sweep still running), and only the end of the
curing sub-sweep cuts it to 10. -/
theorem sweep_washing_speed_kept :
    sweep_entry_fast.state = menu_state.SELFTEST
    ∧ sweep_entry_fast.selftest.phase = 6
    ∧ sweep_entry_fast.selftest.rotation_test = false
    ∧ (sweep_passes sweep_ext sample_consts [idle_in 0]
        sweep_entry_fast).speed_control.washing_speed = 50
    ∧ (sweep_passes sweep_ext sample_consts (List.replicate 5 (idle_in 0))
        sweep_entry_fast).speed_control.washing_speed = 50
    ∧ (sweep_passes sweep_ext sample_consts (List.replicate 5 (idle_in 0))
        sweep_entry_fast).selftest.rotation_test = false
    ∧ (sweep_passes sweep_ext sample_consts (List.replicate 5 (idle_in 0))
        sweep_entry_fast).mode_flag = true
    ∧ (sweep_passes sweep_ext sample_consts (List.replicate 5 (idle_in 0))
        sweep_entry_fast).speed_control.curing_speed = 6
    ∧ (sweep_passes sweep_ext sample_consts (List.replicate 11 (idle_in 0))
        sweep_entry_fast).speed_control.washing_speed = 10 := by
  decide

/-! ### Self-test phase 6: the end of the sweep -/

theorem motor_rests_refl (s : Sys) : motor_rests s s := ⟨Or.inl rfl, fun h => h⟩

theorem motor_rests_trans (s r t : Sys) (h1 : motor_rests s r) (h2 : motor_rests r t) :
    motor_rests s t := by
  refine ⟨?_, fun h => h1.2 (h2.2 h)⟩
  rcases h2.1 with a | a
  · rw [a]
    exact h1.1
  · exact Or.inr a

theorem motor_rests_of_eq (s r : Sys)
    (h1 : r.speed_control.motor_running = s.speed_control.motor_running)
    (h2 : r.selftest = s.selftest) : motor_rests s r :=
  ⟨Or.inl h1, fun h => by rw [← h2]; exact h⟩

/-- The first half of a sweep step does not mark the sweep complete. -/
theorem sweep_apply_flag (e : Ext) (c : Consts) (s : Sys)
    (hfl : ∀ b t, (e.set_first_loop b t).rotation_test = true → t.rotation_test = true)
    (h : (sweep_apply e c s).selftest.rotation_test = true) :
    s.selftest.rotation_test = true := by
  unfold sweep_apply at h
  cases hmf : s.mode_flag <;> cases hf : e.is_first_loop s.selftest <;>
    simp [hmf, hf, speed_configuration, run_motor, chip_write, apply_ite Sys.selftest] at h
  · exact h
  · exact hfl _ _ h
  · exact h
  · exact hfl _ _ h

/-- The second half of a sweep step marks the sweep complete only with the
motor stopped. -/
theorem sweep_advance_flag (e : Ext) (c : Consts) (s : Sys)
    (h : (sweep_advance e c s).selftest.rotation_test = true) :
    (sweep_advance e c s).speed_control.motor_running = false
      ∨ s.selftest.rotation_test = true := by
  unfold sweep_advance at h ⊢
  cases hmf : s.mode_flag
  · by_cases h1 : (s.speed_control.washing_speed + 1) % 256 > 11
    · left
      simp [hmf, h1, stop_motor, chip_write]
    · right
      simpa [hmf, h1] using h
  · by_cases h1 : (s.speed_control.curing_speed + 1) % 256 > 11
    · left
      by_cases h2 : s.speed_control.washing_speed > 11
      · simp [hmf, h1, h2, stop_motor, chip_write]
      · simp [hmf, h1, h2, stop_motor, chip_write]
    · right
      simpa [hmf, h1] using h

/-- A pass of phase 6 marks the sweep complete only with the motor stopped, and
does nothing once the sweep is complete. -/
theorem selftest_rotation_phase_flag (e : Ext) (c : Consts) (i : LoopIn) (s : Sys)
    (hmt : ∀ m t, (e.motor_rotation_timer m t).1.rotation_test = true → t.rotation_test = true)
    (hfl : ∀ b t, (e.set_first_loop b t).rotation_test = true → t.rotation_test = true) :
    (s.selftest.rotation_test = true → selftest_rotation_phase e c i s = s)
    ∧ (s.selftest.rotation_test = false →
        (selftest_rotation_phase e c i s).selftest.rotation_test = true →
        (selftest_rotation_phase e c i s).speed_control.motor_running = false) := by
  constructor
  · intro h
    simp [selftest_rotation_phase, h]
  · intro h0
    unfold selftest_rotation_phase
    simp only []
    rw [if_pos (by simp [h0])]
    split
    · intro h
      rw [selftest_rotation_step_halves] at h ⊢
      rcases sweep_advance_flag e c _ h with a | a
      · exact a
      · have a2 := hmt _ _ (sweep_apply_flag e c _ hfl a)
        rw [h0] at a2
        exact absurd a2 Bool.false_ne_true
    · intro h
      have a2 := hmt _ _ h
      rw [h0] at a2
      exact absurd a2 Bool.false_ne_true

theorem loop_selftest_sweep (e : Ext) (c : Consts) (i : LoopIn) (s : Sys)
    (hst : s.state = menu_state.SELFTEST)
    (hph : (e.selftest_timer_run i.millis s.selftest).phase = 6) :
    ∃ r : Sys, loop_selftest e c i s = selftest_rotation_phase e c i r
      ∧ r.selftest = e.selftest_timer_run i.millis s.selftest
      ∧ r.speed_control = s.speed_control ∧ r.state = s.state := by
  have h1 : (e.selftest_timer_run i.millis s.selftest).phase ≠ 1 := by rw [hph]; decide
  have h2 : (e.selftest_timer_run i.millis s.selftest).phase ≠ 2 := by rw [hph]; decide
  have h3 : (e.selftest_timer_run i.millis s.selftest).phase ≠ 3 := by rw [hph]; decide
  have h4 : (e.selftest_timer_run i.millis s.selftest).phase ≠ 4 := by rw [hph]; decide
  have h5 : (e.selftest_timer_run i.millis s.selftest).phase ≠ 5 := by rw [hph]; decide
  unfold loop_selftest
  simp only []
  rw [if_pos hst]
  split
  · exact ⟨_, rfl, rfl, rfl, rfl⟩
  · exact ⟨_, rfl, rfl, rfl, rfl⟩

theorem selftest_confirm_flag (e : Ext) (b : Bool) (s : Sys)
    (hcu : ∀ t, (e.clean_up t).rotation_test = true → t.rotation_test = true)
    (h : (selftest_confirm e b s).selftest.rotation_test = true) :
    s.selftest.rotation_test = true := by
  unfold selftest_confirm at h
  cases b
  · simpa using h
  · simp only [if_true, apply_ite Sys.selftest, apply_ite CSelftest.rotation_test] at h
    have h2 := hcu _ h
    simpa [apply_ite CSelftest.rotation_test] using h2

/-- Confirming a self-test phase does not mark the sweep complete. -/
theorem button_press_selftest_flag (e : Ext) (s : Sys)
    (hcu : ∀ t, (e.clean_up t).rotation_test = true → t.rotation_test = true) :
    (button_press_selftest e s).speed_control = s.speed_control
    ∧ ((button_press_selftest e s).selftest.rotation_test = true →
        s.selftest.rotation_test = true) := by
  constructor
  · simp [button_press_selftest, selftest_confirm, apply_ite Sys.speed_control]
  · intro h
    unfold button_press_selftest at h
    simp only [apply_ite Sys.selftest, apply_ite CSelftest.rotation_test] at h
    split_ifs at h
    all_goals first
      | exact h
      | exact selftest_confirm_flag e _ s hcu h
      | exact (by simpa using hcu _ h)

/-- On the self-test and error screens `button_press` leaves the motor alone
and does not mark the sweep complete. -/
theorem button_press_motor_rests (e : Ext) (c : Consts) (i : LoopIn) (s : Sys)
    (hcu : ∀ t, (e.clean_up t).rotation_test = true → t.rotation_test = true)
    (hst : s.state = menu_state.SELFTEST ∨ s.state = menu_state.ERROR) :
    motor_rests s (button_press e c i s) := by
  obtain ⟨l, hl⟩ := button_press_entry_log e c i s
  rw [hl]
  unfold motor_rests
  rw [(menu_move_motor e c true _).1, menu_move_selftest]
  rcases hst with h | h
  · rw [button_press_state_selftest e c i _ (by exact h)]
    have h2 := button_press_selftest_flag e { s with log := l } hcu
    exact ⟨Or.inl (by rw [h2.1]), h2.2⟩
  · have h2 : button_press_state e c i { s with log := l } = { s with log := l } := by
      unfold button_press_state
      simp [h]
    rw [h2]
    exact ⟨Or.inl rfl, fun h => h⟩

theorem long_press_action_selftest (e : Ext) (c : Consts) (s : Sys)
    (h : s.state = menu_state.SELFTEST ∨ s.state = menu_state.ERROR) :
    long_press_action e c s = s := by
  unfold long_press_action
  rcases h with h | h <;> rw [h]

/-- On the self-test and error screens the button block of `loop` leaves the
motor alone and does not mark the sweep complete. -/
theorem loop_button_motor_rests (e : Ext) (c : Consts) (i : LoopIn) (s : Sys)
    (hcu : ∀ t, (e.clean_up t).rotation_test = true → t.rotation_test = true)
    (hst : s.state = menu_state.SELFTEST ∨ s.state = menu_state.ERROR) :
    motor_rests s (loop_button e c i s) := by
  unfold loop_button
  split
  · unfold button_down
    simp only []
    by_cases ha : s.button_active = false
    · rw [if_pos ha]
      split
      · rw [long_press_action_selftest e c _ (by simpa using hst)]
        exact motor_rests_of_eq _ _ rfl rfl
      · exact motor_rests_of_eq _ _ rfl rfl
    · rw [if_neg ha]
      split
      · rw [long_press_action_selftest e c _ (by simpa using hst)]
        exact motor_rests_of_eq _ _ rfl rfl
      · exact motor_rests_refl s
  · unfold button_up
    simp only []
    split
    · split
      · exact motor_rests_of_eq _ _ rfl rfl
      · split
        · exact button_press_motor_rests e c i s hcu hst
        · exact motor_rests_of_eq _ _ rfl rfl
    · exact motor_rests_refl s

theorem loop_reinit_motor_rests (e : Ext) (c : Consts) (i : LoopIn) (s : Sys) :
    motor_rests s (loop_reinit e c i s) := by
  have hm := fun u => (menu_move_motor e c false u).1
  have hs := fun u => menu_move_selftest e c false u
  apply motor_rests_of_eq
  · simp [loop_reinit, apply_ite Sys.speed_control, apply_ite CSpeedControl.motor_running, hm]
  · simp [loop_reinit, apply_ite Sys.selftest, hs]

theorem loop_therm_motor_rests (i : LoopIn) (s : Sys) : motor_rests s (loop_therm i s) := by
  apply motor_rests_of_eq <;>
    simp [loop_therm, therm1_read, chip_write, apply_ite Sys.speed_control,
      apply_ite Sys.selftest]

/-- On the self-test and error screens the part of `loop` after the second
heater-fault test leaves the motor alone and does not mark the sweep
complete. -/
theorem loop_tail_motor_rests (e : Ext) (c : Consts) (i : LoopIn) (s : Sys)
    (hcu : ∀ t, (e.clean_up t).rotation_test = true → t.rotation_test = true)
    (hst : s.state = menu_state.SELFTEST ∨ s.state = menu_state.ERROR) :
    motor_rests s (loop_tail e c i s) := by
  have h1 : loop_confirm_beep i s = s := by
    unfold loop_confirm_beep
    rcases hst with h | h <;> simp [h]
  have h2 : (loop_last_mode s).state = s.state ∧ motor_rests s (loop_last_mode s) := by
    refine ⟨?_, motor_rests_of_eq _ _ ?_ ?_⟩ <;>
      simp [loop_last_mode, apply_ite Sys.state, apply_ite Sys.speed_control,
        apply_ite Sys.selftest]
  have h3 : ∀ u : Sys, (loop_acceleration e i u).state = u.state
      ∧ motor_rests u (loop_acceleration e i u) := by
    intro u
    refine ⟨?_, motor_rests_of_eq _ _ ?_ ?_⟩ <;>
      simp [loop_acceleration, acceleration50ms, apply_ite Sys.state,
        apply_ite Sys.speed_control, apply_ite Sys.selftest,
        apply_ite CSpeedControl.motor_running]
  have h4 : ∀ u : Sys, (loop_rotary e c u).state = u.state
      ∧ motor_rests u (loop_rotary e c u) := by
    intro u
    have hm := (menu_move_motor e c true u).1
    have hs := menu_move_selftest e c true u
    have ht := menu_move_state e c true u
    refine ⟨?_, motor_rests_of_eq _ _ ?_ ?_⟩ <;>
      simp [loop_rotary, apply_ite Sys.state, apply_ite Sys.speed_control,
        apply_ite Sys.selftest, apply_ite CSpeedControl.motor_running, hm, hs, ht]
  have h5 : ∀ u : Sys, (u.state = menu_state.SELFTEST ∨ u.state = menu_state.ERROR) →
      loop_running e c i u = u := by
    intro u hu
    unfold loop_running
    rcases hu with h | h <;> simp [h]
  unfold loop_tail
  simp only []
  rw [h1]
  have s2 : (loop_last_mode s).state = menu_state.SELFTEST
      ∨ (loop_last_mode s).state = menu_state.ERROR := by rw [h2.1]; exact hst
  have s3 := (h3 (loop_last_mode s)).1
  have s4 := (h4 (loop_acceleration e i (loop_last_mode s))).1
  have s5 : (loop_rotary e c (loop_acceleration e i (loop_last_mode s))).state
      = menu_state.SELFTEST
      ∨ (loop_rotary e c (loop_acceleration e i (loop_last_mode s))).state
      = menu_state.ERROR := by rw [s4, s3]; exact s2
  rw [h5 _ s5]
  refine motor_rests_trans _ _ _ ?_ (loop_therm_motor_rests i _)
  refine motor_rests_trans _ _ _ ?_ (loop_reinit_motor_rests e c i _)
  refine motor_rests_trans _ _ _ ?_ (loop_button_motor_rests e c i _ hcu s5)
  refine motor_rests_trans _ _ _ ?_ (h4 _).2
  exact motor_rests_trans _ _ _ h2.2 (h3 _).2

/-- From the self-test screen the part of `loop` after the self-test block
leaves the motor alone or stops it, and does not mark the sweep complete. -/
theorem loop_rest_motor_rests (e : Ext) (c : Consts) (i : LoopIn) (s : Sys)
    (hcu : ∀ t, (e.clean_up t).rotation_test = true → t.rotation_test = true)
    (hst : s.state = menu_state.SELFTEST) :
    motor_rests s
      (loop_tail e c i (loop_heater_error (loop_home_mode i (loop_heater_stop e c s)))) := by
  have h1 : (loop_heater_stop e c s).state = s.state
      ∧ motor_rests s (loop_heater_stop e c s) := by
    refine ⟨?_, ?_, ?_⟩
    · simp [loop_heater_stop, stop_heater, stop_motor, chip_write, apply_ite Sys.state]
    · cases hh : s.heater_error
      · left
        simp [loop_heater_stop, hh]
      · right
        exact (loop_heater_stop_on e c s hh).1
    · intro h
      simpa [loop_heater_stop, stop_heater, stop_motor, chip_write, apply_ite Sys.selftest]
        using h
  have h2 : loop_home_mode i (loop_heater_stop e c s) = loop_heater_stop e c s := by
    unfold loop_home_mode
    simp [h1.1, hst]
  have h3 : ∀ u : Sys, u.state = menu_state.SELFTEST →
      ((loop_heater_error u).state = menu_state.SELFTEST
        ∨ (loop_heater_error u).state = menu_state.ERROR)
      ∧ motor_rests u (loop_heater_error u) := by
    intro u hu
    unfold loop_heater_error
    split
    · exact ⟨Or.inr rfl, motor_rests_of_eq _ _ rfl rfl⟩
    · exact ⟨Or.inl hu, motor_rests_refl u⟩
  rw [h2]
  obtain ⟨a, b⟩ := h3 (loop_heater_stop e c s) (h1.1.trans hst)
  exact motor_rests_trans _ _ _ (motor_rests_trans _ _ _ h1.2 b)
    (loop_tail_motor_rests e c i _ hcu a)

/-- C28: in a pass of `loop` on the self-test screen in phase 6, when the sweep
ends (`selftest.rotation_test`, clear at the start of the pass, is set at its
end) the motor is stopped (`speed_control.motor_running` is false at the end of
the pass); and a pass that starts with the sweep complete and the motor stopped
ends with the motor stopped.  The methods of `CSelftest` (no source here) are
assumed not to set `rotation_test` themselves. -/
theorem sweep_end_motor_stopped (e : Ext) (c : Consts) (i : LoopIn) (s : Sys)
    (hrun : ∀ m t, (e.selftest_timer_run m t).rotation_test = true → t.rotation_test = true)
    (hmt : ∀ m t, (e.motor_rotation_timer m t).1.rotation_test = true → t.rotation_test = true)
    (hfl : ∀ b t, (e.set_first_loop b t).rotation_test = true → t.rotation_test = true)
    (hcu : ∀ t, (e.clean_up t).rotation_test = true → t.rotation_test = true)
    (hst : s.state = menu_state.SELFTEST)
    (hph : (e.selftest_timer_run i.millis s.selftest).phase = 6) :
    (s.selftest.rotation_test = false → (loop e c i s).selftest.rotation_test = true →
      (loop e c i s).speed_control.motor_running = false)
    ∧ ((e.selftest_timer_run i.millis s.selftest).rotation_test = true →
        s.speed_control.motor_running = false →
        (loop e c i s).speed_control.motor_running = false) := by
  have t1 : (loop_timers e i s).state = s.state
      ∧ (loop_timers e i s).selftest = s.selftest
      ∧ (loop_timers e i s).speed_control = s.speed_control := by
    simp [loop_timers, apply_ite Sys.state, apply_ite Sys.selftest,
      apply_ite Sys.speed_control]
  obtain ⟨r, hr, hrs, hrm, -⟩ := loop_selftest_sweep e c i (loop_timers e i s)
    (t1.1.trans hst) (by rw [t1.2.1]; exact hph)
  rw [t1.2.1] at hrs
  rw [t1.2.2] at hrm
  have hrest := loop_rest_motor_rests e c i (loop_selftest e c i (loop_timers e i s)) hcu
    ((loop_selftest_frame e c i _).1.trans (t1.1.trans hst))
  have hloop : loop e c i s
      = loop_tail e c i (loop_heater_error (loop_home_mode i
          (loop_heater_stop e c (loop_selftest e c i (loop_timers e i s))))) := rfl
  rw [← hloop, hr] at hrest
  obtain ⟨p1, p2⟩ := selftest_rotation_phase_flag e c i r hmt hfl
  constructor
  · intro h0 h
    have hr0 : r.selftest.rotation_test = false := by
      cases hb : r.selftest.rotation_test
      · rfl
      · rw [hrs] at hb
        rw [hrun _ _ hb] at h0
        exact absurd h0 (by decide)
    have hm := p2 hr0 (hrest.2 h)
    rcases hrest.1 with a | a
    · rw [a]
      exact hm
    · exact a
  · intro h hm
    have hr1 : r.selftest.rotation_test = true := by rw [hrs]; exact h
    rw [p1 hr1] at hrest
    rcases hrest.1 with a | a
    · rw [a, hrm]
      exact hm
    · exact a

set_option maxRecDepth 100000 in
theorem sweep_end_motor_stopped_witness :
    sweep_last_step.state = menu_state.SELFTEST
    ∧ sweep_last_step.selftest.phase = 6
    ∧ sweep_last_step.selftest.rotation_test = false
    ∧ sweep_last_step.speed_control.motor_running = true
    ∧ sweep_ended.selftest.rotation_test = true
    ∧ sweep_ended.speed_control.motor_running = false
    ∧ (loop sweep_ext sample_consts (idle_in 200) sweep_ended).speed_control.motor_running
        = false :=
  ⟨by decide, by decide, by decide, by decide, by decide,
    (sweep_end_motor_stopped sweep_ext sample_consts (idle_in 100) sweep_last_step
      (fun _ _ h => h) (fun _ _ h => h) (fun _ _ h => h) (fun _ h => h)
      (by decide) (by decide)).1 (by decide) (by decide),
    (sweep_end_motor_stopped sweep_ext sample_consts (idle_in 200) sweep_ended
      (fun _ _ h => h) (fun _ _ h => h) (fun _ _ h => h) (fun _ h => h)
      (by decide) (by decide)).2 (by decide) (by decide)⟩

/-! ### The button: what the rest of the firmware leaves alone -/

theorem menu_move_screen_button (e : Ext) (c : Consts) (s : Sys) :
    (menu_move_screen e c s).button_active = s.button_active
    ∧ (menu_move_screen e c s).button_timer = s.button_timer
    ∧ (menu_move_screen e c s).long_press_active = s.long_press_active
    ∧ (menu_move_screen e c s).log = s.log := by
  unfold menu_move_screen
  split <;> simp [apply_ite Sys.button_active, apply_ite Sys.button_timer,
      apply_ite Sys.long_press_active, apply_ite Sys.log, generic_menu_P, scrolling_list,
      menu_move_running, tDown_set]

theorem menu_move_button (e : Ext) (c : Consts) (b : Bool) (s : Sys) :
    (menu_move e c b s).button_active = s.button_active
    ∧ (menu_move e c b s).button_timer = s.button_timer
    ∧ (menu_move e c b s).long_press_active = s.long_press_active
    ∧ (menu_move e c b s).log.count Event.button_press = s.log.count Event.button_press := by
  simp [menu_move, menu_move_screen_button, menu_move_echo, echo,
    apply_ite Sys.button_active, apply_ite Sys.button_timer, apply_ite Sys.long_press_active,
    apply_ite Sys.log, apply_ite (List.count Event.button_press)]

theorem finish_beep_button (s : Sys) :
    (finish_beep s).button_active = s.button_active
    ∧ (finish_beep s).button_timer = s.button_timer
    ∧ (finish_beep s).long_press_active = s.long_press_active
    ∧ (finish_beep s).log.count Event.button_press = s.log.count Event.button_press := by
  simp [finish_beep, chip_write, run_motor, stop_motor, run_heater, stop_heater, led_on, led_off,
    motor_configuration, speed_configuration, acceleration50ms, echo, beep, tDown_set, tUp_set,
    write_config, enter_drying_mode, leave_drying_mode, tDown_arm, tUp_arm, finish_beep,
    apply_ite Sys.button_active, apply_ite Sys.button_timer, apply_ite Sys.long_press_active,
    apply_ite Sys.log, apply_ite (List.count Event.button_press)]

theorem run_stop_button (e : Ext) (c : Consts) (s : Sys) :
    (run_stop e c s).button_active = s.button_active
    ∧ (run_stop e c s).button_timer = s.button_timer
    ∧ (run_stop e c s).long_press_active = s.long_press_active
    ∧ (run_stop e c s).log.count Event.button_press = s.log.count Event.button_press := by
  simp [run_stop, chip_write, run_motor, stop_motor, run_heater, stop_heater, led_on, led_off,
    motor_configuration, speed_configuration, acceleration50ms, echo, beep, tDown_set, tUp_set,
    write_config, enter_drying_mode, leave_drying_mode, tDown_arm, tUp_arm, finish_beep,
    apply_ite Sys.button_active, apply_ite Sys.button_timer, apply_ite Sys.long_press_active,
    apply_ite Sys.log, apply_ite (List.count Event.button_press)]

theorem preheat_button (e : Ext) (c : Consts) (s : Sys) :
    (preheat e c s).button_active = s.button_active
    ∧ (preheat e c s).button_timer = s.button_timer
    ∧ (preheat e c s).long_press_active = s.long_press_active
    ∧ (preheat e c s).log.count Event.button_press = s.log.count Event.button_press := by
  simp [preheat, chip_write, run_motor, stop_motor, run_heater, stop_heater, led_on, led_off,
    motor_configuration, speed_configuration, acceleration50ms, echo, beep, tDown_set, tUp_set,
    write_config, enter_drying_mode, leave_drying_mode, tDown_arm, tUp_arm, finish_beep,
    apply_ite Sys.button_active, apply_ite Sys.button_timer, apply_ite Sys.long_press_active,
    apply_ite Sys.log, apply_ite (List.count Event.button_press)]

theorem lcd_time_print_button (e : Ext) (c : Consts) (s : Sys) :
    (lcd_time_print e c s).button_active = s.button_active
    ∧ (lcd_time_print e c s).button_timer = s.button_timer
    ∧ (lcd_time_print e c s).long_press_active = s.long_press_active
    ∧ (lcd_time_print e c s).log.count Event.button_press = s.log.count Event.button_press := by
  simp [lcd_time_print, chip_write, run_motor, stop_motor, run_heater, stop_heater, led_on, led_off,
    motor_configuration, speed_configuration, acceleration50ms, echo, beep, tDown_set, tUp_set,
    write_config, enter_drying_mode, leave_drying_mode, tDown_arm, tUp_arm, finish_beep,
    apply_ite Sys.button_active, apply_ite Sys.button_timer, apply_ite Sys.long_press_active,
    apply_ite Sys.log, apply_ite (List.count Event.button_press)]

theorem gastro_pan_check_button (e : Ext) (c : Consts) (i : LoopIn) (s : Sys) :
    (gastro_pan_check e c i s).button_active = s.button_active
    ∧ (gastro_pan_check e c i s).button_timer = s.button_timer
    ∧ (gastro_pan_check e c i s).long_press_active = s.long_press_active
    ∧ (gastro_pan_check e c i s).log.count Event.button_press = s.log.count Event.button_press := by
  simp [gastro_pan_check, menu_move_button, chip_write, run_motor, stop_motor, run_heater, stop_heater, led_on, led_off,
    motor_configuration, speed_configuration, acceleration50ms, echo, beep, tDown_set, tUp_set,
    write_config, enter_drying_mode, leave_drying_mode, tDown_arm, tUp_arm, finish_beep,
    apply_ite Sys.button_active, apply_ite Sys.button_timer, apply_ite Sys.long_press_active,
    apply_ite Sys.log, apply_ite (List.count Event.button_press)]

theorem start_drying_button (e : Ext) (c : Consts) (i : LoopIn) (s : Sys) :
    (start_drying e c i s).button_active = s.button_active
    ∧ (start_drying e c i s).button_timer = s.button_timer
    ∧ (start_drying e c i s).long_press_active = s.long_press_active
    ∧ (start_drying e c i s).log.count Event.button_press = s.log.count Event.button_press := by
  simp [start_drying, menu_move_button, preheat_button, gastro_pan_check_button, lcd_time_print_button, chip_write, run_motor, stop_motor, run_heater, stop_heater, led_on, led_off,
    motor_configuration, speed_configuration, acceleration50ms, echo, beep, tDown_set, tUp_set,
    write_config, enter_drying_mode, leave_drying_mode, tDown_arm, tUp_arm, finish_beep,
    apply_ite Sys.button_active, apply_ite Sys.button_timer, apply_ite Sys.long_press_active,
    apply_ite Sys.log, apply_ite (List.count Event.button_press)]

theorem start_curing_button (e : Ext) (c : Consts) (i : LoopIn) (s : Sys) :
    (start_curing e c i s).button_active = s.button_active
    ∧ (start_curing e c i s).button_timer = s.button_timer
    ∧ (start_curing e c i s).long_press_active = s.long_press_active
    ∧ (start_curing e c i s).log.count Event.button_press = s.log.count Event.button_press := by
  simp [start_curing, menu_move_button, gastro_pan_check_button, lcd_time_print_button, chip_write, run_motor, stop_motor, run_heater, stop_heater, led_on, led_off,
    motor_configuration, speed_configuration, acceleration50ms, echo, beep, tDown_set, tUp_set,
    write_config, enter_drying_mode, leave_drying_mode, tDown_arm, tUp_arm, finish_beep,
    apply_ite Sys.button_active, apply_ite Sys.button_timer, apply_ite Sys.long_press_active,
    apply_ite Sys.log, apply_ite (List.count Event.button_press)]

theorem stop_curing_drying_button (e : Ext) (c : Consts) (s : Sys) :
    (stop_curing_drying e c s).button_active = s.button_active
    ∧ (stop_curing_drying e c s).button_timer = s.button_timer
    ∧ (stop_curing_drying e c s).long_press_active = s.long_press_active
    ∧ (stop_curing_drying e c s).log.count Event.button_press = s.log.count Event.button_press := by
  unfold stop_curing_drying
  simp only []
  refine ⟨?_, ?_, ?_, ?_⟩
  · rw [(menu_move_button e c true _).1, (finish_beep_button _).1]
    simp [chip_write, run_motor, stop_motor, run_heater, stop_heater, led_on, led_off,
    motor_configuration, speed_configuration, acceleration50ms, echo, beep, tDown_set, tUp_set,
    write_config, enter_drying_mode, leave_drying_mode, tDown_arm, tUp_arm, finish_beep]
  · rw [(menu_move_button e c true _).2.1, (finish_beep_button _).2.1]
    simp [chip_write, run_motor, stop_motor, run_heater, stop_heater, led_on, led_off,
    motor_configuration, speed_configuration, acceleration50ms, echo, beep, tDown_set, tUp_set,
    write_config, enter_drying_mode, leave_drying_mode, tDown_arm, tUp_arm, finish_beep]
  · rw [(menu_move_button e c true _).2.2.1, (finish_beep_button _).2.2.1]
    simp [chip_write, run_motor, stop_motor, run_heater, stop_heater, led_on, led_off,
    motor_configuration, speed_configuration, acceleration50ms, echo, beep, tDown_set, tUp_set,
    write_config, enter_drying_mode, leave_drying_mode, tDown_arm, tUp_arm, finish_beep]
  · rw [(menu_move_button e c true _).2.2.2, (finish_beep_button _).2.2.2]
    simp [chip_write, run_motor, stop_motor, run_heater, stop_heater, led_on, led_off,
    motor_configuration, speed_configuration, acceleration50ms, echo, beep, tDown_set, tUp_set,
    write_config, enter_drying_mode, leave_drying_mode, tDown_arm, tUp_arm, finish_beep]

theorem tank_check_washing_button (e : Ext) (c : Consts) (i : LoopIn) (s : Sys) :
    (tank_check_washing e c i s).button_active = s.button_active
    ∧ (tank_check_washing e c i s).button_timer = s.button_timer
    ∧ (tank_check_washing e c i s).long_press_active = s.long_press_active
    ∧ (tank_check_washing e c i s).log.count Event.button_press = s.log.count Event.button_press := by
  simp [tank_check_washing, menu_move_button, chip_write, run_motor, stop_motor, run_heater, stop_heater, led_on, led_off,
    motor_configuration, speed_configuration, acceleration50ms, echo, beep, tDown_set, tUp_set,
    write_config, enter_drying_mode, leave_drying_mode, tDown_arm, tUp_arm, finish_beep,
    apply_ite Sys.button_active, apply_ite Sys.button_timer, apply_ite Sys.long_press_active,
    apply_ite Sys.log, apply_ite (List.count Event.button_press)]

theorem washing_continue_button (e : Ext) (c : Consts) (i : LoopIn) (s : Sys) :
    (washing_continue e c i s).button_active = s.button_active
    ∧ (washing_continue e c i s).button_timer = s.button_timer
    ∧ (washing_continue e c i s).long_press_active = s.long_press_active
    ∧ (washing_continue e c i s).log.count Event.button_press = s.log.count Event.button_press := by
  simp [washing_continue, lcd_time_print_button, chip_write, run_motor, stop_motor, run_heater, stop_heater, led_on, led_off,
    motor_configuration, speed_configuration, acceleration50ms, echo, beep, tDown_set, tUp_set,
    write_config, enter_drying_mode, leave_drying_mode, tDown_arm, tUp_arm, finish_beep,
    apply_ite Sys.button_active, apply_ite Sys.button_timer, apply_ite Sys.long_press_active,
    apply_ite Sys.log, apply_ite (List.count Event.button_press)]

theorem washing_complete_button (e : Ext) (c : Consts) (s : Sys) :
    (washing_complete e c s).button_active = s.button_active
    ∧ (washing_complete e c s).button_timer = s.button_timer
    ∧ (washing_complete e c s).long_press_active = s.long_press_active
    ∧ (washing_complete e c s).log.count Event.button_press = s.log.count Event.button_press := by
  unfold washing_complete
  simp only []
  refine ⟨?_, ?_, ?_, ?_⟩
  · rw [(menu_move_button e c true _).1, (finish_beep_button _).1]
    simp [chip_write, run_motor, stop_motor, run_heater, stop_heater, led_on, led_off,
    motor_configuration, speed_configuration, acceleration50ms, echo, beep, tDown_set, tUp_set,
    write_config, enter_drying_mode, leave_drying_mode, tDown_arm, tUp_arm, finish_beep]
  · rw [(menu_move_button e c true _).2.1, (finish_beep_button _).2.1]
    simp [chip_write, run_motor, stop_motor, run_heater, stop_heater, led_on, led_off,
    motor_configuration, speed_configuration, acceleration50ms, echo, beep, tDown_set, tUp_set,
    write_config, enter_drying_mode, leave_drying_mode, tDown_arm, tUp_arm, finish_beep]
  · rw [(menu_move_button e c true _).2.2.1, (finish_beep_button _).2.2.1]
    simp [chip_write, run_motor, stop_motor, run_heater, stop_heater, led_on, led_off,
    motor_configuration, speed_configuration, acceleration50ms, echo, beep, tDown_set, tUp_set,
    write_config, enter_drying_mode, leave_drying_mode, tDown_arm, tUp_arm, finish_beep]
  · rw [(menu_move_button e c true _).2.2.2, (finish_beep_button _).2.2.2]
    simp [chip_write, run_motor, stop_motor, run_heater, stop_heater, led_on, led_off,
    motor_configuration, speed_configuration, acceleration50ms, echo, beep, tDown_set, tUp_set,
    write_config, enter_drying_mode, leave_drying_mode, tDown_arm, tUp_arm, finish_beep]

theorem start_washing_button (e : Ext) (c : Consts) (i : LoopIn) (s : Sys) :
    (start_washing e c i s).button_active = s.button_active
    ∧ (start_washing e c i s).button_timer = s.button_timer
    ∧ (start_washing e c i s).long_press_active = s.long_press_active
    ∧ (start_washing e c i s).log.count Event.button_press = s.log.count Event.button_press := by
  simp [start_washing, tank_check_washing_button, washing_continue_button, washing_complete_button, chip_write, run_motor, stop_motor, run_heater, stop_heater, led_on, led_off,
    motor_configuration, speed_configuration, acceleration50ms, echo, beep, tDown_set, tUp_set,
    write_config, enter_drying_mode, leave_drying_mode, tDown_arm, tUp_arm, finish_beep,
    apply_ite Sys.button_active, apply_ite Sys.button_timer, apply_ite Sys.long_press_active,
    apply_ite Sys.log, apply_ite (List.count Event.button_press)]

theorem preheat_done_button (e : Ext) (n : Nat) (s : Sys) :
    (preheat_done e n s).button_active = s.button_active
    ∧ (preheat_done e n s).button_timer = s.button_timer
    ∧ (preheat_done e n s).long_press_active = s.long_press_active
    ∧ (preheat_done e n s).log.count Event.button_press = s.log.count Event.button_press := by
  simp [preheat_done, chip_write, run_motor, stop_motor, run_heater, stop_heater, led_on, led_off,
    motor_configuration, speed_configuration, acceleration50ms, echo, beep, tDown_set, tUp_set,
    write_config, enter_drying_mode, leave_drying_mode, tDown_arm, tUp_arm, finish_beep,
    apply_ite Sys.button_active, apply_ite Sys.button_timer, apply_ite Sys.long_press_active,
    apply_ite Sys.log, apply_ite (List.count Event.button_press)]

theorem run_two_stage_button (e : Ext) (c : Consts) (i : LoopIn) (n : Nat) (s : Sys) :
    (run_two_stage e c i n s).button_active = s.button_active
    ∧ (run_two_stage e c i n s).button_timer = s.button_timer
    ∧ (run_two_stage e c i n s).long_press_active = s.long_press_active
    ∧ (run_two_stage e c i n s).log.count Event.button_press = s.log.count Event.button_press := by
  simp [run_two_stage, start_drying_button, preheat_done_button, stop_curing_drying_button, chip_write, run_motor, stop_motor, run_heater, stop_heater, led_on, led_off,
    motor_configuration, speed_configuration, acceleration50ms, echo, beep, tDown_set, tUp_set,
    write_config, enter_drying_mode, leave_drying_mode, tDown_arm, tUp_arm, finish_beep,
    apply_ite Sys.button_active, apply_ite Sys.button_timer, apply_ite Sys.long_press_active,
    apply_ite Sys.log, apply_ite (List.count Event.button_press)]

theorem drying_to_curing_button (e : Ext) (c : Consts) (s : Sys) :
    (drying_to_curing e c s).button_active = s.button_active
    ∧ (drying_to_curing e c s).button_timer = s.button_timer
    ∧ (drying_to_curing e c s).long_press_active = s.long_press_active
    ∧ (drying_to_curing e c s).log.count Event.button_press = s.log.count Event.button_press := by
  simp [drying_to_curing, menu_move_button, chip_write, run_motor, stop_motor, run_heater, stop_heater, led_on, led_off,
    motor_configuration, speed_configuration, acceleration50ms, echo, beep, tDown_set, tUp_set,
    write_config, enter_drying_mode, leave_drying_mode, tDown_arm, tUp_arm, finish_beep,
    apply_ite Sys.button_active, apply_ite Sys.button_timer, apply_ite Sys.long_press_active,
    apply_ite Sys.log, apply_ite (List.count Event.button_press)]

theorem cover_check_button (e : Ext) (c : Consts) (i : LoopIn) (s : Sys) :
    (cover_check e c i s).button_active = s.button_active
    ∧ (cover_check e c i s).button_timer = s.button_timer
    ∧ (cover_check e c i s).long_press_active = s.long_press_active
    ∧ (cover_check e c i s).log.count Event.button_press = s.log.count Event.button_press := by
  simp [cover_check, chip_write, run_motor, stop_motor, run_heater, stop_heater, led_on, led_off,
    motor_configuration, speed_configuration, acceleration50ms, echo, beep, tDown_set, tUp_set,
    write_config, enter_drying_mode, leave_drying_mode, tDown_arm, tUp_arm, finish_beep,
    apply_ite Sys.button_active, apply_ite Sys.button_timer, apply_ite Sys.long_press_active,
    apply_ite Sys.log, apply_ite (List.count Event.button_press)]

theorem machine_running_mode_button (e : Ext) (c : Consts) (i : LoopIn) (s : Sys) :
    (machine_running_mode e c i s).button_active = s.button_active
    ∧ (machine_running_mode e c i s).button_timer = s.button_timer
    ∧ (machine_running_mode e c i s).long_press_active = s.long_press_active
    ∧ (machine_running_mode e c i s).log.count Event.button_press = s.log.count Event.button_press := by
  simp [machine_running_mode, run_two_stage_button, start_drying_button, start_curing_button, stop_curing_drying_button, drying_to_curing_button, preheat_done_button, chip_write, run_motor, stop_motor, run_heater, stop_heater, led_on, led_off,
    motor_configuration, speed_configuration, acceleration50ms, echo, beep, tDown_set, tUp_set,
    write_config, enter_drying_mode, leave_drying_mode, tDown_arm, tUp_arm, finish_beep,
    apply_ite Sys.button_active, apply_ite Sys.button_timer, apply_ite Sys.long_press_active,
    apply_ite Sys.log, apply_ite (List.count Event.button_press)]

theorem machine_running_button (e : Ext) (c : Consts) (i : LoopIn) (s : Sys) :
    (machine_running e c i s).button_active = s.button_active
    ∧ (machine_running e c i s).button_timer = s.button_timer
    ∧ (machine_running e c i s).long_press_active = s.long_press_active
    ∧ (machine_running e c i s).log.count Event.button_press = s.log.count Event.button_press := by
  simp [machine_running, machine_running_mode_button, cover_check_button, start_washing_button, chip_write, run_motor, stop_motor, run_heater, stop_heater, led_on, led_off,
    motor_configuration, speed_configuration, acceleration50ms, echo, beep, tDown_set, tUp_set,
    write_config, enter_drying_mode, leave_drying_mode, tDown_arm, tUp_arm, finish_beep,
    apply_ite Sys.button_active, apply_ite Sys.button_timer, apply_ite Sys.long_press_active,
    apply_ite Sys.log, apply_ite (List.count Event.button_press)]

theorem selftest_pin_phase_button (e : Ext) (i : LoopIn) (pin : Bool) (s : Sys) :
    (selftest_pin_phase e i pin s).button_active = s.button_active
    ∧ (selftest_pin_phase e i pin s).button_timer = s.button_timer
    ∧ (selftest_pin_phase e i pin s).long_press_active = s.long_press_active
    ∧ (selftest_pin_phase e i pin s).log.count Event.button_press = s.log.count Event.button_press := by
  simp [selftest_pin_phase, chip_write, run_motor, stop_motor, run_heater, stop_heater, led_on, led_off,
    motor_configuration, speed_configuration, acceleration50ms, echo, beep, tDown_set, tUp_set,
    write_config, enter_drying_mode, leave_drying_mode, tDown_arm, tUp_arm, finish_beep,
    apply_ite Sys.button_active, apply_ite Sys.button_timer, apply_ite Sys.long_press_active,
    apply_ite Sys.log, apply_ite (List.count Event.button_press)]

theorem selftest_led_phase_button (e : Ext) (c : Consts) (i : LoopIn) (s : Sys) :
    (selftest_led_phase e c i s).button_active = s.button_active
    ∧ (selftest_led_phase e c i s).button_timer = s.button_timer
    ∧ (selftest_led_phase e c i s).long_press_active = s.long_press_active
    ∧ (selftest_led_phase e c i s).log.count Event.button_press = s.log.count Event.button_press := by
  simp [selftest_led_phase, chip_write, run_motor, stop_motor, run_heater, stop_heater, led_on, led_off,
    motor_configuration, speed_configuration, acceleration50ms, echo, beep, tDown_set, tUp_set,
    write_config, enter_drying_mode, leave_drying_mode, tDown_arm, tUp_arm, finish_beep,
    apply_ite Sys.button_active, apply_ite Sys.button_timer, apply_ite Sys.long_press_active,
    apply_ite Sys.log, apply_ite (List.count Event.button_press)]

theorem selftest_heater_phase_button (e : Ext) (c : Consts) (i : LoopIn) (s : Sys) :
    (selftest_heater_phase e c i s).button_active = s.button_active
    ∧ (selftest_heater_phase e c i s).button_timer = s.button_timer
    ∧ (selftest_heater_phase e c i s).long_press_active = s.long_press_active
    ∧ (selftest_heater_phase e c i s).log.count Event.button_press = s.log.count Event.button_press := by
  simp [selftest_heater_phase, chip_write, run_motor, stop_motor, run_heater, stop_heater, led_on, led_off,
    motor_configuration, speed_configuration, acceleration50ms, echo, beep, tDown_set, tUp_set,
    write_config, enter_drying_mode, leave_drying_mode, tDown_arm, tUp_arm, finish_beep,
    apply_ite Sys.button_active, apply_ite Sys.button_timer, apply_ite Sys.long_press_active,
    apply_ite Sys.log, apply_ite (List.count Event.button_press)]

theorem selftest_rotation_step_button (e : Ext) (c : Consts) (s : Sys) :
    (selftest_rotation_step e c s).button_active = s.button_active
    ∧ (selftest_rotation_step e c s).button_timer = s.button_timer
    ∧ (selftest_rotation_step e c s).long_press_active = s.long_press_active
    ∧ (selftest_rotation_step e c s).log.count Event.button_press = s.log.count Event.button_press := by
  simp [selftest_rotation_step, chip_write, run_motor, stop_motor, run_heater, stop_heater, led_on, led_off,
    motor_configuration, speed_configuration, acceleration50ms, echo, beep, tDown_set, tUp_set,
    write_config, enter_drying_mode, leave_drying_mode, tDown_arm, tUp_arm, finish_beep,
    apply_ite Sys.button_active, apply_ite Sys.button_timer, apply_ite Sys.long_press_active,
    apply_ite Sys.log, apply_ite (List.count Event.button_press)]

theorem selftest_rotation_phase_button (e : Ext) (c : Consts) (i : LoopIn) (s : Sys) :
    (selftest_rotation_phase e c i s).button_active = s.button_active
    ∧ (selftest_rotation_phase e c i s).button_timer = s.button_timer
    ∧ (selftest_rotation_phase e c i s).long_press_active = s.long_press_active
    ∧ (selftest_rotation_phase e c i s).log.count Event.button_press = s.log.count Event.button_press := by
  simp [selftest_rotation_phase, selftest_rotation_step_button, chip_write, run_motor, stop_motor, run_heater, stop_heater, led_on, led_off,
    motor_configuration, speed_configuration, acceleration50ms, echo, beep, tDown_set, tUp_set,
    write_config, enter_drying_mode, leave_drying_mode, tDown_arm, tUp_arm, finish_beep,
    apply_ite Sys.button_active, apply_ite Sys.button_timer, apply_ite Sys.long_press_active,
    apply_ite Sys.log, apply_ite (List.count Event.button_press)]

theorem loop_selftest_button (e : Ext) (c : Consts) (i : LoopIn) (s : Sys) :
    (loop_selftest e c i s).button_active = s.button_active
    ∧ (loop_selftest e c i s).button_timer = s.button_timer
    ∧ (loop_selftest e c i s).long_press_active = s.long_press_active
    ∧ (loop_selftest e c i s).log.count Event.button_press = s.log.count Event.button_press := by
  simp [loop_selftest, selftest_pin_phase_button, selftest_led_phase_button, selftest_heater_phase_button, selftest_rotation_phase_button, chip_write, run_motor, stop_motor, run_heater, stop_heater, led_on, led_off,
    motor_configuration, speed_configuration, acceleration50ms, echo, beep, tDown_set, tUp_set,
    write_config, enter_drying_mode, leave_drying_mode, tDown_arm, tUp_arm, finish_beep,
    apply_ite Sys.button_active, apply_ite Sys.button_timer, apply_ite Sys.long_press_active,
    apply_ite Sys.log, apply_ite (List.count Event.button_press)]

theorem loop_timers_button (e : Ext) (i : LoopIn) (s : Sys) :
    (loop_timers e i s).button_active = s.button_active
    ∧ (loop_timers e i s).button_timer = s.button_timer
    ∧ (loop_timers e i s).long_press_active = s.long_press_active
    ∧ (loop_timers e i s).log.count Event.button_press = s.log.count Event.button_press := by
  simp [loop_timers, chip_write, run_motor, stop_motor, run_heater, stop_heater, led_on, led_off,
    motor_configuration, speed_configuration, acceleration50ms, echo, beep, tDown_set, tUp_set,
    write_config, enter_drying_mode, leave_drying_mode, tDown_arm, tUp_arm, finish_beep,
    apply_ite Sys.button_active, apply_ite Sys.button_timer, apply_ite Sys.long_press_active,
    apply_ite Sys.log, apply_ite (List.count Event.button_press)]

theorem loop_heater_stop_button (e : Ext) (c : Consts) (s : Sys) :
    (loop_heater_stop e c s).button_active = s.button_active
    ∧ (loop_heater_stop e c s).button_timer = s.button_timer
    ∧ (loop_heater_stop e c s).long_press_active = s.long_press_active
    ∧ (loop_heater_stop e c s).log.count Event.button_press = s.log.count Event.button_press := by
  simp [loop_heater_stop, chip_write, run_motor, stop_motor, run_heater, stop_heater, led_on, led_off,
    motor_configuration, speed_configuration, acceleration50ms, echo, beep, tDown_set, tUp_set,
    write_config, enter_drying_mode, leave_drying_mode, tDown_arm, tUp_arm, finish_beep,
    apply_ite Sys.button_active, apply_ite Sys.button_timer, apply_ite Sys.long_press_active,
    apply_ite Sys.log, apply_ite (List.count Event.button_press)]

theorem loop_home_mode_button (i : LoopIn) (s : Sys) :
    (loop_home_mode i s).button_active = s.button_active
    ∧ (loop_home_mode i s).button_timer = s.button_timer
    ∧ (loop_home_mode i s).long_press_active = s.long_press_active
    ∧ (loop_home_mode i s).log.count Event.button_press = s.log.count Event.button_press := by
  simp [loop_home_mode, chip_write, run_motor, stop_motor, run_heater, stop_heater, led_on, led_off,
    motor_configuration, speed_configuration, acceleration50ms, echo, beep, tDown_set, tUp_set,
    write_config, enter_drying_mode, leave_drying_mode, tDown_arm, tUp_arm, finish_beep,
    apply_ite Sys.button_active, apply_ite Sys.button_timer, apply_ite Sys.long_press_active,
    apply_ite Sys.log, apply_ite (List.count Event.button_press)]

theorem loop_heater_error_button (s : Sys) :
    (loop_heater_error s).button_active = s.button_active
    ∧ (loop_heater_error s).button_timer = s.button_timer
    ∧ (loop_heater_error s).long_press_active = s.long_press_active
    ∧ (loop_heater_error s).log.count Event.button_press = s.log.count Event.button_press := by
  simp [loop_heater_error, chip_write, run_motor, stop_motor, run_heater, stop_heater, led_on, led_off,
    motor_configuration, speed_configuration, acceleration50ms, echo, beep, tDown_set, tUp_set,
    write_config, enter_drying_mode, leave_drying_mode, tDown_arm, tUp_arm, finish_beep,
    apply_ite Sys.button_active, apply_ite Sys.button_timer, apply_ite Sys.long_press_active,
    apply_ite Sys.log, apply_ite (List.count Event.button_press)]

theorem loop_confirm_beep_button (i : LoopIn) (s : Sys) :
    (loop_confirm_beep i s).button_active = s.button_active
    ∧ (loop_confirm_beep i s).button_timer = s.button_timer
    ∧ (loop_confirm_beep i s).long_press_active = s.long_press_active
    ∧ (loop_confirm_beep i s).log.count Event.button_press = s.log.count Event.button_press := by
  simp [loop_confirm_beep, chip_write, run_motor, stop_motor, run_heater, stop_heater, led_on, led_off,
    motor_configuration, speed_configuration, acceleration50ms, echo, beep, tDown_set, tUp_set,
    write_config, enter_drying_mode, leave_drying_mode, tDown_arm, tUp_arm, finish_beep,
    apply_ite Sys.button_active, apply_ite Sys.button_timer, apply_ite Sys.long_press_active,
    apply_ite Sys.log, apply_ite (List.count Event.button_press)]

theorem loop_last_mode_button (s : Sys) :
    (loop_last_mode s).button_active = s.button_active
    ∧ (loop_last_mode s).button_timer = s.button_timer
    ∧ (loop_last_mode s).long_press_active = s.long_press_active
    ∧ (loop_last_mode s).log.count Event.button_press = s.log.count Event.button_press := by
  simp [loop_last_mode, chip_write, run_motor, stop_motor, run_heater, stop_heater, led_on, led_off,
    motor_configuration, speed_configuration, acceleration50ms, echo, beep, tDown_set, tUp_set,
    write_config, enter_drying_mode, leave_drying_mode, tDown_arm, tUp_arm, finish_beep,
    apply_ite Sys.button_active, apply_ite Sys.button_timer, apply_ite Sys.long_press_active,
    apply_ite Sys.log, apply_ite (List.count Event.button_press)]

theorem loop_acceleration_button (e : Ext) (i : LoopIn) (s : Sys) :
    (loop_acceleration e i s).button_active = s.button_active
    ∧ (loop_acceleration e i s).button_timer = s.button_timer
    ∧ (loop_acceleration e i s).long_press_active = s.long_press_active
    ∧ (loop_acceleration e i s).log.count Event.button_press = s.log.count Event.button_press := by
  simp [loop_acceleration, chip_write, run_motor, stop_motor, run_heater, stop_heater, led_on, led_off,
    motor_configuration, speed_configuration, acceleration50ms, echo, beep, tDown_set, tUp_set,
    write_config, enter_drying_mode, leave_drying_mode, tDown_arm, tUp_arm, finish_beep,
    apply_ite Sys.button_active, apply_ite Sys.button_timer, apply_ite Sys.long_press_active,
    apply_ite Sys.log, apply_ite (List.count Event.button_press)]

theorem loop_rotary_button (e : Ext) (c : Consts) (s : Sys) :
    (loop_rotary e c s).button_active = s.button_active
    ∧ (loop_rotary e c s).button_timer = s.button_timer
    ∧ (loop_rotary e c s).long_press_active = s.long_press_active
    ∧ (loop_rotary e c s).log.count Event.button_press = s.log.count Event.button_press := by
  simp [loop_rotary, menu_move_button, chip_write, run_motor, stop_motor, run_heater, stop_heater, led_on, led_off,
    motor_configuration, speed_configuration, acceleration50ms, echo, beep, tDown_set, tUp_set,
    write_config, enter_drying_mode, leave_drying_mode, tDown_arm, tUp_arm, finish_beep,
    apply_ite Sys.button_active, apply_ite Sys.button_timer, apply_ite Sys.long_press_active,
    apply_ite Sys.log, apply_ite (List.count Event.button_press)]

theorem loop_running_button (e : Ext) (c : Consts) (i : LoopIn) (s : Sys) :
    (loop_running e c i s).button_active = s.button_active
    ∧ (loop_running e c i s).button_timer = s.button_timer
    ∧ (loop_running e c i s).long_press_active = s.long_press_active
    ∧ (loop_running e c i s).log.count Event.button_press = s.log.count Event.button_press := by
  simp [loop_running, machine_running_button, chip_write, run_motor, stop_motor, run_heater, stop_heater, led_on, led_off,
    motor_configuration, speed_configuration, acceleration50ms, echo, beep, tDown_set, tUp_set,
    write_config, enter_drying_mode, leave_drying_mode, tDown_arm, tUp_arm, finish_beep,
    apply_ite Sys.button_active, apply_ite Sys.button_timer, apply_ite Sys.long_press_active,
    apply_ite Sys.log, apply_ite (List.count Event.button_press)]

theorem loop_reinit_button (e : Ext) (c : Consts) (i : LoopIn) (s : Sys) :
    (loop_reinit e c i s).button_active = s.button_active
    ∧ (loop_reinit e c i s).button_timer = s.button_timer
    ∧ (loop_reinit e c i s).long_press_active = s.long_press_active
    ∧ (loop_reinit e c i s).log.count Event.button_press = s.log.count Event.button_press := by
  simp [loop_reinit, menu_move_button, chip_write, run_motor, stop_motor, run_heater, stop_heater, led_on, led_off,
    motor_configuration, speed_configuration, acceleration50ms, echo, beep, tDown_set, tUp_set,
    write_config, enter_drying_mode, leave_drying_mode, tDown_arm, tUp_arm, finish_beep,
    apply_ite Sys.button_active, apply_ite Sys.button_timer, apply_ite Sys.long_press_active,
    apply_ite Sys.log, apply_ite (List.count Event.button_press)]

theorem loop_therm_button (i : LoopIn) (s : Sys) :
    (loop_therm i s).button_active = s.button_active
    ∧ (loop_therm i s).button_timer = s.button_timer
    ∧ (loop_therm i s).long_press_active = s.long_press_active
    ∧ (loop_therm i s).log.count Event.button_press = s.log.count Event.button_press := by
  simp [loop_therm, therm1_read, chip_write, run_motor, stop_motor, run_heater, stop_heater, led_on, led_off,
    motor_configuration, speed_configuration, acceleration50ms, echo, beep, tDown_set, tUp_set,
    write_config, enter_drying_mode, leave_drying_mode, tDown_arm, tUp_arm, finish_beep,
    apply_ite Sys.button_active, apply_ite Sys.button_timer, apply_ite Sys.long_press_active,
    apply_ite Sys.log, apply_ite (List.count Event.button_press)]

theorem long_press_action_button (e : Ext) (c : Consts) (s : Sys) :
    (long_press_action e c s).button_active = s.button_active
    ∧ (long_press_action e c s).button_timer = s.button_timer
    ∧ (long_press_action e c s).long_press_active = s.long_press_active
    ∧ (long_press_action e c s).log.count Event.button_press = s.log.count Event.button_press := by
  unfold long_press_action
  split
  · have h := menu_move_button e c true
      { s with state := menu_state.RUN_MODE, long_press := true, redraw_menu := true }
    exact h
  · have h := menu_move_button e c true
      { s with state := menu_state.SELFTEST, menu_position := 0, redraw_menu := true }
    exact h
  · have h := menu_move_button e c true { run_stop e c s with redraw_menu := true }
    have h2 := run_stop_button e c s
    exact ⟨h.1.trans h2.1, h.2.1.trans h2.2.1, h.2.2.1.trans h2.2.2.1, h.2.2.2.trans h2.2.2.2⟩
  · exact ⟨rfl, rfl, rfl, rfl⟩
theorem start_run_curing_button (e : Ext) (c : Consts) (s : Sys) :
    (start_run_curing e c s).button_active = s.button_active
    ∧ (start_run_curing e c s).button_timer = s.button_timer
    ∧ (start_run_curing e c s).long_press_active = s.long_press_active
    ∧ (start_run_curing e c s).log.count Event.button_press = s.log.count Event.button_press := by
  simp [start_run_curing, chip_write, run_motor, stop_motor, run_heater, stop_heater, led_on, led_off,
    motor_configuration, speed_configuration, acceleration50ms, echo, beep, tDown_set, tUp_set,
    write_config, enter_drying_mode, leave_drying_mode, tDown_arm, tUp_arm, finish_beep,
    apply_ite Sys.button_active, apply_ite Sys.button_timer, apply_ite Sys.long_press_active,
    apply_ite Sys.log, apply_ite (List.count Event.button_press)]

theorem button_press_home_button (e : Ext) (c : Consts) (i : LoopIn) (s : Sys) :
    (button_press_home e c i s).button_active = s.button_active
    ∧ (button_press_home e c i s).button_timer = s.button_timer
    ∧ (button_press_home e c i s).long_press_active = s.long_press_active
    ∧ (button_press_home e c i s).log.count Event.button_press = s.log.count Event.button_press := by
  simp [button_press_home, start_run_curing_button, menu_move_button, chip_write, run_motor, stop_motor, run_heater, stop_heater, led_on, led_off,
    motor_configuration, speed_configuration, acceleration50ms, echo, beep, tDown_set, tUp_set,
    write_config, enter_drying_mode, leave_drying_mode, tDown_arm, tUp_arm, finish_beep,
    apply_ite Sys.button_active, apply_ite Sys.button_timer, apply_ite Sys.long_press_active,
    apply_ite Sys.log, apply_ite (List.count Event.button_press)]

theorem button_press_run_menu_button (e : Ext) (c : Consts) (s : Sys) :
    (button_press_run_menu e c s).button_active = s.button_active
    ∧ (button_press_run_menu e c s).button_timer = s.button_timer
    ∧ (button_press_run_menu e c s).long_press_active = s.long_press_active
    ∧ (button_press_run_menu e c s).log.count Event.button_press = s.log.count Event.button_press := by
  simp [button_press_run_menu, run_stop_button, chip_write, run_motor, stop_motor, run_heater, stop_heater, led_on, led_off,
    motor_configuration, speed_configuration, acceleration50ms, echo, beep, tDown_set, tUp_set,
    write_config, enter_drying_mode, leave_drying_mode, tDown_arm, tUp_arm, finish_beep,
    apply_ite Sys.button_active, apply_ite Sys.button_timer, apply_ite Sys.long_press_active,
    apply_ite Sys.log, apply_ite (List.count Event.button_press)]

theorem button_press_selftest_button (e : Ext) (s : Sys) :
    (button_press_selftest e s).button_active = s.button_active
    ∧ (button_press_selftest e s).button_timer = s.button_timer
    ∧ (button_press_selftest e s).long_press_active = s.long_press_active
    ∧ (button_press_selftest e s).log.count Event.button_press = s.log.count Event.button_press := by
  simp [button_press_selftest, selftest_confirm, chip_write, run_motor, stop_motor, run_heater, stop_heater, led_on, led_off,
    motor_configuration, speed_configuration, acceleration50ms, echo, beep, tDown_set, tUp_set,
    write_config, enter_drying_mode, leave_drying_mode, tDown_arm, tUp_arm, finish_beep,
    apply_ite Sys.button_active, apply_ite Sys.button_timer, apply_ite Sys.long_press_active,
    apply_ite Sys.log, apply_ite (List.count Event.button_press)]

theorem button_press_state_button (e : Ext) (c : Consts) (i : LoopIn) (s : Sys) :
    (button_press_state e c i s).button_active = s.button_active
    ∧ (button_press_state e c i s).button_timer = s.button_timer
    ∧ (button_press_state e c i s).long_press_active = s.long_press_active
    ∧ (button_press_state e c i s).log.count Event.button_press = s.log.count Event.button_press := by
  unfold button_press_state
  split <;> simp [button_press_home_button, button_press_run_menu_button,
    button_press_selftest_button, button_press_settings, button_press_sound,
    button_press_fans, button_press_preheat, button_press_speed, button_press_time,
    write_config, apply_ite Sys.button_active, apply_ite Sys.button_timer, apply_ite Sys.long_press_active,
    apply_ite Sys.log, apply_ite (List.count Event.button_press)]

theorem button_press_button (e : Ext) (c : Consts) (i : LoopIn) (s : Sys) :
    (button_press e c i s).button_active = s.button_active
    ∧ (button_press e c i s).button_timer = s.button_timer
    ∧ (button_press e c i s).long_press_active = s.long_press_active
    ∧ (button_press e c i s).log.count Event.button_press = s.log.count Event.button_press + 1 := by
  have h := button_press_state_button e c i
  have hm := menu_move_button e c true
  unfold button_press
  simp only []
  refine ⟨?_, ?_, ?_, ?_⟩
  · rw [(hm _).1]
    simp [h, echo, apply_ite Sys.button_active, apply_ite Sys.button_timer, apply_ite Sys.long_press_active,
    apply_ite Sys.log, apply_ite (List.count Event.button_press)]
  · rw [(hm _).2.1]
    simp [h, echo, apply_ite Sys.button_active, apply_ite Sys.button_timer, apply_ite Sys.long_press_active,
    apply_ite Sys.log, apply_ite (List.count Event.button_press)]
  · rw [(hm _).2.2.1]
    simp [h, echo, apply_ite Sys.button_active, apply_ite Sys.button_timer, apply_ite Sys.long_press_active,
    apply_ite Sys.log, apply_ite (List.count Event.button_press)]
  · rw [(hm _).2.2.2]
    simp [h, echo, apply_ite Sys.button_active, apply_ite Sys.button_timer, apply_ite Sys.long_press_active,
    apply_ite Sys.log, apply_ite (List.count Event.button_press)]

/-! ### The button: holds, short presses and long presses -/

/-- A pass of `loop` is the part before the button block, the button block,
the periodic display reset and the temperature reading. -/
theorem loop_eq_button (e : Ext) (c : Consts) (i : LoopIn) (s : Sys) :
    loop e c i s
      = loop_therm i (loop_reinit e c i (loop_button e c i (loop_to_button e c i s))) := rfl

/-- The part of `loop` before the button block leaves the variables of the
button alone and delivers no short press. -/
theorem loop_to_button_button (e : Ext) (c : Consts) (i : LoopIn) (s : Sys) :
    (loop_to_button e c i s).button_active = s.button_active
    ∧ (loop_to_button e c i s).button_timer = s.button_timer
    ∧ (loop_to_button e c i s).long_press_active = s.long_press_active
    ∧ (loop_to_button e c i s).log.count Event.button_press
        = s.log.count Event.button_press := by
  simp [loop_to_button, loop_running_button, loop_rotary_button, loop_acceleration_button,
    loop_last_mode_button, loop_confirm_beep_button, loop_heater_error_button,
    loop_home_mode_button, loop_heater_stop_button, loop_selftest_button, loop_timers_button]

/-- The part of `loop` after the button block leaves the variables of the
button alone and delivers no short press. -/
theorem loop_after_button (e : Ext) (c : Consts) (i : LoopIn) (s : Sys) :
    (loop_therm i (loop_reinit e c i s)).button_active = s.button_active
    ∧ (loop_therm i (loop_reinit e c i s)).button_timer = s.button_timer
    ∧ (loop_therm i (loop_reinit e c i s)).long_press_active = s.long_press_active
    ∧ (loop_therm i (loop_reinit e c i s)).log.count Event.button_press
        = s.log.count Event.button_press := by
  simp [loop_therm_button, loop_reinit_button]

/-- The button block while the button is down: the hold is recorded with its
start time, a hold past `LONG_PRESS_TIME` is marked once, and no short press is
delivered. -/
theorem button_down_button (e : Ext) (c : Consts) (i : LoopIn) (s : Sys) :
    (button_down e c i s).button_active = true
    ∧ (button_down e c i s).button_timer
        = (if s.button_active = false then i.millis else s.button_timer)
    ∧ (button_down e c i s).long_press_active
        = (s.long_press_active
            || decide (ulong_sub i.millis
                (if s.button_active = false then i.millis else s.button_timer)
                  > c.LONG_PRESS_TIME))
    ∧ (button_down e c i s).log.count Event.button_press
        = s.log.count Event.button_press := by
  have h := long_press_action_button e c
  unfold button_down
  cases ha : s.button_active <;> cases hl : s.long_press_active <;>
    by_cases ht : ulong_sub i.millis s.button_timer > c.LONG_PRESS_TIME <;>
    by_cases ht0 : ulong_sub i.millis i.millis > c.LONG_PRESS_TIME <;>
    simp [ha, hl, ht, ht0, h]

/-- The button block while the button is up: a hold that was not marked long
delivers one short press unless the heater fault flag is set, and the hold is
over. -/
theorem button_up_button (e : Ext) (c : Consts) (i : LoopIn) (s : Sys) :
    (button_up e c i s).button_active = false
    ∧ (button_up e c i s).button_timer = s.button_timer
    ∧ (button_up e c i s).long_press_active = (s.long_press_active && !s.button_active)
    ∧ (button_up e c i s).log.count Event.button_press
        = s.log.count Event.button_press
          + (if s.button_active = true ∧ s.long_press_active = false
                ∧ s.heater_error = false then 1 else 0) := by
  have h := button_press_button e c i
  unfold button_up
  cases ha : s.button_active <;> cases hl : s.long_press_active <;>
    cases he : s.heater_error <;> simp [ha, hl, he, h]

/-- A pass of `loop` with the button down. -/
theorem loop_pass_held (e : Ext) (c : Consts) (i : LoopIn) (s : Sys)
    (h : i.btn_enc = false) :
    (loop e c i s).button_active = true
    ∧ (loop e c i s).button_timer
        = (if s.button_active = false then i.millis else s.button_timer)
    ∧ (loop e c i s).long_press_active
        = (s.long_press_active
            || decide (ulong_sub i.millis
                (if s.button_active = false then i.millis else s.button_timer)
                  > c.LONG_PRESS_TIME))
    ∧ presses (loop e c i s) = presses s := by
  obtain ⟨a1, a2, a3, a4⟩ := loop_to_button_button e c i s
  obtain ⟨b1, b2, b3, b4⟩ := button_down_button e c i (loop_to_button e c i s)
  obtain ⟨c1, c2, c3, c4⟩ := loop_after_button e c i
    (loop_button e c i (loop_to_button e c i s))
  have hb : loop_button e c i (loop_to_button e c i s)
      = button_down e c i (loop_to_button e c i s) := by
    unfold loop_button
    rw [if_pos h]
  rw [hb] at c1 c2 c3 c4
  rw [a1, a2] at b2
  rw [a1, a2, a3] at b3
  rw [loop_eq_button, hb]
  unfold presses
  exact ⟨c1.trans b1, c2.trans b2, c3.trans b3, c4.trans (b4.trans a4)⟩

/-- A pass of `loop` with the button up. -/
theorem loop_pass_released (e : Ext) (c : Consts) (i : LoopIn) (s : Sys)
    (h : i.btn_enc = true) :
    (loop e c i s).button_active = false
    ∧ (loop e c i s).button_timer = s.button_timer
    ∧ (loop e c i s).long_press_active = (s.long_press_active && !s.button_active)
    ∧ presses (loop e c i s)
        = presses s
          + (if s.button_active = true ∧ s.long_press_active = false
                ∧ (loop_to_button e c i s).heater_error = false then 1 else 0) := by
  obtain ⟨a1, a2, a3, a4⟩ := loop_to_button_button e c i s
  obtain ⟨b1, b2, b3, b4⟩ := button_up_button e c i (loop_to_button e c i s)
  obtain ⟨c1, c2, c3, c4⟩ := loop_after_button e c i
    (loop_button e c i (loop_to_button e c i s))
  have hb : loop_button e c i (loop_to_button e c i s)
      = button_up e c i (loop_to_button e c i s) := by
    unfold loop_button
    rw [if_neg (by rw [h]; decide)]
  rw [hb] at c1 c2 c3 c4
  rw [a1, a3] at b3
  rw [a1, a3, a4] at b4
  rw [loop_eq_button, hb]
  unfold presses
  exact ⟨c1.trans b1, c2.trans (b2.trans a2), c3.trans b3, c4.trans b4⟩

theorem ulong_sub_self (t : Nat) : ulong_sub t t = 0 := by
  unfold ulong_sub
  omega

/-- Passes with the button down, from a state in which the hold is already
recorded: the start time stays, the hold is marked long as soon as one pass
finds it longer than `LONG_PRESS_TIME`, and no short press is delivered. -/
theorem loop_passes_held (e : Ext) (c : Consts) (held : List LoopIn) (s : Sys)
    (hact : s.button_active = true) (hheld : ∀ i ∈ held, i.btn_enc = false) :
    (loop_passes e c held s).button_active = true
    ∧ (loop_passes e c held s).button_timer = s.button_timer
    ∧ (loop_passes e c held s).long_press_active
        = (s.long_press_active || held_long c s.button_timer held)
    ∧ presses (loop_passes e c held s) = presses s := by
  induction held generalizing s with
  | nil => simp [loop_passes, held_long, hact]
  | cons i l ih =>
    obtain ⟨a1, a2, a3, a4⟩ := loop_pass_held e c i s (hheld i (List.mem_cons_self i l))
    rw [hact] at a2 a3
    simp only [Bool.true_eq_false, if_false] at a2 a3
    obtain ⟨b1, b2, b3, b4⟩ := ih (loop e c i s) a1
      (fun j hj => hheld j (List.mem_cons_of_mem i hj))
    refine ⟨b1, b2.trans a2, ?_, b4.trans a4⟩
    show (loop_passes e c l (loop e c i s)).long_press_active = _
    rw [b3, a3, a2]
    simp [held_long, Bool.or_assoc]

/-- Every hold of the button, from the pass that finds it down (`i0`) over the
passes that find it still down (`held`) to the pass that finds it up (`rel`):
no short press is delivered while it is down; it is marked long exactly when a
pass found it held for longer than `LONG_PRESS_TIME`; the release delivers one
short press when it is not marked long and the heater fault flag is clear, and
none otherwise; and later passes with the button up deliver none. -/
theorem button_hold (e : Ext) (c : Consts) (i0 : LoopIn) (held : List LoopIn) (rel : LoopIn)
    (s : Sys) (hact : s.button_active = false) (hlp : s.long_press_active = false)
    (h0 : i0.btn_enc = false) (hheld : ∀ i ∈ held, i.btn_enc = false)
    (hrel : rel.btn_enc = true) :
    presses (loop_passes e c (i0 :: held) s) = presses s
    ∧ (loop_passes e c (i0 :: held) s).long_press_active = held_long c i0.millis held
    ∧ presses (loop e c rel (loop_passes e c (i0 :: held) s))
        = presses s
          + (if held_long c i0.millis held = false
                ∧ (loop_to_button e c rel (loop_passes e c (i0 :: held) s)).heater_error
                    = false then 1 else 0)
    ∧ (loop e c rel (loop_passes e c (i0 :: held) s)).button_active = false
    ∧ (loop e c rel (loop_passes e c (i0 :: held) s)).long_press_active = false
    ∧ ∀ j : LoopIn, j.btn_enc = true →
        presses (loop e c j (loop e c rel (loop_passes e c (i0 :: held) s)))
          = presses (loop e c rel (loop_passes e c (i0 :: held) s)) := by
  obtain ⟨a1, a2, a3, a4⟩ := loop_pass_held e c i0 s h0
  rw [hact] at a2 a3
  rw [hlp] at a3
  simp only [if_true, ulong_sub_self, Bool.false_or] at a2 a3
  have a3f : (loop e c i0 s).long_press_active = false := by
    rw [a3]
    simp
  obtain ⟨b1, b2, b3, b4⟩ := loop_passes_held e c held (loop e c i0 s) a1 hheld
  rw [a3f, a2, Bool.false_or] at b3
  have hr : loop_passes e c (i0 :: held) s = loop_passes e c held (loop e c i0 s) := rfl
  rw [hr]
  obtain ⟨r1, r2, r3, r4⟩ := loop_pass_released e c rel
    (loop_passes e c held (loop e c i0 s)) hrel
  rw [b1, b3] at r3 r4
  rw [b4, a4] at r4
  refine ⟨b4.trans a4, b3, ?_, r1, ?_, ?_⟩
  · rw [r4]
    simp
  · rw [r3]
    simp
  · intro j hj
    obtain ⟨q1, q2, q3, q4⟩ := loop_pass_released e c j
      (loop e c rel (loop_passes e c held (loop e c i0 s))) hj
    rw [q4, r1]
    simp

/-- The button block runs the action of a long press in the pass that finds the
button held for longer than `LONG_PRESS_TIME` with the hold not yet marked
long, and in no other pass. -/
theorem button_down_action (e : Ext) (c : Consts) (i : LoopIn) (s : Sys)
    (hact : s.button_active = true) :
    (ulong_sub i.millis s.button_timer > c.LONG_PRESS_TIME ∧ s.long_press_active = false →
      button_down e c i s = long_press_action e c { s with long_press_active := true })
    ∧ (¬ (ulong_sub i.millis s.button_timer > c.LONG_PRESS_TIME
          ∧ s.long_press_active = false) → button_down e c i s = s) := by
  unfold button_down
  simp only [hact, Bool.true_eq_false, if_false]
  constructor
  · intro h
    rw [if_pos h]
  · intro h
    rw [if_neg h]

theorem menu_move_heater_running (e : Ext) (c : Consts) (b : Bool) (s : Sys) :
    (menu_move e c b s).heater_running = s.heater_running := by
  have h1 : ∀ u : Sys, (menu_move_screen e c u).heater_running = u.heater_running := by
    intro u
    unfold menu_move_screen
    split <;> simp [apply_ite Sys.heater_running, generic_menu_P, scrolling_list,
      menu_move_running, tDown_set]
  simp [menu_move, h1, menu_move_echo, echo, apply_ite Sys.heater_running]

/-- The action of a long press by screen: from HOME to RUN_MODE with
`long_press` set, from INFO to SELFTEST (with the cursor on item 0 when the
encoder is at neutral or the self-test is not in phase 0), from RUNNING to
HOME with the motor and the heater stopped, and nothing at all from every other
screen. -/
theorem long_press_action_screens (e : Ext) (c : Consts) (s : Sys) :
    (s.state = menu_state.HOME →
      (long_press_action e c s).state = menu_state.RUN_MODE
      ∧ (long_press_action e c s).long_press = true)
    ∧ (s.state = menu_state.INFO →
        (long_press_action e c s).state = menu_state.SELFTEST
        ∧ (s.rotary_diff = 128 ∨ s.selftest.phase ≠ 0 →
            (long_press_action e c s).menu_position = 0))
    ∧ (s.state = menu_state.RUNNING →
        (long_press_action e c s).state = menu_state.HOME
        ∧ (long_press_action e c s).speed_control.motor_running = false
        ∧ (long_press_action e c s).heater_running = false)
    ∧ (s.state ≠ menu_state.HOME → s.state ≠ menu_state.INFO →
        s.state ≠ menu_state.RUNNING → long_press_action e c s = s) := by
  refine ⟨?_, ?_, ?_, ?_⟩
  · intro h
    simp [long_press_action, h, menu_move, menu_move_screen, menu_move_echo, echo,
      generic_items_P, apply_ite Sys.state, apply_ite Sys.long_press]
  · intro h
    constructor
    · simp [long_press_action, h, menu_move_state]
    · intro h2
      rcases h2 with h2 | h2
      · simp [long_press_action, h, menu_move, menu_move_screen, menu_move_echo, echo,
          generic_menu_P, h2, apply_ite Sys.menu_position]
      · simp [long_press_action, h, menu_move, menu_move_screen, menu_move_echo, echo,
          generic_menu_P, h2, apply_ite Sys.menu_position]
  · intro h
    have hr : long_press_action e c s
        = menu_move e c true { run_stop e c s with redraw_menu := true } := by
      unfold long_press_action
      rw [h]
    rw [hr, menu_move_state, (menu_move_motor e c true _).1, menu_move_heater_running]
    simp [run_stop, stop_motor, stop_heater, led_off, chip_write]
  · intro h1 h2 h3
    unfold long_press_action
    split <;> simp_all

set_option maxRecDepth 100000 in
/-- A short and a long hold on the info screen, evaluated: released after
490 ms the hold delivers one short press (which leads to the settings menu);
held for 1001 ms it enters the self-test screen with the cursor on item 0 and
the release delivers no short press. -/
theorem button_hold_evaluated :
    presses info_screen = 0
    ∧ presses (loop_passes sample_ext sample_consts [press_in 10, press_in 400, idle_in 500]
        info_screen) = 1
    ∧ (loop_passes sample_ext sample_consts [press_in 10, press_in 400, idle_in 500]
        info_screen).state = menu_state.SETTINGS
    ∧ (loop_passes sample_ext sample_consts [press_in 10, press_in 1011] info_screen).state
        = menu_state.SELFTEST
    ∧ (loop_passes sample_ext sample_consts [press_in 10, press_in 1011]
        info_screen).menu_position = 0
    ∧ presses (loop_passes sample_ext sample_consts [press_in 10, press_in 1011, idle_in 1500]
        info_screen) = 0 := by
  decide

/-- In the pass that finds the button held for longer than `LONG_PRESS_TIME` on
the info screen, with the encoder past neutral (`rotary_diff > 128`) and the
self-test in phase 0, the button block enters the self-test screen with the
cursor on item 1: `menu_position = 0` is assigned and `menu_move(true)` then
moves the cursor by the pending encoder step. -/
theorem long_press_info_turned (e : Ext) (c : Consts) (i : LoopIn) (s : Sys)
    (hbtn : i.btn_enc = false) (hact : s.button_active = true)
    (hlp : s.long_press_active = false)
    (hheld : ulong_sub i.millis s.button_timer > c.LONG_PRESS_TIME)
    (hst : s.state = menu_state.INFO) (hrot : s.rotary_diff > 128)
    (hph : s.selftest.phase = 0) :
    (loop_button e c i s).state = menu_state.SELFTEST
    ∧ (loop_button e c i s).menu_position = 1
    ∧ (loop_button e c i s).long_press_active = true := by
  have hb : loop_button e c i s
      = long_press_action e c { s with long_press_active := true } := by
    unfold loop_button
    rw [if_pos hbtn]
    exact (button_down_action e c i s hact).1 ⟨hheld, hlp⟩
  rw [hb]
  refine ⟨?_, ?_, ?_⟩
  · simp [long_press_action, hst, menu_move_state]
  · simp [long_press_action, hst, menu_move, menu_move_screen, menu_move_echo, echo,
      generic_menu_P, hph, hrot, apply_ite Sys.menu_position]
  · rw [(long_press_action_button e c _).2.2.1]

set_option maxRecDepth 100000 in
/-- C25 as stated fails: on the info screen with the encoder one step past
neutral, the button is found down at 10 ms and still down at 1011 ms, longer
than `LONG_PRESS_TIME` (1000 ms); the long press enters the self-test screen
with the cursor on item 1, not 0. -/
theorem long_press_info_cursor_moves :
    info_turned.state = menu_state.INFO ∧ info_turned.rotary_diff = 129
    ∧ info_turned.selftest.phase = 0
    ∧ info_turned.button_active = false ∧ info_turned.long_press_active = false
    ∧ sample_consts.LONG_PRESS_TIME = 1000
    ∧ (loop sample_ext sample_consts (press_in 10) info_turned).state = menu_state.INFO
    ∧ (loop sample_ext sample_consts (press_in 10) info_turned).rotary_diff = 129
    ∧ (loop_button sample_ext sample_consts (press_in 1011)
        (loop sample_ext sample_consts (press_in 10) info_turned)).menu_position = 1
    ∧ (loop_passes sample_ext sample_consts [press_in 10, press_in 1011]
        info_turned).state = menu_state.SELFTEST
    ∧ (loop_passes sample_ext sample_consts [press_in 10, press_in 1011]
        info_turned).menu_position = 1 :=
  ⟨by decide, by decide, by decide, by decide, by decide, by decide, by decide, by decide,
    (long_press_info_turned sample_ext sample_consts (press_in 1011)
      (loop sample_ext sample_consts (press_in 10) info_turned)
      (by decide) (by decide) (by decide) (by decide) (by decide) (by decide)
      (by decide)).2.1,
    by decide, by decide⟩

/-- C25 (amended): for every hold of the button, from the pass of `loop` that
finds it down (`i0`) over the passes that find it still down (`held`) to the
pass that finds it up (`rel`): no short press (`button_press`) is delivered
while it is down; if no pass found it held for longer than `LONG_PRESS_TIME`,
exactly one short press is delivered on release when the heater fault flag is
clear (none when it is set); if a pass found it held longer, none is delivered
on release; later passes with the button up deliver none.  The action of a
long press runs in the first pass that finds the hold longer than
`LONG_PRESS_TIME`, and only there; it is taken from HOME (to RUN_MODE with
`long_press` set), from INFO (to SELFTEST, the cursor on item 0 when the
encoder is at neutral or the self-test is not in phase 0) and from RUNNING
(`run_stop`, to HOME with motor and heater stopped); from every other screen
nothing is changed. -/
theorem button_hold_contract (e : Ext) (c : Consts) (i0 : LoopIn) (held : List LoopIn)
    (rel : LoopIn) (s : Sys) (hact : s.button_active = false)
    (hlp : s.long_press_active = false) (h0 : i0.btn_enc = false)
    (hheld : ∀ i ∈ held, i.btn_enc = false) (hrel : rel.btn_enc = true) :
    (presses (loop_passes e c (i0 :: held) s) = presses s
      ∧ (loop_passes e c (i0 :: held) s).long_press_active = held_long c i0.millis held
      ∧ presses (loop e c rel (loop_passes e c (i0 :: held) s))
          = presses s
            + (if held_long c i0.millis held = false
                  ∧ (loop_to_button e c rel (loop_passes e c (i0 :: held) s)).heater_error
                      = false then 1 else 0)
      ∧ (loop e c rel (loop_passes e c (i0 :: held) s)).button_active = false
      ∧ (loop e c rel (loop_passes e c (i0 :: held) s)).long_press_active = false
      ∧ ∀ j : LoopIn, j.btn_enc = true →
          presses (loop e c j (loop e c rel (loop_passes e c (i0 :: held) s)))
            = presses (loop e c rel (loop_passes e c (i0 :: held) s)))
    ∧ (∀ (i : LoopIn) (u : Sys), i.btn_enc = false → u.button_active = true →
        (ulong_sub i.millis u.button_timer > c.LONG_PRESS_TIME
            ∧ u.long_press_active = false →
          loop_button e c i u = long_press_action e c { u with long_press_active := true })
        ∧ (¬ (ulong_sub i.millis u.button_timer > c.LONG_PRESS_TIME
              ∧ u.long_press_active = false) → loop_button e c i u = u))
    ∧ (∀ u : Sys,
        (u.state = menu_state.HOME →
          (long_press_action e c u).state = menu_state.RUN_MODE
          ∧ (long_press_action e c u).long_press = true)
        ∧ (u.state = menu_state.INFO →
            (long_press_action e c u).state = menu_state.SELFTEST
            ∧ (u.rotary_diff = 128 ∨ u.selftest.phase ≠ 0 →
                (long_press_action e c u).menu_position = 0))
        ∧ (u.state = menu_state.RUNNING →
            (long_press_action e c u).state = menu_state.HOME
            ∧ (long_press_action e c u).speed_control.motor_running = false
            ∧ (long_press_action e c u).heater_running = false)
        ∧ (u.state ≠ menu_state.HOME → u.state ≠ menu_state.INFO →
            u.state ≠ menu_state.RUNNING → long_press_action e c u = u)) := by
  refine ⟨button_hold e c i0 held rel s hact hlp h0 hheld hrel, ?_,
    fun u => long_press_action_screens e c u⟩
  intro i u hi hu
  have hb : loop_button e c i u = button_down e c i u := by
    unfold loop_button
    rw [if_pos hi]
  rw [hb]
  exact button_down_action e c i u hu

set_option maxRecDepth 100000 in
theorem button_hold_contract_witness :
    info_screen.button_active = false ∧ info_screen.long_press_active = false
    ∧ presses info_screen = 0
    ∧ presses (loop_passes sample_ext sample_consts [press_in 10, press_in 400]
        info_screen) = presses info_screen
    ∧ (loop sample_ext sample_consts (idle_in 500)
        (loop_passes sample_ext sample_consts [press_in 10, press_in 400]
          info_screen)).button_active = false
    ∧ presses (loop sample_ext sample_consts (idle_in 500)
        (loop_passes sample_ext sample_consts [press_in 10, press_in 400]
          info_screen)) = 1
    ∧ presses (loop sample_ext sample_consts (idle_in 1500)
        (loop_passes sample_ext sample_consts [press_in 10, press_in 1011]
          info_screen)) = 0 :=
  ⟨by decide, by decide, by decide,
    (button_hold_contract sample_ext sample_consts (press_in 10) [press_in 400] (idle_in 500)
      info_screen (by decide) (by decide) (by decide)
      (fun i hi => by rw [List.mem_singleton.mp hi]; rfl) (by decide)).1.1,
    (button_hold_contract sample_ext sample_consts (press_in 10) [press_in 400] (idle_in 500)
      info_screen (by decide) (by decide) (by decide)
      (fun i hi => by rw [List.mem_singleton.mp hi]; rfl) (by decide)).1.2.2.2.1,
    by decide, by decide⟩

/-! ### The enumerated-choice editor -/

/-- The editor applied to a valid option index: a step up moves to the next
option and stops at the last one, a step down moves to the previous option and
stops at the first one, and the encoder at neutral changes nothing. -/
theorem generic_items_P_cases (rotary_diff value num : Nat) (hv : value < num) :
    (rotary_diff > 128 →
        generic_items_P rotary_diff value num
          = (if value + 1 < num then value + 1 else value))
    ∧ (rotary_diff < 128 → generic_items_P rotary_diff value num = value - 1)
    ∧ (rotary_diff = 128 → generic_items_P rotary_diff value num = value) := by
  have h0 : ¬ value > num := by omega
  refine ⟨?_, ?_, ?_⟩
  · intro h
    by_cases h1 : value + 1 < num
    · have h2 : (value : Int) < (num : Int) - 1 := by omega
      simp [generic_items_P, h0, h, h1, h2]
    · have h2 : ¬ (value : Int) < (num : Int) - 1 := by omega
      simp [generic_items_P, h0, h, h1, h2]
  · intro h
    have h1 : ¬ rotary_diff > 128 := by omega
    by_cases h2 : value = 0
    · simp [generic_items_P, h0, h, h1, h2]
    · simp [generic_items_P, h0, h, h1, h2]
  · intro h
    simp [generic_items_P, h0, h]

/-- From a valid option index the editor gives a valid option index. -/
theorem generic_items_P_lt (rotary_diff value num : Nat) (hv : value < num) :
    generic_items_P rotary_diff value num < num := by
  obtain ⟨a, b, d⟩ := generic_items_P_cases rotary_diff value num hv
  rcases Nat.lt_trichotomy rotary_diff 128 with h | h | h
  · rw [b h]
    omega
  · rw [d h]
    exact hv
  · rw [a h]
    split <;> omega

/-- C32 as stated fails: with the four run modes, a step up from the last
option (3) stays on the last option and a step down from the first option (0)
stays on the first; the same holds for the three finish-beep modes. -/
theorem generic_items_P_does_not_cycle :
    generic_items_P 129 3 4 = 3 ∧ generic_items_P 127 0 4 = 0
    ∧ generic_items_P 255 2 3 = 2 ∧ generic_items_P 0 0 3 = 0 := by
  decide

/-- C32 (amended): the enumerated-choice editor `generic_items_P` steps through
its fixed option list and stops at both ends: from a valid option a step up
selects the next option, from the last option it stays on the last; a step
down selects the previous option, from the first option it stays on the
first; with the encoder at neutral the option is kept. -/
theorem generic_items_P_saturates (rotary_diff value num : Nat) (hv : value < num) :
    (rotary_diff > 128 → value + 1 < num →
        generic_items_P rotary_diff value num = value + 1)
    ∧ (rotary_diff > 128 → value + 1 = num → generic_items_P rotary_diff value num = value)
    ∧ (rotary_diff < 128 → 0 < value → generic_items_P rotary_diff value num = value - 1)
    ∧ (rotary_diff < 128 → value = 0 → generic_items_P rotary_diff value num = 0)
    ∧ (rotary_diff = 128 → generic_items_P rotary_diff value num = value)
    ∧ generic_items_P rotary_diff value num < num := by
  obtain ⟨a, b, d⟩ := generic_items_P_cases rotary_diff value num hv
  refine ⟨?_, ?_, ?_, ?_, d, ?_⟩
  · intro h h1
    rw [a h, if_pos h1]
  · intro h h1
    rw [a h, if_neg (by omega)]
  · intro h _
    exact b h
  · intro h h1
    rw [b h, h1]
  · exact generic_items_P_lt rotary_diff value num hv

theorem generic_items_P_saturates_witness :
    (3 : Nat) < 4 ∧ generic_items_P 129 3 4 = 3 ∧ generic_items_P 129 2 4 = 3
    ∧ generic_items_P 127 0 4 = 0 :=
  ⟨by decide, (generic_items_P_saturates 129 3 4 (by decide)).2.1 (by decide) rfl,
    (generic_items_P_saturates 129 2 4 (by decide)).1 (by decide) (by decide),
    (generic_items_P_saturates 127 0 4 (by decide)).2.2.2.1 (by decide) rfl⟩

/-- The editor applied to any stored value: the result is a valid option index
except when the stored value equals the number of options and the encoder is
not turned down, in which case it is left as it is. -/
theorem generic_items_P_valid_iff (rotary_diff value num : Nat) (hn : 1 ≤ num) :
    generic_items_P rotary_diff value num < num ↔ ¬ (value = num ∧ 128 ≤ rotary_diff) := by
  by_cases hv : value < num
  · have h := generic_items_P_lt rotary_diff value num hv
    constructor
    · intro _ h2
      omega
    · intro _
      exact h
  · by_cases he : value = num
    · subst he
      have h2 : ¬ (value : Int) < (value : Int) - 1 := by omega
      by_cases hr : rotary_diff > 128
      · simp [generic_items_P, hr, h2]
        omega
      · by_cases hr2 : rotary_diff < 128
        · have hz : value ≠ 0 := by omega
          simp [generic_items_P, hr, hr2, hz]
          omega
        · have : rotary_diff = 128 := by omega
          simp [generic_items_P, this]
    · have h0 : value > num := by omega
      have h1 : generic_items_P rotary_diff value num = generic_items_P rotary_diff 0 num := by
        simp [generic_items_P, h0]
      rw [h1]
      have h := generic_items_P_lt rotary_diff 0 num (by omega)
      constructor
      · intro _ h2
        exact he h2.1
      · intro _
        exact h

/-- C40, where the code departs from the claim: a stored value equal to the
number of options passes the range test `*value > num` and, unless the encoder
is turned down, is still the stored value after `generic_items_P`: it is not a
valid option index; on the finish-beep screen a stored mode of 3 stays 3
through `menu_move`. -/
theorem generic_items_P_keeps_count (e : Ext) (c : Consts) (b : Bool) (s : Sys)
    (rotary_diff num : Nat) (hr : 128 ≤ rotary_diff) (hst : s.state = menu_state.BEEP)
    (hv : s.config.finish_beep_mode = 3) (hs : 128 ≤ s.rotary_diff) :
    generic_items_P rotary_diff num num = num
    ∧ ¬ generic_items_P rotary_diff num num < num
    ∧ (menu_move e c b s).config.finish_beep_mode = 3 := by
  have h2 : ¬ (num : Int) < (num : Int) - 1 := by omega
  have h1 : generic_items_P rotary_diff num num = num := by
    by_cases h : rotary_diff > 128
    · simp [generic_items_P, h, h2]
    · have : rotary_diff = 128 := by omega
      simp [generic_items_P, this]
  refine ⟨h1, by rw [h1]; omega, ?_⟩
  have h3 : generic_items_P s.rotary_diff 3 3 = 3 := by
    by_cases h : s.rotary_diff > 128
    · simp [generic_items_P, h]
    · have : s.rotary_diff = 128 := by omega
      simp [generic_items_P, this]
  simp [menu_move, menu_move_screen, menu_move_echo, echo, hst, hv, h3,
    apply_ite Sys.state, apply_ite Sys.config, apply_ite Sys.rotary_diff]

set_option maxRecDepth 100000 in
theorem generic_items_P_keeps_count_witness :
    beep_screen_stale.state = menu_state.BEEP
    ∧ beep_screen_stale.config.finish_beep_mode = 3
    ∧ beep_screen_stale.rotary_diff = 128
    ∧ generic_items_P 128 3 3 = 3
    ∧ (menu_move sample_ext sample_consts true beep_screen_stale).config.finish_beep_mode = 3
    ∧ generic_items_P 128 4 3 = 0 :=
  ⟨by decide, by decide, by decide,
    (generic_items_P_keeps_count sample_ext sample_consts true beep_screen_stale 128 3
      (by decide) (by decide) (by decide) (by decide)).1,
    (generic_items_P_keeps_count sample_ext sample_consts true beep_screen_stale 128 3
      (by decide) (by decide) (by decide) (by decide)).2.2,
    by decide⟩

/-! ### Temperature units: Celsius to Fahrenheit and back -/

/-- For a Celsius value up to 124 the Fahrenheit value fits a byte, and the
conversion back gives the Celsius value again. -/
theorem round_to_byte_c2f_f2c (t : Nat) (ht : t ≤ 124) :
    (round_to_byte (celsius2fahrenheit (t : ℚ)) : Int) = nearest (celsius2fahrenheit (t : ℚ))
    ∧ round_to_byte (celsius2fahrenheit (t : ℚ)) ≤ 255
    ∧ round_to_byte (fahrenheit2celsius
        ((round_to_byte (celsius2fahrenheit (t : ℚ)) : Nat) : ℚ)) = t := by
  obtain ⟨h1, h2⟩ := round_to_byte_c2f_small t ht
  refine ⟨h1, h2, ?_⟩
  have h3 := nearest_c2f t
  rw [h3] at h1
  have h4 : 32 ≤ round_to_byte (celsius2fahrenheit (t : ℚ)) := by omega
  have h5 := round_to_byte_f2c_fits _ h4 h2
  rw [nearest_f2c] at h5
  omega

/-- C38: for every Celsius temperature up to `MAX_TARGET_TEMP_C`, provided that
bound is at most 124, toggling the unit system to Fahrenheit and back to Celsius
through the preheat menu restores `config.target_temp` and
`config.resin_target_temp` exactly; the Fahrenheit values in between are the
nearest integers to `1.8 * c + 32` and fit their bytes. -/
theorem units_round_trip (e : Ext) (c : Consts) (i j : LoopIn) (s u : Sys)
    (hmax : c.MAX_TARGET_TEMP_C ≤ 124) (hst : s.state = menu_state.PREHEAT)
    (hpos : 4 ≤ s.menu_position) (hsi : s.config.SI_unit_system = 1)
    (ht : s.config.target_temp ≤ c.MAX_TARGET_TEMP_C)
    (hr : s.config.resin_target_temp ≤ c.MAX_TARGET_TEMP_C)
    (hu : u.state = menu_state.PREHEAT) (hupos : 4 ≤ u.menu_position)
    (hcfg : u.config = (button_press e c i s).config) :
    (button_press e c i s).config.SI_unit_system = 0
    ∧ ((button_press e c i s).config.target_temp : Int)
        = nearest (celsius2fahrenheit s.config.target_temp)
    ∧ ((button_press e c i s).config.resin_target_temp : Int)
        = nearest (celsius2fahrenheit s.config.resin_target_temp)
    ∧ (button_press e c j u).config.SI_unit_system = 1
    ∧ (button_press e c j u).config.target_temp = s.config.target_temp
    ∧ (button_press e c j u).config.resin_target_temp = s.config.resin_target_temp := by
  obtain ⟨a1, a2, a3, -⟩ := button_press_units e c i s hst hpos
  obtain ⟨b1, b2, b3, -⟩ := button_press_units e c j u hu hupos
  have x0 : Nat.xor s.config.SI_unit_system 1 = 0 := (xor_one_flag _).1 hsi
  rw [x0] at a1 a2 a3
  simp only [ne_eq, not_true_eq_false, if_false] at a2 a3
  rw [hcfg, a1] at b1
  rw [hcfg, a1, a2] at b2
  rw [hcfg, a1, a3] at b3
  have x1 : Nat.xor 0 1 = 1 := by decide
  rw [x1] at b1 b2 b3
  simp only [ne_eq, one_ne_zero, not_false_eq_true, if_true] at b2 b3
  obtain ⟨p1, -, p3⟩ := round_to_byte_c2f_f2c s.config.target_temp (by omega)
  obtain ⟨q1, -, q3⟩ := round_to_byte_c2f_f2c s.config.resin_target_temp (by omega)
  refine ⟨a1, ?_, ?_, b1, ?_, ?_⟩
  · rw [a2]
    exact p1
  · rw [a3]
    exact q1
  · rw [b2]
    exact p3
  · rw [b3]
    exact q3

set_option maxRecDepth 100000 in
theorem units_round_trip_witness :
    sample_consts.MAX_TARGET_TEMP_C = 40
    ∧ preheat_units_c.config.target_temp = 35 ∧ preheat_units_c.config.resin_target_temp = 30
    ∧ (button_press sample_ext sample_consts (idle_in 50) preheat_units_c).menu_position = 4
    ∧ (button_press sample_ext sample_consts (idle_in 90)
        (button_press sample_ext sample_consts (idle_in 50)
          preheat_units_c)).config.target_temp = 35
    ∧ (button_press sample_ext sample_consts (idle_in 90)
        (button_press sample_ext sample_consts (idle_in 50)
          preheat_units_c)).config.resin_target_temp = 30 :=
  ⟨by decide, by decide, by decide, by decide,
    (units_round_trip sample_ext sample_consts (idle_in 50) (idle_in 90) preheat_units_c
      (button_press sample_ext sample_consts (idle_in 50) preheat_units_c)
      (by decide) (by decide) (by decide) (by decide) (by decide) (by decide)
      (by decide) (by decide) rfl).2.2.2.2.1,
    (units_round_trip sample_ext sample_consts (idle_in 50) (idle_in 90) preheat_units_c
      (button_press sample_ext sample_consts (idle_in 50) preheat_units_c)
      (by decide) (by decide) (by decide) (by decide) (by decide) (by decide)
      (by decide) (by decide) rfl).2.2.2.2.2⟩

/-! ### The running screen: adjusting the run time -/

/-- The time adjustment of the running screen, by cases on the encoder and on
the time `mm:ss` the down-timer shows. -/
theorem menu_move_running_adjust (e : Ext) (s : Sys) (mm ss : Nat)
    (hlock : ¬ adjust_locked s) (hmm : e.timer_getCurrentMinutes s.tDown = mm)
    (hss : e.timer_getCurrentSeconds s.tDown = ss) (hm : mm ≤ 255) (hs : ss ≤ 59) :
    (s.rotary_diff > 128 → mm ≤ 9 → ss ≤ 30 →
        (menu_move_running e s).tDown = e.timer_setCounter 0 mm (ss + 30) false s.tDown)
    ∧ (s.rotary_diff > 128 → mm ≤ 9 → 30 < ss →
        (menu_move_running e s).tDown = e.timer_setCounter 0 (mm + 1) (ss - 30) false s.tDown)
    ∧ (s.rotary_diff > 128 → 10 ≤ mm → (menu_move_running e s).tDown = s.tDown)
    ∧ (s.rotary_diff < 128 → 30 ≤ ss →
        (menu_move_running e s).tDown = e.timer_setCounter 0 mm (ss - 30) false s.tDown)
    ∧ (s.rotary_diff < 128 → ss < 30 → 1 ≤ mm →
        (menu_move_running e s).tDown = e.timer_setCounter 0 (mm - 1) (ss + 30) false s.tDown)
    ∧ (s.rotary_diff < 128 → ss < 30 → mm = 0 → (menu_move_running e s).tDown = s.tDown)
    ∧ (s.rotary_diff = 128 → (menu_move_running e s).tDown = s.tDown) := by
  have hl : ¬ (s.curing_mode = true ∧ s.drying_mode = true ∧ s.config.heat_to_target_temp ≠ 0
      ∧ ¬ s.preheat_complete = true) := by
    intro h
    exact hlock ⟨h.1, h.2.1, h.2.2.1, by simpa using h.2.2.2⟩
  have e1 : mm % 256 = mm := Nat.mod_eq_of_lt (by omega)
  have e2 : ss % 256 = ss := Nat.mod_eq_of_lt (by omega)
  unfold menu_move_running
  simp only []
  rw [if_neg hl, hmm, hss, e1, e2]
  refine ⟨?_, ?_, ?_, ?_, ?_, ?_, ?_⟩
  · intro h1 h2 h3
    rw [if_pos h1, if_pos h2, if_pos h3]
    have x1 : to_uint8 (mm : Int) = mm := by unfold to_uint8; omega
    have x2 : to_uint8 ((ss : Int) + 30) = ss + 30 := by unfold to_uint8; omega
    simp [tDown_set, x1, x2]
  · intro h1 h2 h3
    rw [if_pos h1, if_pos h2, if_neg (by omega)]
    have x1 : to_uint8 ((mm : Int) + 1) = mm + 1 := by unfold to_uint8; omega
    have x2 : to_uint8 (30 - (60 - (ss : Int))) = ss - 30 := by unfold to_uint8; omega
    simp [tDown_set, x1, x2]
  · intro h1 h2
    rw [if_pos h1, if_neg (by omega)]
  · intro h1 h2
    rw [if_neg (by omega), if_pos h1, if_pos (Or.inl h2), if_pos h2]
    have x1 : to_uint8 (mm : Int) = mm := by unfold to_uint8; omega
    have x2 : to_uint8 ((ss : Int) - 30) = ss - 30 := by unfold to_uint8; omega
    simp [tDown_set, x1, x2]
  · intro h1 h2 h3
    rw [if_neg (by omega), if_pos h1, if_pos (Or.inr h3), if_neg (by omega)]
    have x1 : to_uint8 ((mm : Int) - 1) = mm - 1 := by unfold to_uint8; omega
    have x2 : to_uint8 (60 - (30 - (ss : Int))) = ss + 30 := by unfold to_uint8; omega
    simp [tDown_set, x1, x2]
  · intro h1 h2 h3
    rw [if_neg (by omega), if_pos h1, if_neg (by omega)]
  · intro h1
    rw [if_neg (by omega), if_neg (by omega)]

/-- On the running screen the down-timer after `menu_move` is the one the time
adjustment leaves. -/
theorem menu_move_running_tDown (e : Ext) (c : Consts) (b : Bool) (s : Sys)
    (hst : s.state = menu_state.RUNNING) :
    (menu_move e c b s).tDown = (menu_move_running e s).tDown := by
  have h1 : ∀ (l : List Event) (r : Bool),
      (menu_move_running e { s with log := l, redraw_menu := r }).tDown
        = (menu_move_running e s).tDown := by
    intro l r
    simp [menu_move_running, tDown_set, apply_ite Sys.tDown]
  have h2 : ∃ l, { menu_move_echo b s with redraw_menu := false }
      = { s with log := l, redraw_menu := false } := by
    unfold menu_move_echo
    split
    · split
      · exact ⟨Event.echo :: s.log, rfl⟩
      · exact ⟨s.log, rfl⟩
    · exact ⟨s.log, rfl⟩
  obtain ⟨l, hl⟩ := h2
  have h3 : (menu_move e c b s).tDown
      = (menu_move_screen e c { menu_move_echo b s with redraw_menu := false }).tDown := rfl
  rw [h3, hl]
  have h4 : menu_move_screen e c { s with log := l, redraw_menu := false }
      = menu_move_running e { s with log := l, redraw_menu := false } := by
    unfold menu_move_screen
    simp [hst]
  rw [h4, h1]

/-- C37: on the running screen outside the preheat phase, for every time
`mm:ss` the down-timer shows (`ss` in 0..59): an encoder step up with `mm <= 9`
calls `tDown.setCounter` with minutes and seconds that add up to exactly 30 s
more (`60 * mm + ss + 30`; at `ss = 30` the call is `setCounter(0, mm, 60)`),
and with `mm >= 10` leaves the timer alone; a step down with at least 30 s
left calls it with exactly 30 s less, and with less than 30 s leaves the timer
alone; the arguments are the exact values, no subtraction goes below 0 and none
is cut to a byte; and a step down from the time the step up has set (the timer
reading `60 * mm + ss + 30` seconds as minutes and seconds) calls
`setCounter(0, mm, ss)`, the original time. -/
theorem running_time_adjust (e : Ext) (c : Consts) (b : Bool) (s : Sys) (mm ss : Nat)
    (hst : s.state = menu_state.RUNNING) (hlock : ¬ adjust_locked s)
    (hmm : e.timer_getCurrentMinutes s.tDown = mm)
    (hss : e.timer_getCurrentSeconds s.tDown = ss) (hm : mm ≤ 255) (hs : ss ≤ 59) :
    (s.rotary_diff > 128 → mm ≤ 9 →
        ∃ m n : Nat, (menu_move e c b s).tDown = e.timer_setCounter 0 m n false s.tDown
          ∧ 60 * m + n = 60 * mm + ss + 30 ∧ m ≤ 10 ∧ n ≤ 60)
    ∧ (s.rotary_diff > 128 → 10 ≤ mm → (menu_move e c b s).tDown = s.tDown)
    ∧ (s.rotary_diff < 128 → 30 ≤ 60 * mm + ss →
        ∃ m n : Nat, (menu_move e c b s).tDown = e.timer_setCounter 0 m n false s.tDown
          ∧ 60 * m + n + 30 = 60 * mm + ss ∧ m ≤ mm ∧ n ≤ 59)
    ∧ (s.rotary_diff < 128 → 60 * mm + ss < 30 → (menu_move e c b s).tDown = s.tDown)
    ∧ (∀ u : Sys, u.state = menu_state.RUNNING → ¬ adjust_locked u → mm ≤ 9 →
        u.rotary_diff < 128 →
        e.timer_getCurrentMinutes u.tDown = (60 * mm + ss + 30) / 60 →
        e.timer_getCurrentSeconds u.tDown = (60 * mm + ss + 30) % 60 →
        (menu_move e c b u).tDown = e.timer_setCounter 0 mm ss false u.tDown) := by
  obtain ⟨a1, a2, a3, a4, a5, a6, -⟩ := menu_move_running_adjust e s mm ss hlock hmm hss hm hs
  rw [menu_move_running_tDown e c b s hst]
  refine ⟨?_, a3, ?_, ?_, ?_⟩
  · intro h1 h2
    by_cases h3 : ss ≤ 30
    · exact ⟨mm, ss + 30, a1 h1 h2 h3, by omega, by omega, by omega⟩
    · exact ⟨mm + 1, ss - 30, a2 h1 h2 (by omega), by omega, by omega, by omega⟩
  · intro h1 h2
    by_cases h3 : 30 ≤ ss
    · exact ⟨mm, ss - 30, a4 h1 h3, by omega, by omega, by omega⟩
    · exact ⟨mm - 1, ss + 30, a5 h1 (by omega) (by omega), by omega, by omega, by omega⟩
  · intro h1 h2
    exact a6 h1 (by omega) (by omega)
  · intro u hu hlu h9 hr hum hus
    rw [menu_move_running_tDown e c b u hu]
    obtain ⟨-, -, -, b4, b5, -, -⟩ := menu_move_running_adjust e u _ _ hlu hum hus
      (by omega) (by omega)
    by_cases h3 : ss < 30
    · have k1 : (60 * mm + ss + 30) / 60 = mm := by omega
      have k2 : (60 * mm + ss + 30) % 60 = ss + 30 := by omega
      rw [k1, k2] at b4
      have := b4 hr (by omega)
      rw [this]
      congr 1
    · have k1 : (60 * mm + ss + 30) / 60 = mm + 1 := by omega
      have k2 : (60 * mm + ss + 30) % 60 = ss - 30 := by omega
      rw [k1, k2] at b5
      have := b5 hr (by omega) (by omega)
      rw [this]
      have k3 : mm + 1 - 1 = mm := by omega
      have k4 : ss - 30 + 30 = ss := by omega
      rw [k3, k4]

set_option maxRecDepth 100000 in
theorem running_time_adjust_witness :
    washing_run_up.state = menu_state.RUNNING ∧ ¬ adjust_locked washing_run_up
    ∧ sample_ext.timer_getCurrentMinutes washing_run_up.tDown = 4
    ∧ sample_ext.timer_getCurrentSeconds washing_run_up.tDown = 0
    ∧ (∃ m n : Nat, (menu_move sample_ext sample_consts true washing_run_up).tDown
          = sample_ext.timer_setCounter 0 m n false washing_run_up.tDown
        ∧ 60 * m + n = 60 * 4 + 0 + 30 ∧ m ≤ 10 ∧ n ≤ 60)
    ∧ (menu_move sample_ext sample_consts true washing_run_up).tDown.current = 270000
    ∧ sample_ext.timer_getCurrentMinutes washing_run_down.tDown = 4
    ∧ sample_ext.timer_getCurrentSeconds washing_run_down.tDown = 30
    ∧ (menu_move sample_ext sample_consts true washing_run_down).tDown.current = 240000 :=
  ⟨by decide, by decide, by decide, by decide,
    (running_time_adjust sample_ext sample_consts true washing_run_up 4 0
      (by decide) (by decide) (by decide) (by decide) (by decide) (by decide)).1
      (by decide) (by decide),
    by decide, by decide, by decide, by decide⟩

/-! ### The run menu: pause and continue -/

/-- Item 0 of the run menu in a curing mode with no tank flagged: a run that is
not paused is paused (motor and heater off, idle fan duty), a paused run
continues with the motor on and the fan duty of curing, or of preheat when
"heat to target temperature" is on. -/
theorem button_press_run_menu_curing (e : Ext) (c : Consts) (s : Sys)
    (hpos : s.menu_position = 0) (hmode : s.curing_mode = true)
    (hgp : s.gastro_pan = false) :
    (button_press_run_menu e c s).state = menu_state.RUNNING
    ∧ (s.paused = false →
        (button_press_run_menu e c s).paused = true
        ∧ (button_press_run_menu e c s).speed_control.motor_running = false
        ∧ (button_press_run_menu e c s).heater_running = false
        ∧ (button_press_run_menu e c s).fan_duty = fans_menu_speed)
    ∧ (s.paused = true →
        (button_press_run_menu e c s).paused = false
        ∧ (button_press_run_menu e c s).speed_control.motor_running = true
        ∧ (button_press_run_menu e c s).fan_duty
            = (if s.config.heat_to_target_temp = 0 then s.config.fans_curing_speed
                else s.config.fans_preheat_speed)) := by
  refine ⟨?_, ?_, ?_⟩
  · cases hp : s.paused <;>
      simp [button_press_run_menu, hpos, hmode, hgp, hp, run_motor, stop_motor, stop_heater,
        motor_configuration, speed_configuration, chip_write, apply_ite Sys.state]
  · intro hp
    simp [button_press_run_menu, hpos, hmode, hgp, hp, stop_motor, stop_heater, chip_write]
  · intro hp
    by_cases hh : s.config.heat_to_target_temp = 0
    · simp [button_press_run_menu, hpos, hmode, hgp, hp, hh, run_motor, motor_configuration,
        speed_configuration, chip_write]
    · simp [button_press_run_menu, hpos, hmode, hgp, hp, hh, run_motor, motor_configuration,
        speed_configuration, chip_write]

/-- In washing mode with no tank flagged, item 0 of the run menu continues a
paused run with `paused` cleared, the motor on and `fan_duty` set to
`fans_washing_speed`, the duty a washing run starts with. -/
theorem continue_washing_fan_duty (e : Ext) (c : Consts) (i : LoopIn) (s : Sys)
    (hst : s.state = menu_state.RUN_MENU) (hpos : s.menu_position = 0)
    (hmode : s.curing_mode = false) (hgp : s.gastro_pan = false) (hp : s.paused = true) :
    (button_press e c i s).paused = false
    ∧ (button_press e c i s).speed_control.motor_running = true
    ∧ (button_press e c i s).fan_duty = fans_washing_speed := by
  obtain ⟨s1, e1, e2, e3, -, -, -, e7, e8, -, hbp⟩ := button_press_entry e c i s
  have hX : button_press_state e c i s1 = button_press_run_menu e c s1 := by
    unfold button_press_state
    rw [e1, hst]
  have n : (button_press_run_menu e c s1).paused = false
      ∧ (button_press_run_menu e c s1).speed_control.motor_running = true
      ∧ (button_press_run_menu e c s1).fan_duty = fans_washing_speed
      ∧ (button_press_run_menu e c s1).state = menu_state.RUNNING := by
    simp [button_press_run_menu, e2.trans hpos, e3.trans hmode, e8.trans hgp, e7.trans hp,
      run_motor, motor_configuration, speed_configuration, chip_write]
  obtain ⟨-, t2, t3, -, -⟩ := button_press_tail_running e c (button_press_run_menu e c s1)
    (e.scrolling_list_set (button_press_run_menu e c s1).menu_position
      (button_press_run_menu e c s1).scroll) n.2.2.2
  rw [hbp, hX]
  refine ⟨?_, ?_, ?_⟩
  · rw [menu_move_paused]
    exact n.1
  · rw [t2]
    exact n.2.1
  · rw [t3]
    exact n.2.2.1

/-! ### Self-test: what a confirm press does to the phase -/

/-- The self-test object after `button_press` on the self-test screen is the
one `case SELFTEST` leaves. -/
theorem button_press_selftest_object (e : Ext) (c : Consts) (i : LoopIn) (s : Sys)
    (hst : s.state = menu_state.SELFTEST) :
    (button_press e c i s).selftest = (button_press_selftest e s).selftest := by
  obtain ⟨l, hl⟩ := button_press_entry_log e c i s
  rw [hl, menu_move_selftest, button_press_state_selftest e c i _ (by exact hst)]
  simp [button_press_selftest, selftest_confirm, apply_ite Sys.selftest]

/-- The self-test object that `case SELFTEST` of `button_press` leaves, phase
by phase. -/
theorem button_press_selftest_cases (e : Ext) (s : Sys) :
    (s.selftest.phase = 0 →
        (button_press_selftest e s).selftest
          = (if s.menu_position ≠ 0 then { s.selftest with phase := 1 } else s.selftest))
    ∧ (s.selftest.phase = 1 →
        (button_press_selftest e s).selftest
          = (if s.selftest.cover_test = true then e.clean_up { s.selftest with phase := 2 }
              else s.selftest))
    ∧ (s.selftest.phase = 2 →
        (button_press_selftest e s).selftest
          = (if s.selftest.tank_test = true then e.clean_up { s.selftest with phase := 3 }
              else s.selftest))
    ∧ (∀ k, (k = 3 ∨ k = 4 ∨ k = 5) → s.selftest.phase = k →
        (button_press_selftest e s).selftest
          = (if phase_result s.selftest k = true then
              (if s.selftest.fail_flag = true then e.clean_up s.selftest
                else e.clean_up { s.selftest with phase := k + 1 })
              else s.selftest))
    ∧ (s.selftest.phase = 6 →
        (button_press_selftest e s).selftest
          = (if s.selftest.rotation_test = true then e.clean_up { s.selftest with phase := 0 }
              else s.selftest))
    ∧ (6 < s.selftest.phase → (button_press_selftest e s).selftest = s.selftest) := by
  refine ⟨?_, ?_, ?_, ?_, ?_, ?_⟩
  · intro h
    by_cases hm : s.menu_position = 0 <;> simp [button_press_selftest, h, hm]
  · intro h
    by_cases hm : s.selftest.cover_test = true <;> simp [button_press_selftest, h, hm]
  · intro h
    by_cases hm : s.selftest.tank_test = true <;> simp [button_press_selftest, h, hm]
  · intro k hk h
    rcases hk with hk | hk | hk <;> subst hk <;>
      cases hp : phase_result s.selftest _ <;> cases hf : s.selftest.fail_flag <;>
      simp [phase_result] at hp <;>
      simp [button_press_selftest, selftest_confirm, h, hp, hf]
  · intro h
    by_cases hm : s.selftest.rotation_test = true <;> simp [button_press_selftest, h, hm]
  · intro h
    have h0 : s.selftest.phase ≠ 0 := by omega
    have h1 : s.selftest.phase ≠ 1 := by omega
    have h2 : s.selftest.phase ≠ 2 := by omega
    have h3 : s.selftest.phase ≠ 3 := by omega
    have h4 : s.selftest.phase ≠ 4 := by omega
    have h5 : s.selftest.phase ≠ 5 := by omega
    have h6 : s.selftest.phase ≠ 6 := by omega
    simp [button_press_selftest, h0, h1, h2, h3, h4, h5, h6]

/-- C33 as stated fails with `clean_up()` as the specification describes it: in
phase 4 with the LED test done and a fail flagged, the confirming press leaves
the self-test in phase 0, neither in phase 4 nor in phase 5. -/
theorem selftest_fail_confirm_phase :
    selftest_led_failed.state = menu_state.SELFTEST
    ∧ selftest_led_failed.selftest.phase = 4
    ∧ selftest_led_failed.selftest.led_test = true
    ∧ selftest_led_failed.selftest.fail_flag = true
    ∧ spec_confirm_phase selftest_led_failed.selftest selftest_led_failed.menu_position = 4
    ∧ (button_press spec_ext sample_consts (idle_in 50) selftest_led_failed).selftest.phase
        = 0 := by
  decide

/-- C33 (amended): on the self-test screen a button press leaves the self-test
object as follows.  `main.cpp` sets the phase as the claim says (from a phase 1
to 5 to the next only if the pass flag of the phase is set and, in phases 3 to
5, no fail is flagged; from 6 to 0 only if `rotation_test` is set; from 0 to 1
only if the cursor is on the start item; unchanged otherwise), and in the phases
1 to 6 with the pass flag set it then calls `clean_up()`.  So with a
`clean_up()` that keeps the phase the phase is the claimed one; with
`clean_up()` as the specification describes it a confirm with a fail flagged
ends in phase 0, and the phase is the claimed one otherwise.  In both cases the
phase after the press is the phase before, the next phase or 0. -/
theorem button_press_selftest_phase (e : Ext) (c : Consts) (i : LoopIn) (s : Sys)
    (hst : s.state = menu_state.SELFTEST) :
    (button_press e c i s).selftest
      = (if confirm_cleans s.selftest = true then
          e.clean_up { s.selftest with
            phase := spec_confirm_phase s.selftest s.menu_position }
         else { s.selftest with phase := spec_confirm_phase s.selftest s.menu_position })
    ∧ ((∀ t, (e.clean_up t).phase = t.phase) →
        (button_press e c i s).selftest.phase
          = spec_confirm_phase s.selftest s.menu_position)
    ∧ (e.clean_up = spec_clean_up →
        (button_press e c i s).selftest.phase
          = (if confirm_cleans s.selftest = true ∧ s.selftest.fail_flag = true then 0
              else spec_confirm_phase s.selftest s.menu_position))
    ∧ (spec_confirm_phase s.selftest s.menu_position = s.selftest.phase
        ∨ spec_confirm_phase s.selftest s.menu_position = s.selftest.phase + 1
        ∨ spec_confirm_phase s.selftest s.menu_position = 0) := by
  have hobj : (button_press e c i s).selftest
      = (if confirm_cleans s.selftest = true then
          e.clean_up { s.selftest with
            phase := spec_confirm_phase s.selftest s.menu_position }
         else { s.selftest with phase := spec_confirm_phase s.selftest s.menu_position }) := by
    rw [button_press_selftest_object e c i s hst]
    obtain ⟨a0, a1, a2, a3, a6, a7⟩ := button_press_selftest_cases e s
    have hp : s.selftest.phase = 0 ∨ s.selftest.phase = 1 ∨ s.selftest.phase = 2
        ∨ s.selftest.phase = 3 ∨ s.selftest.phase = 4 ∨ s.selftest.phase = 5
        ∨ s.selftest.phase = 6 ∨ 6 < s.selftest.phase := by omega
    rcases hp with h | h | h | h | h | h | h | h
    · rw [a0 h]
      by_cases hm : s.menu_position = 0 <;>
        simp [confirm_cleans, spec_confirm_phase, pass_flag, h, hm]
      all_goals (cases hs : s.selftest; simp_all)
    · rw [a1 h]
      cases hf : s.selftest.cover_test <;>
        simp [confirm_cleans, spec_confirm_phase, pass_flag, h, hf]
      all_goals (cases hs : s.selftest; simp_all)
    · rw [a2 h]
      cases hf : s.selftest.tank_test <;>
        simp [confirm_cleans, spec_confirm_phase, pass_flag, h, hf]
      all_goals (cases hs : s.selftest; simp_all)
    · rw [a3 3 (by simp) h]
      cases hf : s.selftest.vent_test <;> cases hg : s.selftest.fail_flag <;>
        simp [confirm_cleans, spec_confirm_phase, pass_flag, phase_result, h, hf, hg]
      all_goals (cases hs : s.selftest; simp_all)
    · rw [a3 4 (by simp) h]
      cases hf : s.selftest.led_test <;> cases hg : s.selftest.fail_flag <;>
        simp [confirm_cleans, spec_confirm_phase, pass_flag, phase_result, h, hf, hg]
      all_goals (cases hs : s.selftest; simp_all)
    · rw [a3 5 (by simp) h]
      cases hf : s.selftest.heater_test <;> cases hg : s.selftest.fail_flag <;>
        simp [confirm_cleans, spec_confirm_phase, pass_flag, phase_result, h, hf, hg]
      all_goals (cases hs : s.selftest; simp_all)
    · rw [a6 h]
      cases hf : s.selftest.rotation_test <;>
        simp [confirm_cleans, spec_confirm_phase, pass_flag, h, hf]
      all_goals (cases hs : s.selftest; simp_all)
    · rw [a7 h]
      have h0 : s.selftest.phase ≠ 0 := by omega
      have h6 : s.selftest.phase ≠ 6 := by omega
      have h5 : ¬ s.selftest.phase ≤ 5 := by omega
      have h66 : ¬ s.selftest.phase ≤ 6 := by omega
      simp [confirm_cleans, spec_confirm_phase, h0, h6, h5, h66]
  refine ⟨hobj, ?_, ?_, ?_⟩
  · intro hk
    rw [hobj]
    split
    · rw [hk]
    · rfl
  · intro hc
    rw [hobj, hc]
    by_cases h1 : confirm_cleans s.selftest = true
    · by_cases h2 : s.selftest.fail_flag = true
      · simp [h1, h2, spec_clean_up]
      · simp [h1, h2, spec_clean_up]
        split
        · rename_i h3
          simp [h3]
        · rfl
    · simp [h1]
  · unfold spec_confirm_phase
    split_ifs <;> omega

set_option maxRecDepth 100000 in
theorem button_press_selftest_phase_witness :
    selftest_cover_passed.state = menu_state.SELFTEST
    ∧ selftest_cover_passed.selftest.phase = 1
    ∧ spec_confirm_phase selftest_cover_passed.selftest selftest_cover_passed.menu_position = 2
    ∧ (button_press sample_ext sample_consts (idle_in 50) selftest_cover_passed).selftest.phase
        = spec_confirm_phase selftest_cover_passed.selftest selftest_cover_passed.menu_position
    ∧ (button_press spec_ext sample_consts (idle_in 50) selftest_cover_passed).selftest.phase = 2
    ∧ (button_press sample_ext sample_consts (idle_in 50)
        { selftest_cover_passed with
          selftest := { selftest_cover_passed.selftest with cover_test := false } }).selftest.phase
        = 1 :=
  ⟨by decide, by decide, by decide,
    (button_press_selftest_phase sample_ext sample_consts (idle_in 50) selftest_cover_passed
      (by decide)).2.1 (fun _ => rfl),
    by decide, by decide⟩

/-! ### Menu navigation: into a child screen and back -/

/-- With the encoder at neutral `menu_move` leaves the screen, the cursor and
the long-press mark as they are (the scrolling list keeping the cursor at
neutral). -/
theorem menu_move_neutral_nav (e : Ext) (c : Consts) (b : Bool) (s : Sys)
    (hlist : list_neutral e) (hrot : s.rotary_diff = 128) (hpos : s.menu_position < 256) :
    (menu_move e c b s).state = s.state
    ∧ (menu_move e c b s).menu_position = s.menu_position
    ∧ (menu_move e c b s).long_press = s.long_press := by
  have hm : s.menu_position % 256 = s.menu_position := Nat.mod_eq_of_lt hpos
  have h1 : ∀ u : Sys, u.rotary_diff = 128 → u.menu_position = s.menu_position →
      (menu_move_screen e c u).menu_position = u.menu_position
      ∧ (menu_move_screen e c u).long_press = u.long_press := by
    intro u hu hp
    unfold menu_move_screen
    split <;> simp [generic_menu_P, scrolling_list, menu_move_running, tDown_set, hu,
      hlist _ _ _, hp, hm, apply_ite Sys.menu_position, apply_ite Sys.long_press]
  refine ⟨menu_move_state e c b s, ?_, ?_⟩
  · have := (h1 { menu_move_echo b s with redraw_menu := false }
      (by simp [menu_move_echo, echo, hrot, apply_ite Sys.rotary_diff])
      (by simp [menu_move_echo, echo, apply_ite Sys.menu_position])).1
    simp only [menu_move]
    rw [this]
    simp [menu_move_echo, echo, apply_ite Sys.menu_position]
  · have := (h1 { menu_move_echo b s with redraw_menu := false }
      (by simp [menu_move_echo, echo, hrot, apply_ite Sys.rotary_diff])
      (by simp [menu_move_echo, echo, apply_ite Sys.menu_position])).2
    simp only [menu_move]
    rw [this]
    simp [menu_move_echo, echo, apply_ite Sys.long_press]

/-- Where `button_press` ends, in terms of its `switch (state)`: the redraw at
its end runs with the encoder reset to neutral and leaves screen, cursor and
long-press mark as the switch has set them. -/
theorem button_press_nav (e : Ext) (c : Consts) (i : LoopIn) (s : Sys)
    (hlist : list_neutral e) :
    ∃ l : List Event,
      ((button_press_state e c i { s with log := l }).menu_position < 256 →
        (button_press e c i s).state = (button_press_state e c i { s with log := l }).state
        ∧ (button_press e c i s).menu_position
            = (button_press_state e c i { s with log := l }).menu_position
        ∧ (button_press e c i s).long_press
            = (button_press_state e c i { s with log := l }).long_press) := by
  obtain ⟨l, hl⟩ := button_press_entry_log e c i s
  refine ⟨l, fun hp => ?_⟩
  rw [hl]
  exact menu_move_neutral_nav e c true _ hlist rfl hp

/-- The `switch (state)` of `button_press` on an item that opens a child
screen: the child screen is entered with the cursor on its entry position. -/
theorem button_press_state_opens (e : Ext) (c : Consts) (i : LoopIn) (x : Sys)
    (parent child : menu_state) (k : Nat) (hchild : child_screen parent k = some child)
    (hst : x.state = parent) (hpos : x.menu_position = k) :
    (button_press_state e c i x).state = child
    ∧ (button_press_state e c i x).menu_position = entry_position child
    ∧ (button_press_state e c i x).long_press = x.long_press := by
  unfold child_screen at hchild
  split at hchild <;> simp at hchild <;> subst hchild <;>
    simp [button_press_state, hst, hpos, button_press_home, button_press_settings,
      button_press_time, button_press_preheat, button_press_sound, button_press_fans,
      button_press_speed, entry_position]

/-- The `switch (state)` of `button_press` on a child screen, the cursor on its
entry position: the parent menu is shown again with the cursor on the item that
opened the child. -/
theorem button_press_state_returns (e : Ext) (c : Consts) (i : LoopIn) (y : Sys)
    (parent child : menu_state) (k : Nat) (hchild : child_screen parent k = some child)
    (hst : y.state = child) (hpos : y.menu_position = entry_position child)
    (hlp : y.long_press = false) :
    (button_press_state e c i y).state = parent
    ∧ (button_press_state e c i y).menu_position = k := by
  unfold child_screen at hchild
  split at hchild <;> simp at hchild <;> subst hchild <;>
    simp [entry_position] at hpos <;>
    simp [button_press_state, hst, hpos, hlp, button_press_home, button_press_settings,
      button_press_time, button_press_preheat, button_press_sound, button_press_fans,
      button_press_speed, write_config]

theorem child_screen_item (parent child : menu_state) (k : Nat)
    (hchild : child_screen parent k = some child) : 1 ≤ k ∧ k ≤ 7 := by
  unfold child_screen at hchild
  split at hchild <;> simp at hchild <;> omega

theorem entry_position_le (child : menu_state) : entry_position child ≤ 2 := by
  unfold entry_position
  split_ifs <;> omega

/-- C36: for every parent menu (HOME, SETTINGS, TIME, PREHEAT, SOUND_SETTINGS,
FANS, SPEED_STATE) and every item `k` that opens a child screen, a press on
item `k` shows the child screen, and a short press that leaves the child screen
(the very next press, or any later press with the cursor of the child on its
entry position) shows the same parent menu with `menu_position = k`.  The
scrolling list, whose source is absent, is taken to keep the cursor while the
encoder is at neutral. -/
theorem menu_round_trip (e : Ext) (c : Consts) (i j : LoopIn) (s : Sys)
    (parent child : menu_state) (k : Nat) (hlist : list_neutral e)
    (hchild : child_screen parent k = some child) (hst : s.state = parent)
    (hpos : s.menu_position = k) (hlp : s.long_press = false) :
    (button_press e c i s).state = child
    ∧ (button_press e c i s).menu_position = entry_position child
    ∧ (button_press e c j (button_press e c i s)).state = parent
    ∧ (button_press e c j (button_press e c i s)).menu_position = k
    ∧ (∀ u : Sys, u.state = child → u.menu_position = entry_position child →
        u.long_press = false →
        (button_press e c j u).state = parent ∧ (button_press e c j u).menu_position = k) := by
  have hk := child_screen_item parent child k hchild
  have hep := entry_position_le child
  have back : ∀ u : Sys, u.state = child → u.menu_position = entry_position child →
      u.long_press = false →
      (button_press e c j u).state = parent ∧ (button_press e c j u).menu_position = k := by
    intro u h1 h2 h3
    obtain ⟨l, hl⟩ := button_press_nav e c j u hlist
    obtain ⟨r1, r2⟩ := button_press_state_returns e c j { u with log := l } parent child k
      hchild h1 h2 h3
    obtain ⟨n1, n2, -⟩ := hl (by rw [r2]; omega)
    exact ⟨n1.trans r1, n2.trans r2⟩
  obtain ⟨l, hl⟩ := button_press_nav e c i s hlist
  obtain ⟨o1, o2, o3⟩ := button_press_state_opens e c i { s with log := l } parent child k
    hchild hst hpos
  obtain ⟨n1, n2, n3⟩ := hl (by rw [o2]; omega)
  have f1 := n1.trans o1
  have f2 := n2.trans o2
  have f3 : (button_press e c i s).long_press = false := (n3.trans o3).trans hlp
  obtain ⟨g1, g2⟩ := back _ f1 f2 f3
  exact ⟨f1, f2, g1, g2, back⟩

set_option maxRecDepth 100000 in
theorem menu_round_trip_witness :
    list_neutral sample_ext
    ∧ child_screen menu_state.SETTINGS 3 = some menu_state.PREHEAT
    ∧ (settings_item 3).state = menu_state.SETTINGS ∧ (settings_item 3).menu_position = 3
    ∧ (button_press sample_ext sample_consts (idle_in 50) (settings_item 3)).state
        = menu_state.PREHEAT
    ∧ (button_press sample_ext sample_consts (idle_in 90)
        (button_press sample_ext sample_consts (idle_in 50) (settings_item 3))).state
        = menu_state.SETTINGS
    ∧ (button_press sample_ext sample_consts (idle_in 90)
        (button_press sample_ext sample_consts (idle_in 50) (settings_item 3))).menu_position
        = 3 :=
  ⟨fun _ _ _ => rfl, by decide, by decide, by decide,
    (menu_round_trip sample_ext sample_consts (idle_in 50) (idle_in 90) (settings_item 3)
      menu_state.SETTINGS menu_state.PREHEAT 3 (fun _ _ _ => rfl) (by decide) (by decide)
      (by decide) (by decide)).1,
    (menu_round_trip sample_ext sample_consts (idle_in 50) (idle_in 90) (settings_item 3)
      menu_state.SETTINGS menu_state.PREHEAT 3 (fun _ _ _ => rfl) (by decide) (by decide)
      (by decide) (by decide)).2.2.1,
    (menu_round_trip sample_ext sample_consts (idle_in 50) (idle_in 90) (settings_item 3)
      menu_state.SETTINGS menu_state.PREHEAT 3 (fun _ _ _ => rfl) (by decide) (by decide)
      (by decide) (by decide)).2.2.2.1⟩

/-! ### The encoder: what `menu_move` does at and near neutral -/

theorem generic_value_P_neutral (v lo hi : Nat) : generic_value_P 128 v lo hi = v := by
  simp [generic_value_P]

theorem generic_items_P_neutral (v n : Nat) :
    generic_items_P 128 v n = (if v > n then 0 else v) := by
  simp [generic_items_P]

/-- With the encoder at neutral the screens of `menu_move` leave the cursor,
the timers, the speeds and the configuration as they are; the one exception is
an option index above the number of options, which the option editor resets. -/
theorem menu_move_screen_neutral (e : Ext) (c : Consts) (u : Sys)
    (hlist : list_neutral e) (hu : u.rotary_diff = 128) (hp : u.menu_position < 256)
    (hmode : u.state = menu_state.RUN_MODE → u.config.curing_machine_mode ≤ 4)
    (hbeep : u.state = menu_state.BEEP → u.config.finish_beep_mode ≤ 3) :
    (menu_move_screen e c u).menu_position = u.menu_position
    ∧ (menu_move_screen e c u).tDown = u.tDown
    ∧ (menu_move_screen e c u).tUp = u.tUp
    ∧ (menu_move_screen e c u).speed_control = u.speed_control
    ∧ (menu_move_screen e c u).config = u.config := by
  have hm : u.menu_position % 256 = u.menu_position := Nat.mod_eq_of_lt hp
  unfold menu_move_screen
  split <;> rename_i hs <;>
    simp [generic_menu_P, scrolling_list, menu_move_running, tDown_set, hu, hlist _ _ _, hm,
      generic_value_P_neutral, generic_items_P_neutral, apply_ite Sys.menu_position,
      apply_ite Sys.tDown, apply_ite Sys.tUp, apply_ite Sys.speed_control,
      apply_ite Sys.config]
  · have h2 : ¬ 4 < u.config.curing_machine_mode := by
      have := hmode hs
      omega
    simp [h2]
  · have h2 : ¬ 3 < u.config.finish_beep_mode := by
      have := hbeep hs
      omega
    simp [h2]

theorem menu_move_running_side (e : Ext) (u : Sys) (r : Nat)
    (h1 : r > 128 ↔ u.rotary_diff > 128) (h2 : r < 128 ↔ u.rotary_diff < 128) :
    (menu_move_running e { u with rotary_diff := r }).menu_position
        = (menu_move_running e u).menu_position
    ∧ (menu_move_running e { u with rotary_diff := r }).config = (menu_move_running e u).config
    ∧ (menu_move_running e { u with rotary_diff := r }).speed_control
        = (menu_move_running e u).speed_control
    ∧ (menu_move_running e { u with rotary_diff := r }).tDown
        = (menu_move_running e u).tDown := by
  by_cases a : u.rotary_diff > 128
  · have b : r > 128 := h1.mpr a
    simp [menu_move_running, tDown_set, a, b, apply_ite Sys.menu_position, apply_ite Sys.config,
      apply_ite Sys.speed_control, apply_ite Sys.tDown]
  · by_cases a2 : u.rotary_diff < 128
    · have b2 : r < 128 := h2.mpr a2
      have b : ¬ r > 128 := by omega
      simp [menu_move_running, tDown_set, a, b, a2, b2, apply_ite Sys.menu_position,
        apply_ite Sys.config, apply_ite Sys.speed_control, apply_ite Sys.tDown]
    · have b : ¬ r > 128 := fun h => a (h1.mp h)
      have b2 : ¬ r < 128 := fun h => a2 (h2.mp h)
      simp [menu_move_running, tDown_set, a, b, a2, b2, apply_ite Sys.menu_position,
        apply_ite Sys.config, apply_ite Sys.speed_control, apply_ite Sys.tDown]

/-- Outside the scrolling-list screens `menu_move` looks only at the side of
neutral the encoder is on, not at how far it is from neutral. -/
theorem menu_move_screen_side (e : Ext) (c : Consts) (u : Sys) (r : Nat)
    (hl : list_screen u.state = false)
    (h1 : r > 128 ↔ u.rotary_diff > 128) (h2 : r < 128 ↔ u.rotary_diff < 128) :
    (menu_move_screen e c { u with rotary_diff := r }).menu_position
        = (menu_move_screen e c u).menu_position
    ∧ (menu_move_screen e c { u with rotary_diff := r }).config
        = (menu_move_screen e c u).config
    ∧ (menu_move_screen e c { u with rotary_diff := r }).speed_control
        = (menu_move_screen e c u).speed_control
    ∧ (menu_move_screen e c { u with rotary_diff := r }).tDown
        = (menu_move_screen e c u).tDown := by
  have g1 : ∀ v lo hi, generic_value_P r v lo hi = generic_value_P u.rotary_diff v lo hi := by
    intro v lo hi
    simp only [generic_value_P, h1, h2]
  have g2 : ∀ v n, generic_items_P r v n = generic_items_P u.rotary_diff v n := by
    intro v n
    simp only [generic_items_P, h1, h2]
  have g3 : ∀ n st, (generic_menu_P n { u with rotary_diff := r, state := st }).menu_position
        = (generic_menu_P n u).menu_position
      ∧ (generic_menu_P n { u with rotary_diff := r, state := st }).config
          = (generic_menu_P n u).config
      ∧ (generic_menu_P n { u with rotary_diff := r, state := st }).speed_control
          = (generic_menu_P n u).speed_control
      ∧ (generic_menu_P n { u with rotary_diff := r, state := st }).tDown
          = (generic_menu_P n u).tDown := by
    intro n st
    by_cases a : u.rotary_diff > 128
    · have b : r > 128 := h1.mpr a
      simp [generic_menu_P, a, b, apply_ite Sys.menu_position, apply_ite Sys.config,
        apply_ite Sys.speed_control, apply_ite Sys.tDown]
    · by_cases a2 : u.rotary_diff < 128
      · have b2 : r < 128 := h2.mpr a2
        have b : ¬ r > 128 := by omega
        simp [generic_menu_P, a, b, a2, b2, apply_ite Sys.menu_position, apply_ite Sys.config,
          apply_ite Sys.speed_control, apply_ite Sys.tDown]
      · have b : ¬ r > 128 := fun h => a (h1.mp h)
        have b2 : ¬ r < 128 := fun h => a2 (h2.mp h)
        simp [generic_menu_P, a, b, a2, b2, apply_ite Sys.menu_position, apply_ite Sys.config,
          apply_ite Sys.speed_control, apply_ite Sys.tDown]
  by_cases hr : u.state = menu_state.RUNNING
  · have k1 : menu_move_screen e c { u with rotary_diff := r }
        = menu_move_running e { u with rotary_diff := r } := by
      unfold menu_move_screen
      simp [hr]
    have k2 : menu_move_screen e c u = menu_move_running e u := by
      unfold menu_move_screen
      simp [hr]
    rw [k1, k2]
    exact menu_move_running_side e u r h1 h2
  · unfold menu_move_screen
    split <;> rename_i hs <;> replace hs : u.state = _ := hs <;>
      simp [hs, list_screen] at hl hr <;>
      simp [hs, g1, g2, g3, apply_ite Sys.menu_position,
        apply_ite Sys.config, apply_ite Sys.speed_control, apply_ite Sys.tDown]

/-- The state `menu_move` hands to its `switch (state)` differs from the state
at the call in the call log and the redraw flag only. -/
theorem menu_move_entry (e : Ext) (c : Consts) (b : Bool) (s : Sys) :
    menu_move e c b s
      = { menu_move_screen e c
            { s with log := (menu_move_echo b s).log, redraw_menu := false } with
          rotary_diff := 128 } := by
  rcases menu_move_echo_cases b s with h | h
  · simp [menu_move, h]
  · simp [menu_move, h, echo]

/-- C35 as stated fails: with the encoder one count from neutral (129 or 127),
inside the band 125..131, `menu_move` moves the cursor of the home menu from
item 0 to item 1, takes one minute off the curing time under the editor, and
sets the down-timer of a washing run from 4:00 to 4:30. -/
theorem menu_move_acts_in_band :
    home_turned.rotary_diff = 129 ∧ home_turned.menu_position = 0
    ∧ (menu_move sample_ext sample_consts true home_turned).menu_position = 1
    ∧ time_curing_turned.rotary_diff = 127 ∧ time_curing_turned.config.curing_run_time = 3
    ∧ (menu_move sample_ext sample_consts true time_curing_turned).config.curing_run_time = 2
    ∧ washing_run_up.rotary_diff = 129 ∧ washing_run_up.tDown.current = 240000
    ∧ (menu_move sample_ext sample_consts true washing_run_up).tDown.current = 270000 := by
  decide

/-- C35 (amended): the main loop calls `menu_move` for an encoder movement only
when `rotary_diff` is at least 4 counts from neutral (inside 125..131 and with
no redraw pending the encoder block of `loop` does nothing).  `menu_move`
itself, when it runs, acts on the side of neutral the encoder is on, whatever
the distance: with `rotary_diff = 128` it leaves the menu cursor, the timers,
the speeds and the configuration unchanged (an option index above the number of
options apart, which is reset), and with any other value, also inside 125..131,
it does what it does for a full click to that side. -/
theorem encoder_band (e : Ext) (c : Consts) (b : Bool) (s : Sys) (hlist : list_neutral e) :
    (125 ≤ s.rotary_diff → s.rotary_diff ≤ 131 → s.redraw_menu = false →
        loop_rotary e c s = s)
    ∧ (s.rotary_diff = 128 → s.menu_position < 256 →
        (s.state = menu_state.RUN_MODE → s.config.curing_machine_mode ≤ 4) →
        (s.state = menu_state.BEEP → s.config.finish_beep_mode ≤ 3) →
        (menu_move e c b s).menu_position = s.menu_position
        ∧ (menu_move e c b s).tDown = s.tDown
        ∧ (menu_move e c b s).tUp = s.tUp
        ∧ (menu_move e c b s).speed_control = s.speed_control
        ∧ (menu_move e c b s).config = s.config)
    ∧ (list_screen s.state = false →
        ∀ r : Nat, (r > 128 ↔ s.rotary_diff > 128) → (r < 128 ↔ s.rotary_diff < 128) →
        (menu_move e c b { s with rotary_diff := r }).menu_position
            = (menu_move e c b s).menu_position
        ∧ (menu_move e c b { s with rotary_diff := r }).config = (menu_move e c b s).config
        ∧ (menu_move e c b { s with rotary_diff := r }).speed_control
            = (menu_move e c b s).speed_control
        ∧ (menu_move e c b { s with rotary_diff := r }).tDown = (menu_move e c b s).tDown) := by
  refine ⟨?_, ?_, ?_⟩
  · intro h1 h2 h3
    unfold loop_rotary
    rw [if_neg]
    simp [h3]
    omega
  · intro h1 h2 h3 h4
    rw [menu_move_entry e c b s]
    exact menu_move_screen_neutral e c _ hlist h1 h2 h3 h4
  · intro h1 r h2 h3
    have hlog : (menu_move_echo b { s with rotary_diff := r }).log
        = (menu_move_echo b s).log := by
      simp [menu_move_echo, echo, apply_ite Sys.log]
    rw [menu_move_entry e c b s, menu_move_entry e c b { s with rotary_diff := r }, hlog]
    exact menu_move_screen_side e c
      { s with log := (menu_move_echo b s).log, redraw_menu := false } r h1 h2 h3

set_option maxRecDepth 100000 in
theorem encoder_band_witness :
    list_neutral sample_ext ∧ home_turned.rotary_diff = 129
    ∧ home_turned.redraw_menu = false
    ∧ loop_rotary sample_ext sample_consts home_turned = home_turned
    ∧ (menu_move sample_ext sample_consts true
        { home_turned with rotary_diff := 128 }).menu_position = 0
    ∧ (menu_move sample_ext sample_consts true
        { home_turned with rotary_diff := 132 }).menu_position
        = (menu_move sample_ext sample_consts true home_turned).menu_position :=
  ⟨fun _ _ _ => rfl, by decide, by decide,
    (encoder_band sample_ext sample_consts true home_turned (fun _ _ _ => rfl)).1
      (by decide) (by decide) (by decide),
    by decide,
    ((encoder_band sample_ext sample_consts true home_turned (fun _ _ _ => rfl)).2.2
      (by decide) 132 (by decide) (by decide)).1⟩

/-! ### The sweep flag `mode_flag`: written by the self-test sweep only -/

theorem menu_move_screen_mode_flag (e : Ext) (c : Consts) (s : Sys) :
    (menu_move_screen e c s).mode_flag = s.mode_flag := by
  unfold menu_move_screen
  split <;> simp [generic_menu_P, scrolling_list, menu_move_running, chip_write, run_motor, stop_motor, run_heater, stop_heater, led_on, led_off,
    motor_configuration, speed_configuration, acceleration50ms, echo, beep, tDown_set, tUp_set,
    write_config, enter_drying_mode, leave_drying_mode, tDown_arm, tUp_arm, finish_beep,
    apply_ite Sys.mode_flag]

theorem menu_move_mode_flag (e : Ext) (c : Consts) (b : Bool) (s : Sys) :
    (menu_move e c b s).mode_flag = s.mode_flag := by
  simp [menu_move, menu_move_echo, menu_move_screen_mode_flag, chip_write, run_motor, stop_motor, run_heater, stop_heater, led_on, led_off,
    motor_configuration, speed_configuration, acceleration50ms, echo, beep, tDown_set, tUp_set,
    write_config, enter_drying_mode, leave_drying_mode, tDown_arm, tUp_arm, finish_beep,
    apply_ite Sys.mode_flag]

theorem finish_beep_mode_flag (s : Sys) :
    (finish_beep s).mode_flag = s.mode_flag := by
  simp [finish_beep, chip_write, run_motor, stop_motor, run_heater, stop_heater, led_on, led_off,
    motor_configuration, speed_configuration, acceleration50ms, echo, beep, tDown_set, tUp_set,
    write_config, enter_drying_mode, leave_drying_mode, tDown_arm, tUp_arm, finish_beep,
    apply_ite Sys.mode_flag]

theorem run_stop_mode_flag (e : Ext) (c : Consts) (s : Sys) :
    (run_stop e c s).mode_flag = s.mode_flag := by
  simp [run_stop, chip_write, run_motor, stop_motor, run_heater, stop_heater, led_on, led_off,
    motor_configuration, speed_configuration, acceleration50ms, echo, beep, tDown_set, tUp_set,
    write_config, enter_drying_mode, leave_drying_mode, tDown_arm, tUp_arm, finish_beep,
    apply_ite Sys.mode_flag]

theorem preheat_mode_flag (e : Ext) (c : Consts) (s : Sys) :
    (preheat e c s).mode_flag = s.mode_flag := by
  simp [preheat, chip_write, run_motor, stop_motor, run_heater, stop_heater, led_on, led_off,
    motor_configuration, speed_configuration, acceleration50ms, echo, beep, tDown_set, tUp_set,
    write_config, enter_drying_mode, leave_drying_mode, tDown_arm, tUp_arm, finish_beep,
    apply_ite Sys.mode_flag]

theorem lcd_time_print_mode_flag (e : Ext) (c : Consts) (s : Sys) :
    (lcd_time_print e c s).mode_flag = s.mode_flag := by
  simp [lcd_time_print, chip_write, run_motor, stop_motor, run_heater, stop_heater, led_on, led_off,
    motor_configuration, speed_configuration, acceleration50ms, echo, beep, tDown_set, tUp_set,
    write_config, enter_drying_mode, leave_drying_mode, tDown_arm, tUp_arm, finish_beep,
    apply_ite Sys.mode_flag]

theorem gastro_pan_check_mode_flag (e : Ext) (c : Consts) (i : LoopIn) (s : Sys) :
    (gastro_pan_check e c i s).mode_flag = s.mode_flag := by
  simp [gastro_pan_check, menu_move_mode_flag, chip_write, run_motor, stop_motor, run_heater, stop_heater, led_on, led_off,
    motor_configuration, speed_configuration, acceleration50ms, echo, beep, tDown_set, tUp_set,
    write_config, enter_drying_mode, leave_drying_mode, tDown_arm, tUp_arm, finish_beep,
    apply_ite Sys.mode_flag]

theorem start_drying_mode_flag (e : Ext) (c : Consts) (i : LoopIn) (s : Sys) :
    (start_drying e c i s).mode_flag = s.mode_flag := by
  simp [start_drying, menu_move_mode_flag, preheat_mode_flag, gastro_pan_check_mode_flag, lcd_time_print_mode_flag, chip_write, run_motor, stop_motor, run_heater, stop_heater, led_on, led_off,
    motor_configuration, speed_configuration, acceleration50ms, echo, beep, tDown_set, tUp_set,
    write_config, enter_drying_mode, leave_drying_mode, tDown_arm, tUp_arm, finish_beep,
    apply_ite Sys.mode_flag]

theorem start_curing_mode_flag (e : Ext) (c : Consts) (i : LoopIn) (s : Sys) :
    (start_curing e c i s).mode_flag = s.mode_flag := by
  simp [start_curing, menu_move_mode_flag, gastro_pan_check_mode_flag, lcd_time_print_mode_flag, chip_write, run_motor, stop_motor, run_heater, stop_heater, led_on, led_off,
    motor_configuration, speed_configuration, acceleration50ms, echo, beep, tDown_set, tUp_set,
    write_config, enter_drying_mode, leave_drying_mode, tDown_arm, tUp_arm, finish_beep,
    apply_ite Sys.mode_flag]

theorem stop_curing_drying_mode_flag (e : Ext) (c : Consts) (s : Sys) :
    (stop_curing_drying e c s).mode_flag = s.mode_flag := by
  unfold stop_curing_drying
  simp only []
  rw [menu_move_mode_flag, finish_beep_mode_flag]
  simp [chip_write, run_motor, stop_motor, run_heater, stop_heater, led_on, led_off,
    motor_configuration, speed_configuration, acceleration50ms, echo, beep, tDown_set, tUp_set,
    write_config, enter_drying_mode, leave_drying_mode, tDown_arm, tUp_arm, finish_beep,
    apply_ite Sys.mode_flag]

theorem tank_check_washing_mode_flag (e : Ext) (c : Consts) (i : LoopIn) (s : Sys) :
    (tank_check_washing e c i s).mode_flag = s.mode_flag := by
  simp [tank_check_washing, menu_move_mode_flag, chip_write, run_motor, stop_motor, run_heater, stop_heater, led_on, led_off,
    motor_configuration, speed_configuration, acceleration50ms, echo, beep, tDown_set, tUp_set,
    write_config, enter_drying_mode, leave_drying_mode, tDown_arm, tUp_arm, finish_beep,
    apply_ite Sys.mode_flag]

theorem washing_continue_mode_flag (e : Ext) (c : Consts) (i : LoopIn) (s : Sys) :
    (washing_continue e c i s).mode_flag = s.mode_flag := by
  simp [washing_continue, lcd_time_print_mode_flag, chip_write, run_motor, stop_motor, run_heater, stop_heater, led_on, led_off,
    motor_configuration, speed_configuration, acceleration50ms, echo, beep, tDown_set, tUp_set,
    write_config, enter_drying_mode, leave_drying_mode, tDown_arm, tUp_arm, finish_beep,
    apply_ite Sys.mode_flag]

theorem washing_complete_mode_flag (e : Ext) (c : Consts) (s : Sys) :
    (washing_complete e c s).mode_flag = s.mode_flag := by
  unfold washing_complete
  simp only []
  rw [menu_move_mode_flag, finish_beep_mode_flag]
  simp [chip_write, run_motor, stop_motor, run_heater, stop_heater, led_on, led_off,
    motor_configuration, speed_configuration, acceleration50ms, echo, beep, tDown_set, tUp_set,
    write_config, enter_drying_mode, leave_drying_mode, tDown_arm, tUp_arm, finish_beep,
    apply_ite Sys.mode_flag]

theorem start_washing_mode_flag (e : Ext) (c : Consts) (i : LoopIn) (s : Sys) :
    (start_washing e c i s).mode_flag = s.mode_flag := by
  simp [start_washing, tank_check_washing_mode_flag, washing_continue_mode_flag, washing_complete_mode_flag, chip_write, run_motor, stop_motor, run_heater, stop_heater, led_on, led_off,
    motor_configuration, speed_configuration, acceleration50ms, echo, beep, tDown_set, tUp_set,
    write_config, enter_drying_mode, leave_drying_mode, tDown_arm, tUp_arm, finish_beep,
    apply_ite Sys.mode_flag]

theorem preheat_done_mode_flag (e : Ext) (n : Nat) (s : Sys) :
    (preheat_done e n s).mode_flag = s.mode_flag := by
  simp [preheat_done, chip_write, run_motor, stop_motor, run_heater, stop_heater, led_on, led_off,
    motor_configuration, speed_configuration, acceleration50ms, echo, beep, tDown_set, tUp_set,
    write_config, enter_drying_mode, leave_drying_mode, tDown_arm, tUp_arm, finish_beep,
    apply_ite Sys.mode_flag]

theorem run_two_stage_mode_flag (e : Ext) (c : Consts) (i : LoopIn) (n : Nat) (s : Sys) :
    (run_two_stage e c i n s).mode_flag = s.mode_flag := by
  simp [run_two_stage, start_drying_mode_flag, preheat_done_mode_flag, stop_curing_drying_mode_flag, chip_write, run_motor, stop_motor, run_heater, stop_heater, led_on, led_off,
    motor_configuration, speed_configuration, acceleration50ms, echo, beep, tDown_set, tUp_set,
    write_config, enter_drying_mode, leave_drying_mode, tDown_arm, tUp_arm, finish_beep,
    apply_ite Sys.mode_flag]

theorem drying_to_curing_mode_flag (e : Ext) (c : Consts) (s : Sys) :
    (drying_to_curing e c s).mode_flag = s.mode_flag := by
  simp [drying_to_curing, menu_move_mode_flag, chip_write, run_motor, stop_motor, run_heater, stop_heater, led_on, led_off,
    motor_configuration, speed_configuration, acceleration50ms, echo, beep, tDown_set, tUp_set,
    write_config, enter_drying_mode, leave_drying_mode, tDown_arm, tUp_arm, finish_beep,
    apply_ite Sys.mode_flag]

theorem cover_check_mode_flag (e : Ext) (c : Consts) (i : LoopIn) (s : Sys) :
    (cover_check e c i s).mode_flag = s.mode_flag := by
  simp [cover_check, chip_write, run_motor, stop_motor, run_heater, stop_heater, led_on, led_off,
    motor_configuration, speed_configuration, acceleration50ms, echo, beep, tDown_set, tUp_set,
    write_config, enter_drying_mode, leave_drying_mode, tDown_arm, tUp_arm, finish_beep,
    apply_ite Sys.mode_flag]

theorem machine_running_mode_mode_flag (e : Ext) (c : Consts) (i : LoopIn) (s : Sys) :
    (machine_running_mode e c i s).mode_flag = s.mode_flag := by
  simp [machine_running_mode, run_two_stage_mode_flag, start_drying_mode_flag, start_curing_mode_flag, stop_curing_drying_mode_flag, drying_to_curing_mode_flag, preheat_done_mode_flag, chip_write, run_motor, stop_motor, run_heater, stop_heater, led_on, led_off,
    motor_configuration, speed_configuration, acceleration50ms, echo, beep, tDown_set, tUp_set,
    write_config, enter_drying_mode, leave_drying_mode, tDown_arm, tUp_arm, finish_beep,
    apply_ite Sys.mode_flag]

theorem machine_running_mode_flag (e : Ext) (c : Consts) (i : LoopIn) (s : Sys) :
    (machine_running e c i s).mode_flag = s.mode_flag := by
  simp [machine_running, machine_running_mode_mode_flag, cover_check_mode_flag, start_washing_mode_flag, chip_write, run_motor, stop_motor, run_heater, stop_heater, led_on, led_off,
    motor_configuration, speed_configuration, acceleration50ms, echo, beep, tDown_set, tUp_set,
    write_config, enter_drying_mode, leave_drying_mode, tDown_arm, tUp_arm, finish_beep,
    apply_ite Sys.mode_flag]

theorem selftest_pin_phase_mode_flag (e : Ext) (i : LoopIn) (pin : Bool) (s : Sys) :
    (selftest_pin_phase e i pin s).mode_flag = s.mode_flag := by
  simp [selftest_pin_phase, chip_write, run_motor, stop_motor, run_heater, stop_heater, led_on, led_off,
    motor_configuration, speed_configuration, acceleration50ms, echo, beep, tDown_set, tUp_set,
    write_config, enter_drying_mode, leave_drying_mode, tDown_arm, tUp_arm, finish_beep,
    apply_ite Sys.mode_flag]

theorem selftest_led_phase_mode_flag (e : Ext) (c : Consts) (i : LoopIn) (s : Sys) :
    (selftest_led_phase e c i s).mode_flag = s.mode_flag := by
  simp [selftest_led_phase, chip_write, run_motor, stop_motor, run_heater, stop_heater, led_on, led_off,
    motor_configuration, speed_configuration, acceleration50ms, echo, beep, tDown_set, tUp_set,
    write_config, enter_drying_mode, leave_drying_mode, tDown_arm, tUp_arm, finish_beep,
    apply_ite Sys.mode_flag]

theorem selftest_heater_phase_mode_flag (e : Ext) (c : Consts) (i : LoopIn) (s : Sys) :
    (selftest_heater_phase e c i s).mode_flag = s.mode_flag := by
  simp [selftest_heater_phase, chip_write, run_motor, stop_motor, run_heater, stop_heater, led_on, led_off,
    motor_configuration, speed_configuration, acceleration50ms, echo, beep, tDown_set, tUp_set,
    write_config, enter_drying_mode, leave_drying_mode, tDown_arm, tUp_arm, finish_beep,
    apply_ite Sys.mode_flag]

theorem loop_timers_mode_flag (e : Ext) (i : LoopIn) (s : Sys) :
    (loop_timers e i s).mode_flag = s.mode_flag := by
  simp [loop_timers, chip_write, run_motor, stop_motor, run_heater, stop_heater, led_on, led_off,
    motor_configuration, speed_configuration, acceleration50ms, echo, beep, tDown_set, tUp_set,
    write_config, enter_drying_mode, leave_drying_mode, tDown_arm, tUp_arm, finish_beep,
    apply_ite Sys.mode_flag]

theorem loop_heater_stop_mode_flag (e : Ext) (c : Consts) (s : Sys) :
    (loop_heater_stop e c s).mode_flag = s.mode_flag := by
  simp [loop_heater_stop, chip_write, run_motor, stop_motor, run_heater, stop_heater, led_on, led_off,
    motor_configuration, speed_configuration, acceleration50ms, echo, beep, tDown_set, tUp_set,
    write_config, enter_drying_mode, leave_drying_mode, tDown_arm, tUp_arm, finish_beep,
    apply_ite Sys.mode_flag]

theorem loop_home_mode_mode_flag (i : LoopIn) (s : Sys) :
    (loop_home_mode i s).mode_flag = s.mode_flag := by
  simp [loop_home_mode, chip_write, run_motor, stop_motor, run_heater, stop_heater, led_on, led_off,
    motor_configuration, speed_configuration, acceleration50ms, echo, beep, tDown_set, tUp_set,
    write_config, enter_drying_mode, leave_drying_mode, tDown_arm, tUp_arm, finish_beep,
    apply_ite Sys.mode_flag]

theorem loop_heater_error_mode_flag (s : Sys) :
    (loop_heater_error s).mode_flag = s.mode_flag := by
  simp [loop_heater_error, chip_write, run_motor, stop_motor, run_heater, stop_heater, led_on, led_off,
    motor_configuration, speed_configuration, acceleration50ms, echo, beep, tDown_set, tUp_set,
    write_config, enter_drying_mode, leave_drying_mode, tDown_arm, tUp_arm, finish_beep,
    apply_ite Sys.mode_flag]

theorem loop_confirm_beep_mode_flag (i : LoopIn) (s : Sys) :
    (loop_confirm_beep i s).mode_flag = s.mode_flag := by
  simp [loop_confirm_beep, chip_write, run_motor, stop_motor, run_heater, stop_heater, led_on, led_off,
    motor_configuration, speed_configuration, acceleration50ms, echo, beep, tDown_set, tUp_set,
    write_config, enter_drying_mode, leave_drying_mode, tDown_arm, tUp_arm, finish_beep,
    apply_ite Sys.mode_flag]

theorem loop_last_mode_mode_flag (s : Sys) :
    (loop_last_mode s).mode_flag = s.mode_flag := by
  simp [loop_last_mode, chip_write, run_motor, stop_motor, run_heater, stop_heater, led_on, led_off,
    motor_configuration, speed_configuration, acceleration50ms, echo, beep, tDown_set, tUp_set,
    write_config, enter_drying_mode, leave_drying_mode, tDown_arm, tUp_arm, finish_beep,
    apply_ite Sys.mode_flag]

theorem loop_acceleration_mode_flag (e : Ext) (i : LoopIn) (s : Sys) :
    (loop_acceleration e i s).mode_flag = s.mode_flag := by
  simp [loop_acceleration, chip_write, run_motor, stop_motor, run_heater, stop_heater, led_on, led_off,
    motor_configuration, speed_configuration, acceleration50ms, echo, beep, tDown_set, tUp_set,
    write_config, enter_drying_mode, leave_drying_mode, tDown_arm, tUp_arm, finish_beep,
    apply_ite Sys.mode_flag]

theorem loop_rotary_mode_flag (e : Ext) (c : Consts) (s : Sys) :
    (loop_rotary e c s).mode_flag = s.mode_flag := by
  simp [loop_rotary, menu_move_mode_flag, chip_write, run_motor, stop_motor, run_heater, stop_heater, led_on, led_off,
    motor_configuration, speed_configuration, acceleration50ms, echo, beep, tDown_set, tUp_set,
    write_config, enter_drying_mode, leave_drying_mode, tDown_arm, tUp_arm, finish_beep,
    apply_ite Sys.mode_flag]

theorem loop_running_mode_flag (e : Ext) (c : Consts) (i : LoopIn) (s : Sys) :
    (loop_running e c i s).mode_flag = s.mode_flag := by
  simp [loop_running, machine_running_mode_flag, chip_write, run_motor, stop_motor, run_heater, stop_heater, led_on, led_off,
    motor_configuration, speed_configuration, acceleration50ms, echo, beep, tDown_set, tUp_set,
    write_config, enter_drying_mode, leave_drying_mode, tDown_arm, tUp_arm, finish_beep,
    apply_ite Sys.mode_flag]

theorem loop_reinit_mode_flag (e : Ext) (c : Consts) (i : LoopIn) (s : Sys) :
    (loop_reinit e c i s).mode_flag = s.mode_flag := by
  simp [loop_reinit, menu_move_mode_flag, chip_write, run_motor, stop_motor, run_heater, stop_heater, led_on, led_off,
    motor_configuration, speed_configuration, acceleration50ms, echo, beep, tDown_set, tUp_set,
    write_config, enter_drying_mode, leave_drying_mode, tDown_arm, tUp_arm, finish_beep,
    apply_ite Sys.mode_flag]

theorem loop_therm_mode_flag (i : LoopIn) (s : Sys) :
    (loop_therm i s).mode_flag = s.mode_flag := by
  simp [loop_therm, therm1_read, chip_write, run_motor, stop_motor, run_heater, stop_heater, led_on, led_off,
    motor_configuration, speed_configuration, acceleration50ms, echo, beep, tDown_set, tUp_set,
    write_config, enter_drying_mode, leave_drying_mode, tDown_arm, tUp_arm, finish_beep,
    apply_ite Sys.mode_flag]

theorem long_press_action_mode_flag (e : Ext) (c : Consts) (s : Sys) :
    (long_press_action e c s).mode_flag = s.mode_flag := by
  unfold long_press_action
  split
  · rw [menu_move_mode_flag]
  · rw [menu_move_mode_flag]
  · rw [menu_move_mode_flag, run_stop_mode_flag]
  · rfl

theorem start_run_curing_mode_flag (e : Ext) (c : Consts) (s : Sys) :
    (start_run_curing e c s).mode_flag = s.mode_flag := by
  simp [start_run_curing, chip_write, run_motor, stop_motor, run_heater, stop_heater, led_on, led_off,
    motor_configuration, speed_configuration, acceleration50ms, echo, beep, tDown_set, tUp_set,
    write_config, enter_drying_mode, leave_drying_mode, tDown_arm, tUp_arm, finish_beep,
    apply_ite Sys.mode_flag]

theorem button_press_home_mode_flag (e : Ext) (c : Consts) (i : LoopIn) (s : Sys) :
    (button_press_home e c i s).mode_flag = s.mode_flag := by
  simp [button_press_home, start_run_curing_mode_flag, menu_move_mode_flag, chip_write, run_motor, stop_motor, run_heater, stop_heater, led_on, led_off,
    motor_configuration, speed_configuration, acceleration50ms, echo, beep, tDown_set, tUp_set,
    write_config, enter_drying_mode, leave_drying_mode, tDown_arm, tUp_arm, finish_beep,
    apply_ite Sys.mode_flag]

theorem button_press_run_menu_mode_flag (e : Ext) (c : Consts) (s : Sys) :
    (button_press_run_menu e c s).mode_flag = s.mode_flag := by
  simp [button_press_run_menu, run_stop_mode_flag, chip_write, run_motor, stop_motor, run_heater, stop_heater, led_on, led_off,
    motor_configuration, speed_configuration, acceleration50ms, echo, beep, tDown_set, tUp_set,
    write_config, enter_drying_mode, leave_drying_mode, tDown_arm, tUp_arm, finish_beep,
    apply_ite Sys.mode_flag]

theorem button_press_selftest_mode_flag (e : Ext) (s : Sys) :
    (button_press_selftest e s).mode_flag = s.mode_flag := by
  simp [button_press_selftest, selftest_confirm, chip_write, run_motor, stop_motor, run_heater, stop_heater, led_on, led_off,
    motor_configuration, speed_configuration, acceleration50ms, echo, beep, tDown_set, tUp_set,
    write_config, enter_drying_mode, leave_drying_mode, tDown_arm, tUp_arm, finish_beep,
    apply_ite Sys.mode_flag]

theorem button_press_state_mode_flag (e : Ext) (c : Consts) (i : LoopIn) (s : Sys) :
    (button_press_state e c i s).mode_flag = s.mode_flag := by
  unfold button_press_state
  split <;> simp [button_press_settings, button_press_sound, button_press_fans, button_press_preheat, button_press_speed, button_press_time, button_press_home_mode_flag, button_press_run_menu_mode_flag, button_press_selftest_mode_flag, chip_write, run_motor, stop_motor, run_heater, stop_heater, led_on, led_off,
    motor_configuration, speed_configuration, acceleration50ms, echo, beep, tDown_set, tUp_set,
    write_config, enter_drying_mode, leave_drying_mode, tDown_arm, tUp_arm, finish_beep,
    apply_ite Sys.mode_flag]

theorem button_press_mode_flag (e : Ext) (c : Consts) (i : LoopIn) (s : Sys) :
    (button_press e c i s).mode_flag = s.mode_flag := by
  simp [button_press, button_press_state_mode_flag, menu_move_mode_flag, chip_write, run_motor, stop_motor, run_heater, stop_heater, led_on, led_off,
    motor_configuration, speed_configuration, acceleration50ms, echo, beep, tDown_set, tUp_set,
    write_config, enter_drying_mode, leave_drying_mode, tDown_arm, tUp_arm, finish_beep,
    apply_ite Sys.mode_flag]

theorem button_down_mode_flag (e : Ext) (c : Consts) (i : LoopIn) (s : Sys) :
    (button_down e c i s).mode_flag = s.mode_flag := by
  simp [button_down, long_press_action_mode_flag, chip_write, run_motor, stop_motor, run_heater, stop_heater, led_on, led_off,
    motor_configuration, speed_configuration, acceleration50ms, echo, beep, tDown_set, tUp_set,
    write_config, enter_drying_mode, leave_drying_mode, tDown_arm, tUp_arm, finish_beep,
    apply_ite Sys.mode_flag]

theorem button_up_mode_flag (e : Ext) (c : Consts) (i : LoopIn) (s : Sys) :
    (button_up e c i s).mode_flag = s.mode_flag := by
  simp [button_up, button_press_mode_flag, chip_write, run_motor, stop_motor, run_heater, stop_heater, led_on, led_off,
    motor_configuration, speed_configuration, acceleration50ms, echo, beep, tDown_set, tUp_set,
    write_config, enter_drying_mode, leave_drying_mode, tDown_arm, tUp_arm, finish_beep,
    apply_ite Sys.mode_flag]

theorem loop_button_mode_flag (e : Ext) (c : Consts) (i : LoopIn) (s : Sys) :
    (loop_button e c i s).mode_flag = s.mode_flag := by
  simp [loop_button, button_down_mode_flag, button_up_mode_flag, chip_write, run_motor, stop_motor, run_heater, stop_heater, led_on, led_off,
    motor_configuration, speed_configuration, acceleration50ms, echo, beep, tDown_set, tUp_set,
    write_config, enter_drying_mode, leave_drying_mode, tDown_arm, tUp_arm, finish_beep,
    apply_ite Sys.mode_flag]

theorem read_encoder_mode_flag (c : Consts) (t : TickIn) (s : Sys) :
    (read_encoder c t s).mode_flag = s.mode_flag := by
  simp [read_encoder, chip_write, run_motor, stop_motor, run_heater, stop_heater, led_on, led_off,
    motor_configuration, speed_configuration, acceleration50ms, echo, beep, tDown_set, tUp_set,
    write_config, enter_drying_mode, leave_drying_mode, tDown_arm, tUp_arm, finish_beep,
    apply_ite Sys.mode_flag]

theorem tick_pid_mode_flag (c : Consts) (s : Sys) :
    (tick_pid c s).mode_flag = s.mode_flag := by
  simp [tick_pid, chip_write, run_motor, stop_motor, run_heater, stop_heater, led_on, led_off,
    motor_configuration, speed_configuration, acceleration50ms, echo, beep, tDown_set, tUp_set,
    write_config, enter_drying_mode, leave_drying_mode, tDown_arm, tUp_arm, finish_beep,
    apply_ite Sys.mode_flag]

theorem fan1_pwm_control_mode_flag (c : Consts) (m : Nat) (s : Sys) :
    (fan1_pwm_control c m s).mode_flag = s.mode_flag := by
  simp [fan1_pwm_control, chip_write, run_motor, stop_motor, run_heater, stop_heater, led_on, led_off,
    motor_configuration, speed_configuration, acceleration50ms, echo, beep, tDown_set, tUp_set,
    write_config, enter_drying_mode, leave_drying_mode, tDown_arm, tUp_arm, finish_beep,
    apply_ite Sys.mode_flag]

theorem fan2_pwm_control_mode_flag (c : Consts) (m : Nat) (s : Sys) :
    (fan2_pwm_control c m s).mode_flag = s.mode_flag := by
  simp [fan2_pwm_control, chip_write, run_motor, stop_motor, run_heater, stop_heater, led_on, led_off,
    motor_configuration, speed_configuration, acceleration50ms, echo, beep, tDown_set, tUp_set,
    write_config, enter_drying_mode, leave_drying_mode, tDown_arm, tUp_arm, finish_beep,
    apply_ite Sys.mode_flag]

theorem fan_pwm_control_mode_flag (c : Consts) (t : TickIn) (s : Sys) :
    (fan_pwm_control c t s).mode_flag = s.mode_flag := by
  simp [fan_pwm_control, fan1_pwm_control_mode_flag, fan2_pwm_control_mode_flag, chip_write, run_motor, stop_motor, run_heater, stop_heater, led_on, led_off,
    motor_configuration, speed_configuration, acceleration50ms, echo, beep, tDown_set, tUp_set,
    write_config, enter_drying_mode, leave_drying_mode, tDown_arm, tUp_arm, finish_beep,
    apply_ite Sys.mode_flag]

theorem fan_rpm_check_mode_flag (j : Nat) (s : Sys) :
    (fan_rpm_check j s).mode_flag = s.mode_flag := by
  simp [fan_rpm_check, chip_write, run_motor, stop_motor, run_heater, stop_heater, led_on, led_off,
    motor_configuration, speed_configuration, acceleration50ms, echo, beep, tDown_set, tUp_set,
    write_config, enter_drying_mode, leave_drying_mode, tDown_arm, tUp_arm, finish_beep,
    apply_ite Sys.mode_flag]

theorem fan_rpm_heater_mode_flag (s : Sys) :
    (fan_rpm_heater s).mode_flag = s.mode_flag := by
  simp [fan_rpm_heater, chip_write, run_motor, stop_motor, run_heater, stop_heater, led_on, led_off,
    motor_configuration, speed_configuration, acceleration50ms, echo, beep, tDown_set, tUp_set,
    write_config, enter_drying_mode, leave_drying_mode, tDown_arm, tUp_arm, finish_beep,
    apply_ite Sys.mode_flag]

theorem fan_rpm_mode_flag (s : Sys) :
    (fan_rpm s).mode_flag = s.mode_flag := by
  simp [fan_rpm, fan_rpm_check_mode_flag, fan_rpm_heater_mode_flag, chip_write, run_motor, stop_motor, run_heater, stop_heater, led_on, led_off,
    motor_configuration, speed_configuration, acceleration50ms, echo, beep, tDown_set, tUp_set,
    write_config, enter_drying_mode, leave_drying_mode, tDown_arm, tUp_arm, finish_beep,
    apply_ite Sys.mode_flag]

theorem fan_tacho_mode_flag (j : Nat) (s : Sys) :
    (fan_tacho j s).mode_flag = s.mode_flag := by
  simp [fan_tacho, chip_write, run_motor, stop_motor, run_heater, stop_heater, led_on, led_off,
    motor_configuration, speed_configuration, acceleration50ms, echo, beep, tDown_set, tUp_set,
    write_config, enter_drying_mode, leave_drying_mode, tDown_arm, tUp_arm, finish_beep,
    apply_ite Sys.mode_flag]

theorem TIMER0_COMPA_vect_mode_flag (c : Consts) (t : TickIn) (s : Sys) :
    (TIMER0_COMPA_vect c t s).mode_flag = s.mode_flag := by
  simp [TIMER0_COMPA_vect, read_encoder_mode_flag, tick_pid_mode_flag, fan_pwm_control_mode_flag, fan_rpm_mode_flag, chip_write, run_motor, stop_motor, run_heater, stop_heater, led_on, led_off,
    motor_configuration, speed_configuration, acceleration50ms, echo, beep, tDown_set, tUp_set,
    write_config, enter_drying_mode, leave_drying_mode, tDown_arm, tUp_arm, finish_beep,
    apply_ite Sys.mode_flag]
theorem sweep_apply_flag_down (e : Ext) (c : Consts) (s : Sys) (h : s.mode_flag = false) :
    (sweep_apply e c s).mode_flag = false
    ∧ (sweep_apply e c s).out.ihold_irun
        = (if e.is_first_loop s.selftest then (31, 31, 5) else s.out.ihold_irun)
    ∧ (sweep_apply e c s).out.mres
        = (if e.is_first_loop s.selftest then 16 else s.out.mres) := by
  unfold sweep_apply
  cases hf : e.is_first_loop s.selftest <;>
    simp [h, hf, speed_configuration, run_motor, chip_write, apply_ite Sys.mode_flag,
      apply_ite Sys.out]

theorem sweep_advance_flag_down (e : Ext) (c : Consts) (s : Sys) (h : s.mode_flag = false) :
    (sweep_advance e c s).mode_flag = false
    ∧ (sweep_advance e c s).out.ihold_irun = s.out.ihold_irun
    ∧ (sweep_advance e c s).out.mres = s.out.mres := by
  unfold sweep_advance
  simp [h, stop_motor, chip_write, apply_ite Sys.mode_flag, apply_ite Sys.out,
    apply_ite Outputs.mres, apply_ite Outputs.ihold_irun]

theorem selftest_rotation_step_flag_down (e : Ext) (c : Consts) (s : Sys)
    (h : s.mode_flag = false) :
    (selftest_rotation_step e c s).mode_flag = false
    ∧ (selftest_rotation_step e c s).out.ihold_irun
        = (if e.is_first_loop s.selftest then (31, 31, 5) else s.out.ihold_irun)
    ∧ (selftest_rotation_step e c s).out.mres
        = (if e.is_first_loop s.selftest then 16 else s.out.mres) := by
  rw [selftest_rotation_step_halves]
  have ha := sweep_apply_flag_down e c s h
  have hb := sweep_advance_flag_down e c _ ha.1
  exact ⟨hb.1, hb.2.1.trans ha.2.1, hb.2.2.trans ha.2.2⟩

theorem loop_selftest_flag_down (e : Ext) (c : Consts) (i : LoopIn) (s : Sys)
    (h : s.mode_flag = false) : (loop_selftest e c i s).mode_flag = false := by
  have hstep : ∀ u : Sys, u.mode_flag = false →
      (selftest_rotation_phase e c i u).mode_flag = false := by
    intro u hu
    unfold selftest_rotation_phase
    split
    · simp only []
      split
      · refine (selftest_rotation_step_flag_down e c _ ?_).1
        exact hu
      · exact hu
    · exact hu
  have key : ∀ p : Sys, p.mode_flag = false →
      (if p.selftest.phase = 1 then selftest_pin_phase e i i.cover_open_pin p
       else if p.selftest.phase = 2 then selftest_pin_phase e i i.wash_detect_pin p
       else if p.selftest.phase = 3 then
         { { p with selftest :=
              e.ventilation_test i.millis (p.fan_error 0) (p.fan_error 1) p.selftest } with
            fan_duty := (e.ventilation_test i.millis (p.fan_error 0) (p.fan_error 1)
              p.selftest).fans_speed }
       else if p.selftest.phase = 4 then selftest_led_phase e c i p
       else if p.selftest.phase = 5 then selftest_heater_phase e c i p
       else if p.selftest.phase = 6 then selftest_rotation_phase e c i p
       else p).mode_flag = false := by
    intro p hp
    split
    · rw [selftest_pin_phase_mode_flag]; exact hp
    · split
      · rw [selftest_pin_phase_mode_flag]; exact hp
      · split
        · exact hp
        · split
          · rw [selftest_led_phase_mode_flag]; exact hp
          · split
            · rw [selftest_heater_phase_mode_flag]; exact hp
            · split
              · exact hstep p hp
              · exact hp
  unfold loop_selftest
  by_cases hst : s.state = menu_state.SELFTEST
  · rw [if_pos hst]
    refine key _ ?_
    simp [h, apply_ite Sys.mode_flag]
  · rw [if_neg hst]; exact h

theorem loop_flag_down (e : Ext) (c : Consts) (i : LoopIn) (s : Sys)
    (h : s.mode_flag = false) : (loop e c i s).mode_flag = false := by
  unfold loop loop_tail
  simp only []
  rw [loop_therm_mode_flag, loop_reinit_mode_flag, loop_button_mode_flag,
    loop_running_mode_flag, loop_rotary_mode_flag, loop_acceleration_mode_flag,
    loop_last_mode_mode_flag, loop_confirm_beep_mode_flag, loop_heater_error_mode_flag,
    loop_home_mode_mode_flag, loop_heater_stop_mode_flag]
  apply loop_selftest_flag_down
  rw [loop_timers_mode_flag]; exact h

theorem run_steps_flag_down (e : Ext) (c : Consts) (steps : List Step) :
    ∀ s : Sys, s.mode_flag = false → (run_steps e c steps s).mode_flag = false := by
  induction steps with
  | nil => intro s h; exact h
  | cons st rest ih =>
    intro s h
    unfold run_steps
    apply ih
    cases st with
    | loop i => exact loop_flag_down e c i s h
    | tick i => simp only [step]; rw [TIMER0_COMPA_vect_mode_flag]; exact h
    | pulse j => simp only [step]; rw [fan_tacho_mode_flag]; exact h
/-- C34, where the code departs from the claim: `mode_flag`, which selects the
cure-gear sweep of self-test phase 6, is never set again once the first sweep
has cleared it.  From a state with the flag clear, whatever loop passes, ticks
and tachometer pulses follow, the flag is clear, the swept speed is the washing
speed, and a fired step of phase 6 sets the driver up for washing only (current
31/31/5, 16 microsteps, on its first loop) and leaves the flag clear: the
cure-gear sweep is not performed again. -/
theorem sweep_flag_stays_down (e : Ext) (c : Consts) (steps : List Step) (s : Sys)
    (h : s.mode_flag = false) :
    (run_steps e c steps s).mode_flag = false
    ∧ swept_speed (run_steps e c steps s) = (run_steps e c steps s).speed_control.washing_speed
    ∧ (selftest_rotation_step e c (run_steps e c steps s)).mode_flag = false
    ∧ (selftest_rotation_step e c (run_steps e c steps s)).out.ihold_irun
        = (if e.is_first_loop (run_steps e c steps s).selftest then (31, 31, 5)
           else (run_steps e c steps s).out.ihold_irun)
    ∧ (selftest_rotation_step e c (run_steps e c steps s)).out.mres
        = (if e.is_first_loop (run_steps e c steps s).selftest then 16
           else (run_steps e c steps s).out.mres) := by
  have hu := run_steps_flag_down e c steps s h
  refine ⟨hu, ?_, selftest_rotation_step_flag_down e c _ hu⟩
  simp [swept_speed, hu]

set_option maxRecDepth 100000 in
theorem sweep_flag_stays_down_witness :
    sweep_entry.mode_flag = true
    ∧ sweep_driver sweep_ext sample_consts (List.replicate 22 (idle_in 0)) sweep_entry
        = List.replicate 11 (256, 10, 10, 0) ++ List.replicate 11 (16, 31, 31, 5)
    ∧ sweep_ended.mode_flag = false
    ∧ sweep_again.selftest = sweep_entry.selftest
    ∧ sweep_driver sweep_ext sample_consts (List.replicate 11 (idle_in 0)) sweep_again
        = List.replicate 11 (16, 31, 31, 5)
    ∧ (sweep_passes sweep_ext sample_consts (List.replicate 11 (idle_in 0))
        sweep_again).selftest.rotation_test = true
    ∧ (run_steps sweep_ext sample_consts [Step.loop (idle_in 200)] sweep_ended).mode_flag
        = false
    ∧ (selftest_rotation_step sweep_ext sample_consts sweep_again).out.mres = 16 :=
  ⟨by decide, by decide, by decide, rfl, by decide, by decide,
    (sweep_flag_stays_down sweep_ext sample_consts [Step.loop (idle_in 200)] sweep_ended
      (by decide)).1,
    ((sweep_flag_stays_down sweep_ext sample_consts [] sweep_again (by decide)).2.2.2.2).trans
      (by decide)⟩

/-! ### The cursor: what leaves the screen and the cursor alone -/

theorem preheat_place (e : Ext) (c : Consts) (s : Sys) :
    (preheat e c s).state = s.state ∧ (preheat e c s).menu_position = s.menu_position := by
  simp [preheat, chip_write, run_motor, stop_motor, run_heater, stop_heater, led_on, led_off,
    motor_configuration, speed_configuration, acceleration50ms, echo, beep, tDown_set, tUp_set,
    write_config, enter_drying_mode, leave_drying_mode, tDown_arm, tUp_arm,
    apply_ite Sys.state, apply_ite Sys.menu_position]

theorem lcd_time_print_place (e : Ext) (c : Consts) (s : Sys) :
    (lcd_time_print e c s).state = s.state ∧ (lcd_time_print e c s).menu_position = s.menu_position := by
  simp [lcd_time_print, chip_write, run_motor, stop_motor, run_heater, stop_heater, led_on, led_off,
    motor_configuration, speed_configuration, acceleration50ms, echo, beep, tDown_set, tUp_set,
    write_config, enter_drying_mode, leave_drying_mode, tDown_arm, tUp_arm,
    apply_ite Sys.state, apply_ite Sys.menu_position]

theorem washing_continue_place (e : Ext) (c : Consts) (i : LoopIn) (s : Sys) :
    (washing_continue e c i s).state = s.state ∧ (washing_continue e c i s).menu_position = s.menu_position := by
  simp [washing_continue, lcd_time_print_place, chip_write, run_motor, stop_motor, run_heater, stop_heater, led_on, led_off,
    motor_configuration, speed_configuration, acceleration50ms, echo, beep, tDown_set, tUp_set,
    write_config, enter_drying_mode, leave_drying_mode, tDown_arm, tUp_arm,
    apply_ite Sys.state, apply_ite Sys.menu_position]

theorem preheat_done_place (e : Ext) (n : Nat) (s : Sys) :
    (preheat_done e n s).state = s.state ∧ (preheat_done e n s).menu_position = s.menu_position := by
  simp [preheat_done, chip_write, run_motor, stop_motor, run_heater, stop_heater, led_on, led_off,
    motor_configuration, speed_configuration, acceleration50ms, echo, beep, tDown_set, tUp_set,
    write_config, enter_drying_mode, leave_drying_mode, tDown_arm, tUp_arm,
    apply_ite Sys.state, apply_ite Sys.menu_position]

theorem cover_check_place (e : Ext) (c : Consts) (i : LoopIn) (s : Sys) :
    (cover_check e c i s).state = s.state ∧ (cover_check e c i s).menu_position = s.menu_position := by
  simp [cover_check, chip_write, run_motor, stop_motor, run_heater, stop_heater, led_on, led_off,
    motor_configuration, speed_configuration, acceleration50ms, echo, beep, tDown_set, tUp_set,
    write_config, enter_drying_mode, leave_drying_mode, tDown_arm, tUp_arm,
    apply_ite Sys.state, apply_ite Sys.menu_position]

theorem selftest_pin_phase_place (e : Ext) (i : LoopIn) (pin : Bool) (s : Sys) :
    (selftest_pin_phase e i pin s).state = s.state ∧ (selftest_pin_phase e i pin s).menu_position = s.menu_position := by
  simp [selftest_pin_phase, chip_write, run_motor, stop_motor, run_heater, stop_heater, led_on, led_off,
    motor_configuration, speed_configuration, acceleration50ms, echo, beep, tDown_set, tUp_set,
    write_config, enter_drying_mode, leave_drying_mode, tDown_arm, tUp_arm,
    apply_ite Sys.state, apply_ite Sys.menu_position]

theorem selftest_led_phase_place (e : Ext) (c : Consts) (i : LoopIn) (s : Sys) :
    (selftest_led_phase e c i s).state = s.state ∧ (selftest_led_phase e c i s).menu_position = s.menu_position := by
  simp [selftest_led_phase, chip_write, run_motor, stop_motor, run_heater, stop_heater, led_on, led_off,
    motor_configuration, speed_configuration, acceleration50ms, echo, beep, tDown_set, tUp_set,
    write_config, enter_drying_mode, leave_drying_mode, tDown_arm, tUp_arm,
    apply_ite Sys.state, apply_ite Sys.menu_position]

theorem selftest_heater_phase_place (e : Ext) (c : Consts) (i : LoopIn) (s : Sys) :
    (selftest_heater_phase e c i s).state = s.state ∧ (selftest_heater_phase e c i s).menu_position = s.menu_position := by
  simp [selftest_heater_phase, chip_write, run_motor, stop_motor, run_heater, stop_heater, led_on, led_off,
    motor_configuration, speed_configuration, acceleration50ms, echo, beep, tDown_set, tUp_set,
    write_config, enter_drying_mode, leave_drying_mode, tDown_arm, tUp_arm,
    apply_ite Sys.state, apply_ite Sys.menu_position]

theorem sweep_apply_place (e : Ext) (c : Consts) (s : Sys) :
    (sweep_apply e c s).state = s.state ∧ (sweep_apply e c s).menu_position = s.menu_position := by
  simp [sweep_apply, chip_write, run_motor, stop_motor, run_heater, stop_heater, led_on, led_off,
    motor_configuration, speed_configuration, acceleration50ms, echo, beep, tDown_set, tUp_set,
    write_config, enter_drying_mode, leave_drying_mode, tDown_arm, tUp_arm,
    apply_ite Sys.state, apply_ite Sys.menu_position]

theorem sweep_advance_place (e : Ext) (c : Consts) (s : Sys) :
    (sweep_advance e c s).state = s.state ∧ (sweep_advance e c s).menu_position = s.menu_position := by
  simp [sweep_advance, chip_write, run_motor, stop_motor, run_heater, stop_heater, led_on, led_off,
    motor_configuration, speed_configuration, acceleration50ms, echo, beep, tDown_set, tUp_set,
    write_config, enter_drying_mode, leave_drying_mode, tDown_arm, tUp_arm,
    apply_ite Sys.state, apply_ite Sys.menu_position]

theorem loop_timers_place (e : Ext) (i : LoopIn) (s : Sys) :
    (loop_timers e i s).state = s.state ∧ (loop_timers e i s).menu_position = s.menu_position := by
  simp [loop_timers, chip_write, run_motor, stop_motor, run_heater, stop_heater, led_on, led_off,
    motor_configuration, speed_configuration, acceleration50ms, echo, beep, tDown_set, tUp_set,
    write_config, enter_drying_mode, leave_drying_mode, tDown_arm, tUp_arm,
    apply_ite Sys.state, apply_ite Sys.menu_position]

theorem loop_heater_stop_place (e : Ext) (c : Consts) (s : Sys) :
    (loop_heater_stop e c s).state = s.state ∧ (loop_heater_stop e c s).menu_position = s.menu_position := by
  simp [loop_heater_stop, chip_write, run_motor, stop_motor, run_heater, stop_heater, led_on, led_off,
    motor_configuration, speed_configuration, acceleration50ms, echo, beep, tDown_set, tUp_set,
    write_config, enter_drying_mode, leave_drying_mode, tDown_arm, tUp_arm,
    apply_ite Sys.state, apply_ite Sys.menu_position]

theorem loop_home_mode_place (i : LoopIn) (s : Sys) :
    (loop_home_mode i s).state = s.state ∧ (loop_home_mode i s).menu_position = s.menu_position := by
  simp [loop_home_mode, chip_write, run_motor, stop_motor, run_heater, stop_heater, led_on, led_off,
    motor_configuration, speed_configuration, acceleration50ms, echo, beep, tDown_set, tUp_set,
    write_config, enter_drying_mode, leave_drying_mode, tDown_arm, tUp_arm,
    apply_ite Sys.state, apply_ite Sys.menu_position]

theorem loop_confirm_beep_place (i : LoopIn) (s : Sys) :
    (loop_confirm_beep i s).state = s.state ∧ (loop_confirm_beep i s).menu_position = s.menu_position := by
  simp [loop_confirm_beep, chip_write, run_motor, stop_motor, run_heater, stop_heater, led_on, led_off,
    motor_configuration, speed_configuration, acceleration50ms, echo, beep, tDown_set, tUp_set,
    write_config, enter_drying_mode, leave_drying_mode, tDown_arm, tUp_arm,
    apply_ite Sys.state, apply_ite Sys.menu_position]

theorem loop_last_mode_place (s : Sys) :
    (loop_last_mode s).state = s.state ∧ (loop_last_mode s).menu_position = s.menu_position := by
  simp [loop_last_mode, chip_write, run_motor, stop_motor, run_heater, stop_heater, led_on, led_off,
    motor_configuration, speed_configuration, acceleration50ms, echo, beep, tDown_set, tUp_set,
    write_config, enter_drying_mode, leave_drying_mode, tDown_arm, tUp_arm,
    apply_ite Sys.state, apply_ite Sys.menu_position]

theorem loop_acceleration_place (e : Ext) (i : LoopIn) (s : Sys) :
    (loop_acceleration e i s).state = s.state ∧ (loop_acceleration e i s).menu_position = s.menu_position := by
  simp [loop_acceleration, chip_write, run_motor, stop_motor, run_heater, stop_heater, led_on, led_off,
    motor_configuration, speed_configuration, acceleration50ms, echo, beep, tDown_set, tUp_set,
    write_config, enter_drying_mode, leave_drying_mode, tDown_arm, tUp_arm,
    apply_ite Sys.state, apply_ite Sys.menu_position]

theorem loop_therm_place (i : LoopIn) (s : Sys) :
    (loop_therm i s).state = s.state ∧ (loop_therm i s).menu_position = s.menu_position := by
  simp [loop_therm, therm1_read, chip_write, run_motor, stop_motor, run_heater, stop_heater, led_on, led_off,
    motor_configuration, speed_configuration, acceleration50ms, echo, beep, tDown_set, tUp_set,
    write_config, enter_drying_mode, leave_drying_mode, tDown_arm, tUp_arm,
    apply_ite Sys.state, apply_ite Sys.menu_position]

theorem start_run_curing_place (e : Ext) (c : Consts) (s : Sys) :
    (start_run_curing e c s).state = s.state ∧ (start_run_curing e c s).menu_position = s.menu_position := by
  simp [start_run_curing, chip_write, run_motor, stop_motor, run_heater, stop_heater, led_on, led_off,
    motor_configuration, speed_configuration, acceleration50ms, echo, beep, tDown_set, tUp_set,
    write_config, enter_drying_mode, leave_drying_mode, tDown_arm, tUp_arm,
    apply_ite Sys.state, apply_ite Sys.menu_position]

theorem read_encoder_place (c : Consts) (t : TickIn) (s : Sys) :
    (read_encoder c t s).state = s.state ∧ (read_encoder c t s).menu_position = s.menu_position := by
  simp [read_encoder, chip_write, run_motor, stop_motor, run_heater, stop_heater, led_on, led_off,
    motor_configuration, speed_configuration, acceleration50ms, echo, beep, tDown_set, tUp_set,
    write_config, enter_drying_mode, leave_drying_mode, tDown_arm, tUp_arm,
    apply_ite Sys.state, apply_ite Sys.menu_position]

theorem tick_pid_place (c : Consts) (s : Sys) :
    (tick_pid c s).state = s.state ∧ (tick_pid c s).menu_position = s.menu_position := by
  simp [tick_pid, chip_write, run_motor, stop_motor, run_heater, stop_heater, led_on, led_off,
    motor_configuration, speed_configuration, acceleration50ms, echo, beep, tDown_set, tUp_set,
    write_config, enter_drying_mode, leave_drying_mode, tDown_arm, tUp_arm,
    apply_ite Sys.state, apply_ite Sys.menu_position]

theorem fan1_pwm_control_place (c : Consts) (m : Nat) (s : Sys) :
    (fan1_pwm_control c m s).state = s.state ∧ (fan1_pwm_control c m s).menu_position = s.menu_position := by
  simp [fan1_pwm_control, chip_write, run_motor, stop_motor, run_heater, stop_heater, led_on, led_off,
    motor_configuration, speed_configuration, acceleration50ms, echo, beep, tDown_set, tUp_set,
    write_config, enter_drying_mode, leave_drying_mode, tDown_arm, tUp_arm,
    apply_ite Sys.state, apply_ite Sys.menu_position]

theorem fan2_pwm_control_place (c : Consts) (m : Nat) (s : Sys) :
    (fan2_pwm_control c m s).state = s.state ∧ (fan2_pwm_control c m s).menu_position = s.menu_position := by
  simp [fan2_pwm_control, chip_write, run_motor, stop_motor, run_heater, stop_heater, led_on, led_off,
    motor_configuration, speed_configuration, acceleration50ms, echo, beep, tDown_set, tUp_set,
    write_config, enter_drying_mode, leave_drying_mode, tDown_arm, tUp_arm,
    apply_ite Sys.state, apply_ite Sys.menu_position]

theorem fan_pwm_control_place (c : Consts) (t : TickIn) (s : Sys) :
    (fan_pwm_control c t s).state = s.state ∧ (fan_pwm_control c t s).menu_position = s.menu_position := by
  simp [fan_pwm_control, fan1_pwm_control_place, fan2_pwm_control_place, chip_write, run_motor, stop_motor, run_heater, stop_heater, led_on, led_off,
    motor_configuration, speed_configuration, acceleration50ms, echo, beep, tDown_set, tUp_set,
    write_config, enter_drying_mode, leave_drying_mode, tDown_arm, tUp_arm,
    apply_ite Sys.state, apply_ite Sys.menu_position]

theorem fan_rpm_check_place (j : Nat) (s : Sys) :
    (fan_rpm_check j s).state = s.state ∧ (fan_rpm_check j s).menu_position = s.menu_position := by
  simp [fan_rpm_check, chip_write, run_motor, stop_motor, run_heater, stop_heater, led_on, led_off,
    motor_configuration, speed_configuration, acceleration50ms, echo, beep, tDown_set, tUp_set,
    write_config, enter_drying_mode, leave_drying_mode, tDown_arm, tUp_arm,
    apply_ite Sys.state, apply_ite Sys.menu_position]

theorem fan_rpm_heater_place (s : Sys) :
    (fan_rpm_heater s).state = s.state ∧ (fan_rpm_heater s).menu_position = s.menu_position := by
  simp [fan_rpm_heater, chip_write, run_motor, stop_motor, run_heater, stop_heater, led_on, led_off,
    motor_configuration, speed_configuration, acceleration50ms, echo, beep, tDown_set, tUp_set,
    write_config, enter_drying_mode, leave_drying_mode, tDown_arm, tUp_arm,
    apply_ite Sys.state, apply_ite Sys.menu_position]

theorem fan_rpm_place (s : Sys) :
    (fan_rpm s).state = s.state ∧ (fan_rpm s).menu_position = s.menu_position := by
  simp [fan_rpm, fan_rpm_check_place, fan_rpm_heater_place, chip_write, run_motor, stop_motor, run_heater, stop_heater, led_on, led_off,
    motor_configuration, speed_configuration, acceleration50ms, echo, beep, tDown_set, tUp_set,
    write_config, enter_drying_mode, leave_drying_mode, tDown_arm, tUp_arm,
    apply_ite Sys.state, apply_ite Sys.menu_position]

theorem fan_tacho_place (j : Nat) (s : Sys) :
    (fan_tacho j s).state = s.state ∧ (fan_tacho j s).menu_position = s.menu_position := by
  simp [fan_tacho, chip_write, run_motor, stop_motor, run_heater, stop_heater, led_on, led_off,
    motor_configuration, speed_configuration, acceleration50ms, echo, beep, tDown_set, tUp_set,
    write_config, enter_drying_mode, leave_drying_mode, tDown_arm, tUp_arm,
    apply_ite Sys.state, apply_ite Sys.menu_position]

theorem TIMER0_COMPA_vect_place (c : Consts) (t : TickIn) (s : Sys) :
    (TIMER0_COMPA_vect c t s).state = s.state ∧ (TIMER0_COMPA_vect c t s).menu_position = s.menu_position := by
  simp [TIMER0_COMPA_vect, read_encoder_place, tick_pid_place, fan_pwm_control_place, fan_rpm_place, chip_write, run_motor, stop_motor, run_heater, stop_heater, led_on, led_off,
    motor_configuration, speed_configuration, acceleration50ms, echo, beep, tDown_set, tUp_set,
    write_config, enter_drying_mode, leave_drying_mode, tDown_arm, tUp_arm,
    apply_ite Sys.state, apply_ite Sys.menu_position]
/-! ### The cursor stays within the screen -/

theorem cursor_ok_frame (s t : Sys) (hs : t.state = s.state)
    (hp : t.menu_position = s.menu_position) (h : cursor_ok s) : cursor_ok t := by
  unfold cursor_ok at *
  rw [hs, hp]; exact h

theorem cursor_fits_zero (st : menu_state) : cursor_fits st 0 := by
  unfold cursor_fits
  split <;> simp

theorem cursor_ok_zero (s : Sys) (h : s.menu_position = 0) : cursor_ok s := by
  unfold cursor_ok
  rw [h]; exact cursor_fits_zero _

theorem cursor_fits_items (s : Sys) (n : Nat) (h : cursor_ok s) (hn : menu_items s = some n) :
    s.menu_position ≤ n - 1 := by
  unfold cursor_ok cursor_fits at h
  unfold menu_items at hn
  cases hst : s.state <;> simp [hst, cursor_limit] at h hn
  all_goals first
    | (subst hn; exact h)
    | (obtain ⟨_, rfl⟩ := hn; exact h)

theorem generic_menu_P_range (n : Nat) (s : Sys) (h1 : 1 ≤ n) (h2 : n ≤ 255) :
    (generic_menu_P n s).max_menu_position = n - 1
    ∧ (s.menu_position ≤ n - 1 →
        (generic_menu_P n s).menu_position ≤ (generic_menu_P n s).max_menu_position) := by
  have hm : (n % 256 + 255) % 256 = n - 1 := by omega
  unfold generic_menu_P
  simp only [hm]
  refine ⟨?_, ?_⟩
  · split_ifs <;> rfl
  · intro hp
    split_ifs <;> simp <;> omega

theorem generic_menu_P_le (n m : Nat) (s : Sys) (h1 : 1 ≤ n) (h2 : n ≤ 255) (hm : n - 1 ≤ m)
    (hp : s.menu_position ≤ m) : (generic_menu_P n s).menu_position ≤ m := by
  have hk : (n % 256 + 255) % 256 = n - 1 := by omega
  unfold generic_menu_P
  simp only [hk]
  split_ifs <;> simp <;> omega

theorem menu_move_screen_items (e : Ext) (c : Consts) (s : Sys) (n : Nat)
    (hn : menu_items s = some n) : menu_move_screen e c s = generic_menu_P n s := by
  unfold menu_items at hn
  unfold menu_move_screen
  split <;> rename_i hst <;> rw [hst] at hn <;> simp at hn
  all_goals first
    | (subst hn; rfl)
    | (obtain ⟨h0, rfl⟩ := hn; simp [h0])

theorem menu_move_screen_cursor (e : Ext) (c : Consts) (s : Sys) (h : cursor_ok s) :
    cursor_ok (menu_move_screen e c s) := by
  unfold cursor_ok at *
  rw [menu_move_screen_state]
  unfold menu_move_screen
  split <;> rename_i hst <;> rw [hst] at h ⊢ <;>
    first
    | exact h
    | trivial
    | exact generic_menu_P_le 3 2 s (by omega) (by omega) (by omega) h
    | (split
       · exact generic_menu_P_le 2 1 s (by omega) (by omega) (by omega) h
       · exact h)

theorem menu_move_cursor (e : Ext) (c : Consts) (b : Bool) (s : Sys) (h : cursor_ok s) :
    cursor_ok (menu_move e c b s) := by
  have h1 : cursor_ok (menu_move_screen e c
      { menu_move_echo b s with redraw_menu := false }) := by
    apply menu_move_screen_cursor
    refine cursor_ok_frame s _ ?_ ?_ h <;>
      simp [menu_move_echo, echo, apply_ite Sys.state, apply_ite Sys.menu_position]
  exact h1
theorem gastro_pan_check_cursor (e : Ext) (c : Consts) (i : LoopIn) (s : Sys)
    (h : cursor_ok s) : cursor_ok (gastro_pan_check e c i s) := by
  unfold gastro_pan_check
  simp only []
  split_ifs
  all_goals first
    | exact h
    | exact menu_move_cursor e c true _ h

theorem tank_check_washing_cursor (e : Ext) (c : Consts) (i : LoopIn) (s : Sys)
    (h : cursor_ok s) : cursor_ok (tank_check_washing e c i s) := by
  unfold tank_check_washing
  simp only []
  split_ifs
  all_goals first
    | exact h
    | exact menu_move_cursor e c true _ h

theorem drying_to_curing_cursor (e : Ext) (c : Consts) (s : Sys)
    (h : cursor_ok s) : cursor_ok (drying_to_curing e c s) := by
  unfold drying_to_curing
  simp only []
  split_ifs
  all_goals first
    | exact h
    | exact menu_move_cursor e c true _ h

theorem lcd_time_print_cursor (e : Ext) (c : Consts) (s : Sys)
    (h : cursor_ok s) : cursor_ok (lcd_time_print e c s) :=
  cursor_ok_frame s _ (lcd_time_print_place e c s).1 (lcd_time_print_place e c s).2 h

theorem preheat_cursor (e : Ext) (c : Consts) (s : Sys)
    (h : cursor_ok s) : cursor_ok (preheat e c s) :=
  cursor_ok_frame s _ (preheat_place e c s).1 (preheat_place e c s).2 h

theorem start_drying_timers_cursor (e : Ext) (c : Consts) (s : Sys) (h : cursor_ok s) :
    cursor_ok
      (if s.cover_open = true ∨ s.paused = true then
        (if s.config.heat_to_target_temp ≠ 0 ∨ s.config.curing_machine_mode = 3 then
          let s := if ¬ s.paused_time then { s with paused_time := true } else s
          if ¬ s.preheat_complete then { s with tUp := e.timer_pause s.tUp }
          else { s with tDown := e.timer_pause s.tDown }
         else
          let s := if ¬ s.paused_time then { s with paused_time := true } else s
          { s with tDown := e.timer_pause s.tDown })
      else
        (if s.config.heat_to_target_temp ≠ 0 ∨ s.config.curing_machine_mode = 3 then
          let s := if s.paused_time then
              menu_move e c true { s with paused_time := false, redraw_menu := true }
            else s
          if ¬ s.preheat_complete then { s with tUp := e.timer_start s.tUp }
          else { s with tDown := e.timer_start s.tDown }
         else
          let s := if s.paused_time then
              menu_move e c true { s with paused_time := false, redraw_menu := true }
            else s
          { s with tDown := e.timer_start s.tDown })) := by
  simp only []
  split_ifs
  all_goals first
    | exact h
    | exact menu_move_cursor e c true _ h

theorem start_drying_cursor (e : Ext) (c : Consts) (i : LoopIn) (s : Sys)
    (h : cursor_ok s) : cursor_ok (start_drying e c i s) := by
  have h1 : cursor_ok
      (if s.cover_open = false ∧ s.paused = false then
        (if s.config.heat_to_target_temp ≠ 0 ∨ s.config.curing_machine_mode = 3 then
          (if ¬ s.preheat_complete then preheat e c s else run_heater c s)
         else run_heater c s)
      else s) := by
    split_ifs
    all_goals first
      | exact h
      | exact preheat_cursor e c s h
  unfold start_drying
  apply lcd_time_print_cursor
  apply gastro_pan_check_cursor
  exact start_drying_timers_cursor e c _ h1

theorem start_curing_timers_cursor (e : Ext) (c : Consts) (s : Sys) (h : cursor_ok s) :
    cursor_ok
      (if s.cover_open = true ∨ s.paused = true then
        let s := if ¬ s.paused_time then { s with paused_time := true } else s
        { s with tDown := e.timer_pause s.tDown }
      else
        let s := if s.paused_time then
            menu_move e c true { s with paused_time := false, redraw_menu := true }
          else s
        { s with tDown := e.timer_start s.tDown }) := by
  simp only []
  split_ifs
  all_goals first
    | exact h
    | exact menu_move_cursor e c true _ h

theorem start_curing_cursor (e : Ext) (c : Consts) (i : LoopIn) (s : Sys)
    (h : cursor_ok s) : cursor_ok (start_curing e c i s) := by
  have h1 : cursor_ok
      (let s := stop_heater c s
       if s.cover_open = false ∧ s.paused = false then
        let s := if ¬ s.led_start then { s with led_start := true, led_time_now := i.millis }
          else s
        if i.millis > ulong_add s.led_time_now c.LED_DELAY then led_on c s else s
      else
        (if s.led_start then { led_off c s with led_start := false } else s)) := by
    simp only []
    split_ifs
    all_goals exact h
  unfold start_curing
  apply lcd_time_print_cursor
  apply gastro_pan_check_cursor
  exact start_curing_timers_cursor e c _ h1
theorem run_stop_cursor (e : Ext) (c : Consts) (s : Sys) : cursor_ok (run_stop e c s) := by
  apply cursor_ok_zero
  simp [run_stop, stop_motor, stop_heater, led_off, chip_write]

theorem finish_beep_position (s : Sys) :
    (finish_beep s).menu_position = s.menu_position := by
  unfold finish_beep
  split_ifs <;> rfl

theorem stop_curing_drying_cursor (e : Ext) (c : Consts) (s : Sys) :
    cursor_ok (stop_curing_drying e c s) := by
  unfold stop_curing_drying
  apply menu_move_cursor
  apply cursor_ok_zero
  exact (finish_beep_position _).trans rfl

theorem washing_complete_cursor (e : Ext) (c : Consts) (s : Sys) :
    cursor_ok (washing_complete e c s) := by
  unfold washing_complete
  apply menu_move_cursor
  apply cursor_ok_zero
  exact (finish_beep_position _).trans rfl

theorem washing_continue_cursor (e : Ext) (c : Consts) (i : LoopIn) (s : Sys)
    (h : cursor_ok s) : cursor_ok (washing_continue e c i s) :=
  cursor_ok_frame s _ (washing_continue_place e c i s).1 (washing_continue_place e c i s).2 h

theorem preheat_done_cursor (e : Ext) (n : Nat) (s : Sys)
    (h : cursor_ok s) : cursor_ok (preheat_done e n s) :=
  cursor_ok_frame s _ (preheat_done_place e n s).1 (preheat_done_place e n s).2 h

theorem cover_check_cursor (e : Ext) (c : Consts) (i : LoopIn) (s : Sys)
    (h : cursor_ok s) : cursor_ok (cover_check e c i s) :=
  cursor_ok_frame s _ (cover_check_place e c i s).1 (cover_check_place e c i s).2 h

theorem enter_drying_mode_cursor (s : Sys) (h : cursor_ok s) :
    cursor_ok (enter_drying_mode s) := by
  unfold enter_drying_mode
  split_ifs <;> exact h

theorem leave_drying_mode_cursor (s : Sys) (h : cursor_ok s) :
    cursor_ok (leave_drying_mode s) := by
  unfold leave_drying_mode
  split_ifs <;> exact h

theorem start_washing_cursor (e : Ext) (c : Consts) (i : LoopIn) (s : Sys)
    (h : cursor_ok s) : cursor_ok (start_washing e c i s) := by
  unfold start_washing
  simp only []
  split_ifs
  · exact washing_continue_cursor e c i _ (tank_check_washing_cursor e c i s h)
  · exact washing_complete_cursor e c _

theorem run_two_stage_cursor (e : Ext) (c : Consts) (i : LoopIn) (n : Nat) (s : Sys)
    (h : cursor_ok s) : cursor_ok (run_two_stage e c i n s) := by
  unfold run_two_stage
  simp only []
  split_ifs
  all_goals first
    | with_reducible exact start_drying_cursor e c i _ (enter_drying_mode_cursor s h)
    | with_reducible exact preheat_done_cursor e n s h
    | with_reducible exact stop_curing_drying_cursor e c _

theorem machine_running_mode_cursor (e : Ext) (c : Consts) (i : LoopIn) (s : Sys)
    (h : cursor_ok s) : cursor_ok (machine_running_mode e c i s) := by
  unfold machine_running_mode
  simp only []
  split_ifs
  all_goals first
    | with_reducible exact run_two_stage_cursor e c i _ s h
    | with_reducible exact start_drying_cursor e c i _ (enter_drying_mode_cursor s h)
    | with_reducible exact start_drying_cursor e c i s h
    | with_reducible exact stop_curing_drying_cursor e c _
    | with_reducible exact start_curing_cursor e c i _ (leave_drying_mode_cursor s h)
    | with_reducible exact preheat_done_cursor e _ s h
    | with_reducible exact start_curing_cursor e c i _ (drying_to_curing_cursor e c s h)
    | exact cursor_ok_frame (start_curing e c i (drying_to_curing e c s)) _ rfl rfl
        (start_curing_cursor e c i _ (drying_to_curing_cursor e c s h))

theorem machine_running_cursor (e : Ext) (c : Consts) (i : LoopIn) (s : Sys)
    (h : cursor_ok s) : cursor_ok (machine_running e c i s) := by
  have h1 := machine_running_mode_cursor e c i _ (cover_check_cursor e c i s h)
  unfold machine_running
  simp only []
  split_ifs
  all_goals first
    | with_reducible exact h1
    | with_reducible exact start_washing_cursor e c i _ h1
    | with_reducible exact start_washing_cursor e c i s h

theorem loop_running_cursor (e : Ext) (c : Consts) (i : LoopIn) (s : Sys)
    (h : cursor_ok s) : cursor_ok (loop_running e c i s) := by
  unfold loop_running
  split_ifs
  · exact machine_running_cursor e c i s h
  · exact h

theorem loop_rotary_cursor (e : Ext) (c : Consts) (s : Sys)
    (h : cursor_ok s) : cursor_ok (loop_rotary e c s) := by
  unfold loop_rotary
  split_ifs
  · exact menu_move_cursor e c true s h
  · exact h

theorem loop_heater_error_cursor (s : Sys) (h : cursor_ok s) :
    cursor_ok (loop_heater_error s) := by
  unfold loop_heater_error
  split_ifs
  · trivial
  · exact h

theorem menu_move_last (e : Ext) (c : Consts) (b : Bool) (s : Sys) :
    (menu_move e c b s).last_menu_position = s.last_menu_position := by
  have h1 : ∀ u : Sys, (menu_move_screen e c u).last_menu_position = u.last_menu_position := by
    intro u
    unfold menu_move_screen
    split <;> simp [generic_menu_P, scrolling_list, menu_move_running, tDown_set,
      apply_ite Sys.last_menu_position]
  simp [menu_move, h1, menu_move_echo, echo, apply_ite Sys.last_menu_position]

theorem loop_reinit_cursor (e : Ext) (c : Consts) (i : LoopIn) (s : Sys)
    (h : cursor_ok s) : cursor_ok (loop_reinit e c i s) := by
  unfold loop_reinit
  simp only [menu_move_state]
  split_ifs
  all_goals first
    | with_reducible exact h
    | exact menu_move_cursor e c false _ h
    | (refine cursor_ok_frame s _ ?_ ?_ h
       · simp [menu_move_state]
       · simp [menu_move_last])
theorem button_press_home_cursor (e : Ext) (c : Consts) (i : LoopIn) (s : Sys)
    (h : cursor_ok s) : cursor_ok (button_press_home e c i s) := by
  unfold button_press_home
  simp only []
  split_ifs
  all_goals first
    | with_reducible exact h
    | with_reducible exact menu_move_cursor e c true _ (cursor_ok_zero _ rfl)
    | exact cursor_ok_zero _ rfl

theorem button_press_run_menu_cursor (e : Ext) (c : Consts) (s : Sys)
    (h : cursor_ok s) : cursor_ok (button_press_run_menu e c s) := by
  unfold button_press_run_menu
  simp only []
  split_ifs
  all_goals first
    | with_reducible exact h
    | with_reducible exact run_stop_cursor e c s
    | exact cursor_ok_zero _ rfl

theorem button_press_selftest_cursor (e : Ext) (s : Sys) :
    cursor_ok (button_press_selftest e s) := by
  unfold button_press_selftest
  exact cursor_ok_zero _ rfl

theorem button_press_state_cursor (e : Ext) (c : Consts) (i : LoopIn) (s : Sys)
    (h : cursor_ok s) : cursor_ok (button_press_state e c i s) := by
  unfold cursor_ok at h
  unfold button_press_state
  split <;> rename_i hst <;> rw [hst] at h
  · exact button_press_home_cursor e c i s (by unfold cursor_ok; rw [hst]; exact h)
  · unfold button_press_settings
    split_ifs <;> simp [cursor_ok, cursor_fits, cursor_limit]
  · unfold button_press_sound
    split_ifs <;> simp [cursor_ok, cursor_fits, cursor_limit, write_config, hst] <;>
      simpa [cursor_fits, cursor_limit] using h
  · unfold button_press_fans
    split_ifs <;> simp [cursor_ok, cursor_fits, cursor_limit]
  · simp [cursor_ok, cursor_fits, cursor_limit, write_config]
  · simp [cursor_ok, cursor_fits, cursor_limit, write_config]
  · simp [cursor_ok, cursor_fits, cursor_limit, write_config]
  · simp [cursor_ok, cursor_fits, cursor_limit, write_config]
  · simp [cursor_ok, cursor_fits, cursor_limit, write_config]
  · unfold button_press_preheat
    split_ifs <;> simp [cursor_ok, cursor_fits, cursor_limit, write_config, hst,
      apply_ite Sys.state, apply_ite Sys.menu_position]
  · unfold button_press_speed
    split_ifs <;> simp [cursor_ok, cursor_fits, cursor_limit]
  · simp [cursor_ok, cursor_fits, cursor_limit, write_config]
    simpa [cursor_fits, cursor_limit] using h
  · simp [cursor_ok, cursor_fits, cursor_limit, write_config]
    simpa [cursor_fits, cursor_limit] using h
  · unfold button_press_time
    split_ifs <;> simp [cursor_ok, cursor_fits, cursor_limit]
  · simp [cursor_ok, cursor_fits, cursor_limit, write_config]
  · simp [cursor_ok, cursor_fits, cursor_limit, write_config]
  · simp [cursor_ok, cursor_fits, cursor_limit, write_config]
  · simp [cursor_ok, cursor_fits, cursor_limit, write_config]
  · simp [cursor_ok, cursor_fits, cursor_limit, write_config]
  · simp [cursor_ok, cursor_fits, cursor_limit]
  · simp only []
    split_ifs <;> simp [cursor_ok, cursor_fits, cursor_limit, write_config]
  · simp [cursor_ok, cursor_fits, cursor_limit, write_config]
  · simp [cursor_ok, cursor_fits, cursor_limit, write_config]
  · simp [cursor_ok, cursor_fits, cursor_limit]
  · exact button_press_run_menu_cursor e c s (by unfold cursor_ok; rw [hst]; exact h)
  · simp [cursor_ok, cursor_fits, cursor_limit]
  · exact button_press_selftest_cursor e s
  · simp [cursor_ok, cursor_fits, cursor_limit, hst]

theorem button_press_cursor (e : Ext) (c : Consts) (i : LoopIn) (s : Sys)
    (h : cursor_ok s) : cursor_ok (button_press e c i s) := by
  have h0 : cursor_ok
      (if s.config.sound_response ≠ 0 then
        echo { s with log := Event.button_press :: s.log }
       else { s with log := Event.button_press :: s.log }) := by
    split_ifs <;> exact h
  have h1 := button_press_state_cursor e c i _ h0
  unfold button_press
  exact menu_move_cursor e c true _ h1

theorem long_press_action_cursor (e : Ext) (c : Consts) (s : Sys)
    (h : cursor_ok s) : cursor_ok (long_press_action e c s) := by
  unfold long_press_action
  split
  · exact menu_move_cursor e c true _ trivial
  · exact menu_move_cursor e c true _ (cursor_ok_zero _ rfl)
  · exact menu_move_cursor e c true _ (run_stop_cursor e c s)
  · exact h

theorem button_down_cursor (e : Ext) (c : Consts) (i : LoopIn) (s : Sys)
    (h : cursor_ok s) : cursor_ok (button_down e c i s) := by
  have h0 : cursor_ok
      (if s.button_active = false then
        { s with button_active := true, button_timer := i.millis }
       else s) := by
    split_ifs <;> exact h
  unfold button_down
  simp only []
  split_ifs
  all_goals first
    | with_reducible exact h0
    | exact long_press_action_cursor e c _ h
    | exact h

theorem button_up_cursor (e : Ext) (c : Consts) (i : LoopIn) (s : Sys)
    (h : cursor_ok s) : cursor_ok (button_up e c i s) := by
  unfold button_up
  simp only []
  split_ifs
  all_goals first
    | with_reducible exact h
    | exact cursor_ok_frame (button_press e c i s) _ rfl rfl (button_press_cursor e c i s h)
    | exact h

theorem loop_button_cursor (e : Ext) (c : Consts) (i : LoopIn) (s : Sys)
    (h : cursor_ok s) : cursor_ok (loop_button e c i s) := by
  unfold loop_button
  split_ifs
  · exact button_down_cursor e c i s h
  · exact button_up_cursor e c i s h

theorem loop_selftest_place (e : Ext) (c : Consts) (i : LoopIn) (s : Sys) :
    (loop_selftest e c i s).state = s.state
    ∧ (loop_selftest e c i s).menu_position = s.menu_position := by
  have hstep : ∀ u : Sys, (selftest_rotation_phase e c i u).state = u.state
      ∧ (selftest_rotation_phase e c i u).menu_position = u.menu_position := by
    intro u
    unfold selftest_rotation_phase
    simp only [selftest_rotation_step_halves]
    split_ifs <;> simp [sweep_advance_place, sweep_apply_place]
  simp [loop_selftest, hstep, selftest_pin_phase_place, selftest_led_phase_place,
    selftest_heater_phase_place, apply_ite Sys.state, apply_ite Sys.menu_position]

theorem loop_cursor (e : Ext) (c : Consts) (i : LoopIn) (s : Sys)
    (h : cursor_ok s) : cursor_ok (loop e c i s) := by
  have h1 : cursor_ok (loop_selftest e c i (loop_timers e i s)) :=
    cursor_ok_frame s _
      ((loop_selftest_place e c i _).1.trans (loop_timers_place e i s).1)
      ((loop_selftest_place e c i _).2.trans (loop_timers_place e i s).2) h
  have h2 : cursor_ok (loop_home_mode i (loop_heater_stop e c
      (loop_selftest e c i (loop_timers e i s)))) :=
    cursor_ok_frame _ _
      ((loop_home_mode_place i _).1.trans (loop_heater_stop_place e c _).1)
      ((loop_home_mode_place i _).2.trans (loop_heater_stop_place e c _).2) h1
  have h3 := loop_heater_error_cursor _ h2
  have h4 : cursor_ok (loop_acceleration e i (loop_last_mode (loop_confirm_beep i
      (loop_heater_error (loop_home_mode i (loop_heater_stop e c
        (loop_selftest e c i (loop_timers e i s)))))))) :=
    cursor_ok_frame _ _
      (((loop_acceleration_place e i _).1.trans (loop_last_mode_place _).1).trans
        (loop_confirm_beep_place i _).1)
      (((loop_acceleration_place e i _).2.trans (loop_last_mode_place _).2).trans
        (loop_confirm_beep_place i _).2) h3
  have h5 := loop_reinit_cursor e c i _ (loop_button_cursor e c i _
    (loop_running_cursor e c i _ (loop_rotary_cursor e c _ h4)))
  exact cursor_ok_frame _ _ (loop_therm_place i _).1 (loop_therm_place i _).2 h5

theorem step_cursor (e : Ext) (c : Consts) (st : Step) (s : Sys) (h : cursor_ok s) :
    cursor_ok (step e c st s) := by
  cases st with
  | loop i => exact loop_cursor e c i s h
  | tick i =>
    exact cursor_ok_frame s _ (TIMER0_COMPA_vect_place c i s).1
      (TIMER0_COMPA_vect_place c i s).2 h
  | pulse j => exact cursor_ok_frame s _ (fan_tacho_place j s).1 (fan_tacho_place j s).2 h

theorem run_steps_cursor (e : Ext) (c : Consts) (steps : List Step) :
    ∀ s : Sys, cursor_ok s → cursor_ok (run_steps e c steps s) := by
  induction steps with
  | nil => intro s h; exact h
  | cons st rest ih =>
    intro s h
    unfold run_steps
    exact ih _ (step_cursor e c st s h)

theorem setup_cursor (e : Ext) (c : Consts) (s : Sys) (h : s.menu_position = 0) :
    cursor_ok (setup e c s) := by
  have hr : (read_config s).menu_position = 0 := by
    simp [read_config, apply_ite Sys.menu_position, h]
  unfold setup
  apply menu_move_cursor
  apply cursor_ok_zero
  simp [stop_heater, led_off, chip_write, hr]
/-- C31: the menu cursor stays in range.  `generic_menu_P` with `n` items
(1 to 255) sets `max_menu_position` to `n - 1` and leaves the cursor at or below
it when it was at or below `n - 1` on entry; `menu_move` draws a screen with a
count of items by that call.  `button_press` and the long-press action keep the
cursor within the limit of the screen they lead to, `run_stop` and the two
run-completion routines always end with it there, and so it is in every state
reached from `setup` by loop passes, ticks and tachometer pulses: on a screen
drawn with `n` items the cursor is at most `n - 1`. -/
theorem cursor_in_range (e : Ext) (c : Consts) :
    (∀ (n : Nat) (s : Sys), 1 ≤ n → n ≤ 255 →
        (generic_menu_P n s).max_menu_position = n - 1
        ∧ (s.menu_position ≤ n - 1 →
            (generic_menu_P n s).menu_position ≤ (generic_menu_P n s).max_menu_position))
    ∧ (∀ (s : Sys) (n : Nat), menu_items s = some n →
        1 ≤ n ∧ n ≤ 255 ∧ menu_move_screen e c s = generic_menu_P n s)
    ∧ (∀ (i : LoopIn) (s : Sys), cursor_ok s → cursor_ok (button_press e c i s))
    ∧ (∀ s : Sys, cursor_ok s → cursor_ok (long_press_action e c s))
    ∧ (∀ s : Sys, cursor_ok (run_stop e c s) ∧ cursor_ok (stop_curing_drying e c s)
        ∧ cursor_ok (washing_complete e c s))
    ∧ (∀ (s : Sys) (steps : List Step), s.menu_position = 0 →
        cursor_ok (run_steps e c steps (setup e c s)))
    ∧ (∀ (s : Sys) (n : Nat), cursor_ok s → menu_items s = some n →
        s.menu_position ≤ n - 1) := by
  refine ⟨generic_menu_P_range, ?_, button_press_cursor e c, long_press_action_cursor e c,
    fun s => ⟨run_stop_cursor e c s, stop_curing_drying_cursor e c s,
      washing_complete_cursor e c s⟩,
    fun s steps h => run_steps_cursor e c steps _ (setup_cursor e c s h),
    fun s n h hn => cursor_fits_items s n h hn⟩
  intro s n hn
  refine ⟨?_, ?_, menu_move_screen_items e c s n hn⟩
  · unfold menu_items at hn
    split at hn <;> simp at hn <;> omega
  · unfold menu_items at hn
    split at hn <;> simp at hn <;> omega

set_option maxRecDepth 100000 in
theorem cursor_in_range_witness :
    menu_items speed_menu_last = some 3
    ∧ cursor_ok speed_menu_last
    ∧ (generic_menu_P 3 speed_menu_last).max_menu_position = 2
    ∧ (generic_menu_P 3 speed_menu_last).menu_position = 2
    ∧ (menu_move sample_ext sample_consts true speed_menu_last).menu_position = 2
    ∧ cursor_ok (button_press sample_ext sample_consts (idle_in 50) speed_menu_last)
    ∧ (button_press sample_ext sample_consts (idle_in 50) speed_menu_last).state
        = menu_state.SPEED_WASHING
    ∧ cursor_ok (run_steps sample_ext sample_consts
        [Step.loop (press_in 10), Step.loop (idle_in 20)]
        (setup sample_ext sample_consts power_up))
    ∧ (run_steps sample_ext sample_consts [Step.loop (press_in 10), Step.loop (idle_in 20)]
        (setup sample_ext sample_consts power_up)).state = menu_state.RUNNING :=
  ⟨by decide, by decide,
    ((cursor_in_range sample_ext sample_consts).1 3 speed_menu_last (by decide)
      (by decide)).1,
    by decide, by decide,
    (cursor_in_range sample_ext sample_consts).2.2.1 (idle_in 50) speed_menu_last
      (by decide),
    by decide,
    (cursor_in_range sample_ext sample_consts).2.2.2.2.2.1 power_up _ rfl,
    by decide⟩

/-! ### The fan duty between regulation and the stop paths -/

theorem menu_move_screen_regulation (e : Ext) (c : Consts) (s : Sys) :
    (menu_move_screen e c s).pid_mode = s.pid_mode ∧ (menu_move_screen e c s).fan_duty = s.fan_duty := by
  unfold menu_move_screen
  split <;> simp [generic_menu_P, scrolling_list, menu_move_running, chip_write, run_motor, stop_motor, run_heater, stop_heater, led_on, led_off,
    motor_configuration, speed_configuration, acceleration50ms, echo, beep, tDown_set, tUp_set,
    write_config, enter_drying_mode, leave_drying_mode, tDown_arm, tUp_arm,
    apply_ite Sys.pid_mode, apply_ite Sys.fan_duty]

theorem menu_move_regulation (e : Ext) (c : Consts) (b : Bool) (s : Sys) :
    (menu_move e c b s).pid_mode = s.pid_mode ∧ (menu_move e c b s).fan_duty = s.fan_duty := by
  simp [menu_move, menu_move_echo, menu_move_screen_regulation, chip_write, run_motor, stop_motor, run_heater, stop_heater, led_on, led_off,
    motor_configuration, speed_configuration, acceleration50ms, echo, beep, tDown_set, tUp_set,
    write_config, enter_drying_mode, leave_drying_mode, tDown_arm, tUp_arm,
    apply_ite Sys.pid_mode, apply_ite Sys.fan_duty]

theorem read_encoder_regulation (c : Consts) (t : TickIn) (s : Sys) :
    (read_encoder c t s).pid_mode = s.pid_mode ∧ (read_encoder c t s).fan_duty = s.fan_duty := by
  simp [read_encoder, chip_write, run_motor, stop_motor, run_heater, stop_heater, led_on, led_off,
    motor_configuration, speed_configuration, acceleration50ms, echo, beep, tDown_set, tUp_set,
    write_config, enter_drying_mode, leave_drying_mode, tDown_arm, tUp_arm,
    apply_ite Sys.pid_mode, apply_ite Sys.fan_duty]

theorem fan1_pwm_control_regulation (c : Consts) (m : Nat) (s : Sys) :
    (fan1_pwm_control c m s).pid_mode = s.pid_mode ∧ (fan1_pwm_control c m s).fan_duty = s.fan_duty := by
  simp [fan1_pwm_control, chip_write, run_motor, stop_motor, run_heater, stop_heater, led_on, led_off,
    motor_configuration, speed_configuration, acceleration50ms, echo, beep, tDown_set, tUp_set,
    write_config, enter_drying_mode, leave_drying_mode, tDown_arm, tUp_arm,
    apply_ite Sys.pid_mode, apply_ite Sys.fan_duty]

theorem fan2_pwm_control_regulation (c : Consts) (m : Nat) (s : Sys) :
    (fan2_pwm_control c m s).pid_mode = s.pid_mode ∧ (fan2_pwm_control c m s).fan_duty = s.fan_duty := by
  simp [fan2_pwm_control, chip_write, run_motor, stop_motor, run_heater, stop_heater, led_on, led_off,
    motor_configuration, speed_configuration, acceleration50ms, echo, beep, tDown_set, tUp_set,
    write_config, enter_drying_mode, leave_drying_mode, tDown_arm, tUp_arm,
    apply_ite Sys.pid_mode, apply_ite Sys.fan_duty]

theorem fan_pwm_control_regulation (c : Consts) (t : TickIn) (s : Sys) :
    (fan_pwm_control c t s).pid_mode = s.pid_mode ∧ (fan_pwm_control c t s).fan_duty = s.fan_duty := by
  simp [fan_pwm_control, fan1_pwm_control_regulation, fan2_pwm_control_regulation, chip_write, run_motor, stop_motor, run_heater, stop_heater, led_on, led_off,
    motor_configuration, speed_configuration, acceleration50ms, echo, beep, tDown_set, tUp_set,
    write_config, enter_drying_mode, leave_drying_mode, tDown_arm, tUp_arm,
    apply_ite Sys.pid_mode, apply_ite Sys.fan_duty]

theorem fan_rpm_check_regulation (j : Nat) (s : Sys) :
    (fan_rpm_check j s).pid_mode = s.pid_mode ∧ (fan_rpm_check j s).fan_duty = s.fan_duty := by
  simp [fan_rpm_check, chip_write, run_motor, stop_motor, run_heater, stop_heater, led_on, led_off,
    motor_configuration, speed_configuration, acceleration50ms, echo, beep, tDown_set, tUp_set,
    write_config, enter_drying_mode, leave_drying_mode, tDown_arm, tUp_arm,
    apply_ite Sys.pid_mode, apply_ite Sys.fan_duty]

theorem fan_rpm_heater_regulation (s : Sys) :
    (fan_rpm_heater s).pid_mode = s.pid_mode ∧ (fan_rpm_heater s).fan_duty = s.fan_duty := by
  simp [fan_rpm_heater, chip_write, run_motor, stop_motor, run_heater, stop_heater, led_on, led_off,
    motor_configuration, speed_configuration, acceleration50ms, echo, beep, tDown_set, tUp_set,
    write_config, enter_drying_mode, leave_drying_mode, tDown_arm, tUp_arm,
    apply_ite Sys.pid_mode, apply_ite Sys.fan_duty]

theorem fan_rpm_regulation (s : Sys) :
    (fan_rpm s).pid_mode = s.pid_mode ∧ (fan_rpm s).fan_duty = s.fan_duty := by
  simp [fan_rpm, fan_rpm_check_regulation, fan_rpm_heater_regulation, chip_write, run_motor, stop_motor, run_heater, stop_heater, led_on, led_off,
    motor_configuration, speed_configuration, acceleration50ms, echo, beep, tDown_set, tUp_set,
    write_config, enter_drying_mode, leave_drying_mode, tDown_arm, tUp_arm,
    apply_ite Sys.pid_mode, apply_ite Sys.fan_duty]

/-- With `pid_mode` clear the tick handler does not regulate: it leaves
`fan_duty` and `pid_mode` as they are. -/
theorem tick_unregulated (c : Consts) (t : TickIn) (s : Sys) (h : s.pid_mode = false) :
    (TIMER0_COMPA_vect c t s).pid_mode = false
    ∧ (TIMER0_COMPA_vect c t s).fan_duty = s.fan_duty := by
  have hx : ∀ u : Sys, u.pid_mode = false → tick_pid c u = u := by
    intro u hu
    simp [tick_pid, hu]
  unfold TIMER0_COMPA_vect
  simp only []
  rw [(fan_rpm_regulation _).1, (fan_rpm_regulation _).2,
    (fan_pwm_control_regulation c t _).1, (fan_pwm_control_regulation c t _).2]
  split_ifs
  · rw [hx _ h]; exact ⟨h, rfl⟩
  · rw [hx _ (((read_encoder_regulation c t s).1).trans h)]
    exact ⟨((read_encoder_regulation c t s).1).trans h, (read_encoder_regulation c t s).2⟩

theorem ticks_unregulated (c : Consts) (ts : List TickIn) :
    ∀ s : Sys, s.pid_mode = false →
      (ticks c ts s).pid_mode = false ∧ (ticks c ts s).fan_duty = s.fan_duty := by
  induction ts with
  | nil => intro s h; exact ⟨h, rfl⟩
  | cons t rest ih =>
    intro s h
    unfold ticks
    obtain ⟨h1, h2⟩ := tick_unregulated c t s h
    obtain ⟨h3, h4⟩ := ih _ h1
    exact ⟨h3, h4.trans h2⟩

/-- Item 0 of the run menu in a curing mode with no tank flagged leaves
`pid_mode` as it is. -/
theorem button_press_continue_pid_mode (e : Ext) (c : Consts) (i : LoopIn) (s : Sys)
    (hst : s.state = menu_state.RUN_MENU) (hpos : s.menu_position = 0)
    (hmode : s.curing_mode = true) (hgp : s.gastro_pan = false) :
    (button_press e c i s).pid_mode = s.pid_mode := by
  obtain ⟨l, hl⟩ := button_press_entry_log e c i s
  have hX : button_press_state e c i { s with log := l }
      = button_press_run_menu e c { s with log := l } := by
    unfold button_press_state
    simp only []
    rw [hst]
  rw [hl, (menu_move_regulation e c true _).1, hX]
  cases hp : s.paused <;>
    simp [button_press_run_menu, hpos, hmode, hgp, hp, run_motor, stop_motor, stop_heater,
      motor_configuration, speed_configuration, chip_write, apply_ite Sys.pid_mode]

/-- C39, where the code departs from the claim: in a curing mode with no tank
flagged, item 0 of the run menu pauses a run (motor and heater off, `fan_duty`
set to `fans_menu_speed`) and continues a paused run with `paused` cleared and
the motor on, but with `fan_duty` set to `config.fans_curing_speed` when "heat
to target temperature" is off and to `config.fans_preheat_speed` when it is
on, whatever the mode and the phase of the run are and whatever the duty was
before the pause.  The press leaves `pid_mode` as it is, and with `pid_mode`
clear (a run that is not regulated, such as a curing-only run) the 1 ms ticks
that follow leave `fan_duty` as the press has set it. -/
theorem continue_fan_duty (e : Ext) (c : Consts) (i : LoopIn) (s : Sys)
    (hst : s.state = menu_state.RUN_MENU) (hpos : s.menu_position = 0)
    (hmode : s.curing_mode = true) (hgp : s.gastro_pan = false) :
    (button_press e c i s).state = menu_state.RUNNING
    ∧ (button_press e c i s).pid_mode = s.pid_mode
    ∧ (s.paused = false →
        (button_press e c i s).paused = true
        ∧ (button_press e c i s).speed_control.motor_running = false
        ∧ (button_press e c i s).fan_duty = fans_menu_speed)
    ∧ (s.paused = true →
        (button_press e c i s).paused = false
        ∧ (button_press e c i s).speed_control.motor_running = true
        ∧ (button_press e c i s).fan_duty
            = (if s.config.heat_to_target_temp = 0 then s.config.fans_curing_speed
                else s.config.fans_preheat_speed))
    ∧ (s.pid_mode = false → ∀ ts : List TickIn,
        (ticks c ts (button_press e c i s)).pid_mode = false
        ∧ (ticks c ts (button_press e c i s)).fan_duty = (button_press e c i s).fan_duty) := by
  have hpid := button_press_continue_pid_mode e c i s hst hpos hmode hgp
  obtain ⟨s1, e1, e2, e3, -, -, e6, e7, e8, -, hbp⟩ := button_press_entry e c i s
  have hX : button_press_state e c i s1 = button_press_run_menu e c s1 := by
    unfold button_press_state
    rw [e1, hst]
  obtain ⟨n1, n2, n3⟩ := button_press_run_menu_curing e c s1 (e2.trans hpos)
    (e3.trans hmode) (e8.trans hgp)
  obtain ⟨-, t2, t3, t4, -⟩ := button_press_tail_running e c (button_press_run_menu e c s1)
    (e.scrolling_list_set (button_press_run_menu e c s1).menu_position
      (button_press_run_menu e c s1).scroll) n1
  refine ⟨?_, hpid, ?_, ?_, ?_⟩
  · rw [hbp, hX]; exact t4
  · intro hp
    obtain ⟨a1, a2, -, a4⟩ := n2 (e7.trans hp)
    rw [hbp, hX]
    refine ⟨?_, ?_, ?_⟩
    · rw [menu_move_paused]
      exact a1
    · rw [t2]
      exact a2
    · rw [t3]
      exact a4
  · intro hp
    obtain ⟨a1, a2, a3⟩ := n3 (e7.trans hp)
    rw [hbp, hX]
    refine ⟨?_, ?_, ?_⟩
    · rw [menu_move_paused]
      exact a1
    · rw [t2]
      exact a2
    · rw [t3, a3, e6]
  · intro hp ts
    exact ticks_unregulated c ts _ (hpid.trans hp)

set_option maxRecDepth 100000 in
theorem continue_fan_duty_witness :
    curing_heat_run.state = menu_state.RUNNING
    ∧ curing_heat_run.config.curing_machine_mode = 1
    ∧ curing_heat_run.config.heat_to_target_temp = 1
    ∧ curing_heat_run.pid_mode = false
    ∧ curing_heat_run.paused = false ∧ curing_heat_run.speed_control.motor_running = true
    ∧ curing_heat_run.fan_duty = ⟨60, 70⟩
    ∧ curing_heat_paused.paused = true ∧ curing_heat_paused.fan_duty = fans_menu_speed
    ∧ curing_heat_menu.state = menu_state.RUN_MENU ∧ curing_heat_menu.paused = true
    ∧ (button_press sample_ext sample_consts (curing_in 4000) curing_heat_menu).paused = false
    ∧ (button_press sample_ext sample_consts (curing_in 4000)
        curing_heat_menu).speed_control.motor_running = true
    ∧ (button_press sample_ext sample_consts (curing_in 4000) curing_heat_menu).fan_duty
        = ⟨40, 40⟩
    ∧ (ticks sample_consts [pins_low, pins_high, pins_low]
        (button_press sample_ext sample_consts (curing_in 4000) curing_heat_menu)).fan_duty
        = ⟨40, 40⟩
    ∧ (loop sample_ext sample_consts (curing_in 4010)
        (button_press sample_ext sample_consts (curing_in 4000) curing_heat_menu)).fan_duty
        = ⟨40, 40⟩
    ∧ (loop sample_ext sample_consts (curing_in 4010)
        (button_press sample_ext sample_consts (curing_in 4000) curing_heat_menu)).state
        = menu_state.RUNNING :=
  ⟨by decide, by decide, by decide, by decide, by decide, by decide, by decide, by decide,
    by decide, by decide, by decide,
    ((continue_fan_duty sample_ext sample_consts (curing_in 4000) curing_heat_menu
      (by decide) (by decide) (by decide) (by decide)).2.2.2.1 (by decide)).1,
    ((continue_fan_duty sample_ext sample_consts (curing_in 4000) curing_heat_menu
      (by decide) (by decide) (by decide) (by decide)).2.2.2.1 (by decide)).2.1,
    (((continue_fan_duty sample_ext sample_consts (curing_in 4000) curing_heat_menu
      (by decide) (by decide) (by decide) (by decide)).2.2.2.1 (by decide)).2.2).trans
      (by decide),
    (((continue_fan_duty sample_ext sample_consts (curing_in 4000) curing_heat_menu
      (by decide) (by decide) (by decide) (by decide)).2.2.2.2 (by decide) _).2).trans
      (by decide),
    by decide, by decide⟩

/-! ### The integral of the regulator: written by the tick handler only -/

theorem read_encoder_summErr (c : Consts) (t : TickIn) (s : Sys) :
    (read_encoder c t s).summErr = s.summErr := by
  simp [read_encoder, chip_write, run_motor, stop_motor, run_heater, stop_heater, led_on, led_off,
    motor_configuration, speed_configuration, acceleration50ms, echo, beep, tDown_set, tUp_set,
    write_config, enter_drying_mode, leave_drying_mode, tDown_arm, tUp_arm, finish_beep,
    apply_ite Sys.summErr]

theorem ticks_halted (c : Consts) (ts : List TickIn) :
    ∀ s : Sys, s.heater_error = true → s.heater_running = false → keeps s (ticks c ts s) := by
  induction ts with
  | nil => intro s _ _; exact keeps_refl s
  | cons t rest ih =>
    intro s he hr
    unfold ticks
    have k := tick_halted c t s he hr
    exact keeps_trans k (ih _ (k.2.1.trans he) (k.2.2.2.1.trans hr))

/-- The heater-fault block of `loop` (lines 833 to 842) leaves `pid_mode`, the
configuration, the chamber temperature and the integral of the regulator as
they are. -/
theorem loop_heater_stop_regulation (e : Ext) (c : Consts) (s : Sys) :
    (loop_heater_stop e c s).pid_mode = s.pid_mode
    ∧ (loop_heater_stop e c s).config = s.config
    ∧ (loop_heater_stop e c s).chamber_temp = s.chamber_temp
    ∧ (loop_heater_stop e c s).summErr = s.summErr := by
  simp [loop_heater_stop, stop_heater, stop_motor, chip_write, apply_ite Sys.pid_mode,
    apply_ite Sys.config, apply_ite Sys.chamber_temp, apply_ite Sys.summErr]

theorem loop_timers_regulation (e : Ext) (i : LoopIn) (s : Sys) :
    (loop_timers e i s).pid_mode = s.pid_mode
    ∧ (loop_timers e i s).config = s.config
    ∧ (loop_timers e i s).chamber_temp = s.chamber_temp
    ∧ (loop_timers e i s).summErr = s.summErr
    ∧ (loop_timers e i s).state = s.state
    ∧ (loop_timers e i s).heater_error = s.heater_error := by
  simp [loop_timers, apply_ite Sys.pid_mode, apply_ite Sys.config,
    apply_ite Sys.chamber_temp, apply_ite Sys.summErr, apply_ite Sys.state,
    apply_ite Sys.heater_error]

theorem loop_selftest_off (e : Ext) (c : Consts) (i : LoopIn) (s : Sys)
    (h : s.state ≠ menu_state.SELFTEST) : loop_selftest e c i s = s := by
  unfold loop_selftest
  rw [if_neg h]

/-- The rest of a loop pass, from the mode detection of the home screen on,
when it starts with the heater fault flag set and motor and heater off: the
error screen, motor and heater still off, the fan duty as found. -/
theorem loop_rest_halts (e : Ext) (c : Consts) (i : LoopIn) (s : Sys)
    (he : s.heater_error = true) :
    (loop_tail e c i (loop_heater_error (loop_home_mode i s))).state = menu_state.ERROR
    ∧ (loop_tail e c i (loop_heater_error (loop_home_mode i s))).speed_control.motor_running
        = s.speed_control.motor_running
    ∧ (loop_tail e c i (loop_heater_error (loop_home_mode i s))).heater_running
        = s.heater_running
    ∧ (loop_tail e c i (loop_heater_error (loop_home_mode i s))).fan_duty = s.fan_duty := by
  have h4 := loop_home_mode_frame i s
  have he4 : (loop_home_mode i s).heater_error = true := h4.1.2.1.trans he
  have h5 : (loop_heater_error (loop_home_mode i s)).state = menu_state.ERROR
      ∧ (loop_heater_error (loop_home_mode i s)).heater_error = true
      ∧ (loop_heater_error (loop_home_mode i s)).speed_control = (loop_home_mode i s).speed_control
      ∧ (loop_heater_error (loop_home_mode i s)).heater_running
          = (loop_home_mode i s).heater_running
      ∧ (loop_heater_error (loop_home_mode i s)).fan_duty = (loop_home_mode i s).fan_duty := by
    simp [loop_heater_error, he4]
  obtain ⟨⟨k1, -, k3, k4, -, -⟩, kf⟩ := loop_tail_error e c i _ h5.1 h5.2.1
  refine ⟨k1.trans h5.1, ?_, ?_, ?_⟩
  · rw [k3, h5.2.2.1, h4.1.2.2.1]
  · rw [k4, h5.2.2.2.1, h4.1.2.2.2.1]
  · rw [kf, h5.2.2.2.2, h4.2]

/-- The state in which the ticks inside a preempted pass find the machine. -/
theorem loop_front_heater_error (e : Ext) (c : Consts) (i : LoopIn) (s : Sys)
    (h : s.heater_error = true) :
    (loop_heater_stop e c (loop_selftest e c i (loop_timers e i s))).heater_error = true
    ∧ (loop_heater_stop e c (loop_selftest e c i
        (loop_timers e i s))).speed_control.motor_running = false
    ∧ (loop_heater_stop e c (loop_selftest e c i (loop_timers e i s))).heater_running = false
    ∧ (loop_heater_stop e c (loop_selftest e c i (loop_timers e i s))).fan_duty
        = fans_menu_speed := by
  have h1 := loop_timers_frame e i s
  have h2 := loop_selftest_frame e c i (loop_timers e i s)
  have he2 : (loop_selftest e c i (loop_timers e i s)).heater_error = true :=
    h2.2.1.trans (h1.1.2.1.trans h)
  have h3 := loop_heater_stop_on e c _ he2
  exact ⟨h3.2.2.2.1, h3.1, h3.2.1, h3.2.2.1⟩

/-- A tick with the heater fault flag set, `pid_mode` set, a regulated run mode
and the chamber at or above the target sets the fan duty to the output of the
regulator. -/
theorem tick_regulates (c : Consts) (t : TickIn) (s : Sys) (he : s.heater_error = true)
    (hp : s.pid_mode = true)
    (hm : s.config.curing_machine_mode = 0 ∨ s.config.curing_machine_mode = 2
      ∨ s.config.curing_machine_mode = 3)
    (ht : (preheat_target s.config : ℚ) ≤ s.chamber_temp) :
    (TIMER0_COMPA_vect c t s).fan_duty
      = ⟨(PI_regulator c s.summErr s.chamber_temp (preheat_target s.config)).2,
         (PI_regulator c s.summErr s.chamber_temp (preheat_target s.config)).2⟩ := by
  have hx : (tick_pid c s).fan_duty
      = ⟨(PI_regulator c s.summErr s.chamber_temp (preheat_target s.config)).2,
         (PI_regulator c s.summErr s.chamber_temp (preheat_target s.config)).2⟩ := by
    unfold preheat_target at ht ⊢
    unfold tick_pid
    simp only []
    rw [if_pos hp, if_pos (by tauto), if_pos ht]
  unfold TIMER0_COMPA_vect
  simp only [he, not_true_eq_false, if_false]
  rw [(fan_rpm_regulation _).2, (fan_pwm_control_regulation c t _).2]
  exact hx

/-- C1, where the code departs from the claim: when `heater_error` is set at
the start of a pass of `loop()`, the pass ends with the motor disabled, the
heater off and `state` equal to `ERROR`, also when 1 ms ticks run inside the
pass.  The heater-fault block sets `fan_duty` to `fans_menu_speed`, and that is
its value at the end of a pass without a tick inside it, or with `pid_mode`
clear; but the block leaves `pid_mode` as it is, and with `pid_mode` set, a
regulated run mode (0, 2 or 3) and the chamber at or above the target, a tick
after the block sets `fan_duty` to the output of `PI_regulator`, which is its
value at the end of the pass. -/
theorem loop_preempted_heater_error (e : Ext) (c : Consts) (i : LoopIn) (ts : List TickIn)
    (t : TickIn) (s : Sys) (h : s.heater_error = true) :
    (loop_preempted e c i ts s).speed_control.motor_running = false
    ∧ (loop_preempted e c i ts s).heater_running = false
    ∧ (loop_preempted e c i ts s).state = menu_state.ERROR
    ∧ loop_preempted e c i [] s = loop e c i s
    ∧ (loop e c i s).fan_duty = fans_menu_speed
    ∧ (loop_heater_stop e c s).pid_mode = s.pid_mode
    ∧ (s.pid_mode = false → s.state ≠ menu_state.SELFTEST →
        (loop_preempted e c i ts s).fan_duty = fans_menu_speed)
    ∧ (s.pid_mode = true → s.state ≠ menu_state.SELFTEST →
        (s.config.curing_machine_mode = 0 ∨ s.config.curing_machine_mode = 2
          ∨ s.config.curing_machine_mode = 3) →
        (preheat_target s.config : ℚ) ≤ s.chamber_temp →
        (loop_preempted e c i [t] s).fan_duty
          = ⟨(PI_regulator c s.summErr s.chamber_temp (preheat_target s.config)).2,
             (PI_regulator c s.summErr s.chamber_temp (preheat_target s.config)).2⟩) := by
  obtain ⟨f1, f2, f3, f4⟩ := loop_front_heater_error e c i s h
  have k := ticks_halted c ts _ f1 f3
  obtain ⟨r1, r2, r3, r4⟩ := loop_rest_halts e c i
    (ticks c ts (loop_heater_stop e c (loop_selftest e c i (loop_timers e i s))))
    (k.2.1.trans f1)
  have hsel : s.state ≠ menu_state.SELFTEST →
      loop_selftest e c i (loop_timers e i s) = loop_timers e i s := by
    intro hs
    apply loop_selftest_off
    rw [(loop_timers_regulation e i s).2.2.2.2.1]
    exact hs
  refine ⟨?_, ?_, r1, rfl, (loop_of_heater_error e c i s h).2.1,
    (loop_heater_stop_regulation e c s).1, ?_, ?_⟩
  · show (loop_tail e c i (loop_heater_error (loop_home_mode i (ticks c ts
      (loop_heater_stop e c (loop_selftest e c i
        (loop_timers e i s))))))).speed_control.motor_running = false
    rw [r2, k.2.2.1, f2]
  · show (loop_tail e c i (loop_heater_error (loop_home_mode i (ticks c ts
      (loop_heater_stop e c (loop_selftest e c i
        (loop_timers e i s))))))).heater_running = false
    rw [r3, k.2.2.2.1, f3]
  · intro hp hs
    show (loop_tail e c i (loop_heater_error (loop_home_mode i (ticks c ts
      (loop_heater_stop e c (loop_selftest e c i (loop_timers e i s))))))).fan_duty
        = fans_menu_speed
    have hpf : (loop_heater_stop e c (loop_selftest e c i (loop_timers e i s))).pid_mode
        = false := by
      rw [hsel hs, (loop_heater_stop_regulation e c _).1, (loop_timers_regulation e i s).1]
      exact hp
    rw [r4, (ticks_unregulated c ts _ hpf).2, f4]
  · intro hp hs hm ht
    have hF := loop_heater_stop_regulation e c (loop_timers e i s)
    have hT := loop_timers_regulation e i s
    obtain ⟨q1, q2, q3, q4⟩ := loop_rest_halts e c i
      (ticks c [t] (loop_heater_stop e c (loop_selftest e c i (loop_timers e i s))))
      ((ticks_halted c [t] _ f1 f3).2.1.trans f1)
    show (loop_tail e c i (loop_heater_error (loop_home_mode i (ticks c [t]
      (loop_heater_stop e c (loop_selftest e c i (loop_timers e i s))))))).fan_duty = _
    rw [q4]
    show (TIMER0_COMPA_vect c t
      (loop_heater_stop e c (loop_selftest e c i (loop_timers e i s)))).fan_duty = _
    rw [hsel hs] at f1 ⊢
    rw [tick_regulates c t _ f1 (hF.1.trans (hT.1.trans hp))
      (by rw [hF.2.1, hT.2.1]; exact hm)
      (by rw [hF.2.1, hT.2.1, hF.2.2.1, hT.2.2.1]; exact ht)]
    rw [hF.2.1, hT.2.1, hF.2.2.1, hT.2.2.1, hF.2.2.2, hT.2.2.2.1]

set_option maxRecDepth 100000 in
/-- The regulator output at the heater fault of the sample run: integral 0,
chamber at 36 degrees, target 35. -/
theorem heat_fault_regulator :
    (PI_regulator sample_consts heat_fault_state.summErr heat_fault_state.chamber_temp
      (preheat_target heat_fault_state.config)).2 = 10 := by
  have h1 : heat_fault_state.summErr = 0 := by decide
  have h2 : heat_fault_state.chamber_temp = 36 := by decide
  have h3 : preheat_target heat_fault_state.config = 35 := by decide
  rw [h1, h2, h3]
  norm_num [PI_regulator, PI_newSpeed, PI_summErr, sample_consts, double_to_uint8]
  rfl

set_option maxRecDepth 100000 in
theorem loop_preempted_heater_error_witness :
    heat_hold.heater_running = true ∧ heat_hold.pid_mode = true
    ∧ heat_fault_state.heater_error = true ∧ heat_fault_state.pid_mode = true
    ∧ heat_fault_state.state = menu_state.RUNNING
    ∧ heat_fault_state.config.curing_machine_mode = 0
    ∧ heat_fault_state.config.target_temp = 35 ∧ heat_fault_state.chamber_temp = 36
    ∧ (loop_preempted sample_ext sample_consts (heat_in 7000 36) [pins_low]
        heat_fault_state).state = menu_state.ERROR
    ∧ (loop_preempted sample_ext sample_consts (heat_in 7000 36) [pins_low]
        heat_fault_state).heater_running = false
    ∧ (loop sample_ext sample_consts (heat_in 7000 36) heat_fault_state).fan_duty
        = fans_menu_speed
    ∧ (loop_preempted sample_ext sample_consts (heat_in 7000 36) [pins_low]
        heat_fault_state).fan_duty = ⟨10, 10⟩
    ∧ fans_menu_speed = ⟨30, 30⟩ :=
  ⟨by decide, by decide, by decide, by decide, by decide, by decide, by decide, by decide,
    (loop_preempted_heater_error sample_ext sample_consts (heat_in 7000 36) [pins_low]
      pins_low heat_fault_state (by decide)).2.2.1,
    (loop_preempted_heater_error sample_ext sample_consts (heat_in 7000 36) [pins_low]
      pins_low heat_fault_state (by decide)).2.1,
    (loop_preempted_heater_error sample_ext sample_consts (heat_in 7000 36) [pins_low]
      pins_low heat_fault_state (by decide)).2.2.2.2.1,
    ((loop_preempted_heater_error sample_ext sample_consts (heat_in 7000 36) [pins_low]
      pins_low heat_fault_state (by decide)).2.2.2.2.2.2.2 (by decide) (by decide)
      (Or.inl (by decide))
      (by rw [show heat_fault_state.chamber_temp = 36 by decide,
        show preheat_target heat_fault_state.config = 35 by decide]; norm_num)).trans
      (by rw [heat_fault_regulator]),
    rfl⟩

/-! ### Configuration store: the round trip through the EEPROM -/

/-- C14: `write_config` followed by `read_config`, over an EEPROM that returns
what was put: whatever the record in RAM is when `read_config` runs (state `u`,
which shares only the EEPROM content with the state the save left), it leaves
`config` field for field equal to the record that was stored, which is the
configuration before the save with `washing_speed` and `curing_speed` taken
from `speed_control`, and leaves the two speeds of `speed_control` equal to the
stored speeds; the EEPROM is not changed by the load. -/
theorem write_config_read_config (s u : Sys) (hu : u.eeprom = (write_config s).eeprom) :
    (read_config u).config = (write_config s).config
    ∧ (write_config s).config
        = { s.config with washing_speed := s.speed_control.washing_speed,
                          curing_speed := s.speed_control.curing_speed }
    ∧ (read_config u).speed_control.washing_speed = s.speed_control.washing_speed
    ∧ (read_config u).speed_control.curing_speed = s.speed_control.curing_speed
    ∧ (read_config u).eeprom = (write_config s).eeprom := by
  have hm : eeprom_get u.eeprom 0 MAGIC_SIZE = config_magic := by
    rw [hu, write_config_eeprom]; exact eeprom_get_magic _
  obtain ⟨h1, h2, h3, h4⟩ := read_config_current u hm
  have hc : (read_config u).config = (write_config s).config := by
    rw [h1, hu, write_config_eeprom, eeprom_get_record, config_load_v2_bytes]
  refine ⟨hc, (write_config_config s).1, ?_, ?_, h4.trans hu⟩
  · rw [h2, hc, (write_config_config s).1]
  · rw [h3, hc, (write_config_config s).1]

set_option maxRecDepth 100000 in
theorem write_config_read_config_witness :
    config_restart.config = config_default
    ∧ config_restart.config.curing_run_time = 3
    ∧ config_restart.speed_control.washing_speed = 10
    ∧ (read_config config_restart).config
        = { config_edited.config with washing_speed := 8, curing_speed := 4 }
    ∧ (read_config config_restart).config.curing_run_time = 7
    ∧ (read_config config_restart).config.fans_preheat_speed = ⟨45, 55⟩
    ∧ (read_config config_restart).speed_control.washing_speed = 8
    ∧ (read_config config_restart).speed_control.curing_speed = 4 :=
  ⟨rfl, by decide, by decide,
    (write_config_read_config config_edited config_restart rfl).1.trans
      (write_config_read_config config_edited config_restart rfl).2.1,
    by decide, by decide,
    (write_config_read_config config_edited config_restart rfl).2.2.1,
    (write_config_read_config config_edited config_restart rfl).2.2.2.1⟩

end CW
